import Mathlib

/-!
# Slippi rollback synchronizer, savestate pool and playback seek

A shallow embedding of the rollback savestate pool and the online frame
synchronizer of `CEXISlippi` (`EXI_DeviceSlippi.cpp`) and of the seek
controller, the savestate worker and the fast-forward switches of
`SlippiPlaybackStatus` (`SlippiPlayback.cpp`).

Conventions of the embedding.

* An `s32` is an `Int`; every `s32` operation of the source that can leave
  the 32-bit range is wrapped with `toS32` (two's complement).  A `u32` is a
  `Nat` reduced modulo `2^32`, a `u8` a `Nat` reduced modulo `256`.
* `std::map<s32, T>` is a list of `(key, value)` pairs kept in strictly
  increasing key order (`mapInsert` places a new key at its sorted position),
  so `begin()` is the head of the list.
* `std::deque<T>` is a list whose last element is `back()`.
* Calls on objects whose code lives outside these sources (the netplay
  client, `SlippiSavestate`, `State::`, `Core::`) are recorded as effects, in
  call order; what such calls return is an input of the embedded function.
* A function that can reach undefined behaviour returns `Option`/`Except`,
  the error case standing for the undefined execution.
-/

namespace Slippi

set_option maxRecDepth 100000

/-! ## Machine integers and payload decoding -/

/-- Smallest `s32`. -/
def INT_MIN : Int := -2147483648

/-- Largest `s32`. -/
def INT_MAX : Int := 2147483647

/-- Two's complement reading of an integer as an `s32`. -/
@[irreducible]
def toS32 (x : Int) : Int := (x + 2147483648) % 4294967296 - 2147483648

/-- Reading of an integer as a `u32`. -/
@[irreducible]
def toU32 (x : Int) : Nat := (x % 4294967296).toNat

/-- Reduction of a natural number to a `u32` (the result of `u32` arithmetic). -/
@[irreducible]
def wrapU32 (n : Nat) : Nat := n % 4294967296

/-- Whether an integer is representable as an `s32`. -/
def inS32 (x : Int) : Prop := INT_MIN ≤ x ∧ x ≤ INT_MAX

instance (x : Int) : Decidable (inS32 x) := by unfold inS32; infer_instance

/-- Byte `payload[i]` of a command payload (`u8* payload`).  Bytes past the
transferred payload read as 0. -/
def payloadByte (payload : List Nat) (i : Nat) : Nat := payload.getD i 0 % 256

/-- The frame number every handler decodes first:
`payload[0] << 24 | payload[1] << 16 | payload[2] << 8 | payload[3]`, as an `s32`. -/
def readFrame (payload : List Nat) : Int :=
  toS32 (((payloadByte payload 0 <<< 24) ||| (payloadByte payload 1 <<< 16) |||
    (payloadByte payload 2 <<< 8) ||| payloadByte payload 3 : Nat) : Int)

/-- Big-endian `u32` at byte offset `off` (`Common::swap32` of the word in place). -/
def readWordBE (payload : List Nat) (off : Nat) : Nat :=
  (payloadByte payload off <<< 24) ||| (payloadByte payload (off + 1) <<< 16) |||
    (payloadByte payload (off + 2) <<< 8) ||| payloadByte payload (off + 3)

/-- The four bytes of a frame number, most significant first (what the game
writes in front of every command payload). -/
def frameBytes (f : Int) : List Nat :=
  [toU32 f / 16777216 % 256, toU32 f / 65536 % 256, toU32 f / 256 % 256, toU32 f % 256]

/-- Bytes of `uint32ToVector(num)`: most significant byte first. -/
def uint32ToVector (num : Nat) : List Nat :=
  [(num % 4294967296) / 16777216, (num % 16777216) / 65536, (num % 65536) / 256, num % 256]

/-! ## `std::map<s32, T>` as a key-sorted association list -/

/-- Value stored under key `k` (`m.count(k)` is 1 exactly when this is `some`). -/
def mapFind? {β : Type} : List (Int × β) → Int → Option β
  | [], _ => none
  | (k0, v) :: rest, k => if k0 = k then some v else mapFind? rest k

/-- Result of `m.count(k)`. -/
def mapCount {β : Type} (m : List (Int × β)) (k : Int) : Nat :=
  (m.filter (fun e => decide (e.1 = k))).length

/-- Result of `m.erase(k)`. -/
def mapErase {β : Type} (m : List (Int × β)) (k : Int) : List (Int × β) :=
  m.filter (fun e => !decide (e.1 = k))

/-- Result of `m[k] = v`: replaces the value of an existing key, otherwise
inserts at the sorted position. -/
def mapInsert {β : Type} : List (Int × β) → Int → β → List (Int × β)
  | [], k, v => [(k, v)]
  | (k0, v0) :: rest, k, v =>
    if k < k0 then (k, v) :: (k0, v0) :: rest
    else if k = k0 then (k, v) :: rest
    else (k0, v0) :: mapInsert rest k v

/-- Keys of a map are strictly increasing (the `std::map` ordering invariant). -/
def MapSorted {β : Type} (m : List (Int × β)) : Prop :=
  List.Pairwise (fun a b => a.1 < b.1) m

instance {β : Type} (m : List (Int × β)) : Decidable (MapSorted m) := by
  unfold MapSorted; infer_instance

/-! ## The device state -/

/-- The rollback window: `#define ROLLBACK_MAX_FRAMES 7`. -/
def ROLLBACK_MAX_FRAMES : Nat := 7

/-- A `SlippiSavestate` object, identified by the order of its creation. -/
structure SlippiSavestate where
  id : Nat
  deriving DecidableEq, Repr

/-- A `SlippiSavestate::PreserveBlock`: address and length. -/
structure PreserveBlock where
  address : Nat
  length : Nat
  deriving DecidableEq, Repr

/-- A `SlippiPad` handed to the transport: `SlippiPad(frame)` has no pad
buffer, `SlippiPad(frame, &payload[5])` carries the payload bytes from
offset 5 on. -/
structure SlippiPad where
  frame : Int
  padBuf : Option (List Nat)
  deriving DecidableEq, Repr

/-- Calls the device makes on its collaborators. -/
inductive Effect where
  | LocalSelectionsReset
  | StartSlippiGame
  | SendSlippiPad (pad : Option SlippiPad)
  | DropOldRemoteInputs (frame : Int)
  | SavestateCapture (ss : SlippiSavestate)
  | SavestateLoad (ss : SlippiSavestate) (blocks : List PreserveBlock)
  deriving DecidableEq, Repr

/-- Values of `SlippiNetplayClient::SlippiConnectStatus`.  The sources name
three of them; `NET_CONNECT_STATUS_OTHER` stands for every other enumerator. -/
inductive SlippiConnectStatus where
  | NET_CONNECT_STATUS_CONNECTED
  | NET_CONNECT_STATUS_FAILED
  | NET_CONNECT_STATUS_DISCONNECTED
  | NET_CONNECT_STATUS_OTHER
  deriving DecidableEq, Repr

/-- A `SlippiRemotePadOutput`: latest frame known for the peer and the pad bytes. -/
structure SlippiRemotePadOutput where
  latestFrame : Int
  data : List Nat

/-- What the netplay client answers during one command. -/
structure SlippiNetplayClient where
  GetSlippiConnectStatus : SlippiConnectStatus
  GetSlippiLatestRemoteFrame : Int
  CalcTimeOffsetUs : Int
  GetSlippiRemotePad : Int → Nat → SlippiRemotePadOutput

/-- Collaborators of the device during one command: the netplay client
(`none` when `m_slippi_netplay` is null) and the matchmaking peer count. -/
structure Env where
  m_slippi_netplay : Option SlippiNetplayClient
  RemotePlayerCount : Nat

/-- Constants of `SlippiNetplay.h` / `SlippiPad.h`, which these sources use
but do not declare. -/
structure SlippiConstants where
  SLIPPI_REMOTE_PLAYER_MAX : Nat
  SLIPPI_PAD_FULL_SIZE : Nat

/-- The members of `CEXISlippi` read or written by the online handlers. -/
structure CEXISlippi where
  m_stall_frame_count : Nat
  m_connection_stalled : Bool
  m_read_queue : List Nat
  m_frames_to_skip : Int
  m_currently_skipping : Bool
  m_active_savestates : List (Int × SlippiSavestate)
  m_available_savestates : List SlippiSavestate
  allocated : Nat
  effects : List Effect
  deriving DecidableEq, Repr

/-- The device as its member initialisers leave it. -/
def CEXISlippi.init : CEXISlippi :=
  { m_stall_frame_count := 0, m_connection_stalled := false, m_read_queue := [],
    m_frames_to_skip := 0, m_currently_skipping := false, m_active_savestates := [],
    m_available_savestates := [], allocated := 0, effects := [] }

/-! ## Savestate pool: `HandleCaptureSavestate`, `HandleLoadSavestate` -/

/-- Embedding of `CEXISlippi::IsDisconnected`. -/
def IsDisconnected (env : Env) : Bool :=
  match env.m_slippi_netplay with
  | none => true
  | some c => c.GetSlippiConnectStatus != SlippiConnectStatus.NET_CONNECT_STATUS_CONNECTED

/-- The slot grabbed by a capture: the back of the available deque, or, when
that is empty, the value at `m_active_savestates.begin()`, which is erased.
With both containers empty `begin()` is `end()` and the dereference is
undefined: `none`. -/
def grabSavestate (active : List (Int × SlippiSavestate)) (available : List SlippiSavestate) :
    Option (SlippiSavestate × List (Int × SlippiSavestate) × List SlippiSavestate) :=
  match available.getLast? with
  | some ss => some (ss, active, available.dropLast)
  | none =>
    match active with
    | [] => none
    | (k, ss) :: _ => some (ss, mapErase active k, available)

/-- The second step of a capture: if there is already a savestate for this
frame (`m_active_savestates.count(frame)`), it is pushed on the available
deque and erased from the map. -/
def releasePrior (frame : Int) (active : List (Int × SlippiSavestate))
    (available : List SlippiSavestate) :
    List (Int × SlippiSavestate) × List SlippiSavestate :=
  match mapFind? active frame with
  | some old => (mapErase active frame, available ++ [old])
  | none => (active, available)

/-- Embedding of `CEXISlippi::HandleCaptureSavestate`. -/
def HandleCaptureSavestate (s : CEXISlippi) (env : Env) (payload : List Nat) :
    Option CEXISlippi :=
  if IsDisconnected env then some s
  else
    let frame := readFrame payload
    -- Grab an available savestate
    match grabSavestate s.m_active_savestates s.m_available_savestates with
    | none => none
    | some (ss, active1, available1) =>
      some { s with
        m_active_savestates := mapInsert (releasePrior frame active1 available1).1 frame ss
        m_available_savestates := (releasePrior frame active1 available1).2
        effects := s.effects ++ [Effect.SavestateCapture ss] }

/-- The preservation blocks of a load payload: pairs of big-endian words
from offset 4 on, up to the first zero address.  `fuel` bounds the number of
pairs read. -/
def preserveBlocksFrom (payload : List Nat) : Nat → Nat → List PreserveBlock
  | 0, _ => []
  | fuel + 1, idx =>
    if readWordBE payload (4 + 4 * idx) = 0 then []
    else
      { address := readWordBE payload (4 + 4 * idx),
        length := readWordBE payload (4 + 4 * (idx + 1)) } ::
        preserveBlocksFrom payload fuel (idx + 2)

/-- All preservation blocks of a load payload.  Words past the payload read
as 0, so the payload length bounds the loop. -/
def preserveBlocks (payload : List Nat) : List PreserveBlock :=
  preserveBlocksFrom payload payload.length 0

/-- Embedding of `CEXISlippi::HandleLoadSavestate`. -/
def HandleLoadSavestate (s : CEXISlippi) (payload : List Nat) : CEXISlippi :=
  let frame := readFrame payload
  match mapFind? s.m_active_savestates frame with
  | none => s
  | some ss =>
    { s with
      effects := s.effects ++ [Effect.SavestateLoad ss (preserveBlocks payload)]
      m_available_savestates :=
        s.m_available_savestates ++ s.m_active_savestates.map Prod.snd
      m_active_savestates := [] }

/-! ## Online frame synchronizer -/

/-- Modelled from the spec: the constant `SLIPPI_ONLINE_LOCKSTEP_INTERVAL` of
`SlippiNetplay.h`, which these sources use but do not declare ("every 30
frames, sample the measured one-way offset"; the source comments "Only time
sync every 30 frames"). -/
def SLIPPI_ONLINE_LOCKSTEP_INTERVAL : Int := 30

/-- The block of `HandleOnlineInputs` run when `frame == 1`: a fresh pool of
`ROLLBACK_MAX_FRAMES` savestates, stall counter and latch reset, selections
reset, game started. -/
def sessionStart (s : CEXISlippi) : CEXISlippi :=
  { s with
    m_available_savestates :=
      (List.range ROLLBACK_MAX_FRAMES).map (fun i => { id := s.allocated + i })
    m_active_savestates := []
    allocated := s.allocated + ROLLBACK_MAX_FRAMES
    m_connection_stalled := false
    m_stall_frame_count := 0
    effects := s.effects ++ [Effect.LocalSelectionsReset, Effect.StartSlippiGame] }

/-- The rollback-limit branch of `ShouldSkipOnlineFrame`:
`m_stall_frame_count++`, and the latch is set once the counter exceeds
`60 * 7` (the source: "7 second stall will disconnect game"). -/
def stallTick (s : CEXISlippi) : CEXISlippi :=
  { s with
    m_stall_frame_count := wrapU32 (s.m_stall_frame_count + 1)
    m_connection_stalled :=
      if wrapU32 (s.m_stall_frame_count + 1) > 60 * 7 then true else s.m_connection_stalled }

/-- The number of frames the time sync schedules for skipping:
`((offset_us - 10000) / 16683) + 1`, capped at `max_skip_frames`, which is 5
up to frame 120 and 1 afterwards. -/
def framesToSkip (frame offset_us : Int) : Int :=
  let max_skip_frames : Int := if frame ≤ 120 then 5 else 1
  let frames_to_skip := toS32 (Int.tdiv (toS32 (offset_us - 10000)) 16683 + 1)
  if frames_to_skip > max_skip_frames then max_skip_frames else frames_to_skip

/-- The time-sync block of `ShouldSkipOnlineFrame`: on a frame that is a
multiple of the lockstep interval and outside a skip run, an offset above
10000 us starts a skip run. -/
def scheduleSkips (s : CEXISlippi) (c : SlippiNetplayClient) (frame : Int) : CEXISlippi :=
  -- `time_sync_frame = frame % SLIPPI_ONLINE_LOCKSTEP_INTERVAL`: only time sync every 30 frames
  if Int.tmod frame SLIPPI_ONLINE_LOCKSTEP_INTERVAL = 0 ∧ s.m_currently_skipping = false then
    if c.CalcTimeOffsetUs > 10000 then
      { s with
        m_currently_skipping := true
        m_frames_to_skip := framesToSkip frame c.CalcTimeOffsetUs }
    else s
  else s

/-- The closing block of `ShouldSkipOnlineFrame` ("Handle the skipped
frames"): a pending skip is consumed and the frame skipped, otherwise the
skip run is over. -/
def consumeSkip (s : CEXISlippi) : Bool × CEXISlippi :=
  if s.m_frames_to_skip > 0 then
    (true, { s with m_frames_to_skip := toS32 (s.m_frames_to_skip - 1) })
  else (false, { s with m_currently_skipping := false })

/-- Embedding of `CEXISlippi::ShouldSkipOnlineFrame`: the decision and the
updated device. -/
def ShouldSkipOnlineFrame (s : CEXISlippi) (c : SlippiNetplayClient) (frame : Int) :
    Bool × CEXISlippi :=
  if c.GetSlippiConnectStatus = SlippiConnectStatus.NET_CONNECT_STATUS_FAILED ∨
      c.GetSlippiConnectStatus = SlippiConnectStatus.NET_CONNECT_STATUS_DISCONNECTED then
    -- If connection failed just continue the game
    (false, s)
  else if s.m_connection_stalled = true then (false, s)
  else if toS32 (frame - c.GetSlippiLatestRemoteFrame) ≥ ROLLBACK_MAX_FRAMES then
    (true, stallTick s)
  else consumeSkip (scheduleSkips { s with m_stall_frame_count := 0 } c frame)

/-- Embedding of `CEXISlippi::HandleSendInputs`. -/
def HandleSendInputs (s : CEXISlippi) (payload : List Nat) : CEXISlippi :=
  if s.m_connection_stalled then s
  else
    let frame := readFrame payload
    let delay := payloadByte payload 4
    let dummies : List Effect :=
      if frame = 1 then
        (List.range delay).map
          (fun i => Effect.SendSlippiPad (some { frame := ((i + 1 : Nat) : Int), padBuf := none }))
      else []
    let pad : SlippiPad := { frame := toS32 (frame + delay), padBuf := some (payload.drop 5) }
    { s with effects := s.effects ++ dummies ++ [Effect.SendSlippiPad (some pad)] }

/-- Byte offset from which a peer's pad data is copied:
`(latestFrame - frame) * SLIPPI_PAD_FULL_SIZE`, clamped below at 0. -/
def padOffset (K : SlippiConstants) (frame : Int) (r : SlippiRemotePadOutput) : Nat :=
  let offset := toS32 (toS32 (r.latestFrame - frame) * K.SLIPPI_PAD_FULL_SIZE)
  (if offset < 0 then 0 else offset).toNat

/-- The latest frame reported for a peer: its latest frame, capped at `frame`. -/
def reportedLatestFrame (frame : Int) (r : SlippiRemotePadOutput) : Int :=
  if r.latestFrame > frame then frame else r.latestFrame

/-- Result of `tx.resize(n, 0)`. -/
def resizeZero (tx : List Nat) (n : Nat) : List Nat :=
  (tx ++ List.replicate n 0).take n

/-- The collaborators' answers keep `PrepareOpponentInputs` inside its
arrays: at most `SLIPPI_REMOTE_PLAYER_MAX` peers, and every copy offset
inside the peer's data. -/
def padsInBounds (K : SlippiConstants) (env : Env) (c : SlippiNetplayClient) (frame : Int) :
    Bool :=
  decide (env.RemotePlayerCount % 256 ≤ K.SLIPPI_REMOTE_PLAYER_MAX) &&
    (List.range (env.RemotePlayerCount % 256)).all
      (fun i => decide (padOffset K frame (c.GetSlippiRemotePad frame i) ≤
        (c.GetSlippiRemotePad frame i).data.length))

/-- Embedding of `CEXISlippi::PrepareOpponentInputs`.  `none` when the loop
would write past `results[]`/`offset[]` or copy from past the end of a
peer's data. -/
def PrepareOpponentInputs (K : SlippiConstants) (s : CEXISlippi) (env : Env)
    (c : SlippiNetplayClient) (payload : List Nat) : Option CEXISlippi :=
  let frame_result : Nat :=
    if c.GetSlippiConnectStatus ≠ SlippiConnectStatus.NET_CONNECT_STATUS_CONNECTED ∨
        s.m_connection_stalled = true then 3 else 1
  let remote_player_count := env.RemotePlayerCount % 256
  let frame := readFrame payload
  if padsInBounds K env c frame = false then none
  else
    let results := (List.range remote_player_count).map (fun i => c.GetSlippiRemotePad frame i)
    let latest := results.flatMap (fun r => uint32ToVector (toU32 (reportedLatestFrame frame r)))
    let unused := (List.range (K.SLIPPI_REMOTE_PLAYER_MAX - remote_player_count)).flatMap
      (fun _ => uint32ToVector (toU32 frame))
    let pads := (List.range K.SLIPPI_REMOTE_PLAYER_MAX).flatMap (fun i =>
      resizeZero
        (if i < remote_player_count then
          (c.GetSlippiRemotePad frame i).data.drop (padOffset K frame (c.GetSlippiRemotePad frame i))
        else [])
        (K.SLIPPI_PAD_FULL_SIZE * ROLLBACK_MAX_FRAMES))
    some { s with
      m_read_queue := [frame_result, remote_player_count] ++ latest ++ unused ++ pads
      effects := s.effects ++ [Effect.DropOldRemoteInputs frame] }

/-- The opening of `HandleOnlineInputs`: the read queue is cleared and, when
the frame is 1, the session start block runs. -/
def enterFrame (s : CEXISlippi) (payload : List Nat) : CEXISlippi :=
  if readFrame payload = 1 then sessionStart { s with m_read_queue := [] }
  else { s with m_read_queue := [] }

/-- Result of `m_read_queue.push_back(byte)`. -/
def pushRead (s : CEXISlippi) (byte : Nat) : CEXISlippi :=
  { s with m_read_queue := s.m_read_queue ++ [byte] }

/-- A call on a collaborator, appended to the recorded effects. -/
def emit (s : CEXISlippi) (e : Effect) : CEXISlippi :=
  { s with effects := s.effects ++ [e] }

/-- Embedding of `CEXISlippi::HandleOnlineInputs`.  `none` when the call
dereferences a null `m_slippi_netplay` (frame 1 without a client) or
`PrepareOpponentInputs` leaves its arrays. -/
def HandleOnlineInputs (K : SlippiConstants) (s : CEXISlippi) (env : Env)
    (payload : List Nat) : Option CEXISlippi :=
  match env.m_slippi_netplay with
  | none =>
    -- frame 1 calls `m_slippi_netplay->StartSlippiGame()` on the null client
    if readFrame payload = 1 then none
    else some (pushRead (enterFrame s payload) 3)
  | some c =>
    if IsDisconnected env = true then
      -- Indicate we disconnected
      some (pushRead (enterFrame s payload) 3)
    else if (ShouldSkipOnlineFrame (enterFrame s payload) c (readFrame payload)).1 = true then
      -- Send inputs that have not yet been acked
      some (pushRead
        (emit (ShouldSkipOnlineFrame (enterFrame s payload) c (readFrame payload)).2
          (Effect.SendSlippiPad none)) 2)
    else
      PrepareOpponentInputs K
        (HandleSendInputs (ShouldSkipOnlineFrame (enterFrame s payload) c (readFrame payload)).2
          payload) env c payload

/-- The result code of the last per-frame call: first byte of the read queue
(1 Continue, 2 Skip, 3 Disconnected). -/
def resultCode (s : CEXISlippi) : Option Nat := s.m_read_queue.head?

/-- A command the game sends to the device. -/
inductive Command where
  | OnlineInputs (env : Env) (payload : List Nat)
  | CaptureSavestate (env : Env) (payload : List Nat)
  | LoadSavestate (payload : List Nat)

/-- Whether a command is a pool operation (capture or load). -/
def Command.isPoolOp : Command → Bool
  | Command.OnlineInputs _ _ => false
  | _ => true

/-- One command handled by the device. -/
def step (K : SlippiConstants) (s : CEXISlippi) : Command → Option CEXISlippi
  | Command.OnlineInputs env payload => HandleOnlineInputs K s env payload
  | Command.CaptureSavestate env payload => HandleCaptureSavestate s env payload
  | Command.LoadSavestate payload => some (HandleLoadSavestate s payload)

/-- A sequence of commands handled in order; `none` as soon as one command
has no defined outcome. -/
def run (K : SlippiConstants) (s : CEXISlippi) : List Command → Option CEXISlippi
  | [] => some s
  | c :: rest =>
    match step K s c with
    | none => none
    | some s1 => run K s1 rest

/-- A sequence of per-frame calls, returning the final device and the result
code of every call in order; `none` as soon as one call has no defined
outcome. -/
def runOnline (K : SlippiConstants) :
    CEXISlippi → List (Env × List Nat) → Option (CEXISlippi × List (Option Nat))
  | s, [] => some (s, [])
  | s, call :: rest =>
    (HandleOnlineInputs K s call.1 call.2).bind fun s1 =>
      (runOnline K s1 rest).map fun r => (r.1, resultCode s1 :: r.2)

/-- States the device can be in: reached from the initial device by some
sequence of commands. -/
def Reachable (K : SlippiConstants) (s : CEXISlippi) : Prop :=
  ∃ cmds : List Command, run K CEXISlippi.init cmds = some s

/-! ## Playback seek: `emod`, `SetHardFFW`, `LoadState`, `SeekToFrame` -/

/-- The checkpoint interval: `#define FRAME_INTERVAL 900`. -/
def FRAME_INTERVAL : Int := 900

/-- Constants of `SlippiGame.h`, which these sources use but do not declare. -/
structure SlippiGameConstants where
  GAME_FIRST_FRAME : Int
  PLAYBACK_FIRST_SAVE : Int
  deriving DecidableEq, Repr

/-- Embedding of `emod` (the source asserts `b != 0`): `a % b` truncates
toward zero, and a negative remainder is lifted by `std::abs(b)`.  This is
the value returned on operands for which these operations are defined;
`emodResult` marks the operands for which they are not. -/
def emod (a b : Int) : Int :=
  let r := Int.tmod a b
  if r ≥ 0 then r else toS32 (r + toS32 (Int.natAbs b))

/-- The checkpoint frame `SeekToFrame` computes for a target:
`target - emod(target - PLAYBACK_FIRST_SAVE, FRAME_INTERVAL)`. -/
def closestStateFrame (J : SlippiGameConstants) (target : Int) : Int :=
  toS32 (target - emod (toS32 (target - J.PLAYBACK_FIRST_SAVE)) FRAME_INTERVAL)

/-- A `float`, by its IEEE-754 bit pattern. -/
structure F32 where
  bits : Nat
  deriving DecidableEq, Repr

/-- The literal `4.0f`. -/
def F32.four : F32 := { bits := 0x40800000 }

/-- The fields of `SConfig::GetInstance()` the playback code touches. -/
structure SConfig where
  m_OCEnable : Bool
  m_OCFactor : F32
  m_slippiEnableSeek : Bool
  bHideCursor : Bool
  deriving DecidableEq, Repr

/-- Values of `Core::State`; the sources name two of them. -/
inductive CoreState where
  | Paused
  | Running
  | Other
  deriving DecidableEq, Repr

/-- The parts of `*g_replay_comm` the seek reads and writes: the mode of the
settings and the start and end frame of the current watch settings. -/
structure SlippiReplayComm where
  mode : String
  startFrame : Int
  endFrame : Int
  deriving DecidableEq, Repr

/-- The members of `SlippiPlaybackStatus`.  A resolved future of
`m_future_diffs` is the diff string it holds. -/
structure SlippiPlaybackStatus where
  m_should_jump_back : Bool
  m_should_jump_forward : Bool
  m_in_slippi_playback : Bool
  m_should_run_threads : Bool
  m_hard_ffw : Bool
  m_soft_ffw : Bool
  m_orig_oc_enable : Bool
  m_orig_oc_factor : F32
  m_last_ffw_frame : Int
  m_curr_playback_frame : Int
  m_target_frame_num : Int
  m_last_frame : Int
  m_future_diffs : List (Int × List Nat)
  m_initial_state : List Nat
  m_curr_state : List Nat
  deriving DecidableEq, Repr

/-- Everything `SeekToFrame` reads and writes. -/
structure PlaybackWorld where
  status : SlippiPlaybackStatus
  config : SConfig
  coreState : CoreState
  replayComm : SlippiReplayComm
  deriving DecidableEq, Repr

/-- What a load hands to `State::LoadFromBuffer`: the initial snapshot, or
the decoding against it of the diff stored for a frame. -/
inductive LoadedState where
  | InitialState
  | Decoded (frame : Int) (diff : List Nat)
  deriving DecidableEq, Repr

/-- Observable actions of a seek, in order. -/
inductive PlaybackEvent where
  | CoreSetState (st : CoreState)
  | LoadFromBuffer (src : LoadedState)
  | SetHardFFW (enable : Bool)
  | WaitForTargetFrame
  deriving DecidableEq, Repr

/-- Ways a seek can leave defined behaviour. -/
inductive SeekFault where
  | WalkDiverges
  | InvalidFuture (frame : Int)
  deriving DecidableEq, Repr

/-- Embedding of `SlippiPlaybackStatus::SetHardFFW`. -/
def SetHardFFW (enable : Bool) (w : PlaybackWorld) : PlaybackWorld :=
  let config : SConfig :=
    if enable then { w.config with m_OCEnable := true, m_OCFactor := F32.four }
    else { w.config with
      m_OCFactor := w.status.m_orig_oc_factor, m_OCEnable := w.status.m_orig_oc_enable }
  { w with config := config, status := { w.status with m_hard_ffw := enable } }

/-- Embedding of `SlippiPlaybackStatus::LoadState`: the buffer loaded.
Without an entry for the frame, `m_future_diffs[frame]` is a default
(invalid) future and `get()` on it is undefined. -/
def LoadState (J : SlippiGameConstants) (st : SlippiPlaybackStatus) (closestStateFrame : Int) :
    Except SeekFault PlaybackEvent :=
  if closestStateFrame = J.PLAYBACK_FIRST_SAVE then
    Except.ok (PlaybackEvent.LoadFromBuffer LoadedState.InitialState)
  else
    match mapFind? st.m_future_diffs closestStateFrame with
    | some diff =>
      Except.ok (PlaybackEvent.LoadFromBuffer (LoadedState.Decoded closestStateFrame diff))
    | none => Except.error (SeekFault.InvalidFuture closestStateFrame)

/-- Embedding of `SlippiPlaybackStatus::UpdateWatchSettingsStartEnd`. -/
def UpdateWatchSettingsStartEnd (J : SlippiGameConstants) (w : PlaybackWorld) :
    PlaybackWorld :=
  let startFrame := w.replayComm.startFrame
  let endFrame := w.replayComm.endFrame
  if startFrame ≠ J.GAME_FIRST_FRAME ∨ endFrame ≠ INT_MAX then
    let comm1 : SlippiReplayComm :=
      if w.status.m_target_frame_num < startFrame then
        { w.replayComm with startFrame := w.status.m_target_frame_num }
      else w.replayComm
    let comm2 : SlippiReplayComm :=
      if w.status.m_target_frame_num > endFrame then { comm1 with endFrame := INT_MAX }
      else comm1
    { w with replayComm := comm2 }
  else w

/-- The loop shared by both checkpoint walks of `SeekToFrame`:
`while (frame > bound && m_future_diffs.count(frame) == 0) frame -= FRAME_INTERVAL;`
`none` when the loop has not left after `fuel` tests. -/
def checkpointWalk (diffs : List (Int × List Nat)) (bound : Int) : Nat → Int → Option Int
  | 0, _ => none
  | fuel + 1, frame =>
    if frame > bound ∧ mapCount diffs frame = 0 then
      checkpointWalk diffs bound fuel (toS32 (frame - FRAME_INTERVAL))
    else some frame

/-- Fuel of the checkpoint walks.  The loop's only variable is one `s32`, so
a walk still running after `2^32` tests runs for ever. -/
@[irreducible]
def walkFuel : Nat := 4294967296

/-- The target of a seek after clamping to `[PLAYBACK_FIRST_SAVE, m_last_frame]`. -/
def clampTarget (J : SlippiGameConstants) (st : SlippiPlaybackStatus) : Int :=
  let t := if st.m_target_frame_num < J.PLAYBACK_FIRST_SAVE then J.PLAYBACK_FIRST_SAVE
    else st.m_target_frame_num
  if t > st.m_last_frame then st.m_last_frame else t

/-- The opening of `SeekToFrame` once the seek mutex is taken: the target is
clamped to `[PLAYBACK_FIRST_SAVE, m_last_frame]`, the watch settings are
updated in "queue" mode, and the core is paused. -/
def seekEnter (J : SlippiGameConstants) (w : PlaybackWorld) : PlaybackWorld :=
  let w1 : PlaybackWorld :=
    { w with status := { w.status with m_target_frame_num := clampTarget J w.status } }
  let w2 : PlaybackWorld :=
    if w1.replayComm.mode = "queue" then UpdateWatchSettingsStartEnd J w1 else w1
  { w2 with coreState := CoreState.Paused }

/-- The part of `SeekToFrame` that picks and loads a state: the load
performed, if any.  `closest` is `closestStateFrame` of the clamped target. -/
def seekLoad (J : SlippiGameConstants) (st : SlippiPlaybackStatus) (closest : Int) :
    Except SeekFault (List PlaybackEvent) :=
  let target := st.m_target_frame_num
  let curr := st.m_curr_playback_frame
  let isLoadingStateOptimal : Bool := decide (target < curr) || decide (closest > curr)
  if isLoadingStateOptimal = true then
    if closest ≤ J.PLAYBACK_FIRST_SAVE then
      Except.ok [PlaybackEvent.LoadFromBuffer LoadedState.InitialState]
    else if mapCount st.m_future_diffs closest > 0 then
      -- If this diff exists, load it
      (LoadState J st closest).map (fun e => [e])
    else if target < curr then
      match checkpointWalk st.m_future_diffs J.PLAYBACK_FIRST_SAVE walkFuel
          (toS32 (closest - FRAME_INTERVAL)) with
      | none => Except.error SeekFault.WalkDiverges
      | some closestActual => (LoadState J st closestActual).map (fun e => [e])
    else if target > curr then
      match checkpointWalk st.m_future_diffs curr walkFuel
          (toS32 (closest - FRAME_INTERVAL)) with
      | none => Except.error SeekFault.WalkDiverges
      | some closestActual =>
        -- only load a savestate if we find one past our current frame
        if closestActual > curr then (LoadState J st closestActual).map (fun e => [e])
        else Except.ok []
    else Except.ok []
  else Except.ok []

/-- The test guarding the fast-forward block of `SeekToFrame`:
`m_target_frame_num != closestStateFrame && m_target_frame_num != m_last_frame`. -/
def needsFastForward (J : SlippiGameConstants) (st : SlippiPlaybackStatus) : Bool :=
  decide (st.m_target_frame_num ≠ closestStateFrame J st.m_target_frame_num) &&
    decide (st.m_target_frame_num ≠ st.m_last_frame)

/-- The actions of the fast-forward block of `SeekToFrame`: hard fast-forward
on, core running, wait for the target frame, core paused, hard fast-forward
off. -/
def fastForwardEvents : List PlaybackEvent :=
  [PlaybackEvent.SetHardFFW true, PlaybackEvent.CoreSetState CoreState.Running,
    PlaybackEvent.WaitForTargetFrame, PlaybackEvent.CoreSetState CoreState.Paused,
    PlaybackEvent.SetHardFFW false]

/-- The closing of `SeekToFrame`: the fast-forward block when it is needed,
then the playback frame is set to the target, the target reset to `INT_MAX`
and the core put back in its previous state. -/
def seekLeave (J : SlippiGameConstants) (prevState : CoreState) (w : PlaybackWorld) :
    PlaybackWorld :=
  let w1 : PlaybackWorld :=
    if needsFastForward J w.status = true then
      SetHardFFW false { SetHardFFW true w with coreState := CoreState.Paused }
    else w
  { w1 with
    status :=
      { w1.status with
        m_curr_playback_frame := w.status.m_target_frame_num, m_target_frame_num := INT_MAX },
    coreState := prevState }

/-- Embedding of `SlippiPlaybackStatus::SeekToFrame`.  `seekMtxFree` is the
outcome of `seekMtx.try_lock()`.  Returns the world after the seek and the
actions performed, in order. -/
def SeekToFrame (J : SlippiGameConstants) (seekMtxFree : Bool) (w : PlaybackWorld) :
    Except SeekFault (PlaybackWorld × List PlaybackEvent) :=
  if seekMtxFree = false then
    -- Already seeking. Ignoring this call
    Except.ok (w, [])
  else
    match seekLoad J (seekEnter J w).status
        (closestStateFrame J (seekEnter J w).status.m_target_frame_num) with
    | Except.error e => Except.error e
    | Except.ok load =>
      Except.ok (seekLeave J w.coreState (seekEnter J w),
        (if w.coreState ≠ CoreState.Paused then [PlaybackEvent.CoreSetState CoreState.Paused]
          else []) ++ load ++
        (if needsFastForward J (seekEnter J w).status = true then fastForwardEvents else []) ++
        [PlaybackEvent.CoreSetState w.coreState])

/-- The frame whose state a list of seek actions loads first, if any: the
first-save frame for the initial snapshot, the delta's frame otherwise. -/
def loadedFrame (J : SlippiGameConstants) : List PlaybackEvent → Option Int
  | [] => none
  | PlaybackEvent.LoadFromBuffer LoadedState.InitialState :: _ => some J.PLAYBACK_FIRST_SAVE
  | PlaybackEvent.LoadFromBuffer (LoadedState.Decoded frame _) :: _ => some frame
  | _ :: rest => loadedFrame J rest

/-- Whether a list of seek actions turns hard fast-forward on. -/
def hardFFWEnabled (events : List PlaybackEvent) : Bool :=
  events.contains (PlaybackEvent.SetHardFFW true)

/-! ## Playback session: constructor, `StartThreads`, `ResetPlayback`, the savestate worker -/

/-- Embedding of the constructor `SlippiPlaybackStatus::SlippiPlaybackStatus()`
with the member initialisers of `SlippiPlayback.h`: the original overclock
settings are read from the configuration, the containers start empty. -/
def SlippiPlaybackStatus.init (J : SlippiGameConstants) (config : SConfig) :
    SlippiPlaybackStatus :=
  { m_should_jump_back := false, m_should_jump_forward := false, m_in_slippi_playback := false,
    m_should_run_threads := false, m_hard_ffw := false, m_soft_ffw := false,
    m_orig_oc_enable := config.m_OCEnable, m_orig_oc_factor := config.m_OCFactor,
    m_last_ffw_frame := INT_MIN, m_curr_playback_frame := INT_MIN,
    m_target_frame_num := INT_MAX, m_last_frame := J.PLAYBACK_FIRST_SAVE,
    m_future_diffs := [], m_initial_state := [], m_curr_state := [] }

/-- Embedding of `SlippiPlaybackStatus::StartThreads`: the worker is flagged as
running (the thread it starts runs `SavestateThread`). -/
def StartThreads (st : SlippiPlaybackStatus) : SlippiPlaybackStatus :=
  { st with m_should_run_threads := true }

/-- The first block of `ResetPlayback`: when the worker is flagged as running,
the flag is cleared and `m_future_diffs` is emptied. -/
def stopThreads (st : SlippiPlaybackStatus) : SlippiPlaybackStatus :=
  if st.m_should_run_threads = true then
    { st with m_should_run_threads := false, m_future_diffs := [] }
  else st

/-- Embedding of `SlippiPlaybackStatus::ResetPlayback`. -/
def ResetPlayback (st : SlippiPlaybackStatus) : SlippiPlaybackStatus :=
  { stopThreads st with
    m_should_jump_back := false, m_should_jump_forward := false, m_hard_ffw := false,
    m_soft_ffw := false, m_target_frame_num := INT_MAX, m_in_slippi_playback := false }

/-- Embedding of `SlippiPlaybackStatus::ProcessInitialState`.  `saved1` and
`saved2` are what the two `State::SaveToBuffer` calls write. -/
def ProcessInitialState (saved1 saved2 : List Nat) (w : PlaybackWorld) : PlaybackWorld :=
  { w with
    status := { w.status with m_initial_state := saved1, m_curr_state := saved2 },
    config :=
      if w.config.m_slippiEnableSeek = true then { w.config with bHideCursor := false }
      else w.config }

/-- The checkpoint branch of `SavestateThread`: the current state is saved to
`m_curr_state` and the diff of it against `m_initial_state` is stored under
the frame.  `processDiff` is the encoder run by the asynchronous task. -/
def saveDiff (processDiff : List Nat → List Nat → List Nat) (saved : List Nat)
    (fixedFrameNumber : Int) (st : SlippiPlaybackStatus) : SlippiPlaybackStatus :=
  { st with
    m_curr_state := saved,
    m_future_diffs :=
      mapInsert st.m_future_diffs fixedFrameNumber (processDiff st.m_initial_state saved) }

/-- One pass of the worker loop of `SlippiPlaybackStatus::SavestateThread`,
taken as one step.  The pass does nothing when the worker is not flagged as
running (the thread leaves), while the playback frame is not on an interval
boundary (the thread waits) and when the playback frame is `INT_MAX`. -/
def SavestateThread (J : SlippiGameConstants) (processDiff : List Nat → List Nat → List Nat)
    (saved1 saved2 : List Nat) (w : PlaybackWorld) : PlaybackWorld :=
  if w.status.m_should_run_threads = false then w
  else if Int.tmod (toS32 (w.status.m_curr_playback_frame - J.PLAYBACK_FIRST_SAVE))
      FRAME_INTERVAL ≠ 0 then w
  -- `fixedFrameNumber` is `m_curr_playback_frame`
  else if w.status.m_curr_playback_frame = INT_MAX then w
  -- `!m_in_slippi_playback && isStartFrame`
  else if w.status.m_in_slippi_playback = false ∧
      w.status.m_curr_playback_frame = J.PLAYBACK_FIRST_SAVE then
    { ProcessInitialState saved1 saved2 w with
      status :=
        { (ProcessInitialState saved1 saved2 w).status with m_in_slippi_playback := true } }
  -- `m_slippiEnableSeek && !hasStateBeenProcessed && !isStartFrame`
  else if w.config.m_slippiEnableSeek = true ∧
      ¬ (mapCount w.status.m_future_diffs w.status.m_curr_playback_frame > 0) ∧
      ¬ (w.status.m_curr_playback_frame = J.PLAYBACK_FIRST_SAVE) then
    { w with status := saveDiff processDiff saved1 w.status.m_curr_playback_frame w.status }
  else w

/-- Embedding of `SlippiPlaybackStatus::ShouldFFWFrame`. -/
def ShouldFFWFrame (st : SlippiPlaybackStatus) (frameIndex : Int) : Bool :=
  if st.m_soft_ffw = false ∧ st.m_hard_ffw = false then
    -- If no FFW at all, don't FFW this frame
    false
  else if st.m_hard_ffw = true then
    -- For a hard FFW, always FFW until it's turned off
    true
  else decide (toS32 (frameIndex - st.m_last_ffw_frame) ≥ 15)

/-- An action on the playback state: a call of one of the member functions,
a pass of the worker loop, or a write of the frame members by other code. -/
inductive PlaybackAction where
  | StartThreads
  | SavestateThread (saved1 saved2 : List Nat)
  | SeekToFrame (seekMtxFree : Bool)
  | ResetPlayback
  | SetHardFFW (enable : Bool)
  | WriteFrames (curr target last : Int)

/-- The writes other code makes to the public frame members: the playback
frame and the last frame (`PrepareFrameData`) and the requested seek target. -/
def writeFrames (curr target last : Int) (st : SlippiPlaybackStatus) : SlippiPlaybackStatus :=
  { st with m_curr_playback_frame := curr, m_target_frame_num := target, m_last_frame := last }

/-- One action on the playback state; `none` when a seek leaves defined
behaviour. -/
def playbackStep (J : SlippiGameConstants) (processDiff : List Nat → List Nat → List Nat)
    (w : PlaybackWorld) : PlaybackAction → Option PlaybackWorld
  | PlaybackAction.StartThreads => some { w with status := StartThreads w.status }
  | PlaybackAction.SavestateThread saved1 saved2 =>
    some (SavestateThread J processDiff saved1 saved2 w)
  | PlaybackAction.SeekToFrame seekMtxFree =>
    ((SeekToFrame J seekMtxFree w).toOption).map Prod.fst
  | PlaybackAction.ResetPlayback => some { w with status := ResetPlayback w.status }
  | PlaybackAction.SetHardFFW enable => some (SetHardFFW enable w)
  | PlaybackAction.WriteFrames curr target last =>
    some { w with status := writeFrames curr target last w.status }

/-- A sequence of actions on the playback state, in order. -/
def playbackRun (J : SlippiGameConstants) (processDiff : List Nat → List Nat → List Nat) :
    PlaybackWorld → List PlaybackAction → Option PlaybackWorld
  | w, [] => some w
  | w, a :: rest => (playbackStep J processDiff w a).bind fun w1 => playbackRun J processDiff w1 rest

/-- The playback state right after the status object is created. -/
def PlaybackWorld.init (J : SlippiGameConstants) (config : SConfig) (core : CoreState)
    (comm : SlippiReplayComm) : PlaybackWorld :=
  { status := SlippiPlaybackStatus.init J config, config := config, coreState := core,
    replayComm := comm }

/-- Playback states reached from a freshly created status by `StartThreads`,
passes of the savestate worker, seeks, resets and writes of the frame
members. -/
def PlaybackReachable (J : SlippiGameConstants) (processDiff : List Nat → List Nat → List Nat)
    (w : PlaybackWorld) : Prop :=
  ∃ config core comm actions,
    playbackRun J processDiff (PlaybackWorld.init J config core comm) actions = some w

/-! ## Auxiliary notions used in the statements -/

/-- The pool invariant: the active map is key-sorted and the pool holds `n`
savestate objects in all. -/
def PoolInv (n : Nat) (s : CEXISlippi) : Prop :=
  MapSorted s.m_active_savestates ∧
    s.m_active_savestates.length + s.m_available_savestates.length = n

/-- A connected netplay client with the given latest remote frame and time
offset, and no pad data. -/
def connectedClient (latest offsetUs : Int) : SlippiNetplayClient :=
  { GetSlippiConnectStatus := SlippiConnectStatus.NET_CONNECT_STATUS_CONNECTED
    GetSlippiLatestRemoteFrame := latest
    CalcTimeOffsetUs := offsetUs
    GetSlippiRemotePad := fun _ _ => { latestFrame := latest, data := [] } }

/-- An environment with a connected client and one remote peer. -/
def connectedEnv (latest offsetUs : Int) : Env :=
  { m_slippi_netplay := some (connectedClient latest offsetUs), RemotePlayerCount := 1 }

/-- An environment without a netplay client (as during replay playback). -/
def offlineEnv : Env := { m_slippi_netplay := none, RemotePlayerCount := 0 }

/-- The constants as Slippi declares them: three remote players at most,
twelve bytes per pad. -/
def slippiConstants : SlippiConstants :=
  { SLIPPI_REMOTE_PLAYER_MAX := 3, SLIPPI_PAD_FULL_SIZE := 12 }

/-- A device whose pool is full: frames 1 to 7 active, nothing available. -/
def fullPool : CEXISlippi :=
  { CEXISlippi.init with
    m_active_savestates := (List.range 7).map (fun i => (((i + 1 : Nat) : Int), { id := i }))
    allocated := 7 }

/-- Nine captures, of frames 1 to 9, followed by a load of frame 9. -/
def poolOps : List Command :=
  (List.range 9).map
      (fun i => Command.CaptureSavestate (connectedEnv 0 0) (frameBytes ((i + 1 : Nat) : Int))) ++
    [Command.LoadSavestate (frameBytes 9)]

/-- A per-frame call, not the session start frame, made over a Connected
connection while the local frame is at least the rollback window ahead of
the latest remote frame (`frame - latest_remote_frame >= 7` as the source
computes it). -/
def StalledCall (call : Env × List Nat) : Prop :=
  ∃ c, call.1.m_slippi_netplay = some c ∧
    c.GetSlippiConnectStatus = SlippiConnectStatus.NET_CONNECT_STATUS_CONNECTED ∧
    readFrame call.2 ≠ 1 ∧
    (7 : Int) ≤ toS32 (readFrame call.2 - c.GetSlippiLatestRemoteFrame)

/-- A per-frame call, not the session start frame, made over a Connected
connection whose answers keep `PrepareOpponentInputs` inside its arrays; the
latest remote frame is arbitrary. -/
def ConnectedCall (K : SlippiConstants) (call : Env × List Nat) : Prop :=
  ∃ c, call.1.m_slippi_netplay = some c ∧
    c.GetSlippiConnectStatus = SlippiConnectStatus.NET_CONNECT_STATUS_CONNECTED ∧
    readFrame call.2 ≠ 1 ∧
    padsInBounds K call.1 c (readFrame call.2) = true

/-- A stalled per-frame call: frame 100 while the latest remote frame is 0. -/
def stalledCall : Env × List Nat := (connectedEnv 0 0, frameBytes 100 ++ [2])

/-- A per-frame call after the remote frame has advanced: frame 100 while the
latest remote frame is 99. -/
def advancedCall : Env × List Nat := (connectedEnv 99 0, frameBytes 100 ++ [2])

/-- The frame constants behind `(m_curr_playback_frame + 122) % FRAME_INTERVAL`
in `PrepareSlippiPlayback`: the game starts at frame -123, the first save is
taken at frame -122. -/
def slippiGameConstants : SlippiGameConstants :=
  { GAME_FIRST_FRAME := -123, PLAYBACK_FIRST_SAVE := -122 }

/-- A playback status in mid-replay: playback at `curr`, a seek requested to
`target`, last known frame `last`, deltas stored for the given frames. -/
def playbackStatus (curr target last : Int) (diffs : List (Int × List Nat)) :
    SlippiPlaybackStatus :=
  { m_should_jump_back := false, m_should_jump_forward := false, m_in_slippi_playback := true,
    m_should_run_threads := true, m_hard_ffw := false, m_soft_ffw := false,
    m_orig_oc_enable := false, m_orig_oc_factor := { bits := 0x3F800000 },
    m_last_ffw_frame := INT_MIN, m_curr_playback_frame := curr, m_target_frame_num := target,
    m_last_frame := last, m_future_diffs := diffs, m_initial_state := [0], m_curr_state := [0] }

/-- A running emulator in "normal" replay mode around a playback status. -/
def playbackWorld (st : SlippiPlaybackStatus) : PlaybackWorld :=
  { status := st,
    config :=
      { m_OCEnable := false, m_OCFactor := { bits := 0x3F800000 }, m_slippiEnableSeek := true,
        bHideCursor := false },
    coreState := CoreState.Running,
    replayComm := { mode := "normal", startFrame := -123, endFrame := INT_MAX } }

/-! ## Auxiliary notions of the later claims -/

/-- The fields of the device that the skip decision and the input hand-over
leave alone: the two containers of the pool and the allocation count. -/
def SamePool (s t : CEXISlippi) : Prop :=
  t.m_active_savestates = s.m_active_savestates ∧
  t.m_available_savestates = s.m_available_savestates ∧
  t.allocated = s.allocated

/-- An environment whose netplay client reports a lost connection. -/
def lostEnv : Env :=
  { m_slippi_netplay := some
      { connectedClient 0 0 with
        GetSlippiConnectStatus := SlippiConnectStatus.NET_CONNECT_STATUS_DISCONNECTED },
    RemotePlayerCount := 1 }

/-- A device after a lost session: frames 1 to 7 active, the stall latch set
and the stall counter at 421. -/
def latchedDevice : CEXISlippi :=
  { fullPool with m_connection_stalled := true, m_stall_frame_count := 421 }

/-- A delta exists only while the worker is flagged as running. -/
def DiffsOnlyWhileRunning (st : SlippiPlaybackStatus) : Prop :=
  st.m_should_run_threads = false → st.m_future_diffs = []

/-- A playback session: the worker is started, passes over the first-save
frame -122 and the checkpoints 778 and 1678 as playback reaches them, then a
seek is requested from frame 2000 back to frame 1000 and runs. -/
def sessionActions : List PlaybackAction :=
  [PlaybackAction.StartThreads,
    PlaybackAction.WriteFrames (-122) INT_MAX 3000,
    PlaybackAction.SavestateThread [1, 2] [1, 2],
    PlaybackAction.WriteFrames 778 INT_MAX 3000,
    PlaybackAction.SavestateThread [3, 4] [],
    PlaybackAction.WriteFrames 1678 INT_MAX 3000,
    PlaybackAction.SavestateThread [5, 6] [],
    PlaybackAction.WriteFrames 2000 1000 3000,
    PlaybackAction.SeekToFrame true]

/-- A stand-in for the encoder in examples: the target after the base length. -/
def exampleDiff (base target : List Nat) : List Nat := base.length :: target

/-- The playback state of a session in mid-replay: the worker has stored the
deltas of the checkpoints 778 and 1678 and a seek from frame 2000 back to
frame 1000 has run. -/
def sessionWorld : PlaybackWorld :=
  (playbackRun slippiGameConstants exampleDiff
    (PlaybackWorld.init slippiGameConstants (playbackWorld (playbackStatus 0 0 0 [])).config
      CoreState.Running (playbackWorld (playbackStatus 0 0 0 [])).replayComm)
    sessionActions).getD (playbackWorld (playbackStatus 0 0 0 []))

/-- The dummy inputs of a session start with delay `delay`: empty pads
(no pad buffer) tagged with the frames 1, 2, ..., `delay`, in this order. -/
def dummyPads (delay : Nat) : List Effect :=
  (List.range delay).map
    (fun i => Effect.SendSlippiPad (some { frame := ((i + 1 : Nat) : Int), padBuf := none }))

/-- The local input of a per-frame call, tagged with a frame: the pad built
from the payload bytes from offset 5 on. -/
def localPad (frame : Int) (payload : List Nat) : Effect :=
  Effect.SendSlippiPad (some { frame := frame, padBuf := some (payload.drop 5) })

/-- The inputs newly submitted to the outbound queue among a list of calls:
the pads of the `SendSlippiPad` calls that carry a pad. -/
def submittedPads (effects : List Effect) : List SlippiPad :=
  effects.filterMap (fun e =>
    match e with
    | Effect.SendSlippiPad (some pad) => some pad
    | _ => none)

/-- The number of resends of unacknowledged inputs among a list of calls:
the `SendSlippiPad` calls without a pad. -/
def resendCount (effects : List Effect) : Nat :=
  (effects.filter (fun e => decide (e = Effect.SendSlippiPad none))).length

/-- A per-frame call on which a clock-skew skip is scheduled: frame 30 with
latest remote frame 29 and a measured offset of 30000 us. -/
def skewedCall : Env × List Nat := (connectedEnv 29 30000, frameBytes 30 ++ [2])

/-- A later per-frame call of a session: any frame but the session start
frame 1, over any connection; when the connection is Connected its answers
keep `PrepareOpponentInputs` inside its arrays. -/
def LaterCall (K : SlippiConstants) (call : Env × List Nat) : Prop :=
  readFrame call.2 ≠ 1 ∧
    ∀ c, call.1.m_slippi_netplay = some c → IsDisconnected call.1 = false →
      padsInBounds K call.1 c (readFrame call.2) = true

/-- A command that is not a session start: any capture or load, and any
per-frame call for a frame other than 1. -/
def Command.isLater : Command → Prop
  | Command.OnlineInputs _ payload => readFrame payload ≠ 1
  | _ => True

/-- Three later calls of a session: one with the remote frame caught up, one
far beyond the rollback limit, one without a netplay client. -/
def laterCalls : List (Env × List Nat) :=
  [advancedCall, stalledCall, (offlineEnv, frameBytes 101 ++ [2])]

/-- The four bytes of the response that report the latest frame of peer slot
`i`: the word at offset `2 + 4 * i` of the read queue, behind the result code
and the peer count. -/
def latestFrameWord (queue : List Nat) (i : Nat) : List Nat := (queue.drop (2 + 4 * i)).take 4

/-- A connected client with two peers: peer 0 behind the requested frame (its
latest frame is 95), peer 1 ahead of it (latest frame 103); each has sent 7
pads of 12 bytes. -/
def twoPeerClient : SlippiNetplayClient :=
  { GetSlippiConnectStatus := SlippiConnectStatus.NET_CONNECT_STATUS_CONNECTED
    GetSlippiLatestRemoteFrame := 95
    CalcTimeOffsetUs := 0
    GetSlippiRemotePad := fun _ i =>
      { latestFrame := if i = 0 then 95 else 103, data := List.replicate 84 i } }

/-- An environment with the two-peer client. -/
def twoPeerEnv : Env := { m_slippi_netplay := some twoPeerClient, RemotePlayerCount := 2 }

/-- A playback status with the given fast-forward flags whose last
fast-forwarded frame is `last`. -/
def ffwStatus (hard soft : Bool) (last : Int) : SlippiPlaybackStatus :=
  { playbackStatus 0 INT_MAX 5000 [] with
    m_hard_ffw := hard, m_soft_ffw := soft, m_last_ffw_frame := last }

/-! ## Auxiliary notions of the last claims -/

/-- Embedding of `emod` with the operands on which its C++ operations are
undefined: `none` when `b` is 0 (the source asserts `b != 0`), when `a` is
`INT_MIN` and `b` is -1 (the quotient of `a % b` does not fit an `s32` and the
division traps), and when `b` is `INT_MIN` and the remainder is negative
(`std::abs(b)` does not fit an `s32`); otherwise the value `emod a b`. -/
def emodResult (a b : Int) : Option Int :=
  if b = 0 ∨ (a = INT_MIN ∧ b = -1) ∨ (b = INT_MIN ∧ Int.tmod a b < 0) then none
  else some (emod a b)

/-- The loop of `checkpointWalk` with a counter: the frame the loop leaves
with and the number of times its body `frame -= FRAME_INTERVAL` has run. -/
def checkpointWalkSteps (diffs : List (Int × List Nat)) (bound : Int) :
    Nat → Int → Option (Int × Nat)
  | 0, _ => none
  | fuel + 1, frame =>
    if frame > bound ∧ mapCount diffs frame = 0 then
      (checkpointWalkSteps diffs bound fuel (toS32 (frame - FRAME_INTERVAL))).map
        (fun r => (r.1, r.2 + 1))
    else some (frame, 0)

/-- What a load of a seek can be: nothing, the initial snapshot, or the
decoding of a delta that is stored for its frame. -/
def LoadIsStored (diffs : List (Int × List Nat)) (load : List PlaybackEvent) : Prop :=
  load = [] ∨ load = [PlaybackEvent.LoadFromBuffer LoadedState.InitialState] ∨
    ∃ frame diff, mapFind? diffs frame = some diff ∧
      load = [PlaybackEvent.LoadFromBuffer (LoadedState.Decoded frame diff)]

/-- A backward seek: playback at frame 3000, a seek requested to frame 1850,
deltas stored for the checkpoints 778 and 2578 but not for 1678. -/
def backwardSeekWorld : PlaybackWorld :=
  playbackWorld (playbackStatus 3000 1850 5000 [(778, [1]), (2578, [3])])

/-- A forward seek: playback at frame 0, a seek requested to frame 3000,
deltas stored for the checkpoints 778 and 1678 but not for 2578. -/
def forwardSeekWorld : PlaybackWorld :=
  playbackWorld (playbackStatus 0 3000 5000 [(778, [1]), (1678, [2])])

/-- A forward seek without any delta: playback at frame 1000, a seek
requested to frame 1900. -/
def liveSeekWorld : PlaybackWorld :=
  playbackWorld (playbackStatus 1000 1900 5000 [])

/-- Commands that follow a load of frame 3 without capturing frame 3 again:
a capture of frame 9, a per-frame call and a capture of frame 10. -/
def commandsAfterLoad : List Command :=
  [Command.CaptureSavestate (connectedEnv 0 0) (frameBytes 9),
    Command.OnlineInputs advancedCall.1 advancedCall.2,
    Command.CaptureSavestate (connectedEnv 0 0) (frameBytes 10)]

/-- The skip invariant of the device: outside a skip run no skip is pending. -/
def SkipInv (s : CEXISlippi) : Prop :=
  s.m_currently_skipping = false → s.m_frames_to_skip ≤ 0

/-- A per-frame call made over a Connected connection with the local frame
inside the rollback window, whose answers keep `PrepareOpponentInputs` inside
its arrays; frame and measured offset are arbitrary. -/
def InWindowCall (K : SlippiConstants) (call : Env × List Nat) : Prop :=
  ∃ c, call.1.m_slippi_netplay = some c ∧
    c.GetSlippiConnectStatus = SlippiConnectStatus.NET_CONNECT_STATUS_CONNECTED ∧
    ¬ (7 : Int) ≤ toS32 (readFrame call.2 - c.GetSlippiLatestRemoteFrame) ∧
    padsInBounds K call.1 c (readFrame call.2) = true

/-- The two calls after the sampling call `skewedCall`: frames 31 and 32 with
the remote frame caught up; the offset measured stays at 30000 us. -/
def callsAfterSample : List (Env × List Nat) :=
  [(connectedEnv 30 30000, frameBytes 31 ++ [2]), (connectedEnv 31 30000, frameBytes 32 ++ [2])]

/-- Whether an action is a call of `ResetPlayback`, which ends a session. -/
def PlaybackAction.isResetPlayback : PlaybackAction → Bool
  | PlaybackAction.ResetPlayback => true
  | _ => false

/-- A session in which the worker is never started (`StartThreads` is not
called): playback visits the first-save frame -122 and the checkpoint 778. -/
def unstartedSession : List PlaybackAction :=
  [PlaybackAction.WriteFrames (-122) INT_MAX 3000,
    PlaybackAction.SavestateThread [1, 2] [1, 2],
    PlaybackAction.WriteFrames 778 INT_MAX 3000,
    PlaybackAction.SavestateThread [3, 4] []]

/-- A session in which the worker makes no pass while playback is on the
first-save frame -122: its first pass is on the checkpoint 778; then a seek
back to frame -122 runs and the worker passes on that frame. -/
def lateCaptureSession : List PlaybackAction :=
  [PlaybackAction.StartThreads,
    PlaybackAction.WriteFrames (-122) INT_MAX 3000,
    PlaybackAction.WriteFrames 778 INT_MAX 3000,
    PlaybackAction.SavestateThread [3, 4] [],
    PlaybackAction.WriteFrames 778 (-122) 3000,
    PlaybackAction.SeekToFrame true,
    PlaybackAction.SavestateThread [1, 2] [1, 2]]

/-- The playback state before the first session: the status object as its
constructor leaves it, in a running emulator in "normal" replay mode. -/
def freshPlaybackWorld : PlaybackWorld :=
  PlaybackWorld.init slippiGameConstants (playbackWorld (playbackStatus 0 0 0 [])).config
    CoreState.Running (playbackWorld (playbackStatus 0 0 0 [])).replayComm

/-- The playback state of the session `sessionActions` right after the worker
has passed on the first-save frame. -/
def capturedWorld : PlaybackWorld :=
  (playbackRun slippiGameConstants exampleDiff freshPlaybackWorld
    (sessionActions.take 3)).getD freshPlaybackWorld

/-! ## Lemmas on the map operations -/

theorem mapFind?_mapErase_self {β : Type} (m : List (Int × β)) (k : Int) :
    mapFind? (mapErase m k) k = none := by
  induction m with
  | nil => rfl
  | cons e rest ih =>
    by_cases h : e.1 = k
    · simpa [mapErase, h] using ih
    · simpa [mapErase, h, mapFind?] using ih

theorem mapFind?_mapErase_ne {β : Type} (m : List (Int × β)) (k k1 : Int) (hne : k1 ≠ k) :
    mapFind? (mapErase m k) k1 = mapFind? m k1 := by
  induction m with
  | nil => rfl
  | cons e rest ih =>
    obtain ⟨k0, v0⟩ := e
    unfold mapErase at ih ⊢
    by_cases h : k0 = k
    · have h1 : ¬ k0 = k1 := fun h2 => hne (h2.symm.trans h)
      rw [List.filter_cons_of_neg (by simp [h])]
      simp only [mapFind?, h1, if_false]
      exact ih
    · rw [List.filter_cons_of_pos (by simp [h])]
      by_cases h1 : k0 = k1
      · simp only [mapFind?, h1, if_true]
      · simp only [mapFind?, h1, if_false]
        exact ih

theorem mapFind?_mapInsert_self {β : Type} (m : List (Int × β)) (k : Int) (v : β) :
    mapFind? (mapInsert m k v) k = some v := by
  induction m with
  | nil => simp [mapInsert, mapFind?]
  | cons e rest ih =>
    obtain ⟨k0, v0⟩ := e
    by_cases h : k < k0
    · simp [mapInsert, h, mapFind?]
    · by_cases h1 : k = k0
      · simp [mapInsert, h1, mapFind?]
      · have h2 : ¬ k0 = k := fun h3 => h1 h3.symm
        simp [mapInsert, h, h1, mapFind?, h2, ih]

theorem mapFind?_mapInsert_ne {β : Type} (m : List (Int × β)) (k k1 : Int) (v : β)
    (hne : k1 ≠ k) : mapFind? (mapInsert m k v) k1 = mapFind? m k1 := by
  have hne1 : ¬ k = k1 := fun h => hne h.symm
  induction m with
  | nil => simp [mapInsert, mapFind?, hne1]
  | cons e rest ih =>
    obtain ⟨k0, v0⟩ := e
    by_cases h : k < k0
    · simp [mapInsert, h, mapFind?, hne1]
    · by_cases h1 : k = k0
      · subst h1
        simp [mapInsert, mapFind?, hne1]
      · simp only [mapInsert, h, h1, if_false]
        by_cases h2 : k0 = k1
        · simp only [mapFind?, h2, if_true]
        · simp only [mapFind?, h2, if_false]
          exact ih

theorem mapSorted_mapErase {β : Type} (m : List (Int × β)) (k : Int) (h : MapSorted m) :
    MapSorted (mapErase m k) :=
  List.Pairwise.filter _ h

theorem mem_mapInsert {β : Type} (m : List (Int × β)) (k : Int) (v : β) (e : Int × β)
    (he : e ∈ mapInsert m k v) : e = (k, v) ∨ e ∈ m := by
  induction m with
  | nil => simpa [mapInsert] using he
  | cons e0 rest ih =>
    obtain ⟨k0, v0⟩ := e0
    by_cases h : k < k0
    · simp [mapInsert, h] at he
      rcases he with he | he | he
      · exact Or.inl he
      · exact Or.inr (by simp [he])
      · exact Or.inr (by simp [he])
    · by_cases h1 : k = k0
      · simp [mapInsert, h1] at he
        rcases he with he | he
        · exact Or.inl (by simp [he, h1])
        · exact Or.inr (by simp [he])
      · simp [mapInsert, h, h1] at he
        rcases he with he | he
        · exact Or.inr (by simp [he])
        · rcases ih he with h2 | h2
          · exact Or.inl h2
          · exact Or.inr (by simp [h2])

theorem mapSorted_mapInsert {β : Type} (m : List (Int × β)) (k : Int) (v : β)
    (h : MapSorted m) : MapSorted (mapInsert m k v) := by
  induction m with
  | nil => simp [mapInsert, MapSorted]
  | cons e0 rest ih =>
    obtain ⟨k0, v0⟩ := e0
    have hrest : MapSorted rest := (List.pairwise_cons.mp h).2
    have hhead : ∀ e ∈ rest, k0 < e.1 := (List.pairwise_cons.mp h).1
    by_cases h1 : k < k0
    · simp only [mapInsert, h1, if_true]
      refine List.pairwise_cons.mpr ⟨?_, h⟩
      intro e he
      rcases List.mem_cons.mp he with he | he
      · simpa [he] using h1
      · exact lt_trans h1 (hhead e he)
    · by_cases h2 : k = k0
      · subst h2
        simp only [mapInsert, h1, if_false, if_true]
        exact List.pairwise_cons.mpr ⟨hhead, hrest⟩
      · simp only [mapInsert, h1, h2, if_false]
        refine List.pairwise_cons.mpr ⟨?_, ih hrest⟩
        intro e he
        rcases mem_mapInsert rest k v e he with he | he
        · have : k0 < k := lt_of_le_of_ne (not_lt.mp h1) (fun h3 => h2 h3.symm)
          simpa [he] using this
        · exact hhead e he

theorem mapFind?_eq_none_of_lt {β : Type} (m : List (Int × β)) (k : Int)
    (h : ∀ e ∈ m, k < e.1) : mapFind? m k = none := by
  induction m with
  | nil => rfl
  | cons e rest ih =>
    have h1 : ¬ e.1 = k := fun h2 => by
      have := h e (by simp)
      omega
    simp only [mapFind?, h1, if_false]
    exact ih (fun e1 he1 => h e1 (by simp [he1]))

theorem length_mapInsert_of_none {β : Type} (m : List (Int × β)) (k : Int) (v : β)
    (hk : mapFind? m k = none) : (mapInsert m k v).length = m.length + 1 := by
  induction m with
  | nil => simp [mapInsert]
  | cons e0 rest ih =>
    obtain ⟨k0, v0⟩ := e0
    by_cases h1 : k < k0
    · simp [mapInsert, h1]
    · by_cases h2 : k = k0
      · simp [mapFind?, h2] at hk
      · have h3 : ¬ k0 = k := fun h => h2 h.symm
        simp only [mapFind?, h3, if_false] at hk
        simp [mapInsert, h1, h2, ih hk]

theorem length_mapErase_of_some {β : Type} (m : List (Int × β)) (k : Int) (v : β)
    (hs : MapSorted m) (hk : mapFind? m k = some v) :
    (mapErase m k).length + 1 = m.length := by
  induction m with
  | nil => simp [mapFind?] at hk
  | cons e0 rest ih =>
    obtain ⟨k0, v0⟩ := e0
    have hrest : MapSorted rest := (List.pairwise_cons.mp hs).2
    have hhead : ∀ e ∈ rest, k0 < e.1 := (List.pairwise_cons.mp hs).1
    by_cases h1 : k0 = k
    · subst h1
      have : mapErase rest k0 = rest := by
        unfold mapErase
        rw [List.filter_eq_self]
        intro e he
        have := hhead e he
        simp; omega
      unfold mapErase at this ⊢
      rw [List.filter_cons_of_neg (by simp), this]
      simp
    · simp only [mapFind?, h1, if_false] at hk
      have := ih hrest hk
      simp [mapErase, h1] at this ⊢
      omega

theorem mapErase_of_none {β : Type} (m : List (Int × β)) (k : Int)
    (hk : mapFind? m k = none) : mapErase m k = m := by
  induction m with
  | nil => rfl
  | cons e0 rest ih =>
    obtain ⟨k0, v0⟩ := e0
    by_cases h1 : k0 = k
    · simp [mapFind?, h1] at hk
    · simp only [mapFind?, h1, if_false] at hk
      have := ih hk
      simp [mapErase, h1] at this ⊢
      exact this

theorem mapCount_of_some {β : Type} (m : List (Int × β)) (k : Int) (v : β)
    (hs : MapSorted m) (hk : mapFind? m k = some v) : mapCount m k = 1 := by
  induction m with
  | nil => simp [mapFind?] at hk
  | cons e0 rest ih =>
    obtain ⟨k0, v0⟩ := e0
    have hrest : MapSorted rest := (List.pairwise_cons.mp hs).2
    have hhead : ∀ e ∈ rest, k0 < e.1 := (List.pairwise_cons.mp hs).1
    by_cases h1 : k0 = k
    · subst h1
      have : rest.filter (fun e => decide (e.1 = k0)) = [] := by
        rw [List.filter_eq_nil_iff]
        intro e he
        have := hhead e he
        simp; omega
      simp [mapCount, this]
    · simp only [mapFind?, h1, if_false] at hk
      have := ih hrest hk
      simp [mapCount, h1] at this ⊢
      exact this

theorem mapCount_of_none {β : Type} (m : List (Int × β)) (k : Int)
    (hk : mapFind? m k = none) : mapCount m k = 0 := by
  induction m with
  | nil => rfl
  | cons e0 rest ih =>
    obtain ⟨k0, v0⟩ := e0
    by_cases h1 : k0 = k
    · simp [mapFind?, h1] at hk
    · simp only [mapFind?, h1, if_false] at hk
      have := ih hk
      simp [mapCount, h1] at this ⊢
      exact this

theorem mapFind?_of_mapCount_pos {β : Type} (m : List (Int × β)) (k : Int)
    (hk : mapCount m k > 0) : ∃ v, mapFind? m k = some v := by
  cases h : mapFind? m k with
  | none => rw [mapCount_of_none m k h] at hk; omega
  | some v => exact ⟨v, rfl⟩

/-! ## Lemmas on the savestate pool -/

theorem mapErase_head {β : Type} (k : Int) (v : β) (rest : List (Int × β))
    (hs : MapSorted ((k, v) :: rest)) : mapErase ((k, v) :: rest) k = rest := by
  have hhead : ∀ e ∈ rest, k < e.1 := (List.pairwise_cons.mp hs).1
  unfold mapErase
  rw [List.filter_cons_of_neg (by simp), List.filter_eq_self]
  intro e he
  have := hhead e he
  simp; omega

theorem releasePrior_spec (frame : Int) (active : List (Int × SlippiSavestate))
    (available : List SlippiSavestate) (hs : MapSorted active) :
    MapSorted (releasePrior frame active available).1 ∧
    mapFind? (releasePrior frame active available).1 frame = none ∧
    (releasePrior frame active available).1.length +
        (releasePrior frame active available).2.length = active.length + available.length ∧
    ∀ k, k ≠ frame → mapFind? (releasePrior frame active available).1 k = mapFind? active k := by
  unfold releasePrior
  cases hf : mapFind? active frame with
  | none => exact ⟨hs, hf, rfl, fun _ _ => rfl⟩
  | some old =>
    refine ⟨mapSorted_mapErase _ _ hs, mapFind?_mapErase_self _ _, ?_,
      fun k hk => mapFind?_mapErase_ne _ _ _ hk⟩
    have := length_mapErase_of_some active frame old hs hf
    simp only [List.length_append, List.length_singleton]
    omega

theorem grabSavestate_spec (active : List (Int × SlippiSavestate))
    (available : List SlippiSavestate) (hs : MapSorted active)
    (hpos : 0 < active.length + available.length) :
    ∃ ss active1 available1, grabSavestate active available = some (ss, active1, available1) ∧
      MapSorted active1 ∧ active1.length + available1.length + 1 = active.length + available.length := by
  unfold grabSavestate
  cases hl : available.getLast? with
  | some ss =>
    refine ⟨ss, active, available.dropLast, rfl, hs, ?_⟩
    have hne : available ≠ [] := by
      intro h; rw [h] at hl; simp at hl
    have := List.length_pos.mpr hne
    simp only [List.length_dropLast]
    omega
  | none =>
    have hnil : available = [] := List.getLast?_eq_none_iff.mp hl
    subst hnil
    cases active with
    | nil => simp at hpos
    | cons e rest =>
      obtain ⟨k, ss⟩ := e
      refine ⟨ss, mapErase ((k, ss) :: rest) k, [], rfl, mapSorted_mapErase _ _ hs, ?_⟩
      rw [mapErase_head k ss rest hs]
      simp

theorem HandleCaptureSavestate_preserves (n : Nat) (hn : 0 < n) (s : CEXISlippi) (env : Env)
    (payload : List Nat) (h : PoolInv n s) :
    ∃ s1, HandleCaptureSavestate s env payload = some s1 ∧ PoolInv n s1 := by
  obtain ⟨hs, hlen⟩ := h
  unfold HandleCaptureSavestate
  by_cases hd : IsDisconnected env = true
  · exact ⟨s, by simp [hd], hs, hlen⟩
  · obtain ⟨ss, active1, available1, hg, hs1, hl1⟩ :=
      grabSavestate_spec s.m_active_savestates s.m_available_savestates hs (by omega)
    obtain ⟨hs2, hnone, hl2, _⟩ := releasePrior_spec (readFrame payload) active1 available1 hs1
    simp only [hd, hg]
    refine ⟨_, rfl, mapSorted_mapInsert _ _ _ hs2, ?_⟩
    simp only [length_mapInsert_of_none _ _ _ hnone]
    omega

theorem HandleLoadSavestate_of_none (s : CEXISlippi) (payload : List Nat)
    (h : mapFind? s.m_active_savestates (readFrame payload) = none) :
    HandleLoadSavestate s payload = s := by
  simp only [HandleLoadSavestate, h]

theorem HandleLoadSavestate_of_some (s : CEXISlippi) (payload : List Nat) (ss : SlippiSavestate)
    (h : mapFind? s.m_active_savestates (readFrame payload) = some ss) :
    HandleLoadSavestate s payload =
      { s with
        effects := s.effects ++ [Effect.SavestateLoad ss (preserveBlocks payload)]
        m_available_savestates :=
          s.m_available_savestates ++ s.m_active_savestates.map Prod.snd
        m_active_savestates := [] } := by
  simp only [HandleLoadSavestate, h]

theorem HandleLoadSavestate_preserves (n : Nat) (s : CEXISlippi) (payload : List Nat)
    (h : PoolInv n s) : PoolInv n (HandleLoadSavestate s payload) := by
  obtain ⟨hs, hlen⟩ := h
  cases hf : mapFind? s.m_active_savestates (readFrame payload) with
  | none => rw [HandleLoadSavestate_of_none s payload hf]; exact ⟨hs, hlen⟩
  | some ss =>
    rw [HandleLoadSavestate_of_some s payload ss hf]
    refine ⟨List.Pairwise.nil, ?_⟩
    simp only [List.length_append, List.length_map, List.length_nil]
    omega

theorem run_pool_preserves (K : SlippiConstants) (n : Nat) (hn : 0 < n) (ops : List Command) :
    ∀ s : CEXISlippi, PoolInv n s → (∀ c ∈ ops, c.isPoolOp = true) →
      ∃ s1, run K s ops = some s1 ∧ PoolInv n s1 := by
  induction ops with
  | nil => intro s h _; exact ⟨s, rfl, h⟩
  | cons c rest ih =>
    intro s h hops
    have hrest : ∀ c1 ∈ rest, c1.isPoolOp = true := fun c1 hc1 => hops c1 (by simp [hc1])
    have hc := hops c (by simp)
    cases c with
    | OnlineInputs env payload => simp [Command.isPoolOp] at hc
    | CaptureSavestate env payload =>
      obtain ⟨s1, h1, hinv⟩ := HandleCaptureSavestate_preserves n hn s env payload h
      obtain ⟨s2, h2, hinv2⟩ := ih s1 hinv hrest
      exact ⟨s2, by simp [run, step, h1, h2], hinv2⟩
    | LoadSavestate payload =>
      obtain ⟨s2, h2, hinv2⟩ := ih _ (HandleLoadSavestate_preserves n s payload h) hrest
      exact ⟨s2, by simp [run, step, h2], hinv2⟩

/-! ## Claims on the savestate pool -/

/-- C1: starting from the pool created at session start (no active snapshot,
`ROLLBACK_MAX_FRAMES` = 7 available slots), every finite sequence of captures
and loads, with arbitrary payloads and collaborators, has a defined outcome
in which active plus available slots total exactly 7, so at most 7 snapshots
are active. -/
theorem pool_bounded_by_rollback_window (K : SlippiConstants) (s : CEXISlippi)
    (ops : List Command)
    (hactive : s.m_active_savestates = [])
    (havailable : s.m_available_savestates.length = ROLLBACK_MAX_FRAMES)
    (hops : ∀ c ∈ ops, c.isPoolOp = true) :
    ∃ s1, run K s ops = some s1 ∧
      s1.m_active_savestates.length + s1.m_available_savestates.length = 7 ∧
      s1.m_active_savestates.length ≤ 7 := by
  have hinv : PoolInv 7 s := by
    refine ⟨by rw [hactive]; exact List.Pairwise.nil, ?_⟩
    rw [hactive, havailable]; rfl
  obtain ⟨s1, h1, _, hlen⟩ := run_pool_preserves K 7 (by decide) ops s hinv hops
  exact ⟨s1, h1, hlen, by omega⟩

/-- Witness of C1: the pool of a fresh session, nine captures and a load. -/
theorem pool_bounded_by_rollback_window_witness :
    (sessionStart CEXISlippi.init).m_active_savestates = [] ∧
    (sessionStart CEXISlippi.init).m_available_savestates.length = ROLLBACK_MAX_FRAMES ∧
    (∀ c ∈ poolOps, c.isPoolOp = true) ∧
    ∃ s1, run slippiConstants (sessionStart CEXISlippi.init) poolOps = some s1 ∧
      s1.m_active_savestates.length + s1.m_available_savestates.length = 7 ∧
      s1.m_active_savestates.length ≤ 7 :=
  ⟨rfl, rfl, by with_unfolding_all decide,
    pool_bounded_by_rollback_window slippiConstants (sessionStart CEXISlippi.init) poolOps
      rfl rfl (by with_unfolding_all decide)⟩

/-- C7: a load of a frame that has no active snapshot aborts: the device is
left exactly as it was, so no restore is issued (the effects are unchanged)
and the active map and the available list are untouched. -/
theorem load_of_missing_frame_aborts (s : CEXISlippi) (payload : List Nat)
    (hmissing : mapFind? s.m_active_savestates (readFrame payload) = none) :
    HandleLoadSavestate s payload = s ∧
    (HandleLoadSavestate s payload).effects = s.effects ∧
    (HandleLoadSavestate s payload).m_active_savestates = s.m_active_savestates ∧
    (HandleLoadSavestate s payload).m_available_savestates = s.m_available_savestates := by
  rw [HandleLoadSavestate_of_none s payload hmissing]
  exact ⟨rfl, rfl, rfl, rfl⟩

/-- Witness of C7: loading frame 9 from the full pool holding frames 1 to 7. -/
theorem load_of_missing_frame_aborts_witness :
    mapFind? fullPool.m_active_savestates (readFrame (frameBytes 9)) = none ∧
    HandleLoadSavestate fullPool (frameBytes 9) = fullPool ∧
    (HandleLoadSavestate fullPool (frameBytes 9)).effects = fullPool.effects ∧
    (HandleLoadSavestate fullPool (frameBytes 9)).m_active_savestates =
      fullPool.m_active_savestates ∧
    (HandleLoadSavestate fullPool (frameBytes 9)).m_available_savestates =
      fullPool.m_available_savestates :=
  ⟨by with_unfolding_all decide, load_of_missing_frame_aborts fullPool (frameBytes 9) (by with_unfolding_all decide)⟩

/-! ## Every frame number has a payload -/

theorem orBytes_eq (b0 b1 b2 b3 : Nat) (h1 : b1 < 256) (h2 : b2 < 256) (h3 : b3 < 256) :
    ((b0 <<< 24) ||| (b1 <<< 16) ||| (b2 <<< 8) ||| b3) =
      b0 * 16777216 + b1 * 65536 + b2 * 256 + b3 := by
  have e3 : 2 ^ 8 * b2 + b3 = 2 ^ 8 * b2 ||| b3 := Nat.mul_add_lt_is_or (by omega) b2
  have e2 : 2 ^ 16 * b1 + (2 ^ 8 * b2 + b3) = 2 ^ 16 * b1 ||| (2 ^ 8 * b2 + b3) :=
    Nat.mul_add_lt_is_or (by omega) b1
  have e1 : 2 ^ 24 * b0 + (2 ^ 16 * b1 + (2 ^ 8 * b2 + b3)) =
      2 ^ 24 * b0 ||| (2 ^ 16 * b1 + (2 ^ 8 * b2 + b3)) :=
    Nat.mul_add_lt_is_or (by omega) b0
  rw [Nat.shiftLeft_eq, Nat.shiftLeft_eq, Nat.shiftLeft_eq, Nat.or_assoc, Nat.or_assoc,
    Nat.mul_comm b0, Nat.mul_comm b1, Nat.mul_comm b2, ← e3, ← e2, ← e1]
  omega

theorem readFrame_frameBytes (f : Int) (rest : List Nat) (hf : inS32 f) :
    readFrame (frameBytes f ++ rest) = f := by
  obtain ⟨hlo, hhi⟩ := hf
  unfold INT_MIN at hlo
  unfold INT_MAX at hhi
  have hu : toU32 f < 4294967296 := by unfold toU32; omega
  unfold readFrame payloadByte frameBytes
  simp only [List.cons_append, List.getD_cons_zero, List.getD_cons_succ, Nat.mod_mod]
  rw [orBytes_eq _ _ _ _ (Nat.mod_lt _ (by decide)) (Nat.mod_lt _ (by decide))
    (Nat.mod_lt _ (by decide))]
  have hsum : toU32 f / 16777216 % 256 * 16777216 + toU32 f / 65536 % 256 * 65536 +
      toU32 f / 256 % 256 * 256 + toU32 f % 256 = toU32 f := by omega
  rw [hsum]
  unfold toS32 toU32
  omega

/-! ## Claims on capture -/

theorem HandleCaptureSavestate_of_grab (s : CEXISlippi) (env : Env) (payload : List Nat)
    (ss : SlippiSavestate) (active1 : List (Int × SlippiSavestate))
    (available1 : List SlippiSavestate) (hconn : IsDisconnected env = false)
    (hg : grabSavestate s.m_active_savestates s.m_available_savestates =
      some (ss, active1, available1)) :
    HandleCaptureSavestate s env payload =
      some { s with
        m_active_savestates :=
          mapInsert (releasePrior (readFrame payload) active1 available1).1 (readFrame payload) ss
        m_available_savestates := (releasePrior (readFrame payload) active1 available1).2
        effects := s.effects ++ [Effect.SavestateCapture ss] } := by
  simp only [HandleCaptureSavestate, hconn, hg, Bool.false_eq_true, if_false]

theorem HandleCaptureSavestate_of_disconnected (s : CEXISlippi) (env : Env)
    (payload : List Nat) (hdisc : IsDisconnected env = true) :
    HandleCaptureSavestate s env payload = some s := by
  simp only [HandleCaptureSavestate, hdisc, if_true]

theorem grabSavestate_of_nil (k0 : Int) (v0 : SlippiSavestate)
    (rest : List (Int × SlippiSavestate)) (hs : MapSorted ((k0, v0) :: rest)) :
    grabSavestate ((k0, v0) :: rest) [] = some (v0, rest, []) := by
  simp only [grabSavestate, List.getLast?_nil, mapErase_head k0 v0 rest hs]

theorem grabSavestate_of_getLast (active : List (Int × SlippiSavestate))
    (available : List SlippiSavestate) (ss : SlippiSavestate)
    (h : available.getLast? = some ss) :
    grabSavestate active available = some (ss, active, available.dropLast) := by
  simp only [grabSavestate, h]

theorem mapSorted_head_le {β : Type} (k0 : Int) (v0 : β) (rest : List (Int × β))
    (hs : MapSorted ((k0, v0) :: rest)) : ∀ e ∈ (k0, v0) :: rest, k0 ≤ e.1 := by
  intro e he
  rcases List.mem_cons.mp he with he | he
  · simp [he]
  · exact le_of_lt ((List.pairwise_cons.mp hs).1 e he)

theorem mapFind?_rest_head {β : Type} (k0 : Int) (v0 : β) (rest : List (Int × β))
    (hs : MapSorted ((k0, v0) :: rest)) : mapFind? rest k0 = none :=
  mapFind?_eq_none_of_lt rest k0 (List.pairwise_cons.mp hs).1

theorem mapInsert_head {β : Type} (k0 : Int) (v0 : β) (rest : List (Int × β))
    (hs : MapSorted ((k0, v0) :: rest)) : mapInsert rest k0 v0 = (k0, v0) :: rest := by
  cases rest with
  | nil => rfl
  | cons e rest1 =>
    obtain ⟨k1, v1⟩ := e
    have : k0 < k1 := (List.pairwise_cons.mp hs).1 (k1, v1) (by simp)
    simp [mapInsert, this]

/-- Counterexample to C8 as stated: the pool is full with frames 1 to 7, frame
9 is not active and the connection is lost.  `Capture(9)` returns at once:
frame 1, the lowest, is still active, frame 9 is not, and nothing is
captured. -/
theorem capture_with_full_pool_counterexample :
    fullPool.m_available_savestates = [] ∧
    fullPool.m_active_savestates.length = 7 ∧
    mapFind? fullPool.m_active_savestates (readFrame (frameBytes 9)) = none ∧
    IsDisconnected lostEnv = true ∧
    HandleCaptureSavestate fullPool lostEnv (frameBytes 9) = some fullPool ∧
    (HandleCaptureSavestate fullPool lostEnv (frameBytes 9)).map
        (fun s1 => (mapFind? s1.m_active_savestates 1,
          mapFind? s1.m_active_savestates (readFrame (frameBytes 9)), s1.effects)) =
      some (some { id := 0 }, none, []) := by
  refine ⟨?_, ?_, ?_, ?_, ?_, ?_⟩ <;> with_unfolding_all decide

/-- C8, amended: with no available slot and at least one active snapshot, a
capture of a frame that is not active, made while the connection is
Connected, removes exactly the active snapshot with the lowest frame number,
makes the new frame active in that snapshot's slot, allocates nothing (the
available list stays empty and the allocation count is unchanged) and leaves
every other active frame active.  While the device is disconnected the
capture changes nothing. -/
theorem capture_with_full_pool_evicts_lowest (s : CEXISlippi) (env : Env) (payload : List Nat)
    (k0 : Int) (v0 : SlippiSavestate) (rest : List (Int × SlippiSavestate))
    (hsorted : MapSorted s.m_active_savestates)
    (havailable : s.m_available_savestates = [])
    (hactive : s.m_active_savestates = (k0, v0) :: rest)
    (hfresh : mapFind? s.m_active_savestates (readFrame payload) = none) :
    (∀ e ∈ s.m_active_savestates, k0 ≤ e.1) ∧
    (IsDisconnected env = false →
      ∃ s1, HandleCaptureSavestate s env payload = some s1 ∧
        mapFind? s1.m_active_savestates k0 = none ∧
        mapFind? s1.m_active_savestates (readFrame payload) = some v0 ∧
        (∀ k, k ≠ k0 → k ≠ readFrame payload →
          mapFind? s1.m_active_savestates k = mapFind? s.m_active_savestates k) ∧
        s1.m_active_savestates.length = s.m_active_savestates.length ∧
        s1.m_available_savestates = [] ∧
        s1.allocated = s.allocated ∧
        s1.effects = s.effects ++ [Effect.SavestateCapture v0]) ∧
    (IsDisconnected env = true → HandleCaptureSavestate s env payload = some s) := by
  rw [hactive] at hsorted hfresh
  have hne : ¬ k0 = readFrame payload := by
    intro h
    simp [mapFind?, h] at hfresh
  have hrestf : mapFind? rest (readFrame payload) = none := by
    simpa [mapFind?, hne] using hfresh
  have hg : grabSavestate s.m_active_savestates s.m_available_savestates = some (v0, rest, []) := by
    rw [hactive, havailable]; exact grabSavestate_of_nil k0 v0 rest hsorted
  have hrel : releasePrior (readFrame payload) rest [] = (rest, []) := by
    simp only [releasePrior, hrestf]
  refine ⟨by rw [hactive]; exact mapSorted_head_le k0 v0 rest hsorted,
    fun hconn => ⟨_, HandleCaptureSavestate_of_grab s env payload v0 rest [] hconn hg, ?_⟩,
    fun hd => HandleCaptureSavestate_of_disconnected s env payload hd⟩
  dsimp only
  rw [hrel]
  refine ⟨?_, mapFind?_mapInsert_self _ _ _, ?_, ?_, rfl, rfl, rfl⟩
  · rw [mapFind?_mapInsert_ne _ _ _ _ hne]
    exact mapFind?_rest_head k0 v0 rest hsorted
  · intro k hk0 hkf
    have hk0s : ¬ k0 = k := fun h => hk0 h.symm
    rw [mapFind?_mapInsert_ne _ _ _ _ hkf, hactive]
    simp only [mapFind?, hk0s, if_false]
  · rw [length_mapInsert_of_none _ _ _ hrestf, hactive]
    rfl

/-- Witness of C8: capturing frame 9 into the full pool holding frames 1 to 7,
over a Connected connection and over a lost one. -/
theorem capture_with_full_pool_evicts_lowest_witness :
    MapSorted fullPool.m_active_savestates ∧
    fullPool.m_available_savestates = [] ∧
    mapFind? fullPool.m_active_savestates (readFrame (frameBytes 9)) = none ∧
    IsDisconnected (connectedEnv 0 0) = false ∧
    (∀ e ∈ fullPool.m_active_savestates, (1 : Int) ≤ e.1) ∧
    (∃ s1, HandleCaptureSavestate fullPool (connectedEnv 0 0) (frameBytes 9) = some s1 ∧
      mapFind? s1.m_active_savestates 1 = none ∧
      mapFind? s1.m_active_savestates (readFrame (frameBytes 9)) = some { id := 0 } ∧
      (∀ k, k ≠ 1 → k ≠ readFrame (frameBytes 9) →
        mapFind? s1.m_active_savestates k = mapFind? fullPool.m_active_savestates k) ∧
      s1.m_active_savestates.length = fullPool.m_active_savestates.length ∧
      s1.m_available_savestates = [] ∧
      s1.allocated = fullPool.allocated ∧
      s1.effects = fullPool.effects ++ [Effect.SavestateCapture { id := 0 }]) ∧
    HandleCaptureSavestate fullPool lostEnv (frameBytes 9) = some fullPool :=
  ⟨by with_unfolding_all decide, by with_unfolding_all decide, by with_unfolding_all decide,
    by with_unfolding_all decide,
    (capture_with_full_pool_evicts_lowest fullPool (connectedEnv 0 0) (frameBytes 9) 1 { id := 0 }
      ((List.range 6).map (fun i => (((i + 2 : Nat) : Int), { id := i + 1 })))
      (by with_unfolding_all decide) (by with_unfolding_all decide)
      (by with_unfolding_all decide) (by with_unfolding_all decide)).1,
    (capture_with_full_pool_evicts_lowest fullPool (connectedEnv 0 0) (frameBytes 9) 1 { id := 0 }
      ((List.range 6).map (fun i => (((i + 2 : Nat) : Int), { id := i + 1 })))
      (by with_unfolding_all decide) (by with_unfolding_all decide)
      (by with_unfolding_all decide) (by with_unfolding_all decide)).2.1
      (by with_unfolding_all decide),
    (capture_with_full_pool_evicts_lowest fullPool lostEnv (frameBytes 9) 1 { id := 0 }
      ((List.range 6).map (fun i => (((i + 2 : Nat) : Int), { id := i + 1 })))
      (by with_unfolding_all decide) (by with_unfolding_all decide)
      (by with_unfolding_all decide) (by with_unfolding_all decide)).2.2
      (by with_unfolding_all decide)⟩

/-- Counterexample to C9 as stated: the pool is full with frames 1 to 7 and
frame 7 is captured again.  The capture takes the slot of frame 1 first, so
frame 1 is evicted although it is not the frame captured, and six snapshots
are active afterwards instead of seven.  And when the connection is lost the
capture returns at once: the prior snapshot of frame 7 is not returned to the
available list and nothing is captured. -/
theorem capture_of_active_frame_counterexample :
    mapFind? fullPool.m_active_savestates (readFrame (frameBytes 7)) = some { id := 6 } ∧
    mapFind? fullPool.m_active_savestates 1 = some { id := 0 } ∧
    fullPool.m_active_savestates.length = 7 ∧
    (HandleCaptureSavestate fullPool (connectedEnv 0 0) (frameBytes 7)).map
        (fun s1 => (mapFind? s1.m_active_savestates 1, s1.m_active_savestates.length,
          s1.m_available_savestates)) =
      some (none, 6, [{ id := 6 }]) ∧
    IsDisconnected lostEnv = true ∧
    (HandleCaptureSavestate fullPool lostEnv (frameBytes 7)).map
        (fun s1 => (mapFind? s1.m_active_savestates (readFrame (frameBytes 7)),
          s1.m_available_savestates, s1.effects)) =
      some (some { id := 6 }, [], []) := by
  refine ⟨?_, ?_, ?_, ?_, ?_, ?_⟩ <;> with_unfolding_all decide

/-- C9, amended: when frame `f` is already active, a capture of `f` made
while the connection is Connected takes its slot first and only then returns
the prior snapshot of `f` to the available list; a disconnected device
changes nothing.  Afterwards exactly one snapshot tagged `f` is active.
While Connected, if a slot was available, no other frame
is evicted, the number of active snapshots is unchanged and the prior
snapshot is the new back of the available list; if no slot was available the
slot of the lowest active frame is taken: when that frame is `f` the active
map is unchanged, when it is not, it is evicted, the prior snapshot of `f`
becomes the only available slot and one snapshot fewer is active. -/
theorem capture_of_active_frame (s : CEXISlippi) (env : Env) (payload : List Nat)
    (old : SlippiSavestate)
    (hsorted : MapSorted s.m_active_savestates)
    (hold : mapFind? s.m_active_savestates (readFrame payload) = some old) :
    ∃ s1, HandleCaptureSavestate s env payload = some s1 ∧
      mapCount s1.m_active_savestates (readFrame payload) = 1 ∧
      (IsDisconnected env = true → s1 = s) ∧
      (IsDisconnected env = false →
        (∀ ss, s.m_available_savestates.getLast? = some ss →
          mapFind? s1.m_active_savestates (readFrame payload) = some ss ∧
          (∀ k, k ≠ readFrame payload →
            mapFind? s1.m_active_savestates k = mapFind? s.m_active_savestates k) ∧
          s1.m_active_savestates.length = s.m_active_savestates.length ∧
          s1.m_available_savestates = s.m_available_savestates.dropLast ++ [old]) ∧
        (∀ k0 v0 rest, s.m_available_savestates = [] →
          s.m_active_savestates = (k0, v0) :: rest →
          mapFind? s1.m_active_savestates (readFrame payload) = some v0 ∧
          (∀ k, k ≠ readFrame payload → k ≠ k0 →
            mapFind? s1.m_active_savestates k = mapFind? s.m_active_savestates k) ∧
          (k0 = readFrame payload →
            s1.m_active_savestates = s.m_active_savestates ∧ s1.m_available_savestates = []) ∧
          (k0 ≠ readFrame payload →
            mapFind? s1.m_active_savestates k0 = none ∧
            s1.m_active_savestates.length + 1 = s.m_active_savestates.length ∧
            s1.m_available_savestates = [old]))) := by
  by_cases hd : IsDisconnected env = true
  · refine ⟨s, HandleCaptureSavestate_of_disconnected s env payload hd,
      mapCount_of_some _ _ old hsorted hold, fun _ => rfl, fun h => ?_⟩
    rw [hd] at h; exact absurd h (by decide)
  · have hconn : IsDisconnected env = false := by simpa using hd
    have hpos : 0 < s.m_active_savestates.length + s.m_available_savestates.length := by
      cases hm : s.m_active_savestates with
      | nil => rw [hm] at hold; simp [mapFind?] at hold
      | cons e rest => simp
    obtain ⟨ss, active1, available1, hg, hs1, _⟩ :=
      grabSavestate_spec s.m_active_savestates s.m_available_savestates hsorted hpos
    obtain ⟨hs2, hnone, _, _⟩ := releasePrior_spec (readFrame payload) active1 available1 hs1
    refine ⟨_, HandleCaptureSavestate_of_grab s env payload ss active1 available1 hconn hg,
      mapCount_of_some _ _ ss (mapSorted_mapInsert _ _ _ hs2) (mapFind?_mapInsert_self _ _ _),
      fun h => ?_, fun _ => ⟨?_, ?_⟩⟩
    · rw [hconn] at h; exact absurd h (by decide)
    · intro ss1 hlast
      have hg1 := grabSavestate_of_getLast s.m_active_savestates s.m_available_savestates ss1 hlast
      rw [hg] at hg1
      injection hg1 with hg1
      injection hg1 with h1 h2
      injection h2 with h2 h3
      subst h1 h2 h3
      have hrel : releasePrior (readFrame payload) s.m_active_savestates
          s.m_available_savestates.dropLast =
          (mapErase s.m_active_savestates (readFrame payload),
            s.m_available_savestates.dropLast ++ [old]) := by
        simp only [releasePrior, hold]
      dsimp only
      rw [hrel]
      refine ⟨mapFind?_mapInsert_self _ _ _, fun k hk => ?_, ?_, rfl⟩
      · rw [mapFind?_mapInsert_ne _ _ _ _ hk, mapFind?_mapErase_ne _ _ _ hk]
      · rw [length_mapInsert_of_none _ _ _ (mapFind?_mapErase_self _ _)]
        exact length_mapErase_of_some _ _ old hsorted hold
    · intro k0 v0 rest havail hactive
      rw [hactive] at hsorted hold
      have hg1 : grabSavestate s.m_active_savestates s.m_available_savestates =
          some (v0, rest, []) := by
        rw [hactive, havail]; exact grabSavestate_of_nil k0 v0 rest hsorted
      rw [hg] at hg1
      injection hg1 with hg1
      injection hg1 with h1 h2
      injection h2 with h2 h3
      subst h1 h2 h3
      dsimp only
      by_cases hk0 : k0 = readFrame payload
      · have hrestf : mapFind? active1 (readFrame payload) = none := by
          rw [← hk0]; exact mapFind?_rest_head k0 ss active1 hsorted
        have hrel : releasePrior (readFrame payload) active1 [] = (active1, []) := by
          simp only [releasePrior, hrestf]
        rw [hrel]
        refine ⟨mapFind?_mapInsert_self _ _ _, fun k hk hkk => ?_, fun _ => ⟨?_, rfl⟩,
          fun h => absurd hk0 h⟩
        · rw [mapFind?_mapInsert_ne _ _ _ _ hk, hactive]
          have : ¬ k0 = k := fun h => hkk h.symm
          simp only [mapFind?, this, if_false]
        · rw [hactive, ← hk0]
          exact mapInsert_head k0 ss active1 hsorted
      · have hrestf : mapFind? active1 (readFrame payload) = some old := by
          simpa [mapFind?, hk0] using hold
        have hrel : releasePrior (readFrame payload) active1 [] =
            (mapErase active1 (readFrame payload), [old]) := by
          simp only [releasePrior, hrestf, List.nil_append]
        rw [hrel]
        refine ⟨mapFind?_mapInsert_self _ _ _, fun k hk hkk => ?_,
          fun h => absurd h hk0, fun _ => ⟨?_, ?_, rfl⟩⟩
        · rw [mapFind?_mapInsert_ne _ _ _ _ hk, mapFind?_mapErase_ne _ _ _ hk, hactive]
          have : ¬ k0 = k := fun h => hkk h.symm
          simp only [mapFind?, this, if_false]
        · rw [mapFind?_mapInsert_ne _ _ _ _ hk0, mapFind?_mapErase_ne _ _ _ hk0]
          exact mapFind?_rest_head k0 ss active1 hsorted
        · rw [length_mapInsert_of_none _ _ _ (mapFind?_mapErase_self _ _), hactive]
          have := length_mapErase_of_some active1 (readFrame payload) old
            (List.pairwise_cons.mp hsorted).2 hrestf
          simp only [List.length_cons]
          omega

/-- Witness of C9: frame 7 captured again into the full pool holding frames 1 to 7. -/
theorem capture_of_active_frame_witness :
    MapSorted fullPool.m_active_savestates ∧
    mapFind? fullPool.m_active_savestates (readFrame (frameBytes 7)) = some { id := 6 } ∧
    ∃ s1, HandleCaptureSavestate fullPool (connectedEnv 0 0) (frameBytes 7) = some s1 ∧
      mapCount s1.m_active_savestates (readFrame (frameBytes 7)) = 1 ∧
      (IsDisconnected (connectedEnv 0 0) = true → s1 = fullPool) ∧
      (IsDisconnected (connectedEnv 0 0) = false →
        (∀ ss, fullPool.m_available_savestates.getLast? = some ss →
          mapFind? s1.m_active_savestates (readFrame (frameBytes 7)) = some ss ∧
          (∀ k, k ≠ readFrame (frameBytes 7) →
            mapFind? s1.m_active_savestates k = mapFind? fullPool.m_active_savestates k) ∧
          s1.m_active_savestates.length = fullPool.m_active_savestates.length ∧
          s1.m_available_savestates = fullPool.m_available_savestates.dropLast ++ [{ id := 6 }]) ∧
        (∀ k0 v0 rest, fullPool.m_available_savestates = [] →
          fullPool.m_active_savestates = (k0, v0) :: rest →
          mapFind? s1.m_active_savestates (readFrame (frameBytes 7)) = some v0 ∧
          (∀ k, k ≠ readFrame (frameBytes 7) → k ≠ k0 →
            mapFind? s1.m_active_savestates k = mapFind? fullPool.m_active_savestates k) ∧
          (k0 = readFrame (frameBytes 7) →
            s1.m_active_savestates = fullPool.m_active_savestates ∧ s1.m_available_savestates = []) ∧
          (k0 ≠ readFrame (frameBytes 7) →
            mapFind? s1.m_active_savestates k0 = none ∧
            s1.m_active_savestates.length + 1 = fullPool.m_active_savestates.length ∧
            s1.m_available_savestates = [{ id := 6 }]))) :=
  ⟨by with_unfolding_all decide, by with_unfolding_all decide,
    capture_of_active_frame fullPool (connectedEnv 0 0) (frameBytes 7) { id := 6 }
      (by with_unfolding_all decide) (by with_unfolding_all decide)⟩

/-- Counterexample to C10 as stated: without a netplay client (as during
replay playback) the device counts as disconnected and a capture returns at
once.  On the fresh pool of seven slots frame 5 is not active after
`Capture(5)`, and the following `Load(5)` finds nothing and changes nothing. -/
theorem capture_then_load_counterexample :
    (sessionStart CEXISlippi.init).m_available_savestates.length = 7 ∧
    HandleCaptureSavestate (sessionStart CEXISlippi.init) offlineEnv (frameBytes 5) =
      some (sessionStart CEXISlippi.init) ∧
    mapFind? (sessionStart CEXISlippi.init).m_active_savestates (readFrame (frameBytes 5)) =
      none ∧
    HandleLoadSavestate (sessionStart CEXISlippi.init) (frameBytes 5) =
      sessionStart CEXISlippi.init := by
  with_unfolding_all decide

/-- C10, amended: for every pool holding at least one slot and every frame
`f`, while the connection is Connected a snapshot tagged `f` is active
immediately after `Capture(f)`, so that a following `Load(f)` finds it,
restores it (the restore of that very slot is issued) and does not take the
not-found exit.  While the device is disconnected `Capture(f)` changes
nothing. -/
theorem capture_then_load (s : CEXISlippi) (env : Env) (payload : List Nat)
    (hslot : 0 < s.m_active_savestates.length + s.m_available_savestates.length)
    (hsorted : MapSorted s.m_active_savestates) :
    (IsDisconnected env = true → HandleCaptureSavestate s env payload = some s) ∧
    (IsDisconnected env = false →
      ∃ s1 ss, HandleCaptureSavestate s env payload = some s1 ∧
        mapFind? s1.m_active_savestates (readFrame payload) = some ss ∧
        ∀ payload2, readFrame payload2 = readFrame payload →
          (HandleLoadSavestate s1 payload2).effects =
            s1.effects ++ [Effect.SavestateLoad ss (preserveBlocks payload2)] ∧
          (HandleLoadSavestate s1 payload2).m_active_savestates = [] ∧
          HandleLoadSavestate s1 payload2 ≠ s1) := by
  refine ⟨HandleCaptureSavestate_of_disconnected s env payload, fun hconn => ?_⟩
  obtain ⟨ss, active1, available1, hg, _, _⟩ :=
    grabSavestate_spec s.m_active_savestates s.m_available_savestates hsorted hslot
  refine ⟨_, ss, HandleCaptureSavestate_of_grab s env payload ss active1 available1 hconn hg,
    mapFind?_mapInsert_self _ _ _, fun payload2 h2 => ?_⟩
  have hfind : mapFind?
      ({ s with
        m_active_savestates :=
          mapInsert (releasePrior (readFrame payload) active1 available1).1 (readFrame payload) ss
        m_available_savestates := (releasePrior (readFrame payload) active1 available1).2
        effects := s.effects ++ [Effect.SavestateCapture ss] } : CEXISlippi).m_active_savestates
      (readFrame payload2) = some ss := by
    rw [h2]; exact mapFind?_mapInsert_self _ _ _
  rw [HandleLoadSavestate_of_some _ payload2 ss hfind]
  refine ⟨rfl, rfl, fun h => ?_⟩
  have := congrArg (fun x => x.effects.length) h
  simp at this

/-- Witness of C10: capturing frame 5 into a fresh pool over a live connection. -/
theorem capture_then_load_witness :
    0 < (sessionStart CEXISlippi.init).m_active_savestates.length +
      (sessionStart CEXISlippi.init).m_available_savestates.length ∧
    MapSorted (sessionStart CEXISlippi.init).m_active_savestates ∧
    (IsDisconnected (connectedEnv 0 0) = true →
      HandleCaptureSavestate (sessionStart CEXISlippi.init) (connectedEnv 0 0) (frameBytes 5) =
        some (sessionStart CEXISlippi.init)) ∧
    (IsDisconnected (connectedEnv 0 0) = false →
      ∃ s1 ss,
        HandleCaptureSavestate (sessionStart CEXISlippi.init) (connectedEnv 0 0) (frameBytes 5) =
          some s1 ∧
        mapFind? s1.m_active_savestates (readFrame (frameBytes 5)) = some ss ∧
        ∀ payload2, readFrame payload2 = readFrame (frameBytes 5) →
          (HandleLoadSavestate s1 payload2).effects =
            s1.effects ++ [Effect.SavestateLoad ss (preserveBlocks payload2)] ∧
          (HandleLoadSavestate s1 payload2).m_active_savestates = [] ∧
          HandleLoadSavestate s1 payload2 ≠ s1) :=
  ⟨by with_unfolding_all decide, by with_unfolding_all decide,
    capture_then_load (sessionStart CEXISlippi.init) (connectedEnv 0 0) (frameBytes 5)
      (by with_unfolding_all decide) (by with_unfolding_all decide)⟩

/-! ## Lemmas on the synchronizer -/

theorem IsDisconnected_of_connected (env : Env) (c : SlippiNetplayClient)
    (hclient : env.m_slippi_netplay = some c)
    (hconn : c.GetSlippiConnectStatus = SlippiConnectStatus.NET_CONNECT_STATUS_CONNECTED) :
    IsDisconnected env = false := by
  simp [IsDisconnected, hclient, hconn]

theorem enterFrame_of_ne_one (s : CEXISlippi) (payload : List Nat)
    (h : readFrame payload ≠ 1) : enterFrame s payload = { s with m_read_queue := [] } := by
  simp only [enterFrame, h, if_false]

theorem ShouldSkipOnlineFrame_stall (s : CEXISlippi) (c : SlippiNetplayClient) (frame : Int)
    (hconn : c.GetSlippiConnectStatus = SlippiConnectStatus.NET_CONNECT_STATUS_CONNECTED)
    (hlatch : s.m_connection_stalled = false)
    (hahead : (7 : Int) ≤ toS32 (frame - c.GetSlippiLatestRemoteFrame)) :
    ShouldSkipOnlineFrame s c frame = (true, stallTick s) := by
  unfold ShouldSkipOnlineFrame
  have h7 : toS32 (frame - c.GetSlippiLatestRemoteFrame) ≥ ((ROLLBACK_MAX_FRAMES : Nat) : Int) :=
    hahead
  rw [if_neg (by rw [hconn]; decide), if_neg (by rw [hlatch]; decide), if_pos h7]

theorem ShouldSkipOnlineFrame_latched (s : CEXISlippi) (c : SlippiNetplayClient) (frame : Int)
    (hlatch : s.m_connection_stalled = true) :
    ShouldSkipOnlineFrame s c frame = (false, s) := by
  unfold ShouldSkipOnlineFrame
  split
  · rfl
  · rfl

theorem enterFrame_read_queue (s : CEXISlippi) (payload : List Nat) :
    (enterFrame s payload).m_read_queue = [] := by
  unfold enterFrame
  split <;> rfl

theorem PrepareOpponentInputs_of_inBounds (K : SlippiConstants) (s : CEXISlippi) (env : Env)
    (c : SlippiNetplayClient) (payload : List Nat)
    (hpads : padsInBounds K env c (readFrame payload) = true) :
    ∃ s1, PrepareOpponentInputs K s env c payload = some s1 ∧
      resultCode s1 = some (if c.GetSlippiConnectStatus ≠
          SlippiConnectStatus.NET_CONNECT_STATUS_CONNECTED ∨ s.m_connection_stalled = true
        then 3 else 1) ∧
      s1.m_connection_stalled = s.m_connection_stalled ∧
      s1.m_stall_frame_count = s.m_stall_frame_count ∧
      s1.m_frames_to_skip = s.m_frames_to_skip ∧
      s1.m_currently_skipping = s.m_currently_skipping ∧
      s1.m_active_savestates = s.m_active_savestates ∧
      s1.m_available_savestates = s.m_available_savestates ∧
      s1.allocated = s.allocated ∧
      s1.effects = s.effects ++ [Effect.DropOldRemoteInputs (readFrame payload)] := by
  unfold PrepareOpponentInputs
  rw [if_neg (by rw [hpads]; decide)]
  exact ⟨_, rfl, rfl, rfl, rfl, rfl, rfl, rfl, rfl, rfl, rfl⟩

theorem HandleOnlineInputs_of_no_client (K : SlippiConstants) (s : CEXISlippi) (env : Env)
    (payload : List Nat) (hclient : env.m_slippi_netplay = none) :
    HandleOnlineInputs K s env payload =
      if readFrame payload = 1 then none else some (pushRead (enterFrame s payload) 3) := by
  unfold HandleOnlineInputs
  rw [hclient]

theorem HandleOnlineInputs_of_client (K : SlippiConstants) (s : CEXISlippi) (env : Env)
    (c : SlippiNetplayClient) (payload : List Nat) (hclient : env.m_slippi_netplay = some c) :
    HandleOnlineInputs K s env payload =
      if IsDisconnected env = true then some (pushRead (enterFrame s payload) 3)
      else if (ShouldSkipOnlineFrame (enterFrame s payload) c (readFrame payload)).1 = true then
        some (pushRead
          (emit (ShouldSkipOnlineFrame (enterFrame s payload) c (readFrame payload)).2
            (Effect.SendSlippiPad none)) 2)
      else
        PrepareOpponentInputs K
          (HandleSendInputs (ShouldSkipOnlineFrame (enterFrame s payload) c (readFrame payload)).2
            payload) env c payload := by
  unfold HandleOnlineInputs
  rw [hclient]

theorem HandleOnlineInputs_of_connected (K : SlippiConstants) (s : CEXISlippi) (env : Env)
    (c : SlippiNetplayClient) (payload : List Nat)
    (hclient : env.m_slippi_netplay = some c)
    (hconn : c.GetSlippiConnectStatus = SlippiConnectStatus.NET_CONNECT_STATUS_CONNECTED) :
    HandleOnlineInputs K s env payload =
      if (ShouldSkipOnlineFrame (enterFrame s payload) c (readFrame payload)).1 = true then
        some (pushRead
          (emit (ShouldSkipOnlineFrame (enterFrame s payload) c (readFrame payload)).2
            (Effect.SendSlippiPad none)) 2)
      else
        PrepareOpponentInputs K
          (HandleSendInputs (ShouldSkipOnlineFrame (enterFrame s payload) c (readFrame payload)).2
            payload) env c payload := by
  rw [HandleOnlineInputs_of_client K s env c payload hclient,
    if_neg (by rw [IsDisconnected_of_connected env c hclient hconn]; decide)]

theorem HandleOnlineInputs_stall (K : SlippiConstants) (s : CEXISlippi) (env : Env)
    (c : SlippiNetplayClient) (payload : List Nat)
    (hclient : env.m_slippi_netplay = some c)
    (hconn : c.GetSlippiConnectStatus = SlippiConnectStatus.NET_CONNECT_STATUS_CONNECTED)
    (hlatch : (enterFrame s payload).m_connection_stalled = false)
    (hahead : (7 : Int) ≤ toS32 (readFrame payload - c.GetSlippiLatestRemoteFrame)) :
    HandleOnlineInputs K s env payload =
      some (pushRead (emit (stallTick (enterFrame s payload)) (Effect.SendSlippiPad none)) 2) := by
  rw [HandleOnlineInputs_of_connected K s env c payload hclient hconn,
    ShouldSkipOnlineFrame_stall _ c _ hconn hlatch hahead, if_pos rfl]

theorem stalled_step_fields (s : CEXISlippi) (payload : List Nat)
    (hlatch : (enterFrame s payload).m_connection_stalled = false) :
    (pushRead (emit (stallTick (enterFrame s payload)) (Effect.SendSlippiPad none)) 2).m_read_queue
      = [2] ∧
    (pushRead (emit (stallTick (enterFrame s payload))
      (Effect.SendSlippiPad none)) 2).m_stall_frame_count =
      wrapU32 ((enterFrame s payload).m_stall_frame_count + 1) ∧
    (pushRead (emit (stallTick (enterFrame s payload))
      (Effect.SendSlippiPad none)) 2).m_connection_stalled =
      decide (wrapU32 ((enterFrame s payload).m_stall_frame_count + 1) > 60 * 7) := by
  have hq := enterFrame_read_queue s payload
  generalize enterFrame s payload = t at hq hlatch ⊢
  obtain ⟨cnt, st, q, fts, cs, act, av, al, ef⟩ := t
  simp only at hq hlatch
  subst hq hlatch
  refine ⟨rfl, rfl, ?_⟩
  show (if wrapU32 (cnt + 1) > 60 * 7 then true else false) = decide (wrapU32 (cnt + 1) > 60 * 7)
  by_cases h : wrapU32 (cnt + 1) > 60 * 7
  · rw [if_pos h, decide_eq_true h]
  · rw [if_neg h, decide_eq_false h]

theorem HandleOnlineInputs_latched (K : SlippiConstants) (s : CEXISlippi) (env : Env)
    (c : SlippiNetplayClient) (payload : List Nat)
    (hclient : env.m_slippi_netplay = some c)
    (hconn : c.GetSlippiConnectStatus = SlippiConnectStatus.NET_CONNECT_STATUS_CONNECTED)
    (hlatch : (enterFrame s payload).m_connection_stalled = true)
    (hpads : padsInBounds K env c (readFrame payload) = true) :
    ∃ s1, HandleOnlineInputs K s env payload = some s1 ∧ resultCode s1 = some 3 ∧
      s1.m_connection_stalled = true ∧
      s1.m_stall_frame_count = (enterFrame s payload).m_stall_frame_count := by
  rw [HandleOnlineInputs_of_connected K s env c payload hclient hconn,
    ShouldSkipOnlineFrame_latched _ c _ hlatch, if_neg (by simp)]
  have hsend : HandleSendInputs (enterFrame s payload) payload = enterFrame s payload := by
    unfold HandleSendInputs
    rw [if_pos hlatch]
  rw [hsend]
  obtain ⟨s1, h1, hcode, hl, hc, _⟩ :=
    PrepareOpponentInputs_of_inBounds K (enterFrame s payload) env c payload hpads
  refine ⟨s1, h1, ?_, hl.trans hlatch, hc⟩
  rw [hcode, if_pos (Or.inr hlatch)]

theorem runOnline_cons (K : SlippiConstants) (s : CEXISlippi) (call : Env × List Nat)
    (rest : List (Env × List Nat)) :
    runOnline K s (call :: rest) =
      (HandleOnlineInputs K s call.1 call.2).bind fun s1 =>
        (runOnline K s1 rest).map fun r => (r.1, resultCode s1 :: r.2) := rfl

theorem runOnline_cons_of_some (K : SlippiConstants) (s sa s1 : CEXISlippi)
    (call : Env × List Nat) (rest : List (Env × List Nat)) (codes : List (Option Nat))
    (hstep : HandleOnlineInputs K s call.1 call.2 = some sa)
    (hrest : runOnline K sa rest = some (s1, codes)) :
    runOnline K s (call :: rest) = some (s1, resultCode sa :: codes) := by
  rw [runOnline_cons, hstep, Option.some_bind, hrest, Option.map_some']

theorem runOnline_append (K : SlippiConstants) (calls1 calls2 : List (Env × List Nat)) :
    ∀ (s s1 s2 : CEXISlippi) (codes1 codes2 : List (Option Nat)),
      runOnline K s calls1 = some (s1, codes1) → runOnline K s1 calls2 = some (s2, codes2) →
      runOnline K s (calls1 ++ calls2) = some (s2, codes1 ++ codes2) := by
  induction calls1 with
  | nil =>
    intro s s1 s2 codes1 codes2 h1 h2
    have h3 : some (s, ([] : List (Option Nat))) = some (s1, codes1) := h1
    injection h3 with h3
    injection h3 with h4 h5
    subst h4 h5
    exact h2
  | cons call rest ih =>
    intro s s1 s2 codes1 codes2 h1 h2
    rw [runOnline_cons] at h1
    cases hh : HandleOnlineInputs K s call.1 call.2 with
    | none => rw [hh] at h1; exact absurd h1 (by simp)
    | some sa =>
      rw [hh, Option.some_bind] at h1
      cases hr : runOnline K sa rest with
      | none => rw [hr] at h1; exact absurd h1 (by simp)
      | some r =>
        obtain ⟨sb, codesb⟩ := r
        rw [hr, Option.map_some'] at h1
        injection h1 with h1
        injection h1 with h4 h5
        subst h4 h5
        exact runOnline_cons_of_some K s sa s2 call (rest ++ calls2) _ hh
          (ih sa sb s2 codesb codes2 hr h2)

theorem runOnline_stalled (K : SlippiConstants) (calls : List (Env × List Nat)) :
    ∀ s : CEXISlippi, s.m_connection_stalled = false →
      s.m_stall_frame_count + calls.length ≤ 420 →
      (∀ call ∈ calls, StalledCall call) →
      ∃ s1, runOnline K s calls = some (s1, List.replicate calls.length (some 2)) ∧
        s1.m_connection_stalled = false ∧
        s1.m_stall_frame_count = s.m_stall_frame_count + calls.length := by
  induction calls with
  | nil => intro s hl _ _; exact ⟨s, rfl, hl, rfl⟩
  | cons call rest ih =>
    intro s hl hc hcalls
    obtain ⟨c, hclient, hconn, hne, hahead⟩ := hcalls call (by simp)
    rw [List.length_cons] at hc
    have hlatch : (enterFrame s call.2).m_connection_stalled = false := by
      rw [enterFrame_of_ne_one s call.2 hne]; exact hl
    have hsa := HandleOnlineInputs_stall K s call.1 c call.2 hclient hconn hlatch hahead
    obtain ⟨hqueue, hca, hla⟩ := stalled_step_fields s call.2 hlatch
    generalize pushRead (emit (stallTick (enterFrame s call.2)) (Effect.SendSlippiPad none)) 2 =
      sa at hsa hqueue hca hla
    have hcount : (enterFrame s call.2).m_stall_frame_count = s.m_stall_frame_count := by
      rw [enterFrame_of_ne_one s call.2 hne]
    rw [hcount] at hca hla
    have hmod : wrapU32 (s.m_stall_frame_count + 1) = s.m_stall_frame_count + 1 := by
      unfold wrapU32; exact Nat.mod_eq_of_lt (by omega)
    rw [hmod] at hca hla
    have hla1 : sa.m_connection_stalled = false := by
      rw [hla]; exact decide_eq_false (by omega)
    have hcode : resultCode sa = some 2 := by
      unfold resultCode; rw [hqueue]; rfl
    obtain ⟨s1, hrun, hl1, hc1⟩ := ih sa hla1 (by rw [hca]; omega)
      (fun call1 h1 => hcalls call1 (by simp [h1]))
    refine ⟨s1, ?_, hl1, ?_⟩
    · rw [runOnline_cons_of_some K s sa s1 call rest _ hsa hrun, hcode]
      rfl
    · rw [hc1, hca, List.length_cons]
      omega

theorem runOnline_latched (K : SlippiConstants) (calls : List (Env × List Nat)) :
    ∀ s : CEXISlippi, s.m_connection_stalled = true →
      (∀ call ∈ calls, ConnectedCall K call) →
      ∃ s1, runOnline K s calls = some (s1, List.replicate calls.length (some 3)) ∧
        s1.m_connection_stalled = true := by
  induction calls with
  | nil => intro s hl _; exact ⟨s, rfl, hl⟩
  | cons call rest ih =>
    intro s hl hcalls
    obtain ⟨c, hclient, hconn, hne, hpads⟩ := hcalls call (by simp)
    have hlatch : (enterFrame s call.2).m_connection_stalled = true := by
      rw [enterFrame_of_ne_one s call.2 hne]; exact hl
    obtain ⟨sa, hstep, hcode, hla, _⟩ :=
      HandleOnlineInputs_latched K s call.1 c call.2 hclient hconn hlatch hpads
    obtain ⟨s1, hrun, hl1⟩ := ih sa hla (fun call1 h1 => hcalls call1 (by simp [h1]))
    refine ⟨s1, ?_, hl1⟩
    rw [runOnline_cons_of_some K s sa s1 call rest _ hstep hrun, hcode]
    rfl



/-! ## The stall invariant holds in every reachable state -/

theorem scheduleSkips_stall_fields (s : CEXISlippi) (c : SlippiNetplayClient) (frame : Int) :
    (scheduleSkips s c frame).m_stall_frame_count = s.m_stall_frame_count ∧
    (scheduleSkips s c frame).m_connection_stalled = s.m_connection_stalled := by
  unfold scheduleSkips
  split_ifs <;> exact ⟨rfl, rfl⟩

theorem consumeSkip_stall_fields (s : CEXISlippi) :
    (consumeSkip s).2.m_stall_frame_count = s.m_stall_frame_count ∧
    (consumeSkip s).2.m_connection_stalled = s.m_connection_stalled := by
  unfold consumeSkip
  split_ifs <;> exact ⟨rfl, rfl⟩

theorem HandleSendInputs_stall_fields (s : CEXISlippi) (payload : List Nat) :
    (HandleSendInputs s payload).m_stall_frame_count = s.m_stall_frame_count ∧
    (HandleSendInputs s payload).m_connection_stalled = s.m_connection_stalled := by
  unfold HandleSendInputs
  split_ifs <;> exact ⟨rfl, rfl⟩

theorem PrepareOpponentInputs_stall_fields (K : SlippiConstants) (s s1 : CEXISlippi) (env : Env)
    (c : SlippiNetplayClient) (payload : List Nat)
    (h : PrepareOpponentInputs K s env c payload = some s1) :
    s1.m_stall_frame_count = s.m_stall_frame_count ∧
    s1.m_connection_stalled = s.m_connection_stalled := by
  cases hp : padsInBounds K env c (readFrame payload) with
  | false =>
    unfold PrepareOpponentInputs at h
    rw [if_pos hp] at h
    exact absurd h (by simp)
  | true =>
    obtain ⟨s2, h2, _, hl, hc, _⟩ := PrepareOpponentInputs_of_inBounds K s env c payload hp
    rw [h2] at h
    injection h with h
    subst h
    exact ⟨hc, hl⟩

theorem HandleCaptureSavestate_stall_fields (s s1 : CEXISlippi) (env : Env) (payload : List Nat)
    (h : HandleCaptureSavestate s env payload = some s1) :
    s1.m_stall_frame_count = s.m_stall_frame_count ∧
    s1.m_connection_stalled = s.m_connection_stalled := by
  unfold HandleCaptureSavestate at h
  split_ifs at h
  · injection h with h; subst h; exact ⟨rfl, rfl⟩
  · cases hg : grabSavestate s.m_active_savestates s.m_available_savestates with
    | none => rw [hg] at h; exact absurd h (by simp)
    | some r =>
      obtain ⟨ss, a1, v1⟩ := r
      rw [hg] at h
      injection h with h; subst h; exact ⟨rfl, rfl⟩

theorem HandleLoadSavestate_stall_fields (s : CEXISlippi) (payload : List Nat) :
    (HandleLoadSavestate s payload).m_stall_frame_count = s.m_stall_frame_count ∧
    (HandleLoadSavestate s payload).m_connection_stalled = s.m_connection_stalled := by
  cases hf : mapFind? s.m_active_savestates (readFrame payload) with
  | none => rw [HandleLoadSavestate_of_none s payload hf]; exact ⟨rfl, rfl⟩
  | some ss => rw [HandleLoadSavestate_of_some s payload ss hf]; exact ⟨rfl, rfl⟩

theorem stalledCall_mem_replicate (n : Nat) :
    ∀ call ∈ List.replicate n stalledCall, StalledCall call := by
  intro call hcall
  rw [(List.mem_replicate.mp hcall).2]
  exact ⟨connectedClient 0 0, rfl, rfl, by with_unfolding_all decide,
    by with_unfolding_all decide⟩

theorem connectedCall_advancedCall :
    ∀ call ∈ [advancedCall, advancedCall], ConnectedCall slippiConstants call := by
  intro call hcall
  have hc : call = advancedCall := by
    rcases List.mem_cons.mp hcall with h | h
    · exact h
    · exact List.mem_singleton.mp h
  rw [hc]
  exact ⟨connectedClient 99 0, rfl, rfl, by with_unfolding_all decide,
    by with_unfolding_all decide⟩

theorem replicate_stalledCall_ne_nil : List.replicate 421 stalledCall ≠ [] := by
  intro h
  have h1 := congrArg List.length h
  rw [List.length_replicate] at h1
  exact absurd h1 (by decide)

/-- Counterexample to C2 as stated: in a fresh session, 420 consecutive calls
at frame 100 with latest remote frame 0 (so `current - R >= 7`), followed by
one call in which the remote frame has advanced to 99.  All 420 stalled
calls return Skip, the 421st call returns Continue (code 1), not
Disconnected, and the latch is not set.  If the 421st call stalls as well it
returns Skip (code 2), again not Disconnected. -/
theorem stall_latch_counterexample :
    (runOnline slippiConstants CEXISlippi.init
        (List.replicate 420 stalledCall ++ [advancedCall])).map
      (fun r => (r.2, r.1.m_connection_stalled)) =
      some (List.replicate 420 (some 2) ++ [some 1], false) ∧
    (runOnline slippiConstants CEXISlippi.init
        (List.replicate 420 stalledCall ++ [stalledCall])).map (fun r => r.2) =
      some (List.replicate 420 (some 2) ++ [some 2]) := by
  constructor <;> with_unfolding_all decide

/-- C2, amended: in a session whose connection stays Connected, the stall
counter latches when it exceeds 420, that is on the 421st consecutive
per-frame call with `current - R >= 7`.  Starting with the latch unset and
the counter at `421 - n`, `n` consecutive such calls (none of them the
session start frame 1) all return Skip (code 2), the last one setting the
latch; every later call of the session (any frame other than 1, any latest
remote frame) then returns Disconnected (code 3), and the latch stays set. -/
theorem stall_latch_disconnects (K : SlippiConstants) (s : CEXISlippi)
    (stalled later : List (Env × List Nat))
    (hlatch : s.m_connection_stalled = false)
    (hcount : s.m_stall_frame_count + stalled.length = 421)
    (hnonempty : stalled ≠ [])
    (hstalled : ∀ call ∈ stalled, StalledCall call)
    (hlater : ∀ call ∈ later, ConnectedCall K call) :
    ∃ s1, runOnline K s (stalled ++ later) =
        some (s1, List.replicate stalled.length (some 2) ++
          List.replicate later.length (some 3)) ∧
      s1.m_connection_stalled = true := by
  -- the calls before the last stalled one leave the counter at 420
  have hsplit := List.dropLast_append_getLast hnonempty
  have hlen : stalled.dropLast.length + 1 = stalled.length := by
    have := List.length_pos.mpr hnonempty
    rw [List.length_dropLast]; omega
  obtain ⟨sa, hruna, hlatcha, hcounta⟩ := runOnline_stalled K stalled.dropLast s hlatch
    (by omega) (fun call h => hstalled call (List.mem_of_mem_dropLast h))
  -- the last stalled call sets the latch
  obtain ⟨c, hclient, hconn, hne, hahead⟩ :=
    hstalled (stalled.getLast hnonempty) (List.getLast_mem hnonempty)
  have hlatchb : (enterFrame sa (stalled.getLast hnonempty).2).m_connection_stalled = false := by
    rw [enterFrame_of_ne_one sa _ hne]; exact hlatcha
  have hstepb := HandleOnlineInputs_stall K sa (stalled.getLast hnonempty).1 c
    (stalled.getLast hnonempty).2 hclient hconn hlatchb hahead
  obtain ⟨hqueue, hcb, hlb⟩ := stalled_step_fields sa (stalled.getLast hnonempty).2 hlatchb
  generalize pushRead (emit (stallTick (enterFrame sa (stalled.getLast hnonempty).2))
    (Effect.SendSlippiPad none)) 2 = sb at hstepb hqueue hcb hlb
  have hcount2 : (enterFrame sa (stalled.getLast hnonempty).2).m_stall_frame_count = 420 := by
    rw [enterFrame_of_ne_one sa _ hne]
    show sa.m_stall_frame_count = 420
    omega
  have hlatchedb : sb.m_connection_stalled = true := by
    rw [hlb, hcount2]
    with_unfolding_all decide
  have hcodeb : resultCode sb = some 2 := by
    unfold resultCode; rw [hqueue]; rfl
  have hrunb : runOnline K sa [stalled.getLast hnonempty] = some (sb, [some 2]) := by
    rw [runOnline_cons_of_some K sa sb sb _ [] [] hstepb rfl, hcodeb]
  -- every later call answers Disconnected
  obtain ⟨s1, hrunc, hlatchc⟩ := runOnline_latched K later sb hlatchedb hlater
  refine ⟨s1, ?_, hlatchc⟩
  have h1 := runOnline_append K stalled.dropLast [stalled.getLast hnonempty] s sa sb _ _
    hruna hrunb
  rw [hsplit] at h1
  have h2 := runOnline_append K stalled later s sb s1 _ _ h1 hrunc
  rw [h2, ← hlen, List.replicate_succ']

/-- Witness of C2: 421 stalled calls of a fresh session, then two calls in
which the remote frame has caught up. -/
theorem stall_latch_disconnects_witness :
    CEXISlippi.init.m_connection_stalled = false ∧
    CEXISlippi.init.m_stall_frame_count + (List.replicate 421 stalledCall).length = 421 ∧
    List.replicate 421 stalledCall ≠ [] ∧
    (∀ call ∈ List.replicate 421 stalledCall, StalledCall call) ∧
    (∀ call ∈ [advancedCall, advancedCall], ConnectedCall slippiConstants call) ∧
    ∃ s1, runOnline slippiConstants CEXISlippi.init
          (List.replicate 421 stalledCall ++ [advancedCall, advancedCall]) =
        some (s1, List.replicate (List.replicate 421 stalledCall).length (some 2) ++
          List.replicate [advancedCall, advancedCall].length (some 3)) ∧
      s1.m_connection_stalled = true :=
  ⟨rfl, rfl, replicate_stalledCall_ne_nil, stalledCall_mem_replicate 421,
    connectedCall_advancedCall,
    stall_latch_disconnects slippiConstants CEXISlippi.init (List.replicate 421 stalledCall)
      [advancedCall, advancedCall] rfl rfl replicate_stalledCall_ne_nil
      (stalledCall_mem_replicate 421) connectedCall_advancedCall⟩

/-! ## Claim on the stalled frame -/

theorem enterFrame_latch_unset (s : CEXISlippi) (payload : List Nat)
    (hlatch : s.m_connection_stalled = false) :
    (enterFrame s payload).m_connection_stalled = false := by
  unfold enterFrame
  split_ifs
  · rfl
  · exact hlatch

theorem toS32_of_inS32 (x : Int) (h : inS32 x) : toS32 x = x := by
  obtain ⟨h1, h2⟩ := h
  unfold INT_MIN at h1
  unfold INT_MAX at h2
  unfold toS32
  omega

theorem emod_of_nonneg (a : Int) (ha : 0 ≤ a) : emod a FRAME_INTERVAL = a % 900 := by
  unfold emod FRAME_INTERVAL
  have h1 : Int.tmod a 900 = a % 900 := Int.tmod_eq_emod ha (by decide)
  have h2 : (0 : Int) ≤ a % 900 := Int.emod_nonneg a (by decide)
  simp only [h1]
  rw [if_pos (by omega)]

theorem closestStateFrame_eq (J : SlippiGameConstants) (t : Int)
    (hF : inS32 J.PLAYBACK_FIRST_SAVE) (ht : inS32 t) (hFt : J.PLAYBACK_FIRST_SAVE ≤ t)
    (hov : t - J.PLAYBACK_FIRST_SAVE ≤ INT_MAX) :
    closestStateFrame J t = t - (t - J.PLAYBACK_FIRST_SAVE) % 900 := by
  have hd : inS32 (t - J.PLAYBACK_FIRST_SAVE) := by
    unfold inS32 INT_MIN; unfold INT_MAX at hov; exact ⟨by omega, by unfold INT_MAX; omega⟩
  unfold closestStateFrame
  rw [toS32_of_inS32 _ hd, emod_of_nonneg _ (by omega)]
  apply toS32_of_inS32
  obtain ⟨h1, h2⟩ := hF
  obtain ⟨h3, h4⟩ := ht
  unfold INT_MIN at h1 h3
  unfold INT_MAX at h2 h4 hov
  unfold inS32 INT_MIN INT_MAX
  omega


theorem seekEnter_status (J : SlippiGameConstants) (w : PlaybackWorld) :
    (seekEnter J w).status = { w.status with m_target_frame_num := clampTarget J w.status } := by
  unfold seekEnter
  dsimp only
  split_ifs
  · unfold UpdateWatchSettingsStartEnd
    dsimp only
    split_ifs <;> rfl
  · rfl

theorem checkpointWalk_spec (diffs : List (Int × List Nat)) (F bound : Int)
    (hF : INT_MIN ≤ F) (hb : F ≤ bound) :
    ∀ (fuel : Nat) (c : Int), F ≤ c → c ≤ INT_MAX → (900 : Int) ∣ c - F →
      (c - F) / 900 < fuel →
      ∃ r, checkpointWalk diffs bound fuel c = some r ∧ F ≤ r ∧ r ≤ c ∧
        (900 : Int) ∣ r - F ∧ (r ≤ bound ∨ mapCount diffs r ≠ 0) := by
  unfold INT_MIN at hF
  intro fuel
  induction fuel with
  | zero =>
    intro c hc _ _ hfuel
    have : 0 ≤ (c - F) / 900 := Int.ediv_nonneg (by omega) (by decide)
    omega
  | succ n ih =>
    intro c hc hmax hdvd hfuel
    unfold INT_MAX at hmax
    by_cases hcont : c > bound ∧ mapCount diffs c = 0
    · obtain ⟨k, hk⟩ := hdvd
      have hstep : toS32 (c - FRAME_INTERVAL) = c - 900 := by
        unfold FRAME_INTERVAL
        apply toS32_of_inS32
        unfold inS32 INT_MIN INT_MAX
        omega
      obtain ⟨r, hr, h1, h2, h3, h4⟩ := ih (c - 900) (by omega) (by unfold INT_MAX; omega)
        ⟨k - 1, by omega⟩ (by omega)
      refine ⟨r, ?_, h1, by omega, h3, h4⟩
      unfold checkpointWalk
      rw [if_pos hcont, hstep]
      exact hr
    · refine ⟨c, ?_, hc, le_refl c, hdvd, ?_⟩
      · unfold checkpointWalk
        rw [if_neg hcont]
      · by_cases h1 : c > bound
        · right
          intro h2
          exact hcont ⟨h1, h2⟩
        · left; omega

theorem LoadState_of_first (J : SlippiGameConstants) (st : SlippiPlaybackStatus) :
    LoadState J st J.PLAYBACK_FIRST_SAVE =
      Except.ok (PlaybackEvent.LoadFromBuffer LoadedState.InitialState) := by
  unfold LoadState
  rw [if_pos rfl]

theorem LoadState_of_delta (J : SlippiGameConstants) (st : SlippiPlaybackStatus) (frame : Int)
    (hne : frame ≠ J.PLAYBACK_FIRST_SAVE) (hcount : mapCount st.m_future_diffs frame ≠ 0) :
    ∃ diff, LoadState J st frame =
      Except.ok (PlaybackEvent.LoadFromBuffer (LoadedState.Decoded frame diff)) := by
  obtain ⟨diff, hdiff⟩ := mapFind?_of_mapCount_pos st.m_future_diffs frame (by omega)
  refine ⟨diff, ?_⟩
  unfold LoadState
  rw [if_neg hne, hdiff]

theorem loadedFrame_initial (J : SlippiGameConstants) :
    loadedFrame J [PlaybackEvent.LoadFromBuffer LoadedState.InitialState] =
      some J.PLAYBACK_FIRST_SAVE := rfl

theorem loadedFrame_decoded (J : SlippiGameConstants) (frame : Int) (diff : List Nat) :
    loadedFrame J [PlaybackEvent.LoadFromBuffer (LoadedState.Decoded frame diff)] =
      some frame := rfl

theorem seekLoad_spec (J : SlippiGameConstants) (st : SlippiPlaybackStatus)
    (hF : inS32 J.PLAYBACK_FIRST_SAVE) (ht : inS32 st.m_target_frame_num)
    (hFt : J.PLAYBACK_FIRST_SAVE ≤ st.m_target_frame_num)
    (hov : st.m_target_frame_num - J.PLAYBACK_FIRST_SAVE ≤ INT_MAX)
    (hcur : J.PLAYBACK_FIRST_SAVE ≤ st.m_curr_playback_frame) :
    ∃ load, seekLoad J st (closestStateFrame J st.m_target_frame_num) = Except.ok load ∧
      (load = [] ∨ ∃ src, load = [PlaybackEvent.LoadFromBuffer src]) ∧
      (loadedFrame J load = some st.m_target_frame_num →
        st.m_target_frame_num = closestStateFrame J st.m_target_frame_num) := by
  have hC := closestStateFrame_eq J st.m_target_frame_num hF ht hFt hov
  generalize closestStateFrame J st.m_target_frame_num = C at hC ⊢
  have hdvd : (900 : Int) ∣ C - J.PLAYBACK_FIRST_SAVE :=
    ⟨(st.m_target_frame_num - J.PLAYBACK_FIRST_SAVE) / 900, by omega⟩
  have hCt : C ≤ st.m_target_frame_num := by omega
  have hFC : J.PLAYBACK_FIRST_SAVE ≤ C := by omega
  have hFmin : INT_MIN ≤ J.PLAYBACK_FIRST_SAVE := hF.1
  have htmax : st.m_target_frame_num ≤ INT_MAX := ht.2
  unfold seekLoad
  dsimp only
  by_cases hopt : (decide (st.m_target_frame_num < st.m_curr_playback_frame) ||
      decide (C > st.m_curr_playback_frame)) = true
  · rw [if_pos hopt]
    by_cases h1 : C ≤ J.PLAYBACK_FIRST_SAVE
    · rw [if_pos h1]
      refine ⟨_, rfl, Or.inr ⟨_, rfl⟩, fun h => ?_⟩
      rw [loadedFrame_initial] at h
      injection h with h
      omega
    · rw [if_neg h1]
      have hstart : toS32 (C - FRAME_INTERVAL) = C - 900 := by
        obtain ⟨k, hk⟩ := hdvd
        unfold FRAME_INTERVAL
        apply toS32_of_inS32
        unfold INT_MIN at hFmin
        unfold INT_MAX at htmax
        unfold inS32 INT_MIN INT_MAX
        omega
      have hfuel : (C - 900 - J.PLAYBACK_FIRST_SAVE) / 900 < (walkFuel : Int) := by
        unfold INT_MIN at hFmin
        unfold INT_MAX at htmax
        unfold walkFuel
        omega
      have hwalk : ∀ bound, J.PLAYBACK_FIRST_SAVE ≤ bound →
          ∃ r, checkpointWalk st.m_future_diffs bound walkFuel (C - 900) = some r ∧
            J.PLAYBACK_FIRST_SAVE ≤ r ∧ r ≤ C - 900 ∧
            (r ≤ bound ∨ mapCount st.m_future_diffs r ≠ 0) := by
        intro bound hb
        obtain ⟨k, hk⟩ := hdvd
        obtain ⟨r, hr, h2, h3, _, h5⟩ := checkpointWalk_spec st.m_future_diffs
          J.PLAYBACK_FIRST_SAVE bound hFmin hb walkFuel (C - 900) (by omega)
          (by unfold INT_MAX at htmax ⊢; omega) ⟨k - 1, by omega⟩ hfuel
        exact ⟨r, hr, h2, h3, h5⟩
      by_cases h2 : mapCount st.m_future_diffs C > 0
      · rw [if_pos h2]
        obtain ⟨diff, hdiff⟩ := LoadState_of_delta J st C (by omega) (by omega)
        rw [hdiff]
        refine ⟨_, rfl, Or.inr ⟨_, rfl⟩, fun h => ?_⟩
        rw [loadedFrame_decoded] at h
        injection h with h
        exact h.symm
      · rw [if_neg h2]
        by_cases h3 : st.m_target_frame_num < st.m_curr_playback_frame
        · rw [if_pos h3, hstart]
          obtain ⟨r, hr, hr1, hr2, hr3⟩ := hwalk J.PLAYBACK_FIRST_SAVE (le_refl _)
          rw [hr]
          dsimp only
          by_cases hrF : r = J.PLAYBACK_FIRST_SAVE
          · rw [hrF, LoadState_of_first]
            refine ⟨_, rfl, Or.inr ⟨_, rfl⟩, fun h => ?_⟩
            rw [loadedFrame_initial] at h
            injection h with h
            omega
          · obtain ⟨diff, hdiff⟩ := LoadState_of_delta J st r hrF
              (by rcases hr3 with h | h
                  · exact absurd (le_antisymm h hr1) hrF
                  · exact h)
            rw [hdiff]
            refine ⟨_, rfl, Or.inr ⟨_, rfl⟩, fun h => ?_⟩
            rw [loadedFrame_decoded] at h
            injection h with h
            omega
        · rw [if_neg h3]
          by_cases h4 : st.m_target_frame_num > st.m_curr_playback_frame
          · rw [if_pos h4, hstart]
            obtain ⟨r, hr, hr1, hr2, hr3⟩ := hwalk st.m_curr_playback_frame hcur
            rw [hr]
            dsimp only
            by_cases h5 : r > st.m_curr_playback_frame
            · rw [if_pos h5]
              obtain ⟨diff, hdiff⟩ := LoadState_of_delta J st r (by omega)
                (by rcases hr3 with h | h
                    · exact absurd h (by omega)
                    · exact h)
              rw [hdiff]
              refine ⟨_, rfl, Or.inr ⟨_, rfl⟩, fun h => ?_⟩
              rw [loadedFrame_decoded] at h
              injection h with h
              omega
            · rw [if_neg h5]
              exact ⟨_, rfl, Or.inl rfl, fun h => by simp [loadedFrame] at h⟩
          · rw [if_neg h4]
            exact ⟨_, rfl, Or.inl rfl, fun h => by simp [loadedFrame] at h⟩
  · rw [if_neg hopt]
    exact ⟨_, rfl, Or.inl rfl, fun h => by simp [loadedFrame] at h⟩

theorem clampTarget_range (J : SlippiGameConstants) (st : SlippiPlaybackStatus)
    (hFL : J.PLAYBACK_FIRST_SAVE ≤ st.m_last_frame) :
    J.PLAYBACK_FIRST_SAVE ≤ clampTarget J st ∧ clampTarget J st ≤ st.m_last_frame := by
  unfold clampTarget
  dsimp only
  split_ifs <;> omega

theorem hardFFWEnabled_events (pause load : List PlaybackEvent) (b : Bool) (prev : CoreState)
    (hpause : pause = [] ∨ pause = [PlaybackEvent.CoreSetState CoreState.Paused])
    (hload : load = [] ∨ ∃ src, load = [PlaybackEvent.LoadFromBuffer src]) :
    hardFFWEnabled (pause ++ load ++ (if b = true then fastForwardEvents else []) ++
      [PlaybackEvent.CoreSetState prev]) = b := by
  rcases hpause with hp | hp <;> rcases hload with hl | ⟨src, hl⟩ <;> subst hp <;> subst hl <;>
    cases b <;> simp [hardFFWEnabled, fastForwardEvents]

theorem loadedFrame_events (J : SlippiGameConstants) (pause load : List PlaybackEvent)
    (b : Bool) (prev : CoreState)
    (hpause : pause = [] ∨ pause = [PlaybackEvent.CoreSetState CoreState.Paused])
    (hload : load = [] ∨ ∃ src, load = [PlaybackEvent.LoadFromBuffer src]) :
    loadedFrame J (pause ++ load ++ (if b = true then fastForwardEvents else []) ++
      [PlaybackEvent.CoreSetState prev]) = loadedFrame J load := by
  rcases hpause with hp | hp <;> rcases hload with hl | ⟨src, hl⟩ <;> subst hp <;> subst hl <;>
    cases b <;> (try cases src) <;> rfl

theorem seekLeave_fields (J : SlippiGameConstants) (prev : CoreState) (w : PlaybackWorld) :
    (seekLeave J prev w).status.m_curr_playback_frame = w.status.m_target_frame_num ∧
    (seekLeave J prev w).coreState = prev ∧
    (needsFastForward J w.status = true →
      (seekLeave J prev w).status.m_hard_ffw = false ∧
      (seekLeave J prev w).config.m_OCEnable = w.status.m_orig_oc_enable ∧
      (seekLeave J prev w).config.m_OCFactor = w.status.m_orig_oc_factor) := by
  refine ⟨rfl, rfl, fun h => ?_⟩
  unfold seekLeave
  dsimp only
  rw [if_pos h]
  exact ⟨rfl, rfl, rfl⟩

theorem needsFastForward_iff (J : SlippiGameConstants) (st : SlippiPlaybackStatus) :
    needsFastForward J st = true ↔
      (st.m_target_frame_num ≠ closestStateFrame J st.m_target_frame_num ∧
        st.m_target_frame_num ≠ st.m_last_frame) := by
  unfold needsFastForward
  rw [Bool.and_eq_true, decide_eq_true_iff, decide_eq_true_iff]

/-- Counterexample to C6 as stated: playback is at frame 1000, the last known
frame is 2000 and a delta is stored for the checkpoint 1678 (first save at
frame -122).  A seek to frame 5000 is clamped to 2000; the state loaded is
the one of frame 1678, which differs from the target, yet no fast-forward
takes place, because the target is the last known frame. -/
theorem seek_fast_forward_counterexample :
    clampTarget slippiGameConstants (playbackStatus 1000 5000 2000 [(1678, [1])]) = 2000 ∧
    (SeekToFrame slippiGameConstants true
        (playbackWorld (playbackStatus 1000 5000 2000 [(1678, [1])]))).toOption.map
      (fun r => (loadedFrame slippiGameConstants r.2, hardFFWEnabled r.2,
        r.1.status.m_curr_playback_frame)) =
      some (some 1678, false, 2000) := by
  constructor <;> with_unfolding_all decide

/-- C6, amended: for every seek (first save frame, last known frame and
current playback frame 32-bit values with first save <= last known,
last known - first save representable, and playback at or after the first
save), the seek completes, loading at most one state, and: when the clamped
target differs both from the checkpoint frame computed for it and from the
last known frame, hard fast-forward is enabled (fast-forward on, core
running, wait for the target frame, core paused, fast-forward off again, the
clock settings restored); a seek whose clamped target is the last known frame
never fast-forwards, whatever state was loaded; and when the state loaded is
already at the target no fast-forward takes place.  The playback frame ends
at the clamped target. -/
theorem seek_fast_forward (J : SlippiGameConstants) (w : PlaybackWorld)
    (hF : inS32 J.PLAYBACK_FIRST_SAVE) (hL : inS32 w.status.m_last_frame)
    (hFL : J.PLAYBACK_FIRST_SAVE ≤ w.status.m_last_frame)
    (hov : w.status.m_last_frame - J.PLAYBACK_FIRST_SAVE ≤ INT_MAX)
    (hcur : J.PLAYBACK_FIRST_SAVE ≤ w.status.m_curr_playback_frame) :
    ∃ w1 events load,
      SeekToFrame J true w = Except.ok (w1, events) ∧
      events =
        (if w.coreState ≠ CoreState.Paused then [PlaybackEvent.CoreSetState CoreState.Paused]
          else []) ++ load ++
        (if clampTarget J w.status ≠ closestStateFrame J (clampTarget J w.status) ∧
            clampTarget J w.status ≠ w.status.m_last_frame then fastForwardEvents else []) ++
        [PlaybackEvent.CoreSetState w.coreState] ∧
      (load = [] ∨ ∃ src, load = [PlaybackEvent.LoadFromBuffer src]) ∧
      (clampTarget J w.status ≠ closestStateFrame J (clampTarget J w.status) →
        clampTarget J w.status ≠ w.status.m_last_frame →
        hardFFWEnabled events = true ∧ w1.status.m_hard_ffw = false ∧
        w1.config.m_OCEnable = w.status.m_orig_oc_enable ∧
        w1.config.m_OCFactor = w.status.m_orig_oc_factor) ∧
      (clampTarget J w.status = w.status.m_last_frame → hardFFWEnabled events = false) ∧
      (loadedFrame J events = some (clampTarget J w.status) →
        hardFFWEnabled events = false) ∧
      w1.status.m_curr_playback_frame = clampTarget J w.status ∧
      w1.coreState = w.coreState := by
  obtain ⟨ht1, ht2⟩ := clampTarget_range J w.status hFL
  have hst := seekEnter_status J w
  have htin : inS32 (clampTarget J w.status) := ⟨le_trans hF.1 ht1, le_trans ht2 hL.2⟩
  have htarget : (seekEnter J w).status.m_target_frame_num = clampTarget J w.status := by
    rw [hst]
  have hlast : (seekEnter J w).status.m_last_frame = w.status.m_last_frame := by
    rw [hst]
  have hcurr : (seekEnter J w).status.m_curr_playback_frame = w.status.m_curr_playback_frame := by
    rw [hst]
  have hoce : (seekEnter J w).status.m_orig_oc_enable = w.status.m_orig_oc_enable := by
    rw [hst]
  have hocf : (seekEnter J w).status.m_orig_oc_factor = w.status.m_orig_oc_factor := by
    rw [hst]
  obtain ⟨load, hload, hshape, hloaded⟩ := seekLoad_spec J (seekEnter J w).status hF
    (by rw [htarget]; exact htin) (by rw [htarget]; exact ht1) (by rw [htarget]; omega)
    (by rw [hcurr]; exact hcur)
  have hneeds := needsFastForward_iff J (seekEnter J w).status
  rw [htarget, hlast] at hneeds
  rw [htarget] at hload hloaded
  obtain ⟨hcurr1, hcore1, hffw1⟩ := seekLeave_fields J w.coreState (seekEnter J w)
  rw [hoce, hocf] at hffw1
  have hpause : (if w.coreState ≠ CoreState.Paused then
      [PlaybackEvent.CoreSetState CoreState.Paused] else []) = [] ∨
      (if w.coreState ≠ CoreState.Paused then
        [PlaybackEvent.CoreSetState CoreState.Paused] else []) =
        [PlaybackEvent.CoreSetState CoreState.Paused] := by
    split_ifs
    · exact Or.inr rfl
    · exact Or.inl rfl
  have hrun : SeekToFrame J true w = Except.ok (seekLeave J w.coreState (seekEnter J w),
      (if w.coreState ≠ CoreState.Paused then [PlaybackEvent.CoreSetState CoreState.Paused]
        else []) ++ load ++
      (if needsFastForward J (seekEnter J w).status = true then fastForwardEvents else []) ++
      [PlaybackEvent.CoreSetState w.coreState]) := by
    unfold SeekToFrame
    rw [if_neg (by decide), htarget, hload]
  have hffw := hardFFWEnabled_events _ load (needsFastForward J (seekEnter J w).status)
    w.coreState hpause hshape
  have hlf := loadedFrame_events J _ load (needsFastForward J (seekEnter J w).status)
    w.coreState hpause hshape
  refine ⟨_, _, load, hrun, ?_, hshape, ?_, ?_, ?_, by rw [hcurr1, htarget], hcore1⟩
  · by_cases hn : needsFastForward J (seekEnter J w).status = true
    · rw [if_pos hn, if_pos (hneeds.mp hn)]
    · rw [if_neg hn, if_neg (fun h => hn (hneeds.mpr h))]
  · intro h1 h2
    have hn := hneeds.mpr ⟨h1, h2⟩
    exact ⟨hffw.trans hn, hffw1 hn⟩
  · intro h1
    rw [hffw]
    cases hn : needsFastForward J (seekEnter J w).status with
    | false => rfl
    | true => exact absurd h1 (hneeds.mp hn).2
  · intro h1
    rw [hlf] at h1
    rw [hffw]
    cases hn : needsFastForward J (seekEnter J w).status with
    | false => rfl
    | true => exact absurd (hloaded h1) (hneeds.mp hn).1

/-- Witness of C6: playback at frame 3000, deltas for the checkpoints 778,
1678 and 2578, a seek to frame 1850. -/
theorem seek_fast_forward_witness :
    inS32 slippiGameConstants.PLAYBACK_FIRST_SAVE ∧
    inS32 (playbackWorld (playbackStatus 3000 1850 5000
      [(778, [1]), (1678, [2]), (2578, [3])])).status.m_last_frame ∧
    slippiGameConstants.PLAYBACK_FIRST_SAVE ≤ (playbackWorld (playbackStatus 3000 1850 5000
      [(778, [1]), (1678, [2]), (2578, [3])])).status.m_last_frame ∧
    (playbackWorld (playbackStatus 3000 1850 5000
      [(778, [1]), (1678, [2]), (2578, [3])])).status.m_last_frame -
        slippiGameConstants.PLAYBACK_FIRST_SAVE ≤ INT_MAX ∧
    slippiGameConstants.PLAYBACK_FIRST_SAVE ≤ (playbackWorld (playbackStatus 3000 1850 5000
      [(778, [1]), (1678, [2]), (2578, [3])])).status.m_curr_playback_frame ∧
    ∃ w1 events load,
      SeekToFrame slippiGameConstants true (playbackWorld (playbackStatus 3000 1850 5000
        [(778, [1]), (1678, [2]), (2578, [3])])) = Except.ok (w1, events) ∧
      events =
        (if (playbackWorld (playbackStatus 3000 1850 5000
        [(778, [1]), (1678, [2]), (2578, [3])])).coreState ≠ CoreState.Paused then [PlaybackEvent.CoreSetState CoreState.Paused]
          else []) ++ load ++
        (if clampTarget slippiGameConstants (playbackWorld (playbackStatus 3000 1850 5000
        [(778, [1]), (1678, [2]), (2578, [3])])).status ≠ closestStateFrame slippiGameConstants (clampTarget slippiGameConstants (playbackWorld (playbackStatus 3000 1850 5000
        [(778, [1]), (1678, [2]), (2578, [3])])).status) ∧
            clampTarget slippiGameConstants (playbackWorld (playbackStatus 3000 1850 5000
        [(778, [1]), (1678, [2]), (2578, [3])])).status ≠ (playbackWorld (playbackStatus 3000 1850 5000
        [(778, [1]), (1678, [2]), (2578, [3])])).status.m_last_frame then fastForwardEvents else []) ++
        [PlaybackEvent.CoreSetState (playbackWorld (playbackStatus 3000 1850 5000
        [(778, [1]), (1678, [2]), (2578, [3])])).coreState] ∧
      (load = [] ∨ ∃ src, load = [PlaybackEvent.LoadFromBuffer src]) ∧
      (clampTarget slippiGameConstants (playbackWorld (playbackStatus 3000 1850 5000
        [(778, [1]), (1678, [2]), (2578, [3])])).status ≠ closestStateFrame slippiGameConstants (clampTarget slippiGameConstants (playbackWorld (playbackStatus 3000 1850 5000
        [(778, [1]), (1678, [2]), (2578, [3])])).status) →
        clampTarget slippiGameConstants (playbackWorld (playbackStatus 3000 1850 5000
        [(778, [1]), (1678, [2]), (2578, [3])])).status ≠ (playbackWorld (playbackStatus 3000 1850 5000
        [(778, [1]), (1678, [2]), (2578, [3])])).status.m_last_frame →
        hardFFWEnabled events = true ∧ w1.status.m_hard_ffw = false ∧
        w1.config.m_OCEnable = (playbackWorld (playbackStatus 3000 1850 5000
        [(778, [1]), (1678, [2]), (2578, [3])])).status.m_orig_oc_enable ∧
        w1.config.m_OCFactor = (playbackWorld (playbackStatus 3000 1850 5000
        [(778, [1]), (1678, [2]), (2578, [3])])).status.m_orig_oc_factor) ∧
      (clampTarget slippiGameConstants (playbackWorld (playbackStatus 3000 1850 5000
        [(778, [1]), (1678, [2]), (2578, [3])])).status = (playbackWorld (playbackStatus 3000 1850 5000
        [(778, [1]), (1678, [2]), (2578, [3])])).status.m_last_frame → hardFFWEnabled events = false) ∧
      (loadedFrame slippiGameConstants events = some (clampTarget slippiGameConstants (playbackWorld (playbackStatus 3000 1850 5000
        [(778, [1]), (1678, [2]), (2578, [3])])).status) →
        hardFFWEnabled events = false) ∧
      w1.status.m_curr_playback_frame = clampTarget slippiGameConstants (playbackWorld (playbackStatus 3000 1850 5000
        [(778, [1]), (1678, [2]), (2578, [3])])).status ∧
      w1.coreState = (playbackWorld (playbackStatus 3000 1850 5000
        [(778, [1]), (1678, [2]), (2578, [3])])).coreState :=
  ⟨by decide, by decide, by decide, by decide, by decide,
    seek_fast_forward slippiGameConstants
      (playbackWorld (playbackStatus 3000 1850 5000 [(778, [1]), (1678, [2]), (2578, [3])]))
      (by decide) (by decide) (by decide) (by decide) (by decide)⟩

/-! ## Claim on the load -/

theorem mem_values_of_mapFind? {β : Type} (m : List (Int × β)) (k : Int) (v : β)
    (h : mapFind? m k = some v) : v ∈ m.map Prod.snd := by
  induction m with
  | nil => exact absurd h (by simp [mapFind?])
  | cons e rest ih =>
    obtain ⟨k0, v0⟩ := e
    unfold mapFind? at h
    by_cases hk : k0 = k
    · rw [if_pos hk] at h
      injection h with h
      subst h
      exact List.mem_cons_self _ _
    · rw [if_neg hk] at h
      exact List.mem_cons_of_mem _ (ih h)

/-- C11: for every pool state and every frame `f` that is active, a load of
`f` restores the snapshot of `f` and afterwards no frame other than `f` is
active, and every snapshot that was active under another frame number is in
the available list (behind the snapshots that were available before, in
increasing frame order). -/
theorem load_releases_other_frames (s : CEXISlippi) (payload : List Nat) (ss : SlippiSavestate)
    (hactive : mapFind? s.m_active_savestates (readFrame payload) = some ss) :
    (HandleLoadSavestate s payload).effects =
      s.effects ++ [Effect.SavestateLoad ss (preserveBlocks payload)] ∧
    (∀ g, g ≠ readFrame payload →
      mapFind? (HandleLoadSavestate s payload).m_active_savestates g = none) ∧
    (∀ g old, g ≠ readFrame payload → mapFind? s.m_active_savestates g = some old →
      old ∈ (HandleLoadSavestate s payload).m_available_savestates) ∧
    (HandleLoadSavestate s payload).m_available_savestates =
      s.m_available_savestates ++ s.m_active_savestates.map Prod.snd := by
  rw [HandleLoadSavestate_of_some s payload ss hactive]
  refine ⟨rfl, fun g _ => rfl, fun g old _ hold => ?_, rfl⟩
  exact List.mem_append_right _ (mem_values_of_mapFind? _ g old hold)

/-- Witness of C11: frames 1 to 7 are active and frame 3 is loaded. -/
theorem load_releases_other_frames_witness :
    mapFind? fullPool.m_active_savestates (readFrame (frameBytes 3)) = some { id := 2 } ∧
    ((HandleLoadSavestate fullPool (frameBytes 3)).effects =
      fullPool.effects ++ [Effect.SavestateLoad { id := 2 } (preserveBlocks (frameBytes 3))] ∧
    (∀ g, g ≠ readFrame (frameBytes 3) →
      mapFind? (HandleLoadSavestate fullPool (frameBytes 3)).m_active_savestates g = none) ∧
    (∀ g old, g ≠ readFrame (frameBytes 3) → mapFind? fullPool.m_active_savestates g = some old →
      old ∈ (HandleLoadSavestate fullPool (frameBytes 3)).m_available_savestates) ∧
    (HandleLoadSavestate fullPool (frameBytes 3)).m_available_savestates =
      fullPool.m_available_savestates ++ fullPool.m_active_savestates.map Prod.snd) :=
  ⟨by with_unfolding_all decide,
    load_releases_other_frames fullPool (frameBytes 3) { id := 2 }
      (by with_unfolding_all decide)⟩

/-! ## Claim on the session start -/

theorem scheduleSkips_samePool (s : CEXISlippi) (c : SlippiNetplayClient) (frame : Int) :
    SamePool s (scheduleSkips s c frame) ∧ (scheduleSkips s c frame).effects = s.effects ∧
    (scheduleSkips s c frame).m_read_queue = s.m_read_queue := by
  unfold scheduleSkips
  split_ifs <;> exact ⟨⟨rfl, rfl, rfl⟩, rfl, rfl⟩

theorem consumeSkip_samePool (s : CEXISlippi) :
    SamePool s (consumeSkip s).2 ∧ (consumeSkip s).2.effects = s.effects ∧
    (consumeSkip s).2.m_read_queue = s.m_read_queue := by
  unfold consumeSkip
  split_ifs <;> exact ⟨⟨rfl, rfl, rfl⟩, rfl, rfl⟩

theorem ShouldSkipOnlineFrame_samePool (s : CEXISlippi) (c : SlippiNetplayClient) (frame : Int) :
    SamePool s (ShouldSkipOnlineFrame s c frame).2 ∧
    (ShouldSkipOnlineFrame s c frame).2.effects = s.effects ∧
    (ShouldSkipOnlineFrame s c frame).2.m_read_queue = s.m_read_queue := by
  unfold ShouldSkipOnlineFrame
  split_ifs with h1 h2 h3
  · exact ⟨⟨rfl, rfl, rfl⟩, rfl, rfl⟩
  · exact ⟨⟨rfl, rfl, rfl⟩, rfl, rfl⟩
  · exact ⟨⟨rfl, rfl, rfl⟩, rfl, rfl⟩
  · obtain ⟨⟨a1, a2, a3⟩, a4, a5⟩ :=
      consumeSkip_samePool (scheduleSkips { s with m_stall_frame_count := 0 } c frame)
    obtain ⟨⟨b1, b2, b3⟩, b4, b5⟩ :=
      scheduleSkips_samePool { s with m_stall_frame_count := 0 } c frame
    exact ⟨⟨a1.trans b1, a2.trans b2, a3.trans b3⟩, a4.trans b4, a5.trans b5⟩

theorem HandleSendInputs_samePool (s : CEXISlippi) (payload : List Nat) :
    SamePool s (HandleSendInputs s payload) := by
  unfold HandleSendInputs
  split_ifs <;> exact ⟨rfl, rfl, rfl⟩

theorem enterFrame_of_one (s : CEXISlippi) (payload : List Nat) (h : readFrame payload = 1) :
    (enterFrame s payload).m_active_savestates = [] ∧
    (enterFrame s payload).m_available_savestates.length = 7 ∧
    (enterFrame s payload).m_connection_stalled = false ∧
    (enterFrame s payload).m_stall_frame_count = 0 ∧
    (enterFrame s payload).effects =
      s.effects ++ [Effect.LocalSelectionsReset, Effect.StartSlippiGame] := by
  unfold enterFrame
  rw [if_pos h]
  refine ⟨rfl, ?_, rfl, rfl, rfl⟩
  show ((List.range ROLLBACK_MAX_FRAMES).map
    (fun i => ({ id := s.allocated + i } : SlippiSavestate))).length = 7
  rw [List.length_map, List.length_range]
  rfl

theorem capture_into_empty_pool (s : CEXISlippi) (env : Env) (payload : List Nat) (n : Nat)
    (hactive : s.m_active_savestates = []) (havail : s.m_available_savestates.length = n + 1)
    (hconn : IsDisconnected env = false) :
    ∃ s1 ss, HandleCaptureSavestate s env payload = some s1 ∧
      s1.m_active_savestates = [(readFrame payload, ss)] ∧
      s1.m_available_savestates.length = n ∧
      s1.effects = s.effects ++ [Effect.SavestateCapture ss] := by
  have hne : s.m_available_savestates ≠ [] := by
    intro h0
    rw [h0] at havail
    exact absurd havail (by simp)
  have hlast : s.m_available_savestates.getLast? =
      some (s.m_available_savestates.getLast hne) := List.getLast?_eq_getLast _ hne
  have hg := grabSavestate_of_getLast s.m_active_savestates s.m_available_savestates _ hlast
  have hc := HandleCaptureSavestate_of_grab s env payload _ _ _ hconn hg
  refine ⟨_, s.m_available_savestates.getLast hne, hc, ?_, ?_, rfl⟩
  · show mapInsert (releasePrior (readFrame payload) s.m_active_savestates
      s.m_available_savestates.dropLast).1 (readFrame payload) _ = _
    rw [hactive]
    rfl
  · show (releasePrior (readFrame payload) s.m_active_savestates
      s.m_available_savestates.dropLast).2.length = n
    rw [hactive]
    show s.m_available_savestates.dropLast.length = n
    rw [List.length_dropLast, havail]
    rfl

theorem stallTick_of_zero (s : CEXISlippi) (hcount : s.m_stall_frame_count = 0)
    (hlatch : s.m_connection_stalled = false) :
    (stallTick s).m_stall_frame_count = 1 ∧ (stallTick s).m_connection_stalled = false ∧
    SamePool s (stallTick s) ∧ (stallTick s).effects = s.effects ∧
    (stallTick s).m_read_queue = s.m_read_queue := by
  have h1 : wrapU32 (s.m_stall_frame_count + 1) = 1 := by
    rw [hcount]; with_unfolding_all decide
  refine ⟨h1, ?_, ⟨rfl, rfl, rfl⟩, rfl, rfl⟩
  show (if wrapU32 (s.m_stall_frame_count + 1) > 60 * 7 then true else s.m_connection_stalled) =
    false
  rw [h1, if_neg (by decide), hlatch]

theorem connected_of_not_disconnected (env : Env) (c : SlippiNetplayClient)
    (hclient : env.m_slippi_netplay = some c) (hd : IsDisconnected env = false) :
    c.GetSlippiConnectStatus = SlippiConnectStatus.NET_CONNECT_STATUS_CONNECTED := by
  unfold IsDisconnected at hd
  rw [hclient] at hd
  simpa using hd

theorem ShouldSkipOnlineFrame_no_stall (s : CEXISlippi) (c : SlippiNetplayClient) (frame : Int)
    (hconn : c.GetSlippiConnectStatus = SlippiConnectStatus.NET_CONNECT_STATUS_CONNECTED)
    (hlatch : s.m_connection_stalled = false)
    (hnear : ¬ (7 : Int) ≤ toS32 (frame - c.GetSlippiLatestRemoteFrame)) :
    ShouldSkipOnlineFrame s c frame =
      consumeSkip (scheduleSkips { s with m_stall_frame_count := 0 } c frame) := by
  unfold ShouldSkipOnlineFrame
  have h7 : ¬ toS32 (frame - c.GetSlippiLatestRemoteFrame) ≥ ((ROLLBACK_MAX_FRAMES : Nat) : Int) :=
    hnear
  rw [if_neg (by rw [hconn]; decide), if_neg (by rw [hlatch]; decide), if_neg h7]

theorem ShouldSkipOnlineFrame_no_stall_fields (s : CEXISlippi) (c : SlippiNetplayClient)
    (frame : Int)
    (hconn : c.GetSlippiConnectStatus = SlippiConnectStatus.NET_CONNECT_STATUS_CONNECTED)
    (hlatch : s.m_connection_stalled = false)
    (hnear : ¬ (7 : Int) ≤ toS32 (frame - c.GetSlippiLatestRemoteFrame)) :
    (ShouldSkipOnlineFrame s c frame).2.m_stall_frame_count = 0 ∧
    (ShouldSkipOnlineFrame s c frame).2.m_connection_stalled = false := by
  rw [ShouldSkipOnlineFrame_no_stall s c frame hconn hlatch hnear]
  obtain ⟨hc1, hl1⟩ := consumeSkip_stall_fields
    (scheduleSkips { s with m_stall_frame_count := 0 } c frame)
  obtain ⟨hc2, hl2⟩ := scheduleSkips_stall_fields { s with m_stall_frame_count := 0 } c frame
  rw [hc1, hl1, hc2, hl2]
  exact ⟨rfl, hlatch⟩

theorem frame_one_step_fields (K : SlippiConstants) (e : CEXISlippi) (env : Env)
    (c : SlippiNetplayClient) (payload : List Nat)
    (hclient : env.m_slippi_netplay = some c)
    (hframe : readFrame payload = 1)
    (ha : e.m_active_savestates = []) (hv : e.m_available_savestates.length = 7)
    (hl : e.m_connection_stalled = false) (hc : e.m_stall_frame_count = 0)
    (hpads : IsDisconnected env = false → padsInBounds K env c (readFrame payload) = true) :
    ∃ s1,
      (if IsDisconnected env = true then some (pushRead e 3)
        else if (ShouldSkipOnlineFrame e c (readFrame payload)).1 = true then
          some (pushRead
            (emit (ShouldSkipOnlineFrame e c (readFrame payload)).2 (Effect.SendSlippiPad none)) 2)
        else
          PrepareOpponentInputs K
            (HandleSendInputs (ShouldSkipOnlineFrame e c (readFrame payload)).2 payload)
            env c payload) = some s1 ∧
      s1.m_active_savestates = [] ∧ s1.m_available_savestates.length = 7 ∧
      s1.m_connection_stalled = false ∧
      s1.m_stall_frame_count =
        (if IsDisconnected env = false ∧ (7 : Int) ≤ toS32 (1 - c.GetSlippiLatestRemoteFrame)
          then 1 else 0) := by
  by_cases hd : IsDisconnected env = true
  · rw [if_pos hd]
    have hne : ¬ (IsDisconnected env = false ∧
        (7 : Int) ≤ toS32 (1 - c.GetSlippiLatestRemoteFrame)) := by
      rw [hd]
      exact fun h => absurd h.1 (by decide)
    rw [if_neg hne]
    exact ⟨_, rfl, ha, hv, hl, hc⟩
  · have hd0 : IsDisconnected env = false := by
      cases hb : IsDisconnected env with
      | false => rfl
      | true => exact absurd hb hd
    have hconn := connected_of_not_disconnected env c hclient hd0
    rw [if_neg hd]
    rw [hframe] at hpads
    by_cases hahead : (7 : Int) ≤ toS32 (1 - c.GetSlippiLatestRemoteFrame)
    · rw [hframe, ShouldSkipOnlineFrame_stall e c 1 hconn hl hahead, if_pos rfl,
        if_pos ⟨hd0, hahead⟩]
      obtain ⟨t1, t2, ⟨t3, t4, _⟩, _, _⟩ := stallTick_of_zero e hc hl
      refine ⟨_, rfl, t3.trans ha, ?_, t2, t1⟩
      show (stallTick e).m_available_savestates.length = 7
      rw [t4]; exact hv
    · obtain ⟨k1, k2⟩ := ShouldSkipOnlineFrame_no_stall_fields e c 1 hconn hl hahead
      obtain ⟨⟨p1, p2, _⟩, _, _⟩ := ShouldSkipOnlineFrame_samePool e c 1
      have hne : ¬ (IsDisconnected env = false ∧
          (7 : Int) ≤ toS32 (1 - c.GetSlippiLatestRemoteFrame)) := fun h => hahead h.2
      rw [hframe, if_neg hne]
      generalize ShouldSkipOnlineFrame e c 1 = sk at k1 k2 p1 p2 ⊢
      by_cases hskip : sk.1 = true
      · rw [if_pos hskip]
        refine ⟨_, rfl, p1.trans ha, ?_, k2, k1⟩
        show sk.2.m_available_savestates.length = 7
        rw [p2]; exact hv
      · rw [if_neg hskip]
        obtain ⟨q1, q2⟩ := HandleSendInputs_stall_fields sk.2 payload
        obtain ⟨r1, r2, _⟩ := HandleSendInputs_samePool sk.2 payload
        obtain ⟨s1, h1, _, o1, o2, _, _, o3, o4, _⟩ :=
          PrepareOpponentInputs_of_inBounds K (HandleSendInputs sk.2 payload) env c payload
            (by rw [hframe]; exact hpads hd0)
        refine ⟨s1, h1, ?_, ?_, ?_, ?_⟩
        · rw [o3, r1, p1]; exact ha
        · rw [o4, r2, p2]; exact hv
        · rw [o1, q2]; exact k2
        · rw [o2, q1, k1]

/-- Counterexample to C12 as stated.  When the connection is lost as the
frame-1 call arrives, the call resets the pool and answers code 3; the
capture that follows returns at once, the device being disconnected, and no
snapshot is active after it.  And when the transport reports a latest remote
frame of -6, the frame-1 call is itself held at the rollback limit
(`1 - (-6) >= 7`): the counter, reset to 0 by the session start, is 1 when
the call returns. -/
theorem session_reset_counterexample :
    (HandleOnlineInputs slippiConstants fullPool lostEnv (frameBytes 1 ++ [2])).map
      (fun s1 => (resultCode s1, s1.m_active_savestates, s1.m_available_savestates.length,
        (HandleCaptureSavestate s1 lostEnv (frameBytes 1)).map
          (fun s2 => s2.m_active_savestates.length))) = some (some 3, [], 7, some 0) ∧
    (HandleOnlineInputs slippiConstants fullPool (connectedEnv (-6) 0) (frameBytes 1 ++ [2])).map
      (fun s1 => (s1.m_stall_frame_count, resultCode s1)) = some (1, some 2) := by
  constructor <;> with_unfolding_all decide

/-- C12, amended: whatever the pool, stall counter and stall latch held
before, handling the online-inputs command for frame 1 (with a netplay
client, whose answers keep a Connected call inside its arrays) leaves the
pool with no active snapshot and exactly 7 available slots and the latch
cleared.  The stall counter is reset to 0 before the skip decision: when the
call returns it is 0, or 1 when this very call is held at the rollback limit
(Connected and `1 - R >= 7`).  A subsequent capture made while the
connection is Connected starts from the empty pool and yields exactly one
active snapshot, the one of its frame, leaving 6 slots available; a capture
made while disconnected captures nothing. -/
theorem session_reset (K : SlippiConstants) (s : CEXISlippi) (env : Env)
    (c : SlippiNetplayClient) (payload : List Nat)
    (hclient : env.m_slippi_netplay = some c)
    (hframe : readFrame payload = 1)
    (hpads : IsDisconnected env = false → padsInBounds K env c (readFrame payload) = true) :
    ∃ s1, HandleOnlineInputs K s env payload = some s1 ∧
      s1.m_active_savestates = [] ∧
      s1.m_available_savestates.length = 7 ∧
      s1.m_connection_stalled = false ∧
      s1.m_stall_frame_count =
        (if IsDisconnected env = false ∧ (7 : Int) ≤ toS32 (1 - c.GetSlippiLatestRemoteFrame)
          then 1 else 0) ∧
      (∀ env2 payload2, IsDisconnected env2 = false →
        ∃ s2 ss, HandleCaptureSavestate s1 env2 payload2 = some s2 ∧
          s2.m_active_savestates = [(readFrame payload2, ss)] ∧
          s2.m_available_savestates.length = 6) ∧
      (∀ env2 payload2, IsDisconnected env2 = true →
        HandleCaptureSavestate s1 env2 payload2 = some s1) := by
  obtain ⟨ha, hv, hl, hc, _⟩ := enterFrame_of_one s payload hframe
  obtain ⟨s1, h1, f1, f2, f3, f4⟩ := frame_one_step_fields K (enterFrame s payload) env c payload
    hclient hframe ha hv hl hc hpads
  rw [← HandleOnlineInputs_of_client K s env c payload hclient] at h1
  refine ⟨s1, h1, f1, f2, f3, f4, fun env2 payload2 hconn2 => ?_,
    fun env2 payload2 hdisc2 => HandleCaptureSavestate_of_disconnected s1 env2 payload2 hdisc2⟩
  obtain ⟨s2, ss, g1, g2, g3, _⟩ := capture_into_empty_pool s1 env2 payload2 6 f1 f2 hconn2
  exact ⟨s2, ss, g1, g2, g3⟩

/-- Witness of C12: the frame-1 call of a new session on a device whose pool
is full and whose latch is set, over a Connected connection with latest
remote frame 0. -/
theorem session_reset_witness :
    (connectedEnv 0 0).m_slippi_netplay = some (connectedClient 0 0) ∧
    readFrame (frameBytes 1 ++ [2]) = 1 ∧
    (IsDisconnected (connectedEnv 0 0) = false →
      padsInBounds slippiConstants (connectedEnv 0 0) (connectedClient 0 0)
        (readFrame (frameBytes 1 ++ [2])) = true) ∧
    ∃ s1, HandleOnlineInputs slippiConstants latchedDevice (connectedEnv 0 0)
        (frameBytes 1 ++ [2]) = some s1 ∧
      s1.m_active_savestates = [] ∧
      s1.m_available_savestates.length = 7 ∧
      s1.m_connection_stalled = false ∧
      s1.m_stall_frame_count =
        (if IsDisconnected (connectedEnv 0 0) = false ∧
            (7 : Int) ≤ toS32 (1 - (connectedClient 0 0).GetSlippiLatestRemoteFrame)
          then 1 else 0) ∧
      (∀ env2 payload2, IsDisconnected env2 = false →
        ∃ s2 ss, HandleCaptureSavestate s1 env2 payload2 = some s2 ∧
          s2.m_active_savestates = [(readFrame payload2, ss)] ∧
          s2.m_available_savestates.length = 6) ∧
      (∀ env2 payload2, IsDisconnected env2 = true →
        HandleCaptureSavestate s1 env2 payload2 = some s1) :=
  ⟨rfl, by with_unfolding_all decide, fun _ => by with_unfolding_all decide,
    session_reset slippiConstants latchedDevice (connectedEnv 0 0) (connectedClient 0 0)
      (frameBytes 1 ++ [2]) rfl (by with_unfolding_all decide)
      (fun _ => by with_unfolding_all decide)⟩

/-! ## Claim on the pending deltas -/

theorem seekLeave_thread_fields (J : SlippiGameConstants) (prev : CoreState) (w : PlaybackWorld) :
    (seekLeave J prev w).status.m_should_run_threads = w.status.m_should_run_threads ∧
    (seekLeave J prev w).status.m_future_diffs = w.status.m_future_diffs := by
  unfold seekLeave
  dsimp only
  split_ifs <;> exact ⟨rfl, rfl⟩

theorem SeekToFrame_thread_fields (J : SlippiGameConstants) (free : Bool) (w w1 : PlaybackWorld)
    (h : ((SeekToFrame J free w).toOption).map Prod.fst = some w1) :
    w1.status.m_should_run_threads = w.status.m_should_run_threads ∧
    w1.status.m_future_diffs = w.status.m_future_diffs := by
  unfold SeekToFrame at h
  by_cases hfree : free = false
  · rw [if_pos hfree] at h
    have h2 : some w = some w1 := h
    injection h2 with h2
    subst h2
    exact ⟨rfl, rfl⟩
  · rw [if_neg hfree] at h
    cases hl : seekLoad J (seekEnter J w).status
        (closestStateFrame J (seekEnter J w).status.m_target_frame_num) with
    | error e => rw [hl] at h; exact absurd h (by simp [Except.toOption])
    | ok load =>
      rw [hl] at h
      have h2 : some (seekLeave J w.coreState (seekEnter J w)) = some w1 := h
      injection h2 with h2
      subst h2
      obtain ⟨h3, h4⟩ := seekLeave_thread_fields J w.coreState (seekEnter J w)
      rw [h3, h4, seekEnter_status]
      exact ⟨rfl, rfl⟩

theorem SavestateThread_running (J : SlippiGameConstants)
    (processDiff : List Nat → List Nat → List Nat) (saved1 saved2 : List Nat) (w : PlaybackWorld) :
    (SavestateThread J processDiff saved1 saved2 w).status.m_should_run_threads =
      w.status.m_should_run_threads ∧
    (w.status.m_should_run_threads = false →
      (SavestateThread J processDiff saved1 saved2 w).status.m_future_diffs =
        w.status.m_future_diffs) := by
  unfold SavestateThread
  split_ifs with h1 h2 h3 h4 h5
  · exact ⟨rfl, fun _ => rfl⟩
  · exact ⟨rfl, fun _ => rfl⟩
  · exact ⟨rfl, fun _ => rfl⟩
  · exact ⟨rfl, fun _ => rfl⟩
  · exact ⟨rfl, fun h => absurd h h1⟩
  · exact ⟨rfl, fun _ => rfl⟩

theorem ResetPlayback_thread_fields (st : SlippiPlaybackStatus) (h : DiffsOnlyWhileRunning st) :
    (ResetPlayback st).m_should_run_threads = false ∧ (ResetPlayback st).m_future_diffs = [] := by
  unfold ResetPlayback stopThreads
  by_cases hr : st.m_should_run_threads = true
  · rw [if_pos hr]
    exact ⟨rfl, rfl⟩
  · rw [if_neg hr]
    have hf : st.m_should_run_threads = false := by
      cases hb : st.m_should_run_threads with
      | false => rfl
      | true => exact absurd hb hr
    exact ⟨hf, h hf⟩

theorem playbackStep_diffsOnlyWhileRunning (J : SlippiGameConstants)
    (processDiff : List Nat → List Nat → List Nat) (w w1 : PlaybackWorld) (a : PlaybackAction)
    (h : DiffsOnlyWhileRunning w.status) (hstep : playbackStep J processDiff w a = some w1) :
    DiffsOnlyWhileRunning w1.status := by
  cases a with
  | StartThreads =>
    have h2 : some ({ w with status := StartThreads w.status } : PlaybackWorld) = some w1 := hstep
    injection h2 with h2
    subst h2
    intro hf
    exact absurd hf (by simp [StartThreads])
  | SavestateThread saved1 saved2 =>
    have h2 : some (SavestateThread J processDiff saved1 saved2 w) = some w1 := hstep
    injection h2 with h2
    subst h2
    obtain ⟨h3, h4⟩ := SavestateThread_running J processDiff saved1 saved2 w
    intro hf
    rw [h3] at hf
    rw [h4 hf]
    exact h hf
  | SeekToFrame free =>
    obtain ⟨h3, h4⟩ := SeekToFrame_thread_fields J free w w1 hstep
    intro hf
    rw [h3] at hf
    rw [h4]
    exact h hf
  | ResetPlayback =>
    have h2 : some ({ w with status := ResetPlayback w.status } : PlaybackWorld) = some w1 := hstep
    injection h2 with h2
    subst h2
    intro _
    exact (ResetPlayback_thread_fields w.status h).2
  | SetHardFFW enable =>
    have h2 : some (SetHardFFW enable w) = some w1 := hstep
    injection h2 with h2
    subst h2
    exact h
  | WriteFrames curr target last =>
    have h2 : some ({ w with status := writeFrames curr target last w.status } : PlaybackWorld) =
        some w1 := hstep
    injection h2 with h2
    subst h2
    exact h

theorem playbackRun_diffsOnlyWhileRunning (J : SlippiGameConstants)
    (processDiff : List Nat → List Nat → List Nat) (actions : List PlaybackAction) :
    ∀ w w1 : PlaybackWorld, DiffsOnlyWhileRunning w.status →
      playbackRun J processDiff w actions = some w1 → DiffsOnlyWhileRunning w1.status := by
  induction actions with
  | nil =>
    intro w w1 h hr
    have h2 : some w = some w1 := hr
    injection h2 with h2
    subst h2
    exact h
  | cons a rest ih =>
    intro w w1 h hr
    unfold playbackRun at hr
    cases hs : playbackStep J processDiff w a with
    | none => rw [hs] at hr; exact absurd hr (by simp)
    | some wa =>
      rw [hs, Option.some_bind] at hr
      exact ih wa w1 (playbackStep_diffsOnlyWhileRunning J processDiff w wa a h hs) hr

theorem PlaybackReachable_diffsOnlyWhileRunning (J : SlippiGameConstants)
    (processDiff : List Nat → List Nat → List Nat) (w : PlaybackWorld)
    (h : PlaybackReachable J processDiff w) : DiffsOnlyWhileRunning w.status := by
  obtain ⟨config, core, comm, actions, hr⟩ := h
  exact playbackRun_diffsOnlyWhileRunning J processDiff actions _ w (fun _ => rfl) hr

/-- C13: in every playback state reached from a freshly created status by
`StartThreads`, passes of the savestate worker, seeks, resets and writes of
the frame members, a delta exists only while the worker is flagged as
running; and after `ResetPlayback` the worker is not flagged as running and
the pending-delta map is empty: no frame has a delta. -/
theorem reset_clears_pending_deltas (J : SlippiGameConstants)
    (processDiff : List Nat → List Nat → List Nat) (w : PlaybackWorld)
    (hreach : PlaybackReachable J processDiff w) :
    (w.status.m_should_run_threads = false → w.status.m_future_diffs = []) ∧
    (ResetPlayback w.status).m_should_run_threads = false ∧
    (ResetPlayback w.status).m_future_diffs = [] ∧
    (∀ frame, mapCount (ResetPlayback w.status).m_future_diffs frame = 0) ∧
    (∀ frame, mapFind? (ResetPlayback w.status).m_future_diffs frame = none) := by
  have hinv := PlaybackReachable_diffsOnlyWhileRunning J processDiff w hreach
  obtain ⟨h1, h2⟩ := ResetPlayback_thread_fields w.status hinv
  refine ⟨hinv, h1, h2, fun frame => ?_, fun frame => ?_⟩
  · rw [h2]; rfl
  · rw [h2]; rfl

theorem some_getD_of_isSome {α : Type} (o : Option α) (d : α) (h : o.isSome = true) :
    o = some (o.getD d) := by
  cases o with
  | none => exact absurd h (by simp)
  | some a => rfl

theorem sessionWorld_reachable : PlaybackReachable slippiGameConstants exampleDiff sessionWorld :=
  ⟨(playbackWorld (playbackStatus 0 0 0 [])).config, CoreState.Running,
    (playbackWorld (playbackStatus 0 0 0 [])).replayComm, sessionActions,
    some_getD_of_isSome _ _ (by with_unfolding_all decide)⟩

/-- Witness of C13: a session in which the worker has stored two deltas and a
seek has run; the worker is still flagged as running when it is reset. -/
theorem reset_clears_pending_deltas_witness :
    PlaybackReachable slippiGameConstants exampleDiff sessionWorld ∧
    sessionWorld.status.m_future_diffs = [(778, [2, 3, 4]), (1678, [2, 5, 6])] ∧
    sessionWorld.status.m_curr_playback_frame = 1000 ∧
    ((sessionWorld.status.m_should_run_threads = false →
        sessionWorld.status.m_future_diffs = []) ∧
      (ResetPlayback sessionWorld.status).m_should_run_threads = false ∧
      (ResetPlayback sessionWorld.status).m_future_diffs = [] ∧
      (∀ frame, mapCount (ResetPlayback sessionWorld.status).m_future_diffs frame = 0) ∧
      (∀ frame, mapFind? (ResetPlayback sessionWorld.status).m_future_diffs frame = none)) :=
  ⟨sessionWorld_reachable, by with_unfolding_all decide, by with_unfolding_all decide,
    reset_clears_pending_deltas slippiGameConstants exampleDiff sessionWorld
      sessionWorld_reachable⟩

/-! ## Claim on the order of the submitted inputs -/

theorem HandleSendInputs_of_unlatched (s : CEXISlippi) (payload : List Nat)
    (hlatch : s.m_connection_stalled = false) :
    (HandleSendInputs s payload).effects =
      s.effects ++ (if readFrame payload = 1 then dummyPads (payloadByte payload 4) else []) ++
        [localPad (toS32 (readFrame payload + payloadByte payload 4)) payload] := by
  unfold HandleSendInputs
  rw [if_neg (by rw [hlatch]; decide)]
  rfl

theorem HandleSendInputs_of_latched (s : CEXISlippi) (payload : List Nat)
    (hlatch : s.m_connection_stalled = true) : HandleSendInputs s payload = s := by
  unfold HandleSendInputs
  rw [if_pos hlatch]

theorem dummyPads_spec (delay : Nat) :
    (dummyPads delay).length = delay ∧
    ∀ i, i < delay → (dummyPads delay)[i]? =
      some (Effect.SendSlippiPad (some { frame := (i : Int) + 1, padBuf := none })) := by
  unfold dummyPads
  refine ⟨by rw [List.length_map, List.length_range], fun i hi => ?_⟩
  rw [List.getElem?_map, List.getElem?_range hi]
  simp

theorem payloadByte_lt (payload : List Nat) (i : Nat) : payloadByte payload i < 256 := by
  unfold payloadByte
  exact Nat.mod_lt _ (by decide)

theorem frame_one_continue_effects (K : SlippiConstants) (e : CEXISlippi) (env : Env)
    (c : SlippiNetplayClient) (payload : List Nat)
    (hclient : env.m_slippi_netplay = some c)
    (hconn : c.GetSlippiConnectStatus = SlippiConnectStatus.NET_CONNECT_STATUS_CONNECTED)
    (hframe : readFrame payload = 1)
    (hl : e.m_connection_stalled = false)
    (hnoskip : (ShouldSkipOnlineFrame e c (readFrame payload)).1 = false)
    (hpads : padsInBounds K env c (readFrame payload) = true) :
    ∃ s1,
      (if IsDisconnected env = true then some (pushRead e 3)
        else if (ShouldSkipOnlineFrame e c (readFrame payload)).1 = true then
          some (pushRead
            (emit (ShouldSkipOnlineFrame e c (readFrame payload)).2 (Effect.SendSlippiPad none)) 2)
        else
          PrepareOpponentInputs K
            (HandleSendInputs (ShouldSkipOnlineFrame e c (readFrame payload)).2 payload)
            env c payload) = some s1 ∧
      resultCode s1 = some 1 ∧
      s1.effects = e.effects ++ dummyPads (payloadByte payload 4) ++
        [localPad (1 + (payloadByte payload 4 : Int)) payload] ++
        [Effect.DropOldRemoteInputs 1] := by
  have hd := IsDisconnected_of_connected env c hclient hconn
  rw [if_neg (by rw [hd]; decide), if_neg (by rw [hnoskip]; decide)]
  have hnear : ¬ (7 : Int) ≤ toS32 (readFrame payload - c.GetSlippiLatestRemoteFrame) := by
    intro hahead
    rw [ShouldSkipOnlineFrame_stall e c _ hconn hl hahead] at hnoskip
    exact Bool.noConfusion hnoskip
  obtain ⟨_, k2⟩ := ShouldSkipOnlineFrame_no_stall_fields e c _ hconn hl hnear
  obtain ⟨_, p4, _⟩ := ShouldSkipOnlineFrame_samePool e c (readFrame payload)
  generalize ShouldSkipOnlineFrame e c (readFrame payload) = sk at k2 p4 ⊢
  have hsend := HandleSendInputs_of_unlatched sk.2 payload k2
  obtain ⟨q1, q2⟩ := HandleSendInputs_stall_fields sk.2 payload
  obtain ⟨s1, h1, hcode, _, _, _, _, _, _, _, heff⟩ :=
    PrepareOpponentInputs_of_inBounds K (HandleSendInputs sk.2 payload) env c payload hpads
  have hD := payloadByte_lt payload 4
  have htag : toS32 (readFrame payload + (payloadByte payload 4 : Int)) =
      1 + (payloadByte payload 4 : Int) := by
    rw [hframe]
    apply toS32_of_inS32
    unfold inS32 INT_MIN INT_MAX
    omega
  refine ⟨s1, h1, ?_, ?_⟩
  · rw [hcode, if_neg]
    rw [q2, k2, hconn]
    simp
  · rw [heff, hsend, p4, if_pos hframe, htag, hframe]

/-- Counterexample to C14 as stated: after 421 stalled calls the stall latch
is set.  The next call, frame 100 with the remote frame advanced to 99 and
delay 2, is not skipped (it answers code 3), `HandleSendInputs` runs and
returns at once: no input is submitted for this later frame, the only call
made on the transport is `DropOldRemoteInputs`. -/
theorem send_inputs_counterexample :
    (runOnline slippiConstants CEXISlippi.init (List.replicate 421 stalledCall)).bind
      (fun r =>
        (HandleOnlineInputs slippiConstants r.1 advancedCall.1 advancedCall.2).map
          (fun s1 => (r.1.m_connection_stalled, decide (HandleSendInputs r.1 advancedCall.2 = r.1),
            resultCode s1, s1.effects.drop r.1.effects.length))) =
      some (true, true, some 3, [Effect.DropOldRemoteInputs 100]) := by
  with_unfolding_all decide

/-- C14, amended: for every input delay `D` (the byte at offset 4 of the
payload, 0..255), on a frame-1 call over a Connected connection that is not
skipped, the calls made on the transport are, in this order, `D` empty dummy
inputs tagged with the frames 1, 2, ..., `D` and then the real local input
tagged `1 + D`; with `D = 2` the two dummies precede the real input, tagged
3.  `HandleSendInputs` submits these on frame 1, and on every other frame
exactly one input, tagged `frame + D` (a 32-bit value), as long as the stall
latch is not set; once the latch is set it returns at once and submits
nothing. -/
theorem send_inputs_order (K : SlippiConstants) (s : CEXISlippi) (env : Env)
    (c : SlippiNetplayClient) (payload : List Nat) :
    (env.m_slippi_netplay = some c →
      c.GetSlippiConnectStatus = SlippiConnectStatus.NET_CONNECT_STATUS_CONNECTED →
      readFrame payload = 1 →
      (ShouldSkipOnlineFrame (enterFrame s payload) c (readFrame payload)).1 = false →
      padsInBounds K env c (readFrame payload) = true →
      ∃ s1, HandleOnlineInputs K s env payload = some s1 ∧ resultCode s1 = some 1 ∧
        s1.effects = s.effects ++ [Effect.LocalSelectionsReset, Effect.StartSlippiGame] ++
          dummyPads (payloadByte payload 4) ++
          [localPad (1 + (payloadByte payload 4 : Int)) payload] ++
          [Effect.DropOldRemoteInputs 1]) ∧
    (s.m_connection_stalled = false → readFrame payload = 1 →
      (HandleSendInputs s payload).effects = s.effects ++ dummyPads (payloadByte payload 4) ++
        [localPad (1 + (payloadByte payload 4 : Int)) payload]) ∧
    (s.m_connection_stalled = false → readFrame payload ≠ 1 →
      inS32 (readFrame payload + (payloadByte payload 4 : Int)) →
      (HandleSendInputs s payload).effects =
        s.effects ++ [localPad (readFrame payload + (payloadByte payload 4 : Int)) payload]) ∧
    (s.m_connection_stalled = true → HandleSendInputs s payload = s) ∧
    payloadByte payload 4 < 256 ∧
    (dummyPads (payloadByte payload 4)).length = payloadByte payload 4 ∧
    (∀ i, i < payloadByte payload 4 → (dummyPads (payloadByte payload 4))[i]? =
      some (Effect.SendSlippiPad (some { frame := (i : Int) + 1, padBuf := none }))) ∧
    dummyPads 2 ++ [localPad (1 + 2) payload] =
      [Effect.SendSlippiPad (some { frame := 1, padBuf := none }),
        Effect.SendSlippiPad (some { frame := 2, padBuf := none }),
        Effect.SendSlippiPad (some { frame := 3, padBuf := some (payload.drop 5) })] := by
  have hD := payloadByte_lt payload 4
  refine ⟨fun hclient hconn hframe hnoskip hpads => ?_, fun hlatch hframe => ?_,
    fun hlatch hframe hin => ?_, HandleSendInputs_of_latched s payload, hD,
    (dummyPads_spec _).1, (dummyPads_spec _).2, rfl⟩
  · obtain ⟨_, _, hl, _, heff⟩ := enterFrame_of_one s payload hframe
    obtain ⟨s1, h1, hcode, h2⟩ := frame_one_continue_effects K (enterFrame s payload) env c
      payload hclient hconn hframe hl hnoskip hpads
    rw [← HandleOnlineInputs_of_client K s env c payload hclient] at h1
    refine ⟨s1, h1, hcode, ?_⟩
    rw [h2, heff]
  · rw [HandleSendInputs_of_unlatched s payload hlatch, if_pos hframe, hframe]
    have htag : toS32 (1 + (payloadByte payload 4 : Int)) = 1 + (payloadByte payload 4 : Int) := by
      apply toS32_of_inS32
      unfold inS32 INT_MIN INT_MAX
      omega
    rw [htag]
  · rw [HandleSendInputs_of_unlatched s payload hlatch, if_neg hframe, toS32_of_inS32 _ hin,
      List.append_nil]

/-- Witness of C14: the frame-1 call of a fresh device with delay 2 over a
Connected connection with latest remote frame 0, and the frame-2 call after it. -/
theorem send_inputs_order_witness :
    (∃ s1, HandleOnlineInputs slippiConstants CEXISlippi.init (connectedEnv 0 0)
        (frameBytes 1 ++ [2, 7, 7]) = some s1 ∧ resultCode s1 = some 1 ∧
      s1.effects = CEXISlippi.init.effects ++
        [Effect.LocalSelectionsReset, Effect.StartSlippiGame] ++
        dummyPads (payloadByte (frameBytes 1 ++ [2, 7, 7]) 4) ++
        [localPad (1 + (payloadByte (frameBytes 1 ++ [2, 7, 7]) 4 : Int))
          (frameBytes 1 ++ [2, 7, 7])] ++
        [Effect.DropOldRemoteInputs 1]) ∧
    (HandleSendInputs (sessionStart CEXISlippi.init) (frameBytes 2 ++ [2, 7, 7])).effects =
      (sessionStart CEXISlippi.init).effects ++
        [localPad (readFrame (frameBytes 2 ++ [2, 7, 7]) +
          (payloadByte (frameBytes 2 ++ [2, 7, 7]) 4 : Int)) (frameBytes 2 ++ [2, 7, 7])] ∧
    HandleSendInputs latchedDevice (frameBytes 2 ++ [2, 7, 7]) = latchedDevice :=
  ⟨(send_inputs_order slippiConstants CEXISlippi.init (connectedEnv 0 0) (connectedClient 0 0)
      (frameBytes 1 ++ [2, 7, 7])).1 rfl rfl (by with_unfolding_all decide)
      (by with_unfolding_all decide) (by with_unfolding_all decide),
    (send_inputs_order slippiConstants (sessionStart CEXISlippi.init) (connectedEnv 0 0)
      (connectedClient 0 0) (frameBytes 2 ++ [2, 7, 7])).2.2.1 rfl
      (by with_unfolding_all decide) (by with_unfolding_all decide),
    (send_inputs_order slippiConstants latchedDevice (connectedEnv 0 0)
      (connectedClient 0 0) (frameBytes 2 ++ [2, 7, 7])).2.2.2.1 rfl⟩

/-! ## Claim on skipped calls -/

theorem pushRead_read_queue (s : CEXISlippi) (b : Nat) (h : s.m_read_queue = []) :
    (pushRead s b).m_read_queue = [b] := by
  show s.m_read_queue ++ [b] = [b]
  rw [h]
  rfl

theorem resultCode_pushRead (s : CEXISlippi) (b : Nat) (h : s.m_read_queue = []) :
    resultCode (pushRead s b) = some b := by
  unfold resultCode
  rw [pushRead_read_queue s b h]
  rfl

theorem enterFrame_effects (s : CEXISlippi) (payload : List Nat) :
    (enterFrame s payload).effects =
      s.effects ++ (if readFrame payload = 1 then
        [Effect.LocalSelectionsReset, Effect.StartSlippiGame] else []) := by
  unfold enterFrame
  by_cases h : readFrame payload = 1
  · rw [if_pos h, if_pos h]; rfl
  · rw [if_neg h, if_neg h, List.append_nil]

/-- What a skipped call leaves: the single response byte 2 and one resend of
the unacknowledged inputs after the calls `e` had recorded. -/
theorem skip_step_fields (e t : CEXISlippi) (hq : t.m_read_queue = [])
    (heff : t.effects = e.effects) :
    (pushRead (emit t (Effect.SendSlippiPad none)) 2).m_read_queue = [2] ∧
    resultCode (pushRead (emit t (Effect.SendSlippiPad none)) 2) = some 2 ∧
    (pushRead (emit t (Effect.SendSlippiPad none)) 2).effects =
      e.effects ++ [Effect.SendSlippiPad none] := by
  have h1 : (emit t (Effect.SendSlippiPad none)).m_read_queue = [] := hq
  refine ⟨pushRead_read_queue _ 2 h1, resultCode_pushRead _ 2 h1, ?_⟩
  show t.effects ++ [Effect.SendSlippiPad none] = e.effects ++ [Effect.SendSlippiPad none]
  rw [heff]

theorem online_step_skip_iff (K : SlippiConstants) (e : CEXISlippi) (env : Env)
    (c : SlippiNetplayClient) (payload : List Nat) (s1 : CEXISlippi)
    (hq : e.m_read_queue = [])
    (hstep :
      (if IsDisconnected env = true then some (pushRead e 3)
        else if (ShouldSkipOnlineFrame e c (readFrame payload)).1 = true then
          some (pushRead
            (emit (ShouldSkipOnlineFrame e c (readFrame payload)).2 (Effect.SendSlippiPad none)) 2)
        else
          PrepareOpponentInputs K
            (HandleSendInputs (ShouldSkipOnlineFrame e c (readFrame payload)).2 payload)
            env c payload) = some s1)
    (hcode : resultCode s1 = some 2) :
    IsDisconnected env = false ∧ (ShouldSkipOnlineFrame e c (readFrame payload)).1 = true ∧
    s1 = pushRead
      (emit (ShouldSkipOnlineFrame e c (readFrame payload)).2 (Effect.SendSlippiPad none)) 2 := by
  by_cases hd : IsDisconnected env = true
  · rw [if_pos hd] at hstep
    injection hstep with hstep
    rw [← hstep, resultCode_pushRead e 3 hq] at hcode
    exact absurd hcode (by decide)
  · have hd0 : IsDisconnected env = false := by
      cases hb : IsDisconnected env with
      | false => rfl
      | true => exact absurd hb hd
    rw [if_neg hd] at hstep
    by_cases hskip : (ShouldSkipOnlineFrame e c (readFrame payload)).1 = true
    · rw [if_pos hskip] at hstep
      injection hstep with hstep
      exact ⟨hd0, hskip, hstep.symm⟩
    · rw [if_neg hskip] at hstep
      cases hp : padsInBounds K env c (readFrame payload) with
      | false =>
        unfold PrepareOpponentInputs at hstep
        rw [if_pos hp] at hstep
        exact absurd hstep (by simp)
      | true =>
        obtain ⟨s2, h2, hc2, _⟩ := PrepareOpponentInputs_of_inBounds K
          (HandleSendInputs (ShouldSkipOnlineFrame e c (readFrame payload)).2 payload)
          env c payload hp
        rw [h2] at hstep
        injection hstep with hstep
        rw [← hstep, hc2] at hcode
        split_ifs at hcode <;> exact absurd hcode (by decide)

/-- C15: every per-frame call that returns Skip (response code 2) comes from
a skip decision of `ShouldSkipOnlineFrame` over a Connected connection,
whether taken at the rollback limit or for a scheduled clock-skew skip, and
conversely every call with such a decision returns Skip.  On it no new local
input is submitted to the outbound queue, the unacknowledged inputs are
resent exactly once (`SendSlippiPad` without a pad), as the last call made,
and the response consists solely of the Skip code.  On frame 1 the session
start calls precede the resend. -/
theorem skip_call_effects (K : SlippiConstants) (s : CEXISlippi) (env : Env)
    (payload : List Nat) :
    (∀ s1, HandleOnlineInputs K s env payload = some s1 → resultCode s1 = some 2 →
      s1.m_read_queue = [2] ∧
      s1.effects = s.effects ++
        (if readFrame payload = 1 then [Effect.LocalSelectionsReset, Effect.StartSlippiGame]
          else []) ++ [Effect.SendSlippiPad none] ∧
      submittedPads (s1.effects.drop s.effects.length) = [] ∧
      resendCount (s1.effects.drop s.effects.length) = 1 ∧
      ∃ c, env.m_slippi_netplay = some c ∧ IsDisconnected env = false ∧
        (ShouldSkipOnlineFrame (enterFrame s payload) c (readFrame payload)).1 = true) ∧
    (∀ c, env.m_slippi_netplay = some c → IsDisconnected env = false →
      (ShouldSkipOnlineFrame (enterFrame s payload) c (readFrame payload)).1 = true →
      ∃ s1, HandleOnlineInputs K s env payload = some s1 ∧ resultCode s1 = some 2) := by
  have hq := enterFrame_read_queue s payload
  have he := enterFrame_effects s payload
  constructor
  · intro s1 hstep hcode
    cases hn : env.m_slippi_netplay with
    | none =>
      rw [HandleOnlineInputs_of_no_client K s env payload hn] at hstep
      by_cases h1 : readFrame payload = 1
      · rw [if_pos h1] at hstep
        exact absurd hstep (by simp)
      · rw [if_neg h1] at hstep
        injection hstep with hstep
        rw [← hstep, resultCode_pushRead _ 3 hq] at hcode
        exact absurd hcode (by decide)
    | some c =>
      rw [HandleOnlineInputs_of_client K s env c payload hn] at hstep
      obtain ⟨hd0, hskip, hs1⟩ := online_step_skip_iff K (enterFrame s payload) env c payload s1
        hq hstep hcode
      obtain ⟨_, p4, p5⟩ := ShouldSkipOnlineFrame_samePool (enterFrame s payload) c
        (readFrame payload)
      obtain ⟨f1, _, f3⟩ := skip_step_fields (enterFrame s payload)
        (ShouldSkipOnlineFrame (enterFrame s payload) c (readFrame payload)).2
        (p5.trans hq) p4
      rw [← hs1, he] at f3
      rw [← hs1] at f1
      refine ⟨f1, f3, ?_, ?_, c, rfl, hd0, hskip⟩
      · rw [f3, List.append_assoc, List.drop_left]
        by_cases h1 : readFrame payload = 1
        · rw [if_pos h1]; rfl
        · rw [if_neg h1]; rfl
      · rw [f3, List.append_assoc, List.drop_left]
        by_cases h1 : readFrame payload = 1
        · rw [if_pos h1]; rfl
        · rw [if_neg h1]; rfl
  · intro c hn hd0 hskip
    rw [HandleOnlineInputs_of_client K s env c payload hn, if_neg (by rw [hd0]; decide),
      if_pos hskip]
    obtain ⟨_, p4, p5⟩ := ShouldSkipOnlineFrame_samePool (enterFrame s payload) c
      (readFrame payload)
    obtain ⟨_, f2, _⟩ := skip_step_fields (enterFrame s payload)
      (ShouldSkipOnlineFrame (enterFrame s payload) c (readFrame payload)).2
      (p5.trans hq) p4
    exact ⟨_, rfl, f2⟩

/-- Witness of C15: a call held at the rollback limit (frame 100, latest
remote frame 0) and a call skipped for clock skew (frame 30, offset 30000 us). -/
theorem skip_call_effects_witness :
    (∃ s1, HandleOnlineInputs slippiConstants CEXISlippi.init stalledCall.1 stalledCall.2 =
        some s1 ∧ resultCode s1 = some 2 ∧ s1.m_read_queue = [2] ∧
      s1.effects = [Effect.SendSlippiPad none]) ∧
    (∃ s1, HandleOnlineInputs slippiConstants CEXISlippi.init skewedCall.1 skewedCall.2 =
        some s1 ∧ resultCode s1 = some 2 ∧ s1.m_read_queue = [2] ∧
      s1.effects = [Effect.SendSlippiPad none] ∧ s1.m_frames_to_skip = 1) := by
  obtain ⟨s1, h1, h2⟩ := (skip_call_effects slippiConstants CEXISlippi.init stalledCall.1
    stalledCall.2).2 (connectedClient 0 0) rfl rfl (by with_unfolding_all decide)
  obtain ⟨h3, h4, _⟩ := (skip_call_effects slippiConstants CEXISlippi.init stalledCall.1
    stalledCall.2).1 s1 h1 h2
  obtain ⟨t1, g1, g2⟩ := (skip_call_effects slippiConstants CEXISlippi.init skewedCall.1
    skewedCall.2).2 (connectedClient 29 30000) rfl rfl (by with_unfolding_all decide)
  obtain ⟨g3, g4, _⟩ := (skip_call_effects slippiConstants CEXISlippi.init skewedCall.1
    skewedCall.2).1 t1 g1 g2
  refine ⟨⟨s1, h1, h2, h3, ?_⟩, ⟨t1, g1, g2, g3, ?_, ?_⟩⟩
  · rw [h4]; with_unfolding_all decide
  · rw [g4]; with_unfolding_all decide
  · have g5 : HandleOnlineInputs slippiConstants CEXISlippi.init skewedCall.1 skewedCall.2 =
        some (pushRead (emit (ShouldSkipOnlineFrame (enterFrame CEXISlippi.init skewedCall.2)
          (connectedClient 29 30000) (readFrame skewedCall.2)).2 (Effect.SendSlippiPad none)) 2) :=
      by
        rw [HandleOnlineInputs_of_client slippiConstants CEXISlippi.init skewedCall.1
          (connectedClient 29 30000) skewedCall.2 rfl]
        with_unfolding_all decide
    rw [g5] at g1
    injection g1 with g1
    rw [← g1]
    with_unfolding_all decide

/-! ## Claim on the latch after it is set -/

theorem pushRead_stall_fields (s : CEXISlippi) (b : Nat) :
    (pushRead s b).m_connection_stalled = s.m_connection_stalled ∧
    (pushRead s b).m_stall_frame_count = s.m_stall_frame_count := ⟨rfl, rfl⟩

theorem HandleOnlineInputs_latched_later (K : SlippiConstants) (s : CEXISlippi)
    (call : Env × List Nat) (hlatch : s.m_connection_stalled = true) (hcall : LaterCall K call) :
    ∃ s1, HandleOnlineInputs K s call.1 call.2 = some s1 ∧ resultCode s1 = some 3 ∧
      s1.m_connection_stalled = true := by
  obtain ⟨hne, hpads⟩ := hcall
  have hq := enterFrame_read_queue s call.2
  have hl : (enterFrame s call.2).m_connection_stalled = true := by
    rw [enterFrame_of_ne_one s call.2 hne]; exact hlatch
  cases hn : call.1.m_slippi_netplay with
  | none =>
    rw [HandleOnlineInputs_of_no_client K s call.1 call.2 hn, if_neg hne]
    exact ⟨pushRead (enterFrame s call.2) 3, rfl, resultCode_pushRead (enterFrame s call.2) 3 hq,
      (pushRead_stall_fields (enterFrame s call.2) 3).1.trans hl⟩
  | some c =>
    by_cases hd : IsDisconnected call.1 = true
    · rw [HandleOnlineInputs_of_client K s call.1 c call.2 hn, if_pos hd]
      exact ⟨pushRead (enterFrame s call.2) 3, rfl,
        resultCode_pushRead (enterFrame s call.2) 3 hq,
        (pushRead_stall_fields (enterFrame s call.2) 3).1.trans hl⟩
    · have hd0 : IsDisconnected call.1 = false := by
        cases hb : IsDisconnected call.1 with
        | false => rfl
        | true => exact absurd hb hd
      obtain ⟨s1, h1, h2, h3, _⟩ := HandleOnlineInputs_latched K s call.1 c call.2 hn
        (connected_of_not_disconnected call.1 c hn hd0) hl (hpads c hn hd0)
      exact ⟨s1, h1, h2, h3⟩

theorem HandleOnlineInputs_latch_kept (K : SlippiConstants) (s s1 : CEXISlippi) (env : Env)
    (payload : List Nat) (hlatch : s.m_connection_stalled = true) (hne : readFrame payload ≠ 1)
    (hstep : HandleOnlineInputs K s env payload = some s1) : s1.m_connection_stalled = true := by
  have hl : (enterFrame s payload).m_connection_stalled = true := by
    rw [enterFrame_of_ne_one s payload hne]; exact hlatch
  have hpush := (pushRead_stall_fields (enterFrame s payload) 3).1.trans hl
  cases hn : env.m_slippi_netplay with
  | none =>
    rw [HandleOnlineInputs_of_no_client K s env payload hn, if_neg hne] at hstep
    injection hstep with hstep
    rw [← hstep]
    exact hpush
  | some c =>
    rw [HandleOnlineInputs_of_client K s env c payload hn,
      ShouldSkipOnlineFrame_latched (enterFrame s payload) c (readFrame payload) hl] at hstep
    by_cases hd : IsDisconnected env = true
    · rw [if_pos hd] at hstep
      injection hstep with hstep
      rw [← hstep]
      exact hpush
    · rw [if_neg hd, if_neg Bool.false_ne_true, HandleSendInputs_of_latched _ payload hl] at hstep
      exact (PrepareOpponentInputs_stall_fields K _ s1 env c payload hstep).2.trans hl

theorem run_latch_kept (K : SlippiConstants) (cmds : List Command) :
    ∀ s s1 : CEXISlippi, s.m_connection_stalled = true → (∀ cmd ∈ cmds, cmd.isLater) →
      run K s cmds = some s1 → s1.m_connection_stalled = true := by
  induction cmds with
  | nil =>
    intro s s1 h _ hr
    have h2 : some s = some s1 := hr
    injection h2 with h2
    subst h2
    exact h
  | cons cmd rest ih =>
    intro s s1 h hcmds hr
    unfold run at hr
    cases hs : step K s cmd with
    | none => rw [hs] at hr; exact absurd hr (by simp)
    | some sa =>
      rw [hs] at hr
      refine ih sa s1 ?_ (fun c hc => hcmds c (List.mem_cons_of_mem _ hc)) hr
      have hlater := hcmds cmd (List.mem_cons_self _ _)
      cases cmd with
      | OnlineInputs env payload =>
        exact HandleOnlineInputs_latch_kept K s sa env payload h hlater hs
      | CaptureSavestate env payload =>
        exact (HandleCaptureSavestate_stall_fields s sa env payload hs).2.trans h
      | LoadSavestate payload =>
        have hs2 : some (HandleLoadSavestate s payload) = some sa := hs
        injection hs2 with hs2
        subst hs2
        exact (HandleLoadSavestate_stall_fields s payload).2.trans h

theorem runOnline_latched_later (K : SlippiConstants) (calls : List (Env × List Nat)) :
    ∀ s : CEXISlippi, s.m_connection_stalled = true →
      (∀ call ∈ calls, LaterCall K call) →
      ∃ s1, runOnline K s calls = some (s1, List.replicate calls.length (some 3)) ∧
        s1.m_connection_stalled = true := by
  induction calls with
  | nil => intro s hl _; exact ⟨s, rfl, hl⟩
  | cons call rest ih =>
    intro s hl hcalls
    obtain ⟨sa, hstep, hcode, hla⟩ :=
      HandleOnlineInputs_latched_later K s call hl (hcalls call (by simp))
    obtain ⟨s1, hrun, hl1⟩ := ih sa hla (fun call1 h1 => hcalls call1 (by simp [h1]))
    refine ⟨s1, ?_, hl1⟩
    rw [runOnline_cons_of_some K s sa s1 call rest _ hstep hrun, hcode]
    rfl

/-- C16: once the permanently-stalled latch is set it stays set over every
sequence of later per-frame calls of the session (calls for frames other
than the session start frame 1, over any connection state, with any latest
remote frame), each of which has a defined outcome and answers code 3, never
Skip; and in every state with the latch set `ShouldSkipOnlineFrame` returns
false and changes nothing, whatever the connection status, `current - R`,
the stall counter and the scheduled skip frames are.  Captures and loads
between the calls leave the latch set as well; only the session start of a
frame-1 call clears it. -/
theorem latch_is_sticky (K : SlippiConstants) (s : CEXISlippi) (calls : List (Env × List Nat))
    (hlatch : s.m_connection_stalled = true)
    (hcalls : ∀ call ∈ calls, LaterCall K call) :
    ∃ s1, runOnline K s calls = some (s1, List.replicate calls.length (some 3)) ∧
      s1.m_connection_stalled = true ∧
      (∀ c frame, ShouldSkipOnlineFrame s1 c frame = (false, s1)) ∧
      (∀ c payload, readFrame payload ≠ 1 →
        (ShouldSkipOnlineFrame (enterFrame s1 payload) c (readFrame payload)).1 = false ∧
        (ShouldSkipOnlineFrame (enterFrame s1 payload) c
          (readFrame payload)).2.m_connection_stalled = true) ∧
      (∀ payload, readFrame payload = 1 →
        (enterFrame s1 payload).m_connection_stalled = false) ∧
      (∀ cmds s2, (∀ cmd ∈ cmds, cmd.isLater) → run K s1 cmds = some s2 →
        s2.m_connection_stalled = true) := by
  obtain ⟨s1, hrun, hl1⟩ := runOnline_latched_later K calls s hlatch hcalls
  refine ⟨s1, hrun, hl1, fun c frame => ShouldSkipOnlineFrame_latched s1 c frame hl1,
    fun c payload hne => ?_, fun payload h1 => (enterFrame_of_one s1 payload h1).2.2.1,
    fun cmds s2 hcmds hr => run_latch_kept K cmds s1 s2 hl1 hcmds hr⟩
  have hl : (enterFrame s1 payload).m_connection_stalled = true := by
    rw [enterFrame_of_ne_one s1 payload hne]; exact hl1
  have hdec := ShouldSkipOnlineFrame_latched (enterFrame s1 payload) c (readFrame payload) hl
  exact ⟨congrArg Prod.fst hdec, (congrArg (fun r => r.2.m_connection_stalled) hdec).trans hl⟩

theorem laterCalls_later : ∀ call ∈ laterCalls, LaterCall slippiConstants call := by
  intro call hcall
  unfold laterCalls at hcall
  rcases List.mem_cons.mp hcall with h | hcall
  · rw [h]
    exact ⟨by with_unfolding_all decide, fun c hc _ => by
      have h2 : some (connectedClient 99 0) = some c := hc
      injection h2 with h2
      rw [← h2]
      with_unfolding_all decide⟩
  · rcases List.mem_cons.mp hcall with h | hcall
    · rw [h]
      exact ⟨by with_unfolding_all decide, fun c hc _ => by
        have h2 : some (connectedClient 0 0) = some c := hc
        injection h2 with h2
        rw [← h2]
        with_unfolding_all decide⟩
    · rw [List.mem_singleton.mp hcall]
      exact ⟨by with_unfolding_all decide, fun c hc _ => by
        have h2 : (none : Option SlippiNetplayClient) = some c := hc
        exact absurd h2 (by simp)⟩

/-- Witness of C16: the device with the latch set, the counter at 421 and
three later calls. -/
theorem latch_is_sticky_witness :
    latchedDevice.m_connection_stalled = true ∧
    (∀ call ∈ laterCalls, LaterCall slippiConstants call) ∧
    ∃ s1, runOnline slippiConstants latchedDevice laterCalls =
        some (s1, List.replicate laterCalls.length (some 3)) ∧
      s1.m_connection_stalled = true ∧
      (∀ c frame, ShouldSkipOnlineFrame s1 c frame = (false, s1)) ∧
      (∀ c payload, readFrame payload ≠ 1 →
        (ShouldSkipOnlineFrame (enterFrame s1 payload) c (readFrame payload)).1 = false ∧
        (ShouldSkipOnlineFrame (enterFrame s1 payload) c
          (readFrame payload)).2.m_connection_stalled = true) ∧
      (∀ payload, readFrame payload = 1 →
        (enterFrame s1 payload).m_connection_stalled = false) ∧
      (∀ cmds s2, (∀ cmd ∈ cmds, cmd.isLater) →
        run slippiConstants s1 cmds = some s2 → s2.m_connection_stalled = true) :=
  ⟨rfl, laterCalls_later,
    latch_is_sticky slippiConstants latchedDevice laterCalls rfl laterCalls_later⟩

/-! ## Claim on the reported latest frames -/

theorem flatMap_block {α : Type} (g : α → List Nat) (hg : ∀ a, (g a).length = 4) :
    ∀ (xs : List α) (i : Nat) (rest : List Nat) (a : α), xs[i]? = some a →
      ((xs.flatMap g ++ rest).drop (4 * i)).take 4 = g a := by
  intro xs
  induction xs with
  | nil => intro i rest a h; exact absurd h (by simp)
  | cons x tail ih =>
    intro i rest a h
    rw [List.flatMap_cons, List.append_assoc]
    cases i with
    | zero =>
      have hx : x = a := by simpa using h
      rw [← hx]
      exact List.take_left' (hg x)
    | succ j =>
      have h2 : tail[j]? = some a := by simpa using h
      have h4 : 4 * (j + 1) = (g x).length + 4 * j := by rw [hg x]; omega
      rw [h4, List.drop_append]
      exact ih j rest a h2

theorem flatMap_length {α : Type} (g : α → List Nat) (hg : ∀ a, (g a).length = 4) :
    ∀ xs : List α, (xs.flatMap g).length = 4 * xs.length := by
  intro xs
  induction xs with
  | nil => rfl
  | cons x tail ih =>
    rw [List.flatMap_cons, List.length_append, hg x, ih, List.length_cons]
    omega

theorem uint32ToVector_length (num : Nat) : (uint32ToVector num).length = 4 := rfl

theorem uint32ToVector_toU32 (f : Int) : uint32ToVector (toU32 f) = frameBytes f := by
  have hu : toU32 f < 4294967296 := by unfold toU32; omega
  unfold uint32ToVector frameBytes
  congr 1
  · omega
  · congr 1
    · omega
    · congr 1
      · omega

theorem readFrame_take (l : List Nat) : readFrame l = readFrame (l.take 4) := by
  have h : ∀ i, i < 4 → payloadByte (l.take 4) i = payloadByte l i := by
    intro i hi
    unfold payloadByte
    rw [List.getD_eq_getElem?_getD, List.getD_eq_getElem?_getD, List.getElem?_take_of_lt hi]
  unfold readFrame
  rw [h 0 (by decide), h 1 (by decide), h 2 (by decide), h 3 (by decide)]

theorem readFrame_of_take (l : List Nat) (f : Int) (hf : inS32 f)
    (h : l.take 4 = uint32ToVector (toU32 f)) : readFrame l = f := by
  rw [readFrame_take, h, uint32ToVector_toU32]
  have := readFrame_frameBytes f [] hf
  rw [List.append_nil] at this
  exact this

theorem inS32_readFrame (payload : List Nat) : inS32 (readFrame payload) := by
  unfold readFrame inS32 INT_MIN INT_MAX toS32
  omega

theorem reportedLatestFrame_eq_min (frame : Int) (r : SlippiRemotePadOutput) :
    reportedLatestFrame frame r = min r.latestFrame frame := by
  unfold reportedLatestFrame
  split_ifs with h
  · exact (min_eq_right (le_of_lt h)).symm
  · exact (min_eq_left (not_lt.mp h)).symm

theorem PrepareOpponentInputs_read_queue (K : SlippiConstants) (s : CEXISlippi) (env : Env)
    (c : SlippiNetplayClient) (payload : List Nat)
    (hpads : padsInBounds K env c (readFrame payload) = true) :
    ∃ s1 code pads, PrepareOpponentInputs K s env c payload = some s1 ∧
      s1.m_read_queue = [code, env.RemotePlayerCount % 256] ++
        ((List.range (env.RemotePlayerCount % 256)).map
          (fun i => c.GetSlippiRemotePad (readFrame payload) i)).flatMap
          (fun r => uint32ToVector (toU32 (reportedLatestFrame (readFrame payload) r))) ++
        (List.range (K.SLIPPI_REMOTE_PLAYER_MAX - env.RemotePlayerCount % 256)).flatMap
          (fun _ => uint32ToVector (toU32 (readFrame payload))) ++ pads := by
  unfold PrepareOpponentInputs
  rw [if_neg (by rw [hpads]; decide)]
  exact ⟨_, _, _, rfl, rfl⟩

theorem latestFrameWord_peer (code n : Nat) (frame : Int)
    (pad : Nat → SlippiRemotePadOutput) (unused pads : List Nat) (i : Nat) (hi : i < n) :
    latestFrameWord ([code, n] ++
        ((List.range n).map pad).flatMap
          (fun r => uint32ToVector (toU32 (reportedLatestFrame frame r))) ++ unused ++ pads) i =
      uint32ToVector (toU32 (reportedLatestFrame frame (pad i))) := by
  unfold latestFrameWord
  have h2 : 2 + 4 * i = [code, n].length + 4 * i := rfl
  rw [List.append_assoc, List.append_assoc, h2, List.drop_append]
  apply flatMap_block _ (fun r => uint32ToVector_length _)
  rw [List.getElem?_map, List.getElem?_range hi]
  rfl

theorem latestFrameWord_unused (code n max : Nat) (frame : Int)
    (pad : Nat → SlippiRemotePadOutput) (pads : List Nat) (i : Nat) (hn : n ≤ i) (hi : i < max) :
    latestFrameWord ([code, n] ++
        ((List.range n).map pad).flatMap
          (fun r => uint32ToVector (toU32 (reportedLatestFrame frame r))) ++
        (List.range (max - n)).flatMap (fun _ => uint32ToVector (toU32 frame)) ++ pads) i =
      uint32ToVector (toU32 frame) := by
  unfold latestFrameWord
  have hlen : (((List.range n).map pad).flatMap
      (fun r => uint32ToVector (toU32 (reportedLatestFrame frame r)))).length = 4 * n := by
    rw [flatMap_length _ (fun r => uint32ToVector_length _), List.length_map, List.length_range]
  have h2 : 2 + 4 * i = [code, n].length + 4 * i := rfl
  rw [List.append_assoc, List.append_assoc, h2, List.drop_append]
  have h4 : 4 * i = (((List.range n).map pad).flatMap
      (fun r => uint32ToVector (toU32 (reportedLatestFrame frame r)))).length + 4 * (i - n) := by
    rw [hlen]; omega
  rw [h4, List.drop_append]
  apply flatMap_block (fun _ => uint32ToVector (toU32 frame)) (fun r => uint32ToVector_length _)
    _ _ _ (i - n)
  rw [List.getElem?_range (by omega)]

/-- C17: for every requested frame `f` and every call whose collaborator
answers keep `PrepareOpponentInputs` inside its arrays, the response reports
for every connected remote peer `i` the word `min(latest_i, f)`, `latest_i`
being the peer's latest known frame (a 32-bit value): the peer's true latest
frame when the peer is behind `f`, and never a frame beyond the one
requested; every unused peer slot reports `f` itself.  The words are the
big-endian words at offset `2 + 4 * i` of the response, read back as the game
reads a frame number. -/
theorem reported_latest_frame (K : SlippiConstants) (s : CEXISlippi) (env : Env)
    (c : SlippiNetplayClient) (payload : List Nat)
    (hpads : padsInBounds K env c (readFrame payload) = true) :
    ∃ s1, PrepareOpponentInputs K s env c payload = some s1 ∧
      (∀ i, i < env.RemotePlayerCount % 256 →
        latestFrameWord s1.m_read_queue i = uint32ToVector (toU32
          (min (c.GetSlippiRemotePad (readFrame payload) i).latestFrame (readFrame payload))) ∧
        (inS32 (c.GetSlippiRemotePad (readFrame payload) i).latestFrame →
          readFrame (s1.m_read_queue.drop (2 + 4 * i)) =
            min (c.GetSlippiRemotePad (readFrame payload) i).latestFrame (readFrame payload) ∧
          readFrame (s1.m_read_queue.drop (2 + 4 * i)) ≤ readFrame payload ∧
          ((c.GetSlippiRemotePad (readFrame payload) i).latestFrame < readFrame payload →
            readFrame (s1.m_read_queue.drop (2 + 4 * i)) =
              (c.GetSlippiRemotePad (readFrame payload) i).latestFrame))) ∧
      (∀ i, env.RemotePlayerCount % 256 ≤ i → i < K.SLIPPI_REMOTE_PLAYER_MAX →
        latestFrameWord s1.m_read_queue i = uint32ToVector (toU32 (readFrame payload)) ∧
        readFrame (s1.m_read_queue.drop (2 + 4 * i)) = readFrame payload) := by
  obtain ⟨s1, code, pads, h1, hq⟩ := PrepareOpponentInputs_read_queue K s env c payload hpads
  have hf := inS32_readFrame payload
  refine ⟨s1, h1, fun i hi => ?_, fun i hn hi => ?_⟩
  · have hw : latestFrameWord s1.m_read_queue i = uint32ToVector (toU32
        (min (c.GetSlippiRemotePad (readFrame payload) i).latestFrame (readFrame payload))) := by
      rw [hq, latestFrameWord_peer _ _ _ _ _ _ i hi, reportedLatestFrame_eq_min]
    refine ⟨hw, fun hin => ?_⟩
    have hmin : inS32 (min (c.GetSlippiRemotePad (readFrame payload) i).latestFrame
        (readFrame payload)) := by
      rcases min_choice (c.GetSlippiRemotePad (readFrame payload) i).latestFrame
        (readFrame payload) with h | h
      · rw [h]; exact hin
      · rw [h]; exact hf
    have hr := readFrame_of_take (s1.m_read_queue.drop (2 + 4 * i)) _ hmin hw
    refine ⟨hr, ?_, fun hlt => ?_⟩
    · rw [hr]; exact min_le_right _ _
    · rw [hr]; exact min_eq_left (le_of_lt hlt)
  · have hw : latestFrameWord s1.m_read_queue i = uint32ToVector (toU32 (readFrame payload)) := by
      rw [hq, latestFrameWord_unused _ _ _ _ _ _ i hn hi]
    exact ⟨hw, readFrame_of_take (s1.m_read_queue.drop (2 + 4 * i)) _ hf hw⟩

/-- Witness of C17: frame 100 requested from two peers, the first at frame
95, the second at frame 103; the third slot is unused. -/
theorem reported_latest_frame_witness :
    padsInBounds slippiConstants twoPeerEnv twoPeerClient (readFrame (frameBytes 100 ++ [2])) =
      true ∧
    (PrepareOpponentInputs slippiConstants CEXISlippi.init twoPeerEnv twoPeerClient
        (frameBytes 100 ++ [2])).map
      (fun s1 => (readFrame (s1.m_read_queue.drop 2), readFrame (s1.m_read_queue.drop 6),
        readFrame (s1.m_read_queue.drop 10))) = some (95, 100, 100) ∧
    ∃ s1, PrepareOpponentInputs slippiConstants CEXISlippi.init twoPeerEnv twoPeerClient
        (frameBytes 100 ++ [2]) = some s1 ∧
      (∀ i, i < twoPeerEnv.RemotePlayerCount % 256 →
        latestFrameWord s1.m_read_queue i = uint32ToVector (toU32
          (min (twoPeerClient.GetSlippiRemotePad (readFrame (frameBytes 100 ++ [2])) i).latestFrame
            (readFrame (frameBytes 100 ++ [2])))) ∧
        (inS32 (twoPeerClient.GetSlippiRemotePad (readFrame (frameBytes 100 ++ [2]))
            i).latestFrame →
          readFrame (s1.m_read_queue.drop (2 + 4 * i)) =
            min (twoPeerClient.GetSlippiRemotePad (readFrame (frameBytes 100 ++ [2]))
              i).latestFrame (readFrame (frameBytes 100 ++ [2])) ∧
          readFrame (s1.m_read_queue.drop (2 + 4 * i)) ≤ readFrame (frameBytes 100 ++ [2]) ∧
          ((twoPeerClient.GetSlippiRemotePad (readFrame (frameBytes 100 ++ [2]))
              i).latestFrame < readFrame (frameBytes 100 ++ [2]) →
            readFrame (s1.m_read_queue.drop (2 + 4 * i)) =
              (twoPeerClient.GetSlippiRemotePad (readFrame (frameBytes 100 ++ [2]))
                i).latestFrame))) ∧
      (∀ i, twoPeerEnv.RemotePlayerCount % 256 ≤ i →
        i < slippiConstants.SLIPPI_REMOTE_PLAYER_MAX →
        latestFrameWord s1.m_read_queue i =
          uint32ToVector (toU32 (readFrame (frameBytes 100 ++ [2]))) ∧
        readFrame (s1.m_read_queue.drop (2 + 4 * i)) = readFrame (frameBytes 100 ++ [2])) :=
  ⟨by with_unfolding_all decide, by with_unfolding_all decide,
    reported_latest_frame slippiConstants CEXISlippi.init twoPeerEnv twoPeerClient
      (frameBytes 100 ++ [2]) (by with_unfolding_all decide)⟩

/-! ## Claim on the fast-forward decision -/

/-- C18 (the code departs from the claim where the subtraction overflows):
for every 32-bit frame index `f`, every 32-bit last fast-forwarded frame and
every flag state, `ShouldFFWFrame(f)` is true whenever hard fast-forward is
on, whatever the soft flag and the last fast-forwarded frame are, and false
when both flags are off.  With only soft on it is true exactly when
`15 <= f - lastFFWFrame <= INT_MAX`, or when `f - lastFFWFrame` is below
`INT_MIN` and wraps to at least 15.  So when `f - lastFFWFrame` exceeds
`INT_MAX`, as for every `f >= 0` while the last fast-forwarded frame is at
its `INT_MIN` sentinel, the difference is at least 15 and the function
answers false.  With only soft on it is false for every frame fewer than 15
frames after the last fast-forwarded frame. -/
theorem should_ffw_frame (st : SlippiPlaybackStatus) (f : Int)
    (hf : inS32 f) (hlast : inS32 st.m_last_ffw_frame) :
    (st.m_hard_ffw = true → ShouldFFWFrame st f = true) ∧
    (st.m_hard_ffw = false → st.m_soft_ffw = false → ShouldFFWFrame st f = false) ∧
    (st.m_hard_ffw = false → st.m_soft_ffw = true →
      (ShouldFFWFrame st f = true ↔
        (15 ≤ f - st.m_last_ffw_frame ∧ f - st.m_last_ffw_frame ≤ INT_MAX) ∨
        (f - st.m_last_ffw_frame < INT_MIN ∧ 15 ≤ f - st.m_last_ffw_frame + 4294967296))) ∧
    (st.m_hard_ffw = false → st.m_soft_ffw = true → f - st.m_last_ffw_frame > INT_MAX →
      f - st.m_last_ffw_frame ≥ 15 ∧ ShouldFFWFrame st f = false) ∧
    (st.m_hard_ffw = false → st.m_soft_ffw = true → st.m_last_ffw_frame ≤ f →
      f < st.m_last_ffw_frame + 15 → ShouldFFWFrame st f = false) := by
  obtain ⟨h1, h2⟩ := hf
  obtain ⟨h3, h4⟩ := hlast
  unfold INT_MIN at h1 h3
  unfold INT_MAX at h2 h4
  have hsoft : st.m_hard_ffw = false → st.m_soft_ffw = true →
      (ShouldFFWFrame st f = true ↔
        (15 ≤ f - st.m_last_ffw_frame ∧ f - st.m_last_ffw_frame ≤ INT_MAX) ∨
        (f - st.m_last_ffw_frame < INT_MIN ∧ 15 ≤ f - st.m_last_ffw_frame + 4294967296)) := by
    intro hh hs
    unfold ShouldFFWFrame
    rw [if_neg (fun h => by rw [hs] at h; exact Bool.noConfusion h.1),
      if_neg (by rw [hh]; exact Bool.false_ne_true), decide_eq_true_iff]
    unfold toS32 INT_MIN INT_MAX
    omega
  refine ⟨fun hh => ?_, fun hh hs => ?_, hsoft, fun hh hs hov => ⟨?_, ?_⟩,
    fun hh hs hle hlt => ?_⟩
  · unfold ShouldFFWFrame
    rw [if_neg (fun h => by rw [hh] at h; exact Bool.noConfusion h.2), if_pos hh]
  · unfold ShouldFFWFrame
    rw [if_pos ⟨hs, hh⟩]
  · unfold INT_MAX at hov
    omega
  · cases hr : ShouldFFWFrame st f with
    | false => rfl
    | true =>
      exfalso
      have := (hsoft hh hs).mp hr
      unfold INT_MIN INT_MAX at this hov
      omega
  · cases hr : ShouldFFWFrame st f with
    | false => rfl
    | true =>
      exfalso
      have := (hsoft hh hs).mp hr
      unfold INT_MIN INT_MAX at this
      omega

/-- Witness of C18: with only soft fast-forward on and the last
fast-forwarded frame at `INT_MIN`, frame 100 is not fast-forwarded although
`100 - INT_MIN >= 15`.  With frame 100 the last fast-forwarded frame, frame
114 is not fast-forwarded and frame 115 is; with hard on, frame 101 is. -/
theorem should_ffw_frame_witness :
    inS32 100 ∧ inS32 (ffwStatus false true INT_MIN).m_last_ffw_frame ∧
    (ffwStatus false true INT_MIN).m_hard_ffw = false ∧
    (ffwStatus false true INT_MIN).m_soft_ffw = true ∧
    (100 : Int) - (ffwStatus false true INT_MIN).m_last_ffw_frame > INT_MAX ∧
    ((100 : Int) - (ffwStatus false true INT_MIN).m_last_ffw_frame ≥ 15 ∧
      ShouldFFWFrame (ffwStatus false true INT_MIN) 100 = false) ∧
    ShouldFFWFrame (ffwStatus false true 100) 114 = false ∧
    ShouldFFWFrame (ffwStatus false true 100) 115 = true ∧
    ShouldFFWFrame (ffwStatus true true 100) 101 = true ∧
    ShouldFFWFrame (ffwStatus true false 100) 101 = true ∧
    ShouldFFWFrame (ffwStatus false false 100) 200 = false :=
  ⟨by decide, by decide, rfl, rfl, by decide,
    (should_ffw_frame (ffwStatus false true INT_MIN) 100 (by decide) (by decide)).2.2.2.1
      rfl rfl (by decide),
    (should_ffw_frame (ffwStatus false true 100) 114 (by decide) (by decide)).2.2.2.2
      rfl rfl (by decide) (by decide),
    ((should_ffw_frame (ffwStatus false true 100) 115 (by decide) (by decide)).2.2.1
      rfl rfl).mpr (Or.inl ⟨by decide, by decide⟩),
    (should_ffw_frame (ffwStatus true true 100) 101 (by decide) (by decide)).1 rfl,
    (should_ffw_frame (ffwStatus true false 100) 101 (by decide) (by decide)).1 rfl,
    (should_ffw_frame (ffwStatus false false 100) 200 (by decide) (by decide)).2.1 rfl rfl⟩

/-! ## Claim on the clock settings -/

theorem SetHardFFW_orig (enable : Bool) (w : PlaybackWorld) :
    (SetHardFFW enable w).status.m_orig_oc_enable = w.status.m_orig_oc_enable ∧
    (SetHardFFW enable w).status.m_orig_oc_factor = w.status.m_orig_oc_factor ∧
    (SetHardFFW enable w).config.m_slippiEnableSeek = w.config.m_slippiEnableSeek ∧
    (SetHardFFW enable w).config.bHideCursor = w.config.bHideCursor := by
  unfold SetHardFFW
  cases enable <;> exact ⟨rfl, rfl, rfl, rfl⟩

theorem iterate_SetHardFFW_orig (n : Nat) :
    ∀ w : PlaybackWorld,
      (Nat.iterate (SetHardFFW true) n w).status.m_orig_oc_enable = w.status.m_orig_oc_enable ∧
      (Nat.iterate (SetHardFFW true) n w).status.m_orig_oc_factor = w.status.m_orig_oc_factor ∧
      (Nat.iterate (SetHardFFW true) n w).config.m_slippiEnableSeek =
        w.config.m_slippiEnableSeek ∧
      (Nat.iterate (SetHardFFW true) n w).config.bHideCursor = w.config.bHideCursor := by
  induction n with
  | zero => intro w; exact ⟨rfl, rfl, rfl, rfl⟩
  | succ k ih =>
    intro w
    rw [Function.iterate_succ_apply]
    obtain ⟨a1, a2, a3, a4⟩ := ih (SetHardFFW true w)
    obtain ⟨b1, b2, b3, b4⟩ := SetHardFFW_orig true w
    exact ⟨a1.trans b1, a2.trans b2, a3.trans b3, a4.trans b4⟩

theorem SetHardFFW_false_fields (w : PlaybackWorld) :
    (SetHardFFW false w).config.m_OCFactor = w.status.m_orig_oc_factor ∧
    (SetHardFFW false w).config.m_OCEnable = w.status.m_orig_oc_enable ∧
    (SetHardFFW false w).status.m_hard_ffw = false := ⟨rfl, rfl, rfl⟩

theorem SetHardFFW_true_fields (w : PlaybackWorld) :
    (SetHardFFW true w).config.m_OCFactor = F32.four ∧
    (SetHardFFW true w).config.m_OCEnable = true ∧
    (SetHardFFW true w).status.m_hard_ffw = true := ⟨rfl, rfl, rfl⟩

/-- C19: `SetHardFFW(true)` forces the clock multiplier to 4 with overclock
enabled and the hard flag on.  For every playback state and every number `n`
of `SetHardFFW(true)` calls (`n >= 1`, and `n = 0` as well), a following
`SetHardFFW(false)` leaves the multiplier and its enable flag equal to the
original values held by the status and the hard flag off.  For a status
created under a configuration, the original values are those of that
configuration (whatever the overclock flag and factor were), so the whole
configuration is back to what it was. -/
theorem hard_ffw_restores_clock (J : SlippiGameConstants) (w : PlaybackWorld)
    (config : SConfig) (core : CoreState) (comm : SlippiReplayComm) (n : Nat) :
    (SetHardFFW true w).config.m_OCFactor = F32.four ∧
    (SetHardFFW true w).config.m_OCEnable = true ∧
    (SetHardFFW true w).status.m_hard_ffw = true ∧
    (SetHardFFW false (Nat.iterate (SetHardFFW true) n w)).config.m_OCFactor =
      w.status.m_orig_oc_factor ∧
    (SetHardFFW false (Nat.iterate (SetHardFFW true) n w)).config.m_OCEnable =
      w.status.m_orig_oc_enable ∧
    (SetHardFFW false (Nat.iterate (SetHardFFW true) n w)).status.m_hard_ffw = false ∧
    (SlippiPlaybackStatus.init J config).m_orig_oc_factor = config.m_OCFactor ∧
    (SlippiPlaybackStatus.init J config).m_orig_oc_enable = config.m_OCEnable ∧
    (SetHardFFW false (Nat.iterate (SetHardFFW true) n
      (PlaybackWorld.init J config core comm))).config = config := by
  obtain ⟨t1, t2, t3⟩ := SetHardFFW_true_fields w
  obtain ⟨f1, f2, f3⟩ := SetHardFFW_false_fields (Nat.iterate (SetHardFFW true) n w)
  obtain ⟨i1, i2, _, _⟩ := iterate_SetHardFFW_orig n w
  refine ⟨t1, t2, t3, f1.trans i2, f2.trans i1, f3, rfl, rfl, ?_⟩
  obtain ⟨g1, g2, _⟩ := SetHardFFW_false_fields
    (Nat.iterate (SetHardFFW true) n (PlaybackWorld.init J config core comm))
  obtain ⟨j1, j2, j3, j4⟩ := iterate_SetHardFFW_orig n (PlaybackWorld.init J config core comm)
  obtain ⟨k1, k2, k3, k4⟩ := SetHardFFW_orig false
    (Nat.iterate (SetHardFFW true) n (PlaybackWorld.init J config core comm))
  generalize SetHardFFW false (Nat.iterate (SetHardFFW true) n
    (PlaybackWorld.init J config core comm)) = w1 at g1 g2 k3 k4 ⊢
  generalize Nat.iterate (SetHardFFW true) n (PlaybackWorld.init J config core comm) = w2
    at g1 g2 j1 j2 j3 j4 k3 k4
  have e1 : w1.config.m_OCFactor = config.m_OCFactor := g1.trans j2
  have e2 : w1.config.m_OCEnable = config.m_OCEnable := g2.trans j1
  have e3 : w1.config.m_slippiEnableSeek = config.m_slippiEnableSeek := k3.trans j3
  have e4 : w1.config.bHideCursor = config.bHideCursor := k4.trans j4
  obtain ⟨st1, c1, cs1, rc1⟩ := w1
  obtain ⟨a, b, c, d⟩ := c1
  obtain ⟨a0, b0, c0, d0⟩ := config
  simp only at e1 e2 e3 e4
  subst e1 e2 e3 e4
  rfl

/-! ## Claim on the clamped seek target -/

theorem SeekToFrame_of_ok (J : SlippiGameConstants) (w w1 : PlaybackWorld)
    (events : List PlaybackEvent) (h : SeekToFrame J true w = Except.ok (w1, events)) :
    w1 = seekLeave J w.coreState (seekEnter J w) := by
  unfold SeekToFrame at h
  rw [if_neg (by decide)] at h
  cases hl : seekLoad J (seekEnter J w).status
      (closestStateFrame J (seekEnter J w).status.m_target_frame_num) with
  | error e =>
    rw [hl] at h
    exact Except.noConfusion h
  | ok load =>
    rw [hl] at h
    injection h with h
    injection h with h1 h2
    exact h1.symm

theorem SeekToFrame_completes (J : SlippiGameConstants) (w : PlaybackWorld)
    (hF : inS32 J.PLAYBACK_FIRST_SAVE) (hL : inS32 w.status.m_last_frame)
    (hFL : J.PLAYBACK_FIRST_SAVE ≤ w.status.m_last_frame)
    (hov : w.status.m_last_frame - J.PLAYBACK_FIRST_SAVE ≤ INT_MAX)
    (hcur : J.PLAYBACK_FIRST_SAVE ≤ w.status.m_curr_playback_frame) :
    ∃ events, SeekToFrame J true w =
      Except.ok (seekLeave J w.coreState (seekEnter J w), events) := by
  obtain ⟨ht1, ht2⟩ := clampTarget_range J w.status hFL
  have hst := seekEnter_status J w
  have htin : inS32 (clampTarget J w.status) := ⟨le_trans hF.1 ht1, le_trans ht2 hL.2⟩
  have htarget : (seekEnter J w).status.m_target_frame_num = clampTarget J w.status := by
    rw [hst]
  have hcurr : (seekEnter J w).status.m_curr_playback_frame = w.status.m_curr_playback_frame := by
    rw [hst]
  obtain ⟨load, hload, _, _⟩ := seekLoad_spec J (seekEnter J w).status hF
    (by rw [htarget]; exact htin) (by rw [htarget]; exact ht1) (by rw [htarget]; omega)
    (by rw [hcurr]; exact hcur)
  refine ⟨(if w.coreState ≠ CoreState.Paused then [PlaybackEvent.CoreSetState CoreState.Paused]
      else []) ++ load ++
    (if needsFastForward J (seekEnter J w).status = true then fastForwardEvents else []) ++
    [PlaybackEvent.CoreSetState w.coreState], ?_⟩
  unfold SeekToFrame
  rw [if_neg (by decide), hload]

/-- C20: for every requested target frame `t`, first frame `F` and last known
frame `L` with `F <= L`, the frame `SeekToFrame` acts on once it holds the
seek mutex is `t` clamped into `[F, L]`: `F` if `t < F`, `L` if `t > L`, and
`t` otherwise; every seek that completes records this frame as the current
playback frame.  The seek does complete when `F`, `L` and `L - F` are 32-bit
values and playback is at or after `F`. -/
theorem seek_target_clamped (J : SlippiGameConstants) (w : PlaybackWorld)
    (hFL : J.PLAYBACK_FIRST_SAVE ≤ w.status.m_last_frame) :
    clampTarget J w.status =
      (if w.status.m_target_frame_num < J.PLAYBACK_FIRST_SAVE then J.PLAYBACK_FIRST_SAVE
        else if w.status.m_target_frame_num > w.status.m_last_frame then w.status.m_last_frame
        else w.status.m_target_frame_num) ∧
    J.PLAYBACK_FIRST_SAVE ≤ clampTarget J w.status ∧
    clampTarget J w.status ≤ w.status.m_last_frame ∧
    (seekEnter J w).status.m_target_frame_num = clampTarget J w.status ∧
    (∀ w1 events, SeekToFrame J true w = Except.ok (w1, events) →
      w1.status.m_curr_playback_frame = clampTarget J w.status) ∧
    (inS32 J.PLAYBACK_FIRST_SAVE → inS32 w.status.m_last_frame →
      w.status.m_last_frame - J.PLAYBACK_FIRST_SAVE ≤ INT_MAX →
      J.PLAYBACK_FIRST_SAVE ≤ w.status.m_curr_playback_frame →
      ∃ w1 events, SeekToFrame J true w = Except.ok (w1, events) ∧
        w1.status.m_curr_playback_frame = clampTarget J w.status) := by
  obtain ⟨ht1, ht2⟩ := clampTarget_range J w.status hFL
  have htarget : (seekEnter J w).status.m_target_frame_num = clampTarget J w.status := by
    rw [seekEnter_status J w]
  have hleave : (seekLeave J w.coreState (seekEnter J w)).status.m_curr_playback_frame =
      clampTarget J w.status :=
    (seekLeave_fields J w.coreState (seekEnter J w)).1.trans htarget
  refine ⟨?_, ht1, ht2, htarget, fun w1 events h => ?_, fun hF hL hov hcur => ?_⟩
  · unfold clampTarget
    dsimp only
    split_ifs <;> first | rfl | omega
  · rw [SeekToFrame_of_ok J w w1 events h]
    exact hleave
  · obtain ⟨events, h⟩ := SeekToFrame_completes J w hF hL hFL hov hcur
    exact ⟨_, events, h, hleave⟩

/-- Witness of C20: playback at frame 1000 with last known frame 2000 and a
seek requested to frame 5000, which is clamped to 2000. -/
theorem seek_target_clamped_witness :
    slippiGameConstants.PLAYBACK_FIRST_SAVE ≤
      (playbackWorld (playbackStatus 1000 5000 2000 [(1678, [1])])).status.m_last_frame ∧
    clampTarget slippiGameConstants
      (playbackWorld (playbackStatus 1000 5000 2000 [(1678, [1])])).status = 2000 ∧
    clampTarget slippiGameConstants
      (playbackWorld (playbackStatus 1000 (-500) 2000 [(1678, [1])])).status = -122 ∧
    clampTarget slippiGameConstants
      (playbackWorld (playbackStatus 1000 1500 2000 [(1678, [1])])).status = 1500 ∧
    ∃ w1 events, SeekToFrame slippiGameConstants true
        (playbackWorld (playbackStatus 1000 5000 2000 [(1678, [1])])) = Except.ok (w1, events) ∧
      w1.status.m_curr_playback_frame = clampTarget slippiGameConstants
        (playbackWorld (playbackStatus 1000 5000 2000 [(1678, [1])])).status :=
  ⟨by decide, by decide, by decide, by decide,
    (seek_target_clamped slippiGameConstants
      (playbackWorld (playbackStatus 1000 5000 2000 [(1678, [1])])) (by decide)).2.2.2.2.2
      (by decide) (by decide) (by decide) (by decide)⟩

/-! ## Lemmas on the checkpoint walks -/

theorem checkpointWalkSteps_fst (diffs : List (Int × List Nat)) (bound : Int) :
    ∀ (fuel : Nat) (c : Int),
      (checkpointWalkSteps diffs bound fuel c).map Prod.fst = checkpointWalk diffs bound fuel c := by
  intro fuel
  induction fuel with
  | zero => intro c; rfl
  | succ n ih =>
    intro c
    unfold checkpointWalkSteps checkpointWalk
    by_cases h : c > bound ∧ mapCount diffs c = 0
    · rw [if_pos h, if_pos h, ← ih, Option.map_map]
      rfl
    · rw [if_neg h, if_neg h]
      rfl

/-- The walk from `c` with bound `bound`, when no decrement can leave the
32-bit range: it leaves after some number `n` of decrements at `c - 900 n`,
every earlier candidate being after the bound and without a delta. -/
theorem checkpointWalkSteps_spec (diffs : List (Int × List Nat)) (bound : Int) :
    ∀ (fuel : Nat) (c : Int), c ≤ INT_MAX →
      (∀ j : Nat, c - 900 * j > bound → INT_MIN ≤ c - 900 * j - 900) →
      c - bound ≤ 900 * (fuel : Int) →
      ∃ n : Nat, checkpointWalkSteps diffs bound (fuel + 1) c = some (c - 900 * n, n) ∧
        (∀ j : Nat, j < n → c - 900 * j > bound ∧ mapCount diffs (c - 900 * j) = 0) ∧
        ¬ (c - 900 * n > bound ∧ mapCount diffs (c - 900 * n) = 0) := by
  intro fuel
  induction fuel with
  | zero =>
    intro c _ _ hfuel
    refine ⟨0, ?_, fun j hj => absurd hj (Nat.not_lt_zero j), ?_⟩
    · unfold checkpointWalkSteps
      rw [if_neg (fun h => by omega)]
      simp
    · intro h
      simp only [Nat.cast_zero, mul_zero, sub_zero] at h
      omega
  | succ m ih =>
    intro c hmax hsafe hfuel
    by_cases hcont : c > bound ∧ mapCount diffs c = 0
    · have h0 := hsafe 0 (by simpa using hcont.1)
      simp only [Nat.cast_zero, mul_zero, sub_zero] at h0
      have hstep : toS32 (c - FRAME_INTERVAL) = c - 900 := by
        unfold FRAME_INTERVAL
        apply toS32_of_inS32
        unfold INT_MAX at hmax
        unfold INT_MIN at h0
        unfold inS32 INT_MIN INT_MAX
        omega
      obtain ⟨n, hn, hskip, hstop⟩ := ih (c - 900) (by unfold INT_MAX at hmax ⊢; omega)
        (fun j hj => by
          have := hsafe (j + 1) (by push_cast; omega)
          push_cast at this
          omega)
        (by push_cast at hfuel; omega)
      refine ⟨n + 1, ?_, fun j hj => ?_, ?_⟩
      · rw [checkpointWalkSteps, if_pos hcont, hstep, hn]
        simp only [Option.map_some', Nat.cast_add, Nat.cast_one]
        congr 2
        ring
      · cases j with
        | zero => simpa using hcont
        | succ i =>
          have := hskip i (by omega)
          have e : c - 900 * ((i + 1 : Nat) : Int) = c - 900 - 900 * (i : Int) := by
            push_cast; ring
          rw [e]
          exact this
      · have e : c - 900 * ((n + 1 : Nat) : Int) = c - 900 - 900 * (n : Int) := by
          push_cast; ring
        rw [e]
        exact hstop
    · refine ⟨0, ?_, fun j hj => absurd hj (Nat.not_lt_zero j), ?_⟩
      · rw [checkpointWalkSteps, if_neg hcont]
        simp
      · simpa using hcont

theorem walkFuel_succ : walkFuel = 4294967295 + 1 := by
  unfold walkFuel
  rfl

theorem checkpointWalk_of_steps (diffs : List (Int × List Nat)) (bound : Int) (fuel : Nat)
    (c r : Int) (n : Nat) (h : checkpointWalkSteps diffs bound fuel c = some (r, n)) :
    checkpointWalk diffs bound fuel c = some r := by
  rw [← checkpointWalkSteps_fst, h]
  rfl

/-- The walk of a backward seek: it starts at `C - 900` for a checkpoint `C`
after the first-save frame `F` and stops at `F` at the latest. -/
theorem backwardWalk_spec (diffs : List (Int × List Nat)) (F C : Int)
    (hF : INT_MIN ≤ F) (hC : C ≤ INT_MAX) (hFC : F < C) (hdvd : (900 : Int) ∣ C - F) :
    toS32 (C - FRAME_INTERVAL) = C - 900 ∧
    ∃ n : Nat, checkpointWalkSteps diffs F walkFuel (C - 900) =
        some (C - 900 - 900 * n, n) ∧
      (∀ j : Nat, j < n → C - 900 - 900 * j > F ∧ mapCount diffs (C - 900 - 900 * j) = 0) ∧
      ¬ (C - 900 - 900 * n > F ∧ mapCount diffs (C - 900 - 900 * n) = 0) ∧
      F ≤ C - 900 - 900 * n ∧ ((n : Int) + 1) ≤ (C - F) / 900 := by
  obtain ⟨k, hk⟩ := hdvd
  have hmin := hF
  have hmax := hC
  unfold INT_MIN at hmin
  unfold INT_MAX at hmax
  have hstart : toS32 (C - FRAME_INTERVAL) = C - 900 := by
    unfold FRAME_INTERVAL
    apply toS32_of_inS32
    unfold inS32 INT_MIN INT_MAX
    omega
  refine ⟨hstart, ?_⟩
  obtain ⟨n, hn, hskip, hstop⟩ := checkpointWalkSteps_spec diffs F 4294967295 (C - 900)
    (by unfold INT_MAX; omega)
    (fun j hj => by unfold INT_MIN; omega)
    (by omega)
  rw [walkFuel_succ]
  refine ⟨n, hn, hskip, hstop, ?_, ?_⟩
  · cases n with
    | zero => simp only [Nat.cast_zero, mul_zero, sub_zero]; omega
    | succ m =>
      have := (hskip m (by omega)).1
      push_cast
      omega
  · cases n with
    | zero => simp only [Nat.cast_zero]; omega
    | succ m =>
      have := (hskip m (by omega)).1
      push_cast
      omega

/-- The walk of a forward seek: it starts at `C - 900` for a checkpoint `C`
after the current frame and stops at the current frame at the latest, when
the current frame is at least 900 above `INT_MIN`. -/
theorem forwardWalk_spec (diffs : List (Int × List Nat)) (curr C : Int)
    (hcur : INT_MIN + 900 ≤ curr) (hC : C ≤ INT_MAX) (hcC : curr < C) :
    toS32 (C - FRAME_INTERVAL) = C - 900 ∧
    ∃ n : Nat, checkpointWalkSteps diffs curr walkFuel (C - 900) =
        some (C - 900 - 900 * n, n) ∧
      (∀ j : Nat, j < n → C - 900 - 900 * j > curr ∧ mapCount diffs (C - 900 - 900 * j) = 0) ∧
      ¬ (C - 900 - 900 * n > curr ∧ mapCount diffs (C - 900 - 900 * n) = 0) ∧
      curr - 900 < C - 900 - 900 * n ∧ (n : Int) ≤ (C - curr) / 900 + 1 := by
  have hmin := hcur
  have hmax := hC
  unfold INT_MIN at hmin
  unfold INT_MAX at hmax
  have hstart : toS32 (C - FRAME_INTERVAL) = C - 900 := by
    unfold FRAME_INTERVAL
    apply toS32_of_inS32
    unfold inS32 INT_MIN INT_MAX
    omega
  refine ⟨hstart, ?_⟩
  obtain ⟨n, hn, hskip, hstop⟩ := checkpointWalkSteps_spec diffs curr 4294967295 (C - 900)
    (by unfold INT_MAX; omega)
    (fun j hj => by unfold INT_MIN; omega)
    (by omega)
  rw [walkFuel_succ]
  refine ⟨n, hn, hskip, hstop, ?_, ?_⟩
  · cases n with
    | zero => simp only [Nat.cast_zero, mul_zero, sub_zero]; omega
    | succ m =>
      have := (hskip m (by omega)).1
      push_cast
      omega
  · cases n with
    | zero => simp only [Nat.cast_zero]; omega
    | succ m =>
      have := (hskip m (by omega)).1
      push_cast
      omega

theorem mapCount_pos_of_some {β : Type} (m : List (Int × β)) (k : Int) (v : β)
    (hk : mapFind? m k = some v) : mapCount m k > 0 := by
  induction m with
  | nil => simp [mapFind?] at hk
  | cons e0 rest ih =>
    obtain ⟨k0, v0⟩ := e0
    by_cases h1 : k0 = k
    · simp [mapCount, h1]
    · simp only [mapFind?, h1, if_false] at hk
      have := ih hk
      simp [mapCount, h1] at this ⊢
      exact this

theorem seekLoad_of_first (J : SlippiGameConstants) (st : SlippiPlaybackStatus) (C : Int)
    (hopt : st.m_target_frame_num < st.m_curr_playback_frame ∨ C > st.m_curr_playback_frame)
    (hC : C ≤ J.PLAYBACK_FIRST_SAVE) :
    seekLoad J st C = Except.ok [PlaybackEvent.LoadFromBuffer LoadedState.InitialState] := by
  unfold seekLoad
  dsimp only
  rw [if_pos (by rw [Bool.or_eq_true, decide_eq_true_iff, decide_eq_true_iff]; exact hopt),
    if_pos hC]

theorem seekLoad_of_delta (J : SlippiGameConstants) (st : SlippiPlaybackStatus) (C : Int)
    (diff : List Nat)
    (hopt : st.m_target_frame_num < st.m_curr_playback_frame ∨ C > st.m_curr_playback_frame)
    (hC : J.PLAYBACK_FIRST_SAVE < C) (hdiff : mapFind? st.m_future_diffs C = some diff) :
    seekLoad J st C =
      Except.ok [PlaybackEvent.LoadFromBuffer (LoadedState.Decoded C diff)] := by
  have hcount : mapCount st.m_future_diffs C > 0 :=
    mapCount_pos_of_some st.m_future_diffs C diff hdiff
  unfold seekLoad
  dsimp only
  rw [if_pos (by rw [Bool.or_eq_true, decide_eq_true_iff, decide_eq_true_iff]; exact hopt),
    if_neg (by omega), if_pos hcount]
  unfold LoadState
  rw [if_neg (by omega), hdiff]
  rfl

theorem seekLoad_of_backward_walk (J : SlippiGameConstants) (st : SlippiPlaybackStatus)
    (C r : Int) (hback : st.m_target_frame_num < st.m_curr_playback_frame)
    (hC : J.PLAYBACK_FIRST_SAVE < C) (hcount : mapCount st.m_future_diffs C = 0)
    (hwalk : checkpointWalk st.m_future_diffs J.PLAYBACK_FIRST_SAVE walkFuel
      (toS32 (C - FRAME_INTERVAL)) = some r) :
    seekLoad J st C = (LoadState J st r).map (fun e => [e]) := by
  unfold seekLoad
  dsimp only
  rw [if_pos (by rw [Bool.or_eq_true, decide_eq_true_iff]; exact Or.inl hback),
    if_neg (by omega), if_neg (by omega), if_pos hback, hwalk]

theorem seekLoad_of_forward_walk (J : SlippiGameConstants) (st : SlippiPlaybackStatus)
    (C r : Int) (hfwd : st.m_target_frame_num > st.m_curr_playback_frame)
    (hopt : C > st.m_curr_playback_frame)
    (hC : J.PLAYBACK_FIRST_SAVE < C) (hcount : mapCount st.m_future_diffs C = 0)
    (hwalk : checkpointWalk st.m_future_diffs st.m_curr_playback_frame walkFuel
      (toS32 (C - FRAME_INTERVAL)) = some r) :
    seekLoad J st C =
      if r > st.m_curr_playback_frame then (LoadState J st r).map (fun e => [e])
      else Except.ok [] := by
  unfold seekLoad
  dsimp only
  rw [if_pos (by rw [Bool.or_eq_true, decide_eq_true_iff, decide_eq_true_iff]; exact Or.inr hopt),
    if_neg (by omega), if_neg (by omega), if_neg (by omega), if_pos hfwd, hwalk]

theorem seekLoad_of_not_optimal (J : SlippiGameConstants) (st : SlippiPlaybackStatus) (C : Int)
    (h1 : ¬ st.m_target_frame_num < st.m_curr_playback_frame)
    (h2 : ¬ C > st.m_curr_playback_frame) :
    seekLoad J st C = Except.ok [] := by
  unfold seekLoad
  dsimp only
  rw [if_neg (by
    rw [Bool.or_eq_true, decide_eq_true_iff, decide_eq_true_iff]
    exact fun h => h.elim h1 h2)]

theorem LoadState_map_of_first (J : SlippiGameConstants) (st : SlippiPlaybackStatus) :
    (LoadState J st J.PLAYBACK_FIRST_SAVE).map (fun e => [e]) =
      Except.ok [PlaybackEvent.LoadFromBuffer LoadedState.InitialState] := by
  rw [LoadState_of_first]
  rfl

theorem LoadState_map_of_delta (J : SlippiGameConstants) (st : SlippiPlaybackStatus) (frame : Int)
    (hne : frame ≠ J.PLAYBACK_FIRST_SAVE) (hcount : mapCount st.m_future_diffs frame ≠ 0) :
    ∃ diff, mapFind? st.m_future_diffs frame = some diff ∧
      (LoadState J st frame).map (fun e => [e]) =
        Except.ok [PlaybackEvent.LoadFromBuffer (LoadedState.Decoded frame diff)] := by
  obtain ⟨diff, hdiff⟩ := mapFind?_of_mapCount_pos st.m_future_diffs frame (by omega)
  refine ⟨diff, hdiff, ?_⟩
  unfold LoadState
  rw [if_neg hne, hdiff]
  rfl

/-- The facts on the clamped target and its checkpoint every seek lemma
starts from. -/
theorem seek_setup (J : SlippiGameConstants) (w : PlaybackWorld)
    (hF : inS32 J.PLAYBACK_FIRST_SAVE) (hL : inS32 w.status.m_last_frame)
    (hFL : J.PLAYBACK_FIRST_SAVE ≤ w.status.m_last_frame)
    (hov : w.status.m_last_frame - J.PLAYBACK_FIRST_SAVE ≤ INT_MAX) :
    (seekEnter J w).status.m_target_frame_num = clampTarget J w.status ∧
    (seekEnter J w).status.m_curr_playback_frame = w.status.m_curr_playback_frame ∧
    (seekEnter J w).status.m_future_diffs = w.status.m_future_diffs ∧
    (seekEnter J w).status.m_last_frame = w.status.m_last_frame ∧
    J.PLAYBACK_FIRST_SAVE ≤ closestStateFrame J (clampTarget J w.status) ∧
    closestStateFrame J (clampTarget J w.status) ≤ clampTarget J w.status ∧
    clampTarget J w.status ≤ INT_MAX ∧
    (900 : Int) ∣ closestStateFrame J (clampTarget J w.status) - J.PLAYBACK_FIRST_SAVE := by
  obtain ⟨ht1, ht2⟩ := clampTarget_range J w.status hFL
  have hst := seekEnter_status J w
  have htin : inS32 (clampTarget J w.status) := ⟨le_trans hF.1 ht1, le_trans ht2 hL.2⟩
  have hC := closestStateFrame_eq J (clampTarget J w.status) hF htin ht1 (by omega)
  refine ⟨by rw [hst], by rw [hst], by rw [hst], by rw [hst], ?_, ?_, le_trans ht2 hL.2, ?_⟩
  · rw [hC]; omega
  · rw [hC]; omega
  · rw [hC]
    exact ⟨(clampTarget J w.status - J.PLAYBACK_FIRST_SAVE) / 900, by omega⟩

theorem SeekToFrame_of_load (J : SlippiGameConstants) (w : PlaybackWorld)
    (load : List PlaybackEvent)
    (h : seekLoad J (seekEnter J w).status
      (closestStateFrame J (seekEnter J w).status.m_target_frame_num) = Except.ok load) :
    SeekToFrame J true w = Except.ok (seekLeave J w.coreState (seekEnter J w),
      (if w.coreState ≠ CoreState.Paused then [PlaybackEvent.CoreSetState CoreState.Paused]
        else []) ++ load ++
      (if needsFastForward J (seekEnter J w).status = true then fastForwardEvents else []) ++
      [PlaybackEvent.CoreSetState w.coreState]) := by
  unfold SeekToFrame
  rw [if_neg (by decide), h]

/-! ## Claim on `emod` -/

theorem tmod_neg_left (a b : Int) : Int.tmod (-a) b = -Int.tmod a b := by
  rw [Int.tmod_def, Int.tmod_def, Int.neg_tdiv]
  ring

theorem tmod_of_nonneg (a b : Int) (ha : 0 ≤ a) (hb : b ≠ 0) :
    Int.tmod a b = a % |b| := by
  rcases lt_or_gt_of_ne hb with h | h
  · rw [abs_of_neg h, ← Int.tmod_neg, Int.tmod_eq_emod ha (by omega)]
  · rw [abs_of_pos h, Int.tmod_eq_emod ha (by omega)]

theorem tmod_bounds (a b : Int) (hb : b ≠ 0) :
    (0 ≤ a → 0 ≤ Int.tmod a b ∧ Int.tmod a b < |b|) ∧
    (a < 0 → -|b| < Int.tmod a b ∧ Int.tmod a b ≤ 0) ∧
    b ∣ a - Int.tmod a b := by
  have habs : 0 < |b| := abs_pos.mpr hb
  refine ⟨fun ha => ?_, fun ha => ?_, ?_⟩
  · rw [tmod_of_nonneg a b ha hb]
    exact ⟨Int.emod_nonneg _ (by omega), Int.emod_lt_of_pos _ habs⟩
  · have h1 : Int.tmod a b = -Int.tmod (-a) b := by rw [tmod_neg_left, neg_neg]
    rw [h1, tmod_of_nonneg (-a) b (by omega) hb]
    have h2 := Int.emod_nonneg (-a) (show |b| ≠ 0 by omega)
    have h3 := Int.emod_lt_of_pos (-a) habs
    constructor <;> omega
  · rw [Int.tmod_def]
    exact ⟨a.tdiv b, by ring⟩

/-- The remainder `emod` computes, for a 32-bit divisor other than 0 and
`INT_MIN`. -/
theorem emod_floor (a b : Int) (hb : inS32 b) (hb0 : b ≠ 0)
    (hbmin : b ≠ INT_MIN) :
    0 ≤ emod a b ∧ emod a b < |b| ∧ b ∣ a - emod a b ∧ emod a b = a % b ∧
    (a < 0 → Int.tmod a b ≤ 0) ∧
    (Int.tmod a b < 0 → emod a b = Int.tmod a b + |b| ∧ emod a b ≠ Int.tmod a b) ∧
    (0 ≤ Int.tmod a b → emod a b = Int.tmod a b) := by
  obtain ⟨h1, h2, h3⟩ := tmod_bounds a b hb0
  have habs : 0 < |b| := abs_pos.mpr hb0
  have hnat : ((Int.natAbs b : Nat) : Int) = |b| := Int.natCast_natAbs b
  have habsle : |b| ≤ 2147483647 := by
    obtain ⟨hb1, hb2⟩ := hb
    unfold INT_MIN at hb1 hbmin
    unfold INT_MAX at hb2
    rcases lt_or_gt_of_ne hb0 with h | h
    · rw [abs_of_neg h]; omega
    · rw [abs_of_pos h]; omega
  have hwrap : toS32 ((Int.natAbs b : Nat) : Int) = |b| := by
    rw [hnat]
    apply toS32_of_inS32
    unfold inS32 INT_MIN INT_MAX
    omega
  have hneg : Int.tmod a b < 0 → emod a b = Int.tmod a b + |b| := by
    intro hr
    unfold emod
    dsimp only
    rw [if_neg (by omega), hwrap]
    apply toS32_of_inS32
    have ha0 : a < 0 := by
      by_contra hc
      have := (h1 (by omega)).1
      omega
    have := h2 ha0
    unfold inS32 INT_MIN INT_MAX
    omega
  have hpos : 0 ≤ Int.tmod a b → emod a b = Int.tmod a b := by
    intro hr
    unfold emod
    dsimp only
    rw [if_pos hr]
  have hrange : 0 ≤ emod a b ∧ emod a b < |b| := by
    by_cases hr : 0 ≤ Int.tmod a b
    · rw [hpos hr]
      refine ⟨hr, ?_⟩
      by_cases ha0 : 0 ≤ a
      · exact (h1 ha0).2
      · have := h2 (by omega); omega
    · have ha0 : a < 0 := by
        by_contra hc
        have := (h1 (by omega)).1
        omega
      have := h2 ha0
      rw [hneg (by omega)]
      constructor <;> omega
  have hdvd : b ∣ a - emod a b := by
    by_cases hr : 0 ≤ Int.tmod a b
    · rw [hpos hr]; exact h3
    · rw [hneg (by omega)]
      have h4 : a - (Int.tmod a b + |b|) = (a - Int.tmod a b) - |b| := by ring
      rw [h4]
      exact Int.dvd_sub h3 ((dvd_abs b b).mpr (dvd_refl b))
  refine ⟨hrange.1, hrange.2, hdvd, ?_, fun ha0 => (h2 ha0).2,
    fun hr => ⟨hneg hr, by rw [hneg hr]; omega⟩, hpos⟩
  -- the Euclidean remainder is the only value in `[0, |b|)` congruent to `a`
  obtain ⟨k, hk⟩ := (abs_dvd b (a - emod a b)).mpr hdvd
  have h5 : a % |b| = (emod a b + |b| * k) % |b| := by
    congr 1; omega
  rw [← Int.emod_abs, h5, Int.add_mul_emod_self_left]
  exact (Int.emod_eq_of_lt hrange.1 hrange.2).symm

theorem tmod_eq_zero_iff (a b : Int) (h3 : b ∣ a - Int.tmod a b)
    (hlt : |Int.tmod a b| < |b|) : Int.tmod a b = 0 ↔ b ∣ a := by
  constructor
  · intro h
    rw [h, sub_zero] at h3
    exact h3
  · intro h
    have h4 : b ∣ Int.tmod a b := by
      have := Int.dvd_sub h h3
      rwa [sub_sub_cancel] at this
    exact Int.eq_zero_of_abs_lt_dvd ((abs_dvd b _).mpr h4) hlt

/-- Counterexample to C26 as stated.  For `a = INT_MIN` and `b = -1`, a 32-bit
`a` and a `b` other than 0 and `INT_MIN`, `emod` has no result: the quotient
of `a % b` does not fit an `s32` and the division traps.  And for `a = -900`,
`b = 900`, with `a < 0`, `emod(a, b)` is 0 and does not differ from the C++
remainder `a % b`, which is 0 too. -/
theorem emod_counterexample :
    inS32 INT_MIN ∧ (-1 : Int) ≠ 0 ∧ (-1 : Int) ≠ INT_MIN ∧
    emodResult INT_MIN (-1) = none ∧
    inS32 (-900) ∧ (-900 : Int) < 0 ∧ FRAME_INTERVAL ≠ 0 ∧ FRAME_INTERVAL ≠ INT_MIN ∧
    emodResult (-900) FRAME_INTERVAL = some 0 ∧ Int.tmod (-900) FRAME_INTERVAL = 0 := by
  refine ⟨?_, ?_, ?_, ?_, ?_, ?_, ?_, ?_, ?_, ?_⟩ <;> with_unfolding_all decide

/-- C26, amended: `emod` is a floor-style modulo valid for negative offsets.
For every `a` and every 32-bit `b` other than 0 and `INT_MIN`, the pair
`a = INT_MIN`, `b = -1` excepted, `emod(a, b)` has a result `r`, which
satisfies `0 <= r < |b|` and `b` divides `a - r`; it is the Euclidean
remainder of `a` by `b`.  For `a < 0` the C++ remainder `a % b` is `<= 0`;
`r` differs from it exactly when that remainder is negative, that is, for
`a < 0`, exactly when `a` is not a multiple of `b`, and then by `|b|`. -/
theorem emod_is_floor_modulo (a b : Int) (hb : inS32 b) (hb0 : b ≠ 0)
    (hbmin : b ≠ INT_MIN) (hdef : ¬ (a = INT_MIN ∧ b = -1)) :
    ∃ r, emodResult a b = some r ∧ r = emod a b ∧
      0 ≤ r ∧ r < |b| ∧ b ∣ a - r ∧ r = a % b ∧
      (a < 0 → Int.tmod a b ≤ 0) ∧
      (r ≠ Int.tmod a b ↔ Int.tmod a b < 0) ∧
      (a < 0 → (r ≠ Int.tmod a b ↔ ¬ b ∣ a)) ∧
      (Int.tmod a b < 0 → r = Int.tmod a b + |b|) := by
  obtain ⟨g1, g2, g3, g4, g5, g6, g7⟩ := emod_floor a b hb hb0 hbmin
  obtain ⟨_, t2, t3⟩ := tmod_bounds a b hb0
  have hres : emodResult a b = some (emod a b) := by
    unfold emodResult
    rw [if_neg (fun h => h.elim hb0 (fun h => h.elim hdef (fun h => hbmin h.1)))]
  have hdiff : emod a b ≠ Int.tmod a b ↔ Int.tmod a b < 0 := by
    constructor
    · intro hne
      by_contra hc
      exact hne (g7 (by omega))
    · intro hlt
      exact (g6 hlt).2
  refine ⟨emod a b, hres, rfl, g1, g2, g3, g4, g5, hdiff, fun ha0 => ?_,
    fun hlt => (g6 hlt).1⟩
  obtain ⟨t4, t5⟩ := t2 ha0
  have habs : |Int.tmod a b| < |b| := by
    rw [abs_of_nonpos t5]
    omega
  have hz := tmod_eq_zero_iff a b t3 habs
  rw [hdiff, ← hz]
  omega

/-- Witness of C26: one frame before the first save, `emod(-1, 900)` is 899,
where the C++ remainder `-1 % 900` is -1. -/
theorem emod_is_floor_modulo_witness :
    inS32 FRAME_INTERVAL ∧ FRAME_INTERVAL ≠ 0 ∧ FRAME_INTERVAL ≠ INT_MIN ∧
    ¬ ((-1 : Int) = INT_MIN ∧ FRAME_INTERVAL = -1) ∧
    emodResult (-1) FRAME_INTERVAL = some 899 ∧ Int.tmod (-1) FRAME_INTERVAL = -1 ∧
    emodResult (-1) (-900) = some 899 ∧
    (∃ r, emodResult (-1) FRAME_INTERVAL = some r ∧ r = emod (-1) FRAME_INTERVAL ∧
      0 ≤ r ∧ r < |FRAME_INTERVAL| ∧ FRAME_INTERVAL ∣ -1 - r ∧ r = -1 % FRAME_INTERVAL ∧
      ((-1 : Int) < 0 → Int.tmod (-1) FRAME_INTERVAL ≤ 0) ∧
      (r ≠ Int.tmod (-1) FRAME_INTERVAL ↔ Int.tmod (-1) FRAME_INTERVAL < 0) ∧
      ((-1 : Int) < 0 → (r ≠ Int.tmod (-1) FRAME_INTERVAL ↔ ¬ FRAME_INTERVAL ∣ -1)) ∧
      (Int.tmod (-1) FRAME_INTERVAL < 0 →
        r = Int.tmod (-1) FRAME_INTERVAL + |FRAME_INTERVAL|)) :=
  ⟨by decide, by decide, by decide, by decide, by with_unfolding_all decide, by decide,
    by with_unfolding_all decide,
    emod_is_floor_modulo (-1) FRAME_INTERVAL (by decide) (by decide) (by decide) (by decide)⟩

/-! ## Lemmas on the checkpoint of a clamped target -/

theorem emod_interval (a : Int) : emod a FRAME_INTERVAL = a % 900 :=
  (emod_floor a FRAME_INTERVAL (by decide) (by decide) (by decide)).2.2.2.1

/-- The checkpoint of a target on either side of the first-save frame `F`,
when `target - F` and the result are 32-bit values. -/
theorem closestStateFrame_eq_general (J : SlippiGameConstants) (t : Int)
    (hF : inS32 J.PLAYBACK_FIRST_SAVE) (ht : inS32 t) (hsub : inS32 (t - J.PLAYBACK_FIRST_SAVE))
    (hlow : J.PLAYBACK_FIRST_SAVE ≤ t ∨ INT_MIN + 900 ≤ t) :
    closestStateFrame J t = t - (t - J.PLAYBACK_FIRST_SAVE) % 900 := by
  unfold closestStateFrame
  rw [toS32_of_inS32 _ hsub, emod_interval]
  apply toS32_of_inS32
  obtain ⟨h1, h2⟩ := ht
  obtain ⟨h3, h4⟩ := hsub
  obtain ⟨h5, h6⟩ := hF
  unfold INT_MIN at h1 h3 h5 hlow
  unfold INT_MAX at h2 h4 h6
  unfold inS32 INT_MIN INT_MAX
  omega

theorem clampTarget_cases (J : SlippiGameConstants) (st : SlippiPlaybackStatus) :
    (st.m_last_frame < J.PLAYBACK_FIRST_SAVE ∧ clampTarget J st = st.m_last_frame) ∨
    (J.PLAYBACK_FIRST_SAVE ≤ clampTarget J st ∧ clampTarget J st ≤ st.m_last_frame) := by
  unfold clampTarget
  dsimp only
  split_ifs <;> omega

/-- The facts on the clamped target and its checkpoint, for a last known
frame on either side of the first-save frame. -/
theorem seek_setup_general (J : SlippiGameConstants) (w : PlaybackWorld)
    (hF : inS32 J.PLAYBACK_FIRST_SAVE) (hL : inS32 w.status.m_last_frame)
    (hsub : inS32 (w.status.m_last_frame - J.PLAYBACK_FIRST_SAVE))
    (hLmin : INT_MIN + 900 ≤ w.status.m_last_frame) :
    (seekEnter J w).status.m_target_frame_num = clampTarget J w.status ∧
    (seekEnter J w).status.m_curr_playback_frame = w.status.m_curr_playback_frame ∧
    (seekEnter J w).status.m_future_diffs = w.status.m_future_diffs ∧
    closestStateFrame J (clampTarget J w.status) ≤ INT_MAX ∧
    (900 : Int) ∣ closestStateFrame J (clampTarget J w.status) - J.PLAYBACK_FIRST_SAVE := by
  have hst := seekEnter_status J w
  obtain ⟨h1, h2⟩ := hF
  obtain ⟨h3, h4⟩ := hL
  obtain ⟨h5, h6⟩ := hsub
  have hC : closestStateFrame J (clampTarget J w.status) =
      clampTarget J w.status - (clampTarget J w.status - J.PLAYBACK_FIRST_SAVE) % 900 := by
    rcases clampTarget_cases J w.status with ⟨_, ht⟩ | ⟨hta, htb⟩
    · rw [ht]
      exact closestStateFrame_eq_general J _ ⟨h1, h2⟩ ⟨h3, h4⟩ ⟨h5, h6⟩ (Or.inr hLmin)
    · refine closestStateFrame_eq_general J _ ⟨h1, h2⟩ ⟨le_trans h1 hta, le_trans htb h4⟩ ?_ (Or.inl hta)
      unfold INT_MIN at h5
      unfold INT_MAX at h6
      unfold inS32 INT_MIN INT_MAX
      omega
  refine ⟨by rw [hst], by rw [hst], by rw [hst], ?_, ?_⟩
  · rw [hC]
    have : clampTarget J w.status ≤ INT_MAX := by
      rcases clampTarget_cases J w.status with ⟨_, ht⟩ | ⟨_, htb⟩
      · rw [ht]; exact h4
      · exact le_trans htb h4
    omega
  · rw [hC]
    exact ⟨(clampTarget J w.status - J.PLAYBACK_FIRST_SAVE) / 900, by omega⟩

/-! ## Claim on the backward seek -/

theorem sub_mul_succ (C : Int) (i : Nat) :
    C - 900 * ((i + 1 : Nat) : Int) = C - 900 - 900 * (i : Int) := by
  push_cast
  ring

theorem sub_mul_zero (C : Int) : C - 900 * ((0 : Nat) : Int) = C := by
  simp

/-- The load of a backward seek, for a checkpoint `C` at or after the
first-save frame `F` with `C - F` a multiple of 900. -/
theorem seekLoad_backward (J : SlippiGameConstants) (st : SlippiPlaybackStatus) (C : Int)
    (hF : INT_MIN ≤ J.PLAYBACK_FIRST_SAVE) (hC : C ≤ INT_MAX)
    (hdvd : (900 : Int) ∣ C - J.PLAYBACK_FIRST_SAVE)
    (hback : st.m_target_frame_num < st.m_curr_playback_frame) :
    ∃ load, seekLoad J st C = Except.ok load ∧
      ((C ≤ J.PLAYBACK_FIRST_SAVE ∨
          ∀ k : Nat, C - 900 * k > J.PLAYBACK_FIRST_SAVE →
            mapCount st.m_future_diffs (C - 900 * k) = 0) →
        load = [PlaybackEvent.LoadFromBuffer LoadedState.InitialState]) ∧
      (∀ k : Nat, C - 900 * k > J.PLAYBACK_FIRST_SAVE →
        mapCount st.m_future_diffs (C - 900 * k) ≠ 0 →
        (∀ j : Nat, j < k → mapCount st.m_future_diffs (C - 900 * j) = 0) →
        ∃ diff, mapFind? st.m_future_diffs (C - 900 * k) = some diff ∧
          load = [PlaybackEvent.LoadFromBuffer (LoadedState.Decoded (C - 900 * k) diff)]) := by
  by_cases h1 : C ≤ J.PLAYBACK_FIRST_SAVE
  · refine ⟨_, seekLoad_of_first J st C (Or.inl hback) h1, fun _ => rfl, fun k hk _ _ => ?_⟩
    exfalso
    omega
  · have hFC : J.PLAYBACK_FIRST_SAVE < C := by omega
    cases hfind : mapFind? st.m_future_diffs C with
    | some d =>
      have hpos := mapCount_pos_of_some st.m_future_diffs C d hfind
      refine ⟨_, seekLoad_of_delta J st C d (Or.inl hback) hFC hfind, fun h => ?_,
        fun k hk hne hmin => ?_⟩
      · exfalso
        rcases h with h | h
        · exact h1 h
        · have := h 0 (by rw [sub_mul_zero]; exact hFC)
          rw [sub_mul_zero] at this
          omega
      · cases k with
        | zero =>
          rw [sub_mul_zero]
          exact ⟨d, hfind, rfl⟩
        | succ i =>
          exfalso
          have := hmin 0 (Nat.succ_pos i)
          rw [sub_mul_zero] at this
          omega
    | none =>
      have hcount0 := mapCount_of_none st.m_future_diffs C hfind
      obtain ⟨hstart, n, hn, hskip, hstop, hlow, _⟩ :=
        backwardWalk_spec st.m_future_diffs J.PLAYBACK_FIRST_SAVE C hF hC hFC hdvd
      have hwalk : checkpointWalk st.m_future_diffs J.PLAYBACK_FIRST_SAVE walkFuel
          (toS32 (C - FRAME_INTERVAL)) = some (C - 900 - 900 * n) := by
        rw [hstart]
        exact checkpointWalk_of_steps _ _ _ _ _ _ hn
      have hload := seekLoad_of_backward_walk J st C _ hback hFC hcount0 hwalk
      have hzero : ∀ k : Nat, k < n + 1 → mapCount st.m_future_diffs (C - 900 * k) = 0 := by
        intro k hk
        cases k with
        | zero => rw [sub_mul_zero]; exact hcount0
        | succ i =>
          rw [sub_mul_succ]
          exact (hskip i (by omega)).2
      by_cases hr : C - 900 - 900 * (n : Int) = J.PLAYBACK_FIRST_SAVE
      · rw [hr, LoadState_map_of_first] at hload
        refine ⟨_, hload, fun _ => rfl, fun k hk hne _ => ?_⟩
        exfalso
        exact hne (hzero k (by omega))
      · have hrF : C - 900 - 900 * (n : Int) > J.PLAYBACK_FIRST_SAVE := by omega
        have hrcount : mapCount st.m_future_diffs (C - 900 - 900 * (n : Int)) ≠ 0 :=
          fun h => hstop ⟨hrF, h⟩
        obtain ⟨diff, hdiff, hmap⟩ := LoadState_map_of_delta J st _ hr hrcount
        rw [hmap] at hload
        refine ⟨_, hload, fun h => ?_, fun k hk hne hmin => ?_⟩
        · exfalso
          rcases h with h | h
          · exact h1 h
          · have := h (n + 1) (by rw [sub_mul_succ]; exact hrF)
            rw [sub_mul_succ] at this
            exact hrcount this
        · rcases Nat.lt_trichotomy k (n + 1) with h | h | h
          · exact absurd (hzero k h) hne
          · subst h
            rw [sub_mul_succ]
            exact ⟨diff, hdiff, rfl⟩
          · exfalso
            have := hmin (n + 1) h
            rw [sub_mul_succ] at this
            exact hrcount this

/-- C22: for every backward seek (the clamped target is before the current
playback frame; first save frame `F`, last known frame `L` and `L - F` 32-bit
values, `L` at least 900 above `INT_MIN`) and every delta map, the seek
completes and loads exactly one state.  With `C` the checkpoint computed for the clamped target: the state
loaded is the decoding of the delta stored for `C - 900 k`, where `k >= 0` is
the least number such that `C - 900 k` is after `F` and has a delta (so the
delta of `C` itself when it exists, otherwise the greatest earlier checkpoint
after `F` that has one); it is the initial snapshot when `C` is at or before
`F` or no checkpoint `C - 900 k` after `F` has a delta. -/
theorem backward_seek_loads_greatest_checkpoint (J : SlippiGameConstants) (w : PlaybackWorld)
    (hF : inS32 J.PLAYBACK_FIRST_SAVE) (hL : inS32 w.status.m_last_frame)
    (hsub : inS32 (w.status.m_last_frame - J.PLAYBACK_FIRST_SAVE))
    (hLmin : INT_MIN + 900 ≤ w.status.m_last_frame)
    (hback : clampTarget J w.status < w.status.m_curr_playback_frame) :
    ∃ w1 events load,
      SeekToFrame J true w = Except.ok (w1, events) ∧
      events =
        (if w.coreState ≠ CoreState.Paused then [PlaybackEvent.CoreSetState CoreState.Paused]
          else []) ++ load ++
        (if needsFastForward J (seekEnter J w).status = true then fastForwardEvents else []) ++
        [PlaybackEvent.CoreSetState w.coreState] ∧
      ((closestStateFrame J (clampTarget J w.status) ≤ J.PLAYBACK_FIRST_SAVE ∨
          ∀ k : Nat, closestStateFrame J (clampTarget J w.status) - 900 * k >
              J.PLAYBACK_FIRST_SAVE →
            mapCount w.status.m_future_diffs
              (closestStateFrame J (clampTarget J w.status) - 900 * k) = 0) →
        load = [PlaybackEvent.LoadFromBuffer LoadedState.InitialState]) ∧
      (∀ k : Nat, closestStateFrame J (clampTarget J w.status) - 900 * k >
          J.PLAYBACK_FIRST_SAVE →
        mapCount w.status.m_future_diffs
          (closestStateFrame J (clampTarget J w.status) - 900 * k) ≠ 0 →
        (∀ j : Nat, j < k → mapCount w.status.m_future_diffs
          (closestStateFrame J (clampTarget J w.status) - 900 * j) = 0) →
        ∃ diff, mapFind? w.status.m_future_diffs
            (closestStateFrame J (clampTarget J w.status) - 900 * k) = some diff ∧
          load = [PlaybackEvent.LoadFromBuffer
            (LoadedState.Decoded (closestStateFrame J (clampTarget J w.status) - 900 * k)
              diff)]) := by
  obtain ⟨htarget, hcurr, hdiffs, hCmax, hdvd⟩ := seek_setup_general J w hF hL hsub hLmin
  obtain ⟨load, hload, h1, h2⟩ := seekLoad_backward J (seekEnter J w).status
    (closestStateFrame J (clampTarget J w.status)) hF.1 hCmax hdvd
    (by rw [htarget, hcurr]; exact hback)
  rw [hdiffs] at h1 h2
  rw [← htarget] at hload
  exact ⟨_, _, load, SeekToFrame_of_load J w load hload, rfl, h1, h2⟩

/-! ## Claims on the forward seek -/

/-- The load of a forward seek whose checkpoint `C` is after the first-save
frame and has no delta. -/
theorem seekLoad_forward (J : SlippiGameConstants) (st : SlippiPlaybackStatus) (C : Int)
    (hcur : INT_MIN + 900 ≤ st.m_curr_playback_frame) (hC : C ≤ INT_MAX)
    (hFC : J.PLAYBACK_FIRST_SAVE < C)
    (hcount : st.m_curr_playback_frame < C → mapCount st.m_future_diffs C = 0)
    (hfwd : st.m_curr_playback_frame < st.m_target_frame_num) :
    ∃ load, seekLoad J st C = Except.ok load ∧
      (∀ k : Nat, 1 ≤ k → C - 900 * k > st.m_curr_playback_frame →
        mapCount st.m_future_diffs (C - 900 * k) ≠ 0 →
        (∀ j : Nat, 1 ≤ j → j < k → mapCount st.m_future_diffs (C - 900 * j) = 0) →
        ∃ src, load = [PlaybackEvent.LoadFromBuffer src] ∧
          loadedFrame J load = some (C - 900 * k) ∧
          (C - 900 * k = J.PLAYBACK_FIRST_SAVE → src = LoadedState.InitialState) ∧
          (C - 900 * k ≠ J.PLAYBACK_FIRST_SAVE →
            ∃ diff, mapFind? st.m_future_diffs (C - 900 * k) = some diff ∧
              src = LoadedState.Decoded (C - 900 * k) diff)) ∧
      ((∀ k : Nat, 1 ≤ k → C - 900 * k > st.m_curr_playback_frame →
          mapCount st.m_future_diffs (C - 900 * k) = 0) → load = []) := by
  by_cases hopt : C > st.m_curr_playback_frame
  · have hcount0 := hcount hopt
    obtain ⟨hstart, n, hn, hskip, hstop, hlow, _⟩ :=
      forwardWalk_spec st.m_future_diffs st.m_curr_playback_frame C hcur hC hopt
    have hwalk : checkpointWalk st.m_future_diffs st.m_curr_playback_frame walkFuel
        (toS32 (C - FRAME_INTERVAL)) = some (C - 900 - 900 * n) := by
      rw [hstart]
      exact checkpointWalk_of_steps _ _ _ _ _ _ hn
    have hload := seekLoad_of_forward_walk J st C _ hfwd hopt hFC hcount0 hwalk
    have hzero : ∀ k : Nat, 1 ≤ k → k < n + 1 →
        mapCount st.m_future_diffs (C - 900 * k) = 0 := by
      intro k hk1 hk
      cases k with
      | zero => omega
      | succ i =>
        rw [sub_mul_succ]
        exact (hskip i (by omega)).2
    by_cases hr : C - 900 - 900 * (n : Int) > st.m_curr_playback_frame
    · rw [if_pos hr] at hload
      have hrcount : mapCount st.m_future_diffs (C - 900 - 900 * (n : Int)) ≠ 0 :=
        fun h => hstop ⟨hr, h⟩
      have hk : ∀ k : Nat, 1 ≤ k → mapCount st.m_future_diffs (C - 900 * k) ≠ 0 →
          (∀ j : Nat, 1 ≤ j → j < k → mapCount st.m_future_diffs (C - 900 * j) = 0) →
          k = n + 1 := by
        intro k hk1 hne hmin
        rcases Nat.lt_trichotomy k (n + 1) with h | h | h
        · exact absurd (hzero k hk1 h) hne
        · exact h
        · exfalso
          have := hmin (n + 1) (by omega) h
          rw [sub_mul_succ] at this
          exact hrcount this
      by_cases hrF : C - 900 - 900 * (n : Int) = J.PLAYBACK_FIRST_SAVE
      · rw [hrF, LoadState_map_of_first] at hload
        refine ⟨_, hload, fun k hk1 _ hne hmin => ?_, fun h => ?_⟩
        · have := hk k hk1 hne hmin
          subst this
          rw [sub_mul_succ]
          exact ⟨_, rfl, by rw [loadedFrame_initial, hrF], fun _ => rfl, fun h => absurd hrF h⟩
        · exfalso
          have := h (n + 1) (by omega) (by rw [sub_mul_succ]; exact hr)
          rw [sub_mul_succ] at this
          exact hrcount this
      · obtain ⟨diff, hdiff, hmap⟩ := LoadState_map_of_delta J st _ hrF hrcount
        rw [hmap] at hload
        refine ⟨_, hload, fun k hk1 _ hne hmin => ?_, fun h => ?_⟩
        · have := hk k hk1 hne hmin
          subst this
          rw [sub_mul_succ]
          exact ⟨_, rfl, loadedFrame_decoded J _ diff, fun h => absurd h hrF,
            fun _ => ⟨diff, hdiff, rfl⟩⟩
        · exfalso
          have := h (n + 1) (by omega) (by rw [sub_mul_succ]; exact hr)
          rw [sub_mul_succ] at this
          exact hrcount this
    · rw [if_neg hr] at hload
      refine ⟨_, hload, fun k hk1 hgt hne _ => ?_, fun _ => rfl⟩
      exfalso
      refine hne (hzero k hk1 ?_)
      by_contra hge
      have : (n : Int) + 1 ≤ k := by exact_mod_cast Nat.le_of_not_lt hge
      omega
  · refine ⟨_, seekLoad_of_not_optimal J st C (by omega) hopt, fun k _ hgt _ _ => ?_,
      fun _ => rfl⟩
    exfalso
    omega

theorem not_mem_seek_events (pause ffw : List PlaybackEvent) (prev : CoreState)
    (src : LoadedState)
    (hpause : pause = [] ∨ pause = [PlaybackEvent.CoreSetState CoreState.Paused])
    (hffw : ffw = [] ∨ ffw = fastForwardEvents) (load : List PlaybackEvent)
    (h : PlaybackEvent.LoadFromBuffer src ∈
      pause ++ load ++ ffw ++ [PlaybackEvent.CoreSetState prev]) :
    PlaybackEvent.LoadFromBuffer src ∈ load := by
  rcases hpause with hp | hp <;> rcases hffw with hf | hf <;> subst hp <;> subst hf <;>
    simpa [fastForwardEvents] using h

theorem seek_pause_cases (core : CoreState) :
    (if core ≠ CoreState.Paused then [PlaybackEvent.CoreSetState CoreState.Paused] else []) = [] ∨
    (if core ≠ CoreState.Paused then [PlaybackEvent.CoreSetState CoreState.Paused] else []) =
      [PlaybackEvent.CoreSetState CoreState.Paused] := by
  split_ifs
  · exact Or.inr rfl
  · exact Or.inl rfl

theorem seek_ffw_cases (b : Bool) :
    (if b = true then fastForwardEvents else []) = [] ∨
    (if b = true then fastForwardEvents else []) = fastForwardEvents := by
  cases b
  · exact Or.inl rfl
  · exact Or.inr rfl

/-- Counterexample to C23 as stated: playback is at frame 0, deltas are stored
for the checkpoints 778 and 1678 (first save at frame -122) and a seek to
frame 3000 is requested.  The checkpoint computed is 2578, which has no
delta.  The oldest checkpoint after the current frame that has a delta is
778, yet the state loaded is the one of frame 1678, the newest one. -/
theorem forward_seek_walk_counterexample :
    clampTarget slippiGameConstants (playbackStatus 0 3000 5000 [(778, [1]), (1678, [2])]) =
      3000 ∧
    closestStateFrame slippiGameConstants 3000 = 2578 ∧
    mapCount (playbackStatus 0 3000 5000 [(778, [1]), (1678, [2])]).m_future_diffs 2578 = 0 ∧
    (playbackStatus 0 3000 5000 [(778, [1]), (1678, [2])]).m_curr_playback_frame < 778 ∧
    mapCount (playbackStatus 0 3000 5000 [(778, [1]), (1678, [2])]).m_future_diffs 778 = 1 ∧
    (SeekToFrame slippiGameConstants true
        (playbackWorld (playbackStatus 0 3000 5000 [(778, [1]), (1678, [2])]))).toOption.map
      (fun r => r.2) =
      some [PlaybackEvent.CoreSetState CoreState.Paused,
        PlaybackEvent.LoadFromBuffer (LoadedState.Decoded 1678 [2]),
        PlaybackEvent.SetHardFFW true, PlaybackEvent.CoreSetState CoreState.Running,
        PlaybackEvent.WaitForTargetFrame, PlaybackEvent.CoreSetState CoreState.Paused,
        PlaybackEvent.SetHardFFW false, PlaybackEvent.CoreSetState CoreState.Running] := by
  refine ⟨?_, ?_, ?_, ?_, ?_, ?_⟩ <;> with_unfolding_all decide

/-- C23, amended: for every forward seek (the current playback frame is a real
frame, before the clamped target) whose checkpoint `C` is after the first
frame and has no delta, the seek completes and: the controller walks backward
in steps of 900 from `C - 900` while the candidate is after the current
frame, and loads the first delta it finds, that is the state of `C - 900 k`
for the least `k >= 1` such that `C - 900 k` is after the current frame and
has a delta (the newest such checkpoint before `C`); when no checkpoint
`C - 900 k` after the current frame has a delta, nothing is loaded. -/
theorem forward_seek_walk (J : SlippiGameConstants) (w : PlaybackWorld)
    (hF : inS32 J.PLAYBACK_FIRST_SAVE) (hL : inS32 w.status.m_last_frame)
    (hFL : J.PLAYBACK_FIRST_SAVE ≤ w.status.m_last_frame)
    (hov : w.status.m_last_frame - J.PLAYBACK_FIRST_SAVE ≤ INT_MAX)
    (hG : INT_MIN + 900 ≤ J.GAME_FIRST_FRAME)
    (hcur : J.GAME_FIRST_FRAME ≤ w.status.m_curr_playback_frame)
    (hfwd : w.status.m_curr_playback_frame < clampTarget J w.status)
    (hFC : J.PLAYBACK_FIRST_SAVE < closestStateFrame J (clampTarget J w.status))
    (hcount : mapCount w.status.m_future_diffs
      (closestStateFrame J (clampTarget J w.status)) = 0) :
    ∃ w1 events load,
      SeekToFrame J true w = Except.ok (w1, events) ∧
      events =
        (if w.coreState ≠ CoreState.Paused then [PlaybackEvent.CoreSetState CoreState.Paused]
          else []) ++ load ++
        (if needsFastForward J (seekEnter J w).status = true then fastForwardEvents else []) ++
        [PlaybackEvent.CoreSetState w.coreState] ∧
      (∀ k : Nat, 1 ≤ k →
        closestStateFrame J (clampTarget J w.status) - 900 * k >
          w.status.m_curr_playback_frame →
        mapCount w.status.m_future_diffs
          (closestStateFrame J (clampTarget J w.status) - 900 * k) ≠ 0 →
        (∀ j : Nat, 1 ≤ j → j < k → mapCount w.status.m_future_diffs
          (closestStateFrame J (clampTarget J w.status) - 900 * j) = 0) →
        ∃ src, load = [PlaybackEvent.LoadFromBuffer src] ∧
          loadedFrame J load = some (closestStateFrame J (clampTarget J w.status) - 900 * k) ∧
          (closestStateFrame J (clampTarget J w.status) - 900 * k = J.PLAYBACK_FIRST_SAVE →
            src = LoadedState.InitialState) ∧
          (closestStateFrame J (clampTarget J w.status) - 900 * k ≠ J.PLAYBACK_FIRST_SAVE →
            ∃ diff, mapFind? w.status.m_future_diffs
                (closestStateFrame J (clampTarget J w.status) - 900 * k) = some diff ∧
              src = LoadedState.Decoded
                (closestStateFrame J (clampTarget J w.status) - 900 * k) diff)) ∧
      ((∀ k : Nat, 1 ≤ k →
          closestStateFrame J (clampTarget J w.status) - 900 * k >
            w.status.m_curr_playback_frame →
          mapCount w.status.m_future_diffs
            (closestStateFrame J (clampTarget J w.status) - 900 * k) = 0) → load = []) := by
  obtain ⟨htarget, hcurr, hdiffs, _, _, hCt, htmax, _⟩ := seek_setup J w hF hL hFL hov
  obtain ⟨load, hload, h1, h2⟩ := seekLoad_forward J (seekEnter J w).status
    (closestStateFrame J (clampTarget J w.status)) (by rw [hcurr]; omega) (le_trans hCt htmax)
    hFC (by rw [hdiffs]; exact fun _ => hcount) (by rw [htarget, hcurr]; exact hfwd)
  rw [hdiffs, hcurr] at h1 h2
  rw [← htarget] at hload
  exact ⟨_, _, load, SeekToFrame_of_load J w load hload, rfl, h1, h2⟩

/-- Counterexample to C24 as stated: playback is at frame 1000, the last known
frame is 2000, no delta is stored (first save at frame -122) and a seek to
frame 5000 is requested.  The target is clamped to 2000 and the checkpoint
computed is 1678, after the first frame and after the current frame; no
checkpoint has a delta.  Nothing is loaded, and no fast-forward takes place
either, because the target is the last known frame: the seek only pauses and
resumes the core and records frame 2000 as the playback frame. -/
theorem forward_seek_no_load_counterexample :
    clampTarget slippiGameConstants (playbackStatus 1000 5000 2000 []) = 2000 ∧
    closestStateFrame slippiGameConstants 2000 = 1678 ∧
    (playbackStatus 1000 5000 2000 []).m_curr_playback_frame < 2000 ∧
    (playbackStatus 1000 5000 2000 []).m_future_diffs = [] ∧
    (SeekToFrame slippiGameConstants true
        (playbackWorld (playbackStatus 1000 5000 2000 []))).toOption.map
      (fun r => (r.2, hardFFWEnabled r.2, r.1.status.m_curr_playback_frame)) =
      some ([PlaybackEvent.CoreSetState CoreState.Paused,
        PlaybackEvent.CoreSetState CoreState.Running], false, 2000) := by
  refine ⟨?_, ?_, ?_, ?_, ?_⟩ <;> with_unfolding_all decide

/-- C24, amended: for every forward seek (the current playback frame is a real
frame, before the clamped target) whose checkpoint `C` is after the first
frame, when no checkpoint `C - 900 k` (`k >= 0`) after the current frame has a
delta (in particular when `C` is not after the current frame), the seek
performs no load at all: its actions are the pause of the core, the
fast-forward block when it runs, and the restoring of the core state.  The
fast-forward from the live state runs when the clamped target differs from
`C` and from the last known frame; a seek to the last known frame does not
fast-forward.  The playback frame ends at the clamped target. -/
theorem forward_seek_no_load (J : SlippiGameConstants) (w : PlaybackWorld)
    (hF : inS32 J.PLAYBACK_FIRST_SAVE) (hL : inS32 w.status.m_last_frame)
    (hFL : J.PLAYBACK_FIRST_SAVE ≤ w.status.m_last_frame)
    (hov : w.status.m_last_frame - J.PLAYBACK_FIRST_SAVE ≤ INT_MAX)
    (hG : INT_MIN + 900 ≤ J.GAME_FIRST_FRAME)
    (hcur : J.GAME_FIRST_FRAME ≤ w.status.m_curr_playback_frame)
    (hfwd : w.status.m_curr_playback_frame < clampTarget J w.status)
    (hFC : J.PLAYBACK_FIRST_SAVE < closestStateFrame J (clampTarget J w.status))
    (hnone : ∀ k : Nat,
      closestStateFrame J (clampTarget J w.status) - 900 * k > w.status.m_curr_playback_frame →
      mapCount w.status.m_future_diffs
        (closestStateFrame J (clampTarget J w.status) - 900 * k) = 0) :
    ∃ w1 events,
      SeekToFrame J true w = Except.ok (w1, events) ∧
      events =
        (if w.coreState ≠ CoreState.Paused then [PlaybackEvent.CoreSetState CoreState.Paused]
          else []) ++
        (if clampTarget J w.status ≠ closestStateFrame J (clampTarget J w.status) ∧
            clampTarget J w.status ≠ w.status.m_last_frame then fastForwardEvents else []) ++
        [PlaybackEvent.CoreSetState w.coreState] ∧
      (∀ src, PlaybackEvent.LoadFromBuffer src ∉ events) ∧
      loadedFrame J events = none ∧
      (clampTarget J w.status ≠ closestStateFrame J (clampTarget J w.status) →
        clampTarget J w.status ≠ w.status.m_last_frame → hardFFWEnabled events = true) ∧
      (clampTarget J w.status = w.status.m_last_frame → hardFFWEnabled events = false) ∧
      w1.status.m_curr_playback_frame = clampTarget J w.status := by
  obtain ⟨htarget, hcurr, hdiffs, hlast, _, hCt, htmax, _⟩ := seek_setup J w hF hL hFL hov
  obtain ⟨load, hload, _, h2⟩ := seekLoad_forward J (seekEnter J w).status
    (closestStateFrame J (clampTarget J w.status)) (by rw [hcurr]; omega) (le_trans hCt htmax)
    hFC
    (by
      rw [hdiffs, hcurr]
      intro h
      have := hnone 0 (by rw [sub_mul_zero]; exact h)
      rw [sub_mul_zero] at this
      exact this)
    (by rw [htarget, hcurr]; exact hfwd)
  rw [hdiffs, hcurr] at h2
  have hnil : load = [] := h2 (fun k _ hk => hnone k hk)
  subst hnil
  rw [← htarget] at hload
  have hrun := SeekToFrame_of_load J w [] hload
  have hneeds := needsFastForward_iff J (seekEnter J w).status
  rw [htarget, hlast] at hneeds
  have hpause := seek_pause_cases w.coreState
  have hffw := hardFFWEnabled_events _ [] (needsFastForward J (seekEnter J w).status)
    w.coreState hpause (Or.inl rfl)
  have hlf := loadedFrame_events J _ [] (needsFastForward J (seekEnter J w).status)
    w.coreState hpause (Or.inl rfl)
  refine ⟨_, _, hrun, ?_, fun src hmem => ?_, hlf, fun h1 h2 => ?_, fun h1 => ?_, ?_⟩
  · rw [List.append_nil]
    by_cases hn : needsFastForward J (seekEnter J w).status = true
    · rw [if_pos hn, if_pos (hneeds.mp hn)]
    · rw [if_neg hn, if_neg (fun h => hn (hneeds.mpr h))]
  · have := not_mem_seek_events _ _ w.coreState src hpause
      (seek_ffw_cases (needsFastForward J (seekEnter J w).status)) [] hmem
    exact absurd this (List.not_mem_nil _)
  · exact hffw.trans (hneeds.mpr ⟨h1, h2⟩)
  · rw [hffw]
    cases hn : needsFastForward J (seekEnter J w).status with
    | false => rfl
    | true => exact absurd h1 (hneeds.mp hn).2
  · exact (seekLeave_fields J w.coreState (seekEnter J w)).1.trans htarget

/-! ## Claims on the loads of a seek and on its walks -/

/-- Whatever the fuel and the start, a walk that leaves does so at a frame
that is not after the bound or has a delta. -/
theorem checkpointWalk_stop (diffs : List (Int × List Nat)) (bound : Int) :
    ∀ (fuel : Nat) (c r : Int), checkpointWalk diffs bound fuel c = some r →
      ¬ (r > bound ∧ mapCount diffs r = 0) := by
  intro fuel
  induction fuel with
  | zero =>
    intro c r h
    unfold checkpointWalk at h
    exact Option.noConfusion h
  | succ n ih =>
    intro c r h
    unfold checkpointWalk at h
    by_cases hcont : c > bound ∧ mapCount diffs c = 0
    · rw [if_pos hcont] at h
      exact ih _ r h
    · rw [if_neg hcont] at h
      injection h with h
      rw [← h]
      exact hcont

theorem loadIsStored_of_LoadState (J : SlippiGameConstants) (st : SlippiPlaybackStatus)
    (r : Int) (h : r = J.PLAYBACK_FIRST_SAVE ∨ mapCount st.m_future_diffs r ≠ 0) :
    ∃ load, (LoadState J st r).map (fun e => [e]) = Except.ok load ∧
      LoadIsStored st.m_future_diffs load := by
  by_cases hr : r = J.PLAYBACK_FIRST_SAVE
  · rw [hr]
    exact ⟨_, LoadState_map_of_first J st, Or.inr (Or.inl rfl)⟩
  · obtain ⟨diff, hdiff, hmap⟩ := LoadState_map_of_delta J st r hr
      (h.elim (fun h => absurd h hr) id)
    exact ⟨_, hmap, Or.inr (Or.inr ⟨r, diff, hdiff, rfl⟩)⟩

/-- Every outcome of the load of a seek: the load succeeds with nothing, the
initial snapshot or a stored delta, or it is a forward seek whose walk does
not leave. -/
theorem seekLoad_result (J : SlippiGameConstants) (st : SlippiPlaybackStatus) (C : Int)
    (hF : INT_MIN ≤ J.PLAYBACK_FIRST_SAVE) (hC : C ≤ INT_MAX)
    (hdvd : (900 : Int) ∣ C - J.PLAYBACK_FIRST_SAVE) :
    (∃ load, seekLoad J st C = Except.ok load ∧ LoadIsStored st.m_future_diffs load) ∨
    (seekLoad J st C = Except.error SeekFault.WalkDiverges ∧
      ¬ st.m_target_frame_num < st.m_curr_playback_frame ∧ C > st.m_curr_playback_frame ∧
      checkpointWalk st.m_future_diffs st.m_curr_playback_frame walkFuel
        (toS32 (C - FRAME_INTERVAL)) = none) := by
  by_cases hopt : st.m_target_frame_num < st.m_curr_playback_frame ∨
      C > st.m_curr_playback_frame
  · by_cases h1 : C ≤ J.PLAYBACK_FIRST_SAVE
    · exact Or.inl ⟨_, seekLoad_of_first J st C hopt h1, Or.inr (Or.inl rfl)⟩
    · have hFC : J.PLAYBACK_FIRST_SAVE < C := by omega
      cases hfind : mapFind? st.m_future_diffs C with
      | some d =>
        exact Or.inl ⟨_, seekLoad_of_delta J st C d hopt hFC hfind,
          Or.inr (Or.inr ⟨C, d, hfind, rfl⟩)⟩
      | none =>
        have hcount0 := mapCount_of_none st.m_future_diffs C hfind
        by_cases hback : st.m_target_frame_num < st.m_curr_playback_frame
        · obtain ⟨hstart, n, hn, _, hstop, hlow, _⟩ :=
            backwardWalk_spec st.m_future_diffs J.PLAYBACK_FIRST_SAVE C hF hC hFC hdvd
          have hwalk : checkpointWalk st.m_future_diffs J.PLAYBACK_FIRST_SAVE walkFuel
              (toS32 (C - FRAME_INTERVAL)) = some (C - 900 - 900 * n) := by
            rw [hstart]
            exact checkpointWalk_of_steps _ _ _ _ _ _ hn
          rw [seekLoad_of_backward_walk J st C _ hback hFC hcount0 hwalk]
          refine Or.inl (loadIsStored_of_LoadState J st _ ?_)
          by_cases hr : C - 900 - 900 * (n : Int) = J.PLAYBACK_FIRST_SAVE
          · exact Or.inl hr
          · exact Or.inr (fun h => hstop ⟨by omega, h⟩)
        · have hCcur : C > st.m_curr_playback_frame := hopt.elim (fun h => absurd h hback) id
          by_cases hfwd : st.m_target_frame_num > st.m_curr_playback_frame
          · cases hw : checkpointWalk st.m_future_diffs st.m_curr_playback_frame walkFuel
                (toS32 (C - FRAME_INTERVAL)) with
            | none =>
              refine Or.inr ⟨?_, hback, hCcur, rfl⟩
              unfold seekLoad
              dsimp only
              rw [if_pos (by
                  rw [Bool.or_eq_true, decide_eq_true_iff, decide_eq_true_iff]; exact hopt),
                if_neg h1, if_neg (by omega), if_neg hback, if_pos hfwd, hw]
            | some r =>
              rw [seekLoad_of_forward_walk J st C r hfwd hCcur hFC hcount0 hw]
              by_cases hr : r > st.m_curr_playback_frame
              · rw [if_pos hr]
                exact Or.inl (loadIsStored_of_LoadState J st r
                  (Or.inr (fun h => checkpointWalk_stop _ _ _ _ _ hw ⟨hr, h⟩)))
              · rw [if_neg hr]
                exact Or.inl ⟨_, rfl, Or.inl rfl⟩
          · refine Or.inl ⟨[], ?_, Or.inl rfl⟩
            unfold seekLoad
            dsimp only
            rw [if_pos (by
                rw [Bool.or_eq_true, decide_eq_true_iff, decide_eq_true_iff]; exact hopt),
              if_neg h1, if_neg (by omega), if_neg hback, if_neg hfwd]
  · exact Or.inl ⟨[], seekLoad_of_not_optimal J st C (fun h => hopt (Or.inl h))
      (fun h => hopt (Or.inr h)), Or.inl rfl⟩

theorem seekLoad_completes (J : SlippiGameConstants) (st : SlippiPlaybackStatus) (C : Int)
    (hF : INT_MIN ≤ J.PLAYBACK_FIRST_SAVE) (hC : C ≤ INT_MAX)
    (hdvd : (900 : Int) ∣ C - J.PLAYBACK_FIRST_SAVE)
    (hcur : st.m_target_frame_num < st.m_curr_playback_frame ∨
      INT_MIN + 900 ≤ st.m_curr_playback_frame) :
    ∃ load, seekLoad J st C = Except.ok load ∧ LoadIsStored st.m_future_diffs load := by
  rcases seekLoad_result J st C hF hC hdvd with h | ⟨_, hnb, hCcur, hnone⟩
  · exact h
  · exfalso
    rcases hcur with h | h
    · exact hnb h
    · obtain ⟨hstart, n, hn, _⟩ :=
        forwardWalk_spec st.m_future_diffs st.m_curr_playback_frame C h hC hCcur
      rw [hstart, checkpointWalk_of_steps _ _ _ _ _ _ hn] at hnone
      exact Option.noConfusion hnone

/-- C28: for every call of `SeekToFrame` (first save frame `F`, last known
frame `L` and `L - F` 32-bit values, `L` at least 900 above `INT_MIN`),
whatever the delta map, the requested target and the current playback frame: the checkpoint `C` computed for
the clamped target has `C - F` a multiple of 900; the call never hands
`LoadState` a frame without a delta entry other than `F` (the lookup of a
missing delta, `InvalidFuture`, does not occur); every state a completed seek
loads is the initial snapshot or the decoding of a delta that is stored for
its frame; and the seek does complete when it goes backward or the current
playback frame is at least 900 above `INT_MIN`. -/
theorem seek_loads_only_stored_states (J : SlippiGameConstants) (free : Bool)
    (w : PlaybackWorld)
    (hF : inS32 J.PLAYBACK_FIRST_SAVE) (hL : inS32 w.status.m_last_frame)
    (hsub : inS32 (w.status.m_last_frame - J.PLAYBACK_FIRST_SAVE))
    (hLmin : INT_MIN + 900 ≤ w.status.m_last_frame) :
    (900 : Int) ∣ closestStateFrame J (clampTarget J w.status) - J.PLAYBACK_FIRST_SAVE ∧
    (∀ f, SeekToFrame J free w ≠ Except.error (SeekFault.InvalidFuture f)) ∧
    (∀ w1 events, SeekToFrame J free w = Except.ok (w1, events) →
      ∀ src, PlaybackEvent.LoadFromBuffer src ∈ events →
        src = LoadedState.InitialState ∨
        ∃ frame diff, mapFind? w.status.m_future_diffs frame = some diff ∧
          src = LoadedState.Decoded frame diff) ∧
    ((clampTarget J w.status < w.status.m_curr_playback_frame ∨
        INT_MIN + 900 ≤ w.status.m_curr_playback_frame) →
      ∃ w1 events, SeekToFrame J free w = Except.ok (w1, events)) := by
  obtain ⟨htarget, hcurr, hdiffs, hCmax, hdvd⟩ := seek_setup_general J w hF hL hsub hLmin
  have hres := seekLoad_result J (seekEnter J w).status
    (closestStateFrame J (clampTarget J w.status)) hF.1 hCmax hdvd
  rw [hdiffs, ← htarget] at hres
  refine ⟨hdvd, ?_, ?_, ?_⟩
  · intro f h
    cases free with
    | false =>
      unfold SeekToFrame at h
      rw [if_pos rfl] at h
      exact Except.noConfusion h
    | true =>
      rcases hres with ⟨load, hload, _⟩ | ⟨herr, _⟩
      · rw [SeekToFrame_of_load J w load hload] at h
        exact Except.noConfusion h
      · unfold SeekToFrame at h
        rw [if_neg (by decide), herr] at h
        injection h with h
        exact SeekFault.noConfusion h
  · intro w1 events h src hmem
    cases free with
    | false =>
      unfold SeekToFrame at h
      rw [if_pos rfl] at h
      injection h with h
      injection h with _ h2
      rw [← h2] at hmem
      exact absurd hmem (List.not_mem_nil _)
    | true =>
      rcases hres with ⟨load, hload, hstored⟩ | ⟨herr, _⟩
      · rw [SeekToFrame_of_load J w load hload] at h
        injection h with h
        injection h with _ h2
        rw [← h2] at hmem
        have hin := not_mem_seek_events _ _ w.coreState src (seek_pause_cases w.coreState)
          (seek_ffw_cases (needsFastForward J (seekEnter J w).status)) load hmem
        rcases hstored with hs | hs | ⟨frame, diff, hfind, hs⟩
        · rw [hs] at hin
          exact absurd hin (List.not_mem_nil _)
        · rw [hs, List.mem_singleton] at hin
          injection hin with hin
          exact Or.inl hin
        · rw [hs, List.mem_singleton] at hin
          injection hin with hin
          exact Or.inr ⟨frame, diff, hfind, hin⟩
      · unfold SeekToFrame at h
        rw [if_neg (by decide), herr] at h
        exact Except.noConfusion h
  · intro hcur
    cases free with
    | false =>
      refine ⟨w, [], ?_⟩
      unfold SeekToFrame
      rw [if_pos rfl]
    | true =>
      obtain ⟨load, hload, _⟩ := seekLoad_completes J (seekEnter J w).status
        (closestStateFrame J (clampTarget J w.status)) hF.1 hCmax hdvd
        (by rw [htarget, hcurr]; exact hcur)
      rw [← htarget] at hload
      exact ⟨_, _, SeekToFrame_of_load J w load hload⟩

/-- C30: for every delta map and every seek whose checkpoint `C` is after the
first save frame `F` (the only seeks that walk; `F` and the last known frame
32-bit values with `L - F` representable): the initial `C - 900` does not
overflow; the backward walk (bound `F`) leaves after `n` decrements with
`n <= (C - F) / 900`, at the frame `C - 900 - 900 n`, every frame it takes
being a 32-bit value; and, provided the current playback frame is a real
frame (at or after the game's first frame, itself at least 900 above
`INT_MIN`) and before `C`, the forward walk (bound: the current frame) leaves
after `n <= (C - current) / 900 + 1` decrements at `C - 900 - 900 n`, every
frame it takes being a 32-bit value.  A seek from a real frame completes. -/
theorem checkpoint_walks_terminate (J : SlippiGameConstants) (w : PlaybackWorld)
    (hF : inS32 J.PLAYBACK_FIRST_SAVE) (hL : inS32 w.status.m_last_frame)
    (hFL : J.PLAYBACK_FIRST_SAVE ≤ w.status.m_last_frame)
    (hov : w.status.m_last_frame - J.PLAYBACK_FIRST_SAVE ≤ INT_MAX)
    (hG : INT_MIN + 900 ≤ J.GAME_FIRST_FRAME)
    (hcur : J.GAME_FIRST_FRAME ≤ w.status.m_curr_playback_frame)
    (hFC : J.PLAYBACK_FIRST_SAVE < closestStateFrame J (clampTarget J w.status)) :
    toS32 (closestStateFrame J (clampTarget J w.status) - FRAME_INTERVAL) =
      closestStateFrame J (clampTarget J w.status) - 900 ∧
    (∃ n : Nat,
      checkpointWalkSteps w.status.m_future_diffs J.PLAYBACK_FIRST_SAVE walkFuel
          (toS32 (closestStateFrame J (clampTarget J w.status) - FRAME_INTERVAL)) =
        some (closestStateFrame J (clampTarget J w.status) - 900 - 900 * n, n) ∧
      checkpointWalk w.status.m_future_diffs J.PLAYBACK_FIRST_SAVE walkFuel
          (toS32 (closestStateFrame J (clampTarget J w.status) - FRAME_INTERVAL)) =
        some (closestStateFrame J (clampTarget J w.status) - 900 - 900 * n) ∧
      (n : Int) ≤ (closestStateFrame J (clampTarget J w.status) - J.PLAYBACK_FIRST_SAVE) / 900 ∧
      ∀ j : Nat, j ≤ n →
        inS32 (closestStateFrame J (clampTarget J w.status) - 900 - 900 * j)) ∧
    (w.status.m_curr_playback_frame < closestStateFrame J (clampTarget J w.status) →
      ∃ n : Nat,
        checkpointWalkSteps w.status.m_future_diffs w.status.m_curr_playback_frame walkFuel
            (toS32 (closestStateFrame J (clampTarget J w.status) - FRAME_INTERVAL)) =
          some (closestStateFrame J (clampTarget J w.status) - 900 - 900 * n, n) ∧
        checkpointWalk w.status.m_future_diffs w.status.m_curr_playback_frame walkFuel
            (toS32 (closestStateFrame J (clampTarget J w.status) - FRAME_INTERVAL)) =
          some (closestStateFrame J (clampTarget J w.status) - 900 - 900 * n) ∧
        (n : Int) ≤ (closestStateFrame J (clampTarget J w.status) -
          w.status.m_curr_playback_frame) / 900 + 1 ∧
        ∀ j : Nat, j ≤ n →
          inS32 (closestStateFrame J (clampTarget J w.status) - 900 - 900 * j)) ∧
    ∃ w1 events, SeekToFrame J true w = Except.ok (w1, events) := by
  obtain ⟨htarget, hcurr, hdiffs, _, _, hCt, htmax, hdvd⟩ := seek_setup J w hF hL hFL hov
  have hCmax : closestStateFrame J (clampTarget J w.status) ≤ INT_MAX := le_trans hCt htmax
  have hdone : ∃ w1 events, SeekToFrame J true w = Except.ok (w1, events) := by
    obtain ⟨load, hload, _⟩ := seekLoad_completes J (seekEnter J w).status
      (closestStateFrame J (clampTarget J w.status)) hF.1 hCmax hdvd
      (Or.inr (by rw [hcurr]; exact le_trans hG hcur))
    rw [← htarget] at hload
    exact ⟨_, _, SeekToFrame_of_load J w load hload⟩
  generalize closestStateFrame J (clampTarget J w.status) = C at hFC hdvd hCmax hCt ⊢
  have hFmin := hF.1
  obtain ⟨hstart, n, hn, _, _, hlow, hbound⟩ :=
    backwardWalk_spec w.status.m_future_diffs J.PLAYBACK_FIRST_SAVE C hF.1 hCmax hFC hdvd
  refine ⟨hstart, ⟨n, by rw [hstart]; exact hn,
    by rw [hstart]; exact checkpointWalk_of_steps _ _ _ _ _ _ hn, by omega, fun j hj => ?_⟩,
    fun hcC => ?_, hdone⟩
  · have : (j : Int) ≤ n := by exact_mod_cast hj
    unfold INT_MIN at hFmin
    unfold INT_MAX at hCmax
    unfold inS32 INT_MIN INT_MAX
    constructor <;> omega
  · have hcmin : INT_MIN + 900 ≤ w.status.m_curr_playback_frame := le_trans hG hcur
    obtain ⟨_, m, hm, _, _, hlow2, hbound2⟩ :=
      forwardWalk_spec w.status.m_future_diffs w.status.m_curr_playback_frame C hcmin hCmax hcC
    refine ⟨m, by rw [hstart]; exact hm,
      by rw [hstart]; exact checkpointWalk_of_steps _ _ _ _ _ _ hm, hbound2, fun j hj => ?_⟩
    have : (j : Int) ≤ m := by exact_mod_cast hj
    unfold INT_MIN at hcmin
    unfold INT_MAX at hCmax
    unfold inS32 INT_MIN INT_MAX
    constructor <;> omega

/-! ## Witnesses of the claims on the seek -/

/-- Witness of C22: playback at frame 3000 and a seek back to frame 1850, whose
checkpoint 1678 has no delta: the delta of frame 778 is loaded. -/
theorem backward_seek_loads_greatest_checkpoint_witness :
    closestStateFrame slippiGameConstants (clampTarget slippiGameConstants backwardSeekWorld.status) = 1678 ∧
    (SeekToFrame slippiGameConstants true backwardSeekWorld).toOption.map
      (fun r => loadedFrame slippiGameConstants r.2) = some (some 778) ∧
    (inS32 slippiGameConstants.PLAYBACK_FIRST_SAVE) ∧
    (inS32 backwardSeekWorld.status.m_last_frame) ∧
    (inS32 (backwardSeekWorld.status.m_last_frame - slippiGameConstants.PLAYBACK_FIRST_SAVE)) ∧
    (INT_MIN + 900 ≤ backwardSeekWorld.status.m_last_frame) ∧
    (clampTarget slippiGameConstants backwardSeekWorld.status < backwardSeekWorld.status.m_curr_playback_frame) ∧
    (∃ w1 events load,
      SeekToFrame slippiGameConstants true backwardSeekWorld = Except.ok (w1, events) ∧
      events =
        (if backwardSeekWorld.coreState ≠ CoreState.Paused then [PlaybackEvent.CoreSetState CoreState.Paused]
          else []) ++ load ++
        (if needsFastForward slippiGameConstants (seekEnter slippiGameConstants backwardSeekWorld).status = true then fastForwardEvents else []) ++
        [PlaybackEvent.CoreSetState backwardSeekWorld.coreState] ∧
      ((closestStateFrame slippiGameConstants (clampTarget slippiGameConstants backwardSeekWorld.status) ≤ slippiGameConstants.PLAYBACK_FIRST_SAVE ∨
          ∀ k : Nat, closestStateFrame slippiGameConstants (clampTarget slippiGameConstants backwardSeekWorld.status) - 900 * k >
              slippiGameConstants.PLAYBACK_FIRST_SAVE →
            mapCount backwardSeekWorld.status.m_future_diffs
              (closestStateFrame slippiGameConstants (clampTarget slippiGameConstants backwardSeekWorld.status) - 900 * k) = 0) →
        load = [PlaybackEvent.LoadFromBuffer LoadedState.InitialState]) ∧
      (∀ k : Nat, closestStateFrame slippiGameConstants (clampTarget slippiGameConstants backwardSeekWorld.status) - 900 * k >
          slippiGameConstants.PLAYBACK_FIRST_SAVE →
        mapCount backwardSeekWorld.status.m_future_diffs
          (closestStateFrame slippiGameConstants (clampTarget slippiGameConstants backwardSeekWorld.status) - 900 * k) ≠ 0 →
        (∀ j : Nat, j < k → mapCount backwardSeekWorld.status.m_future_diffs
          (closestStateFrame slippiGameConstants (clampTarget slippiGameConstants backwardSeekWorld.status) - 900 * j) = 0) →
        ∃ diff, mapFind? backwardSeekWorld.status.m_future_diffs
            (closestStateFrame slippiGameConstants (clampTarget slippiGameConstants backwardSeekWorld.status) - 900 * k) = some diff ∧
          load = [PlaybackEvent.LoadFromBuffer
            (LoadedState.Decoded (closestStateFrame slippiGameConstants (clampTarget slippiGameConstants backwardSeekWorld.status) - 900 * k)
              diff)])) :=
  ⟨by with_unfolding_all decide,
    by with_unfolding_all decide,
    by with_unfolding_all decide,
    by with_unfolding_all decide,
    by with_unfolding_all decide,
    by with_unfolding_all decide,
    by with_unfolding_all decide,
    backward_seek_loads_greatest_checkpoint slippiGameConstants backwardSeekWorld (by with_unfolding_all decide) (by with_unfolding_all decide) (by with_unfolding_all decide) (by with_unfolding_all decide) (by with_unfolding_all decide)⟩

/-- Witness of C23: playback at frame 0 and a seek to frame 3000, whose
checkpoint 2578 has no delta: the delta of frame 1678 is loaded. -/
theorem forward_seek_walk_witness :
    (SeekToFrame slippiGameConstants true forwardSeekWorld).toOption.map
      (fun r => loadedFrame slippiGameConstants r.2) = some (some 1678) ∧
    (inS32 slippiGameConstants.PLAYBACK_FIRST_SAVE) ∧
    (inS32 forwardSeekWorld.status.m_last_frame) ∧
    (slippiGameConstants.PLAYBACK_FIRST_SAVE ≤ forwardSeekWorld.status.m_last_frame) ∧
    (forwardSeekWorld.status.m_last_frame - slippiGameConstants.PLAYBACK_FIRST_SAVE ≤ INT_MAX) ∧
    (INT_MIN + 900 ≤ slippiGameConstants.GAME_FIRST_FRAME) ∧
    (slippiGameConstants.GAME_FIRST_FRAME ≤ forwardSeekWorld.status.m_curr_playback_frame) ∧
    (forwardSeekWorld.status.m_curr_playback_frame < clampTarget slippiGameConstants forwardSeekWorld.status) ∧
    (slippiGameConstants.PLAYBACK_FIRST_SAVE < closestStateFrame slippiGameConstants (clampTarget slippiGameConstants forwardSeekWorld.status)) ∧
    (mapCount forwardSeekWorld.status.m_future_diffs (closestStateFrame slippiGameConstants (clampTarget slippiGameConstants forwardSeekWorld.status)) = 0) ∧
    (∃ w1 events load,
      SeekToFrame slippiGameConstants true forwardSeekWorld = Except.ok (w1, events) ∧
      events =
        (if forwardSeekWorld.coreState ≠ CoreState.Paused then [PlaybackEvent.CoreSetState CoreState.Paused]
          else []) ++ load ++
        (if needsFastForward slippiGameConstants (seekEnter slippiGameConstants forwardSeekWorld).status = true then fastForwardEvents else []) ++
        [PlaybackEvent.CoreSetState forwardSeekWorld.coreState] ∧
      (∀ k : Nat, 1 ≤ k →
        closestStateFrame slippiGameConstants (clampTarget slippiGameConstants forwardSeekWorld.status) - 900 * k >
          forwardSeekWorld.status.m_curr_playback_frame →
        mapCount forwardSeekWorld.status.m_future_diffs
          (closestStateFrame slippiGameConstants (clampTarget slippiGameConstants forwardSeekWorld.status) - 900 * k) ≠ 0 →
        (∀ j : Nat, 1 ≤ j → j < k → mapCount forwardSeekWorld.status.m_future_diffs
          (closestStateFrame slippiGameConstants (clampTarget slippiGameConstants forwardSeekWorld.status) - 900 * j) = 0) →
        ∃ src, load = [PlaybackEvent.LoadFromBuffer src] ∧
          loadedFrame slippiGameConstants load = some (closestStateFrame slippiGameConstants (clampTarget slippiGameConstants forwardSeekWorld.status) - 900 * k) ∧
          (closestStateFrame slippiGameConstants (clampTarget slippiGameConstants forwardSeekWorld.status) - 900 * k = slippiGameConstants.PLAYBACK_FIRST_SAVE →
            src = LoadedState.InitialState) ∧
          (closestStateFrame slippiGameConstants (clampTarget slippiGameConstants forwardSeekWorld.status) - 900 * k ≠ slippiGameConstants.PLAYBACK_FIRST_SAVE →
            ∃ diff, mapFind? forwardSeekWorld.status.m_future_diffs
                (closestStateFrame slippiGameConstants (clampTarget slippiGameConstants forwardSeekWorld.status) - 900 * k) = some diff ∧
              src = LoadedState.Decoded
                (closestStateFrame slippiGameConstants (clampTarget slippiGameConstants forwardSeekWorld.status) - 900 * k) diff)) ∧
      ((∀ k : Nat, 1 ≤ k →
          closestStateFrame slippiGameConstants (clampTarget slippiGameConstants forwardSeekWorld.status) - 900 * k >
            forwardSeekWorld.status.m_curr_playback_frame →
          mapCount forwardSeekWorld.status.m_future_diffs
            (closestStateFrame slippiGameConstants (clampTarget slippiGameConstants forwardSeekWorld.status) - 900 * k) = 0) → load = [])) :=
  ⟨by with_unfolding_all decide,
    by with_unfolding_all decide,
    by with_unfolding_all decide,
    by with_unfolding_all decide,
    by with_unfolding_all decide,
    by with_unfolding_all decide,
    by with_unfolding_all decide,
    by with_unfolding_all decide,
    by with_unfolding_all decide,
    by with_unfolding_all decide,
    forward_seek_walk slippiGameConstants forwardSeekWorld (by with_unfolding_all decide) (by with_unfolding_all decide) (by with_unfolding_all decide) (by with_unfolding_all decide) (by with_unfolding_all decide) (by with_unfolding_all decide) (by with_unfolding_all decide) (by with_unfolding_all decide) (by with_unfolding_all decide)⟩

/-- Witness of C24: playback at frame 1000, no delta stored, a seek to frame
1900: nothing is loaded and the target is reached by fast-forwarding. -/
theorem forward_seek_no_load_witness :
    (SeekToFrame slippiGameConstants true liveSeekWorld).toOption.map
      (fun r => (loadedFrame slippiGameConstants r.2, hardFFWEnabled r.2)) =
      some (none, true) ∧
    (inS32 slippiGameConstants.PLAYBACK_FIRST_SAVE) ∧
    (inS32 liveSeekWorld.status.m_last_frame) ∧
    (slippiGameConstants.PLAYBACK_FIRST_SAVE ≤ liveSeekWorld.status.m_last_frame) ∧
    (liveSeekWorld.status.m_last_frame - slippiGameConstants.PLAYBACK_FIRST_SAVE ≤ INT_MAX) ∧
    (INT_MIN + 900 ≤ slippiGameConstants.GAME_FIRST_FRAME) ∧
    (slippiGameConstants.GAME_FIRST_FRAME ≤ liveSeekWorld.status.m_curr_playback_frame) ∧
    (liveSeekWorld.status.m_curr_playback_frame < clampTarget slippiGameConstants liveSeekWorld.status) ∧
    (slippiGameConstants.PLAYBACK_FIRST_SAVE < closestStateFrame slippiGameConstants (clampTarget slippiGameConstants liveSeekWorld.status)) ∧
    (∀ k : Nat, closestStateFrame slippiGameConstants (clampTarget slippiGameConstants liveSeekWorld.status) - 900 * k > liveSeekWorld.status.m_curr_playback_frame → mapCount liveSeekWorld.status.m_future_diffs (closestStateFrame slippiGameConstants (clampTarget slippiGameConstants liveSeekWorld.status) - 900 * k) = 0) ∧
    (∃ w1 events,
      SeekToFrame slippiGameConstants true liveSeekWorld = Except.ok (w1, events) ∧
      events =
        (if liveSeekWorld.coreState ≠ CoreState.Paused then [PlaybackEvent.CoreSetState CoreState.Paused]
          else []) ++
        (if clampTarget slippiGameConstants liveSeekWorld.status ≠ closestStateFrame slippiGameConstants (clampTarget slippiGameConstants liveSeekWorld.status) ∧
            clampTarget slippiGameConstants liveSeekWorld.status ≠ liveSeekWorld.status.m_last_frame then fastForwardEvents else []) ++
        [PlaybackEvent.CoreSetState liveSeekWorld.coreState] ∧
      (∀ src, PlaybackEvent.LoadFromBuffer src ∉ events) ∧
      loadedFrame slippiGameConstants events = none ∧
      (clampTarget slippiGameConstants liveSeekWorld.status ≠ closestStateFrame slippiGameConstants (clampTarget slippiGameConstants liveSeekWorld.status) →
        clampTarget slippiGameConstants liveSeekWorld.status ≠ liveSeekWorld.status.m_last_frame → hardFFWEnabled events = true) ∧
      (clampTarget slippiGameConstants liveSeekWorld.status = liveSeekWorld.status.m_last_frame → hardFFWEnabled events = false) ∧
      w1.status.m_curr_playback_frame = clampTarget slippiGameConstants liveSeekWorld.status) :=
  ⟨by with_unfolding_all decide,
    by with_unfolding_all decide,
    by with_unfolding_all decide,
    by with_unfolding_all decide,
    by with_unfolding_all decide,
    by with_unfolding_all decide,
    by with_unfolding_all decide,
    by with_unfolding_all decide,
    by with_unfolding_all decide,
    fun k _ => rfl,
    forward_seek_no_load slippiGameConstants liveSeekWorld (by with_unfolding_all decide) (by with_unfolding_all decide) (by with_unfolding_all decide) (by with_unfolding_all decide) (by with_unfolding_all decide) (by with_unfolding_all decide) (by with_unfolding_all decide) (by with_unfolding_all decide) (fun k _ => rfl)⟩

/-- Witness of C28: playback at frame 3000 and a seek back to frame 1850 with
deltas stored for the checkpoints 778 and 2578. -/
theorem seek_loads_only_stored_states_witness :
    (inS32 slippiGameConstants.PLAYBACK_FIRST_SAVE) ∧
    (inS32 backwardSeekWorld.status.m_last_frame) ∧
    (inS32 (backwardSeekWorld.status.m_last_frame - slippiGameConstants.PLAYBACK_FIRST_SAVE)) ∧
    (INT_MIN + 900 ≤ backwardSeekWorld.status.m_last_frame) ∧
    ((900 : Int) ∣ closestStateFrame slippiGameConstants (clampTarget slippiGameConstants backwardSeekWorld.status) - slippiGameConstants.PLAYBACK_FIRST_SAVE ∧
    (∀ f, SeekToFrame slippiGameConstants true backwardSeekWorld ≠ Except.error (SeekFault.InvalidFuture f)) ∧
    (∀ w1 events, SeekToFrame slippiGameConstants true backwardSeekWorld = Except.ok (w1, events) →
      ∀ src, PlaybackEvent.LoadFromBuffer src ∈ events →
        src = LoadedState.InitialState ∨
        ∃ frame diff, mapFind? backwardSeekWorld.status.m_future_diffs frame = some diff ∧
          src = LoadedState.Decoded frame diff) ∧
    ((clampTarget slippiGameConstants backwardSeekWorld.status < backwardSeekWorld.status.m_curr_playback_frame ∨
        INT_MIN + 900 ≤ backwardSeekWorld.status.m_curr_playback_frame) →
      ∃ w1 events, SeekToFrame slippiGameConstants true backwardSeekWorld = Except.ok (w1, events))) :=
  ⟨by with_unfolding_all decide,
    by with_unfolding_all decide,
    by with_unfolding_all decide,
    by with_unfolding_all decide,
    seek_loads_only_stored_states slippiGameConstants true backwardSeekWorld (by with_unfolding_all decide) (by with_unfolding_all decide) (by with_unfolding_all decide) (by with_unfolding_all decide)⟩

/-- Witness of C30: playback at frame 0 and a seek to frame 3000 with deltas
stored for the checkpoints 778 and 1678; the checkpoint computed is 2578. -/
theorem checkpoint_walks_terminate_witness :
    checkpointWalkSteps forwardSeekWorld.status.m_future_diffs
      slippiGameConstants.PLAYBACK_FIRST_SAVE walkFuel 1678 = some (1678, 0) ∧
    checkpointWalkSteps [] slippiGameConstants.PLAYBACK_FIRST_SAVE walkFuel 1678 =
      some (-122, 2) ∧
    (inS32 slippiGameConstants.PLAYBACK_FIRST_SAVE) ∧
    (inS32 forwardSeekWorld.status.m_last_frame) ∧
    (slippiGameConstants.PLAYBACK_FIRST_SAVE ≤ forwardSeekWorld.status.m_last_frame) ∧
    (forwardSeekWorld.status.m_last_frame - slippiGameConstants.PLAYBACK_FIRST_SAVE ≤ INT_MAX) ∧
    (INT_MIN + 900 ≤ slippiGameConstants.GAME_FIRST_FRAME) ∧
    (slippiGameConstants.GAME_FIRST_FRAME ≤ forwardSeekWorld.status.m_curr_playback_frame) ∧
    (slippiGameConstants.PLAYBACK_FIRST_SAVE < closestStateFrame slippiGameConstants (clampTarget slippiGameConstants forwardSeekWorld.status)) ∧
    (toS32 (closestStateFrame slippiGameConstants (clampTarget slippiGameConstants forwardSeekWorld.status) - FRAME_INTERVAL) =
      closestStateFrame slippiGameConstants (clampTarget slippiGameConstants forwardSeekWorld.status) - 900 ∧
    (∃ n : Nat,
      checkpointWalkSteps forwardSeekWorld.status.m_future_diffs slippiGameConstants.PLAYBACK_FIRST_SAVE walkFuel
          (toS32 (closestStateFrame slippiGameConstants (clampTarget slippiGameConstants forwardSeekWorld.status) - FRAME_INTERVAL)) =
        some (closestStateFrame slippiGameConstants (clampTarget slippiGameConstants forwardSeekWorld.status) - 900 - 900 * n, n) ∧
      checkpointWalk forwardSeekWorld.status.m_future_diffs slippiGameConstants.PLAYBACK_FIRST_SAVE walkFuel
          (toS32 (closestStateFrame slippiGameConstants (clampTarget slippiGameConstants forwardSeekWorld.status) - FRAME_INTERVAL)) =
        some (closestStateFrame slippiGameConstants (clampTarget slippiGameConstants forwardSeekWorld.status) - 900 - 900 * n) ∧
      (n : Int) ≤ (closestStateFrame slippiGameConstants (clampTarget slippiGameConstants forwardSeekWorld.status) - slippiGameConstants.PLAYBACK_FIRST_SAVE) / 900 ∧
      ∀ j : Nat, j ≤ n →
        inS32 (closestStateFrame slippiGameConstants (clampTarget slippiGameConstants forwardSeekWorld.status) - 900 - 900 * j)) ∧
    (forwardSeekWorld.status.m_curr_playback_frame < closestStateFrame slippiGameConstants (clampTarget slippiGameConstants forwardSeekWorld.status) →
      ∃ n : Nat,
        checkpointWalkSteps forwardSeekWorld.status.m_future_diffs forwardSeekWorld.status.m_curr_playback_frame walkFuel
            (toS32 (closestStateFrame slippiGameConstants (clampTarget slippiGameConstants forwardSeekWorld.status) - FRAME_INTERVAL)) =
          some (closestStateFrame slippiGameConstants (clampTarget slippiGameConstants forwardSeekWorld.status) - 900 - 900 * n, n) ∧
        checkpointWalk forwardSeekWorld.status.m_future_diffs forwardSeekWorld.status.m_curr_playback_frame walkFuel
            (toS32 (closestStateFrame slippiGameConstants (clampTarget slippiGameConstants forwardSeekWorld.status) - FRAME_INTERVAL)) =
          some (closestStateFrame slippiGameConstants (clampTarget slippiGameConstants forwardSeekWorld.status) - 900 - 900 * n) ∧
        (n : Int) ≤ (closestStateFrame slippiGameConstants (clampTarget slippiGameConstants forwardSeekWorld.status) -
          forwardSeekWorld.status.m_curr_playback_frame) / 900 + 1 ∧
        ∀ j : Nat, j ≤ n →
          inS32 (closestStateFrame slippiGameConstants (clampTarget slippiGameConstants forwardSeekWorld.status) - 900 - 900 * j)) ∧
    ∃ w1 events, SeekToFrame slippiGameConstants true forwardSeekWorld = Except.ok (w1, events)) :=
  ⟨by with_unfolding_all decide,
    by with_unfolding_all decide,
    by with_unfolding_all decide,
    by with_unfolding_all decide,
    by with_unfolding_all decide,
    by with_unfolding_all decide,
    by with_unfolding_all decide,
    by with_unfolding_all decide,
    by with_unfolding_all decide,
    checkpoint_walks_terminate slippiGameConstants forwardSeekWorld (by with_unfolding_all decide) (by with_unfolding_all decide) (by with_unfolding_all decide) (by with_unfolding_all decide) (by with_unfolding_all decide) (by with_unfolding_all decide) (by with_unfolding_all decide)⟩

/-! ## Claim on the soft fast-forward at the sentinel -/

theorem ShouldFFWFrame_of_soft (st : SlippiPlaybackStatus) (f : Int)
    (hsoft : st.m_soft_ffw = true) (hhard : st.m_hard_ffw = false) :
    ShouldFFWFrame st f = decide (toS32 (f - st.m_last_ffw_frame) ≥ 15) := by
  unfold ShouldFFWFrame
  rw [if_neg (fun h => by rw [hsoft] at h; exact Bool.noConfusion h.1),
    if_neg (by rw [hhard]; exact Bool.false_ne_true)]

theorem toS32_sub_of_nonneg (f : Int) (h0 : 0 ≤ f) (hmax : f ≤ INT_MAX) :
    toS32 (f - INT_MIN) = f - 2147483648 := by
  unfold INT_MAX at hmax
  unfold toS32 INT_MIN
  omega

/-- C27 (the code departs from the claim): with soft fast-forward on, hard
fast-forward off and the last fast-forwarded frame at its `INT_MIN` sentinel,
`ShouldFFWFrame(f)` on a 32-bit frame index `f` is true exactly when
`INT_MIN + 15 <= f < 0`.  For every `f >= 0` the difference `f - INT_MIN`
exceeds the `s32` range; read modulo `2^32` as the `s32` it is, it is
`f - 2^31`, a negative number, so the comparison with 15 fails and the
function answers false: frame 0 is not fast-forwarded, frame -1 is. -/
theorem soft_ffw_at_sentinel (st : SlippiPlaybackStatus) (f : Int)
    (hsoft : st.m_soft_ffw = true) (hhard : st.m_hard_ffw = false)
    (hlast : st.m_last_ffw_frame = INT_MIN) (hf : inS32 f) :
    (ShouldFFWFrame st f = true ↔ INT_MIN + 15 ≤ f ∧ f < 0) ∧
    (0 ≤ f → toS32 (f - INT_MIN) = f - 2147483648 ∧ toS32 (f - INT_MIN) < 0 ∧
      ShouldFFWFrame st f = false) ∧
    (INT_MIN + 15 ≤ f → f < 0 → toS32 (f - INT_MIN) = f - INT_MIN ∧
      ShouldFFWFrame st f = true) := by
  obtain ⟨h1, h2⟩ := hf
  have hS := ShouldFFWFrame_of_soft st f hsoft hhard
  rw [hlast] at hS
  have hneg : f < 0 → toS32 (f - INT_MIN) = f - INT_MIN := fun hlt =>
    toS32_of_inS32 _ ⟨by unfold INT_MIN at h1 ⊢; omega, by unfold INT_MIN INT_MAX at *; omega⟩
  have hpos : 0 ≤ f → toS32 (f - INT_MIN) = f - 2147483648 := fun h0 =>
    toS32_sub_of_nonneg f h0 h2
  refine ⟨?_, fun h0 => ?_, fun h15 hlt => ?_⟩
  · rw [hS, decide_eq_true_iff]
    by_cases h0 : 0 ≤ f
    · rw [hpos h0]
      unfold INT_MAX at h2
      unfold INT_MIN
      omega
    · rw [hneg (by omega)]
      unfold INT_MIN
      omega
  · refine ⟨hpos h0, ?_, ?_⟩
    · rw [hpos h0]
      unfold INT_MAX at h2
      omega
    · rw [hS, hpos h0]
      unfold INT_MAX at h2
      exact decide_eq_false (by omega)
  · refine ⟨hneg hlt, ?_⟩
    rw [hS, hneg hlt]
    unfold INT_MIN at h15 ⊢
    exact decide_eq_true (by omega)

/-- Witness of C27: soft fast-forward on, nothing fast-forwarded yet, frame 0:
the function answers false; at frame -1 it answers true. -/
theorem soft_ffw_at_sentinel_witness :
    (ffwStatus false true INT_MIN).m_soft_ffw = true ∧
    (ffwStatus false true INT_MIN).m_hard_ffw = false ∧
    (ffwStatus false true INT_MIN).m_last_ffw_frame = INT_MIN ∧ inS32 0 ∧
    toS32 (0 - INT_MIN) = -2147483648 ∧
    ShouldFFWFrame (ffwStatus false true INT_MIN) 0 = false ∧
    ShouldFFWFrame (ffwStatus false true INT_MIN) (-1) = true ∧
    ShouldFFWFrame (ffwStatus false true INT_MIN) 2147483647 = false :=
  ⟨rfl, rfl, rfl, by decide,
    ((soft_ffw_at_sentinel (ffwStatus false true INT_MIN) 0 rfl rfl rfl (by decide)).2.1
      (le_refl 0)).1,
    by with_unfolding_all decide, by with_unfolding_all decide, by with_unfolding_all decide⟩

/-! ## Claim on a repeated load -/

theorem mapFind?_mapErase_of_none {β : Type} (m : List (Int × β)) (k f : Int)
    (h : mapFind? m f = none) : mapFind? (mapErase m k) f = none := by
  by_cases hk : f = k
  · rw [hk]
    exact mapFind?_mapErase_self m k
  · rw [mapFind?_mapErase_ne m k f hk]
    exact h

theorem grabSavestate_absent (active active1 : List (Int × SlippiSavestate))
    (available available1 : List SlippiSavestate) (ss : SlippiSavestate) (f : Int)
    (h : mapFind? active f = none)
    (hg : grabSavestate active available = some (ss, active1, available1)) :
    mapFind? active1 f = none := by
  unfold grabSavestate at hg
  cases hl : available.getLast? with
  | some last =>
    rw [hl] at hg
    injection hg with hg
    injection hg with _ hg
    injection hg with hg _
    rw [← hg]
    exact h
  | none =>
    rw [hl] at hg
    cases active with
    | nil => exact Option.noConfusion hg
    | cons e rest =>
      obtain ⟨k, v⟩ := e
      injection hg with hg
      injection hg with _ hg
      injection hg with hg _
      rw [← hg]
      exact mapFind?_mapErase_of_none _ k f h

theorem releasePrior_absent (frame f : Int) (active : List (Int × SlippiSavestate))
    (available : List SlippiSavestate) (h : mapFind? active f = none) :
    mapFind? (releasePrior frame active available).1 f = none := by
  unfold releasePrior
  cases mapFind? active frame with
  | none => exact h
  | some old => exact mapFind?_mapErase_of_none _ frame f h

theorem HandleCaptureSavestate_absent (s s1 : CEXISlippi) (env : Env) (payload : List Nat)
    (f : Int) (h : mapFind? s.m_active_savestates f = none) (hne : readFrame payload ≠ f)
    (hstep : HandleCaptureSavestate s env payload = some s1) :
    mapFind? s1.m_active_savestates f = none := by
  cases hd : IsDisconnected env with
  | true =>
    rw [HandleCaptureSavestate_of_disconnected s env payload hd] at hstep
    injection hstep with hstep
    rw [← hstep]
    exact h
  | false =>
    cases hg : grabSavestate s.m_active_savestates s.m_available_savestates with
    | none =>
      unfold HandleCaptureSavestate at hstep
      rw [hd, hg] at hstep
      exact absurd hstep (by simp)
    | some r =>
      obtain ⟨ss, active1, available1⟩ := r
      rw [HandleCaptureSavestate_of_grab s env payload ss active1 available1 hd hg] at hstep
      injection hstep with hstep
      rw [← hstep]
      show mapFind? (mapInsert (releasePrior (readFrame payload) active1 available1).1
        (readFrame payload) ss) f = none
      rw [mapFind?_mapInsert_ne _ _ _ _ (fun h => hne h.symm)]
      exact releasePrior_absent _ f active1 available1
        (grabSavestate_absent _ _ _ _ ss f h hg)

theorem PrepareOpponentInputs_active (K : SlippiConstants) (s s1 : CEXISlippi) (env : Env)
    (c : SlippiNetplayClient) (payload : List Nat)
    (h : PrepareOpponentInputs K s env c payload = some s1) :
    s1.m_active_savestates = s.m_active_savestates := by
  cases hp : padsInBounds K env c (readFrame payload) with
  | false =>
    unfold PrepareOpponentInputs at h
    rw [if_pos hp] at h
    exact absurd h (by simp)
  | true =>
    obtain ⟨s2, h2, _, _, _, _, _, ha, _⟩ := PrepareOpponentInputs_of_inBounds K s env c payload hp
    rw [h2] at h
    injection h with h
    subst h
    exact ha

theorem enterFrame_active (s : CEXISlippi) (payload : List Nat) :
    (enterFrame s payload).m_active_savestates = s.m_active_savestates ∨
    (enterFrame s payload).m_active_savestates = [] := by
  unfold enterFrame
  split_ifs
  · exact Or.inr rfl
  · exact Or.inl rfl

theorem pushRead_active (s : CEXISlippi) (b : Nat) :
    (pushRead s b).m_active_savestates = s.m_active_savestates := rfl

theorem emit_active (s : CEXISlippi) (e : Effect) :
    (emit s e).m_active_savestates = s.m_active_savestates := rfl

/-- A per-frame call leaves the active map as it is or empties it. -/
theorem HandleOnlineInputs_active (K : SlippiConstants) (s s1 : CEXISlippi) (env : Env)
    (payload : List Nat) (hstep : HandleOnlineInputs K s env payload = some s1) :
    s1.m_active_savestates = s.m_active_savestates ∨ s1.m_active_savestates = [] := by
  have he := enterFrame_active s payload
  cases hn : env.m_slippi_netplay with
  | none =>
    rw [HandleOnlineInputs_of_no_client K s env payload hn] at hstep
    by_cases h1 : readFrame payload = 1
    · rw [if_pos h1] at hstep
      exact absurd hstep (by simp)
    · rw [if_neg h1] at hstep
      injection hstep with hstep
      rw [← hstep, pushRead_active]
      exact he
  | some c =>
    rw [HandleOnlineInputs_of_client K s env c payload hn] at hstep
    obtain ⟨⟨p1, _, _⟩, _, _⟩ :=
      ShouldSkipOnlineFrame_samePool (enterFrame s payload) c (readFrame payload)
    by_cases h2 : IsDisconnected env = true
    · rw [if_pos h2] at hstep
      injection hstep with hstep
      rw [← hstep, pushRead_active]
      exact he
    · rw [if_neg h2] at hstep
      by_cases h3 : (ShouldSkipOnlineFrame (enterFrame s payload) c (readFrame payload)).1 = true
      · rw [if_pos h3] at hstep
        injection hstep with hstep
        rw [← hstep, pushRead_active, emit_active, p1]
        exact he
      · rw [if_neg h3] at hstep
        have ha := PrepareOpponentInputs_active K _ s1 env c payload hstep
        obtain ⟨r1, _, _⟩ := HandleSendInputs_samePool
          (ShouldSkipOnlineFrame (enterFrame s payload) c (readFrame payload)).2 payload
        rw [ha, r1, p1]
        exact he

theorem HandleLoadSavestate_absent (s : CEXISlippi) (payload : List Nat) (f : Int)
    (h : mapFind? s.m_active_savestates f = none) :
    mapFind? (HandleLoadSavestate s payload).m_active_savestates f = none := by
  cases hf : mapFind? s.m_active_savestates (readFrame payload) with
  | none => rw [HandleLoadSavestate_of_none s payload hf]; exact h
  | some ss => rw [HandleLoadSavestate_of_some s payload ss hf]; rfl

/-- A frame without an active snapshot stays without one through every
sequence of commands that holds no capture of this frame. -/
theorem run_absent (K : SlippiConstants) (f : Int) (cmds : List Command) :
    ∀ s s1 : CEXISlippi, mapFind? s.m_active_savestates f = none →
      (∀ env p, Command.CaptureSavestate env p ∈ cmds → readFrame p ≠ f) →
      run K s cmds = some s1 → mapFind? s1.m_active_savestates f = none := by
  induction cmds with
  | nil =>
    intro s s1 h _ hr
    have h2 : some s = some s1 := hr
    injection h2 with h2
    subst h2
    exact h
  | cons cmd rest ih =>
    intro s s1 h hcmds hr
    unfold run at hr
    cases hs : step K s cmd with
    | none => rw [hs] at hr; exact absurd hr (by simp)
    | some sa =>
      rw [hs] at hr
      refine ih sa s1 ?_ (fun env p hmem => hcmds env p (List.mem_cons_of_mem _ hmem)) hr
      cases cmd with
      | OnlineInputs env payload =>
        rcases HandleOnlineInputs_active K s sa env payload hs with ha | ha
        · rw [ha]; exact h
        · rw [ha]; rfl
      | CaptureSavestate env payload =>
        exact HandleCaptureSavestate_absent s sa env payload f h
          (hcmds env payload (List.mem_cons_self _ _)) hs
      | LoadSavestate payload =>
        have hs2 : some (HandleLoadSavestate s payload) = some sa := hs
        injection hs2 with hs2
        subst hs2
        exact HandleLoadSavestate_absent s payload f h

/-- C29: a successful `Load(f)` (frame `f` has an active snapshot) on a pool
of 7 slots releases every active snapshot, the loaded one included: the
snapshot of `f` is restored, afterwards the active map is empty and all 7
slots are available.  A second `Load(f)` issued right away finds nothing and
leaves the device as it is; and so does a `Load(f)` issued after any sequence
of commands that holds no capture of frame `f`. -/
theorem load_releases_loaded_frame (K : SlippiConstants) (s s2 : CEXISlippi)
    (payload : List Nat) (ss : SlippiSavestate) (cmds : List Command)
    (hpool : s.m_active_savestates.length + s.m_available_savestates.length =
      ROLLBACK_MAX_FRAMES)
    (hfound : mapFind? s.m_active_savestates (readFrame payload) = some ss)
    (hcmds : ∀ env p, Command.CaptureSavestate env p ∈ cmds → readFrame p ≠ readFrame payload)
    (hrun : run K (HandleLoadSavestate s payload) cmds = some s2) :
    (HandleLoadSavestate s payload).effects =
      s.effects ++ [Effect.SavestateLoad ss (preserveBlocks payload)] ∧
    (HandleLoadSavestate s payload).m_active_savestates = [] ∧
    (HandleLoadSavestate s payload).m_available_savestates.length = 7 ∧
    (∀ payload2, readFrame payload2 = readFrame payload →
      HandleLoadSavestate (HandleLoadSavestate s payload) payload2 =
        HandleLoadSavestate s payload) ∧
    mapFind? s2.m_active_savestates (readFrame payload) = none ∧
    (∀ payload2, readFrame payload2 = readFrame payload →
      HandleLoadSavestate s2 payload2 = s2) := by
  have hload := HandleLoadSavestate_of_some s payload ss hfound
  have hactive : (HandleLoadSavestate s payload).m_active_savestates = [] := by
    rw [hload]
  have habsent : mapFind? (HandleLoadSavestate s payload).m_active_savestates
      (readFrame payload) = none := by
    rw [hactive]
    rfl
  have hlater := run_absent K (readFrame payload) cmds _ s2 habsent hcmds hrun
  refine ⟨by rw [hload], hactive, ?_, fun payload2 h2 => ?_, hlater, fun payload2 h2 => ?_⟩
  · rw [hload]
    show (s.m_available_savestates ++ s.m_active_savestates.map Prod.snd).length = 7
    rw [List.length_append, List.length_map]
    unfold ROLLBACK_MAX_FRAMES at hpool
    omega
  · exact HandleLoadSavestate_of_none _ payload2 (by rw [h2]; exact habsent)
  · exact HandleLoadSavestate_of_none _ payload2 (by rw [h2]; exact hlater)

/-- Witness of C29: the pool holding frames 1 to 7, a load of frame 3, then a
capture of frame 9, a per-frame call and a capture of frame 10. -/
theorem load_releases_loaded_frame_witness :
    fullPool.m_active_savestates.length + fullPool.m_available_savestates.length =
      ROLLBACK_MAX_FRAMES ∧
    mapFind? fullPool.m_active_savestates (readFrame (frameBytes 3)) = some { id := 2 } ∧
    (∀ env p, Command.CaptureSavestate env p ∈ commandsAfterLoad →
      readFrame p ≠ readFrame (frameBytes 3)) ∧
    run slippiConstants (HandleLoadSavestate fullPool (frameBytes 3)) commandsAfterLoad =
      some ((run slippiConstants (HandleLoadSavestate fullPool (frameBytes 3))
        commandsAfterLoad).getD fullPool) ∧
    ((run slippiConstants (HandleLoadSavestate fullPool (frameBytes 3))
        commandsAfterLoad).getD fullPool).m_active_savestates.map Prod.fst = [9, 10] ∧
    (HandleLoadSavestate fullPool (frameBytes 3)).effects =
      fullPool.effects ++ [Effect.SavestateLoad { id := 2 } (preserveBlocks (frameBytes 3))] ∧
    (HandleLoadSavestate fullPool (frameBytes 3)).m_active_savestates = [] ∧
    (HandleLoadSavestate fullPool (frameBytes 3)).m_available_savestates.length = 7 ∧
    (∀ payload2, readFrame payload2 = readFrame (frameBytes 3) →
      HandleLoadSavestate (HandleLoadSavestate fullPool (frameBytes 3)) payload2 =
        HandleLoadSavestate fullPool (frameBytes 3)) ∧
    mapFind? ((run slippiConstants (HandleLoadSavestate fullPool (frameBytes 3))
        commandsAfterLoad).getD fullPool).m_active_savestates (readFrame (frameBytes 3)) =
      none ∧
    (∀ payload2, readFrame payload2 = readFrame (frameBytes 3) →
      HandleLoadSavestate ((run slippiConstants (HandleLoadSavestate fullPool (frameBytes 3))
        commandsAfterLoad).getD fullPool) payload2 =
      (run slippiConstants (HandleLoadSavestate fullPool (frameBytes 3))
        commandsAfterLoad).getD fullPool) :=
  ⟨by with_unfolding_all decide, by with_unfolding_all decide,
    by
      intro env p hmem
      unfold commandsAfterLoad at hmem
      simp only [List.mem_cons, List.mem_singleton, Command.CaptureSavestate.injEq,
        List.mem_nil_iff, or_false, reduceCtorEq, false_or] at hmem
      rcases hmem with ⟨_, h⟩ | ⟨_, h⟩ <;> rw [h] <;> with_unfolding_all decide,
    some_getD_of_isSome _ _ (by with_unfolding_all decide),
    by with_unfolding_all decide,
    load_releases_loaded_frame slippiConstants fullPool _ (frameBytes 3) { id := 2 }
      commandsAfterLoad (by with_unfolding_all decide) (by with_unfolding_all decide)
      (by
        intro env p hmem
        unfold commandsAfterLoad at hmem
        simp only [List.mem_cons, List.mem_singleton, Command.CaptureSavestate.injEq,
          List.mem_nil_iff, or_false, reduceCtorEq, false_or] at hmem
        rcases hmem with ⟨_, h⟩ | ⟨_, h⟩ <;> rw [h] <;> with_unfolding_all decide)
      (some_getD_of_isSome _ _ (by with_unfolding_all decide))⟩

/-! ## Claim on the clock-skew skip run -/

theorem skipFields_resetCount (e : CEXISlippi) :
    ({ e with m_stall_frame_count := 0 } : CEXISlippi).m_frames_to_skip = e.m_frames_to_skip ∧
    ({ e with m_stall_frame_count := 0 } : CEXISlippi).m_currently_skipping =
      e.m_currently_skipping := ⟨rfl, rfl⟩

theorem skipFields_pushRead (s : CEXISlippi) (b : Nat) :
    (pushRead s b).m_frames_to_skip = s.m_frames_to_skip ∧
    (pushRead s b).m_currently_skipping = s.m_currently_skipping := ⟨rfl, rfl⟩

theorem skipFields_emit (s : CEXISlippi) (e : Effect) :
    (emit s e).m_frames_to_skip = s.m_frames_to_skip ∧
    (emit s e).m_currently_skipping = s.m_currently_skipping := ⟨rfl, rfl⟩

theorem skipFields_stallTick (s : CEXISlippi) :
    (stallTick s).m_frames_to_skip = s.m_frames_to_skip ∧
    (stallTick s).m_currently_skipping = s.m_currently_skipping := ⟨rfl, rfl⟩

theorem skipFields_enterFrame (s : CEXISlippi) (payload : List Nat) :
    (enterFrame s payload).m_frames_to_skip = s.m_frames_to_skip ∧
    (enterFrame s payload).m_currently_skipping = s.m_currently_skipping := by
  unfold enterFrame
  split_ifs <;> exact ⟨rfl, rfl⟩

theorem skipFields_HandleSendInputs (s : CEXISlippi) (payload : List Nat) :
    (HandleSendInputs s payload).m_frames_to_skip = s.m_frames_to_skip ∧
    (HandleSendInputs s payload).m_currently_skipping = s.m_currently_skipping := by
  unfold HandleSendInputs
  split_ifs <;> exact ⟨rfl, rfl⟩

theorem skipFields_PrepareOpponentInputs (K : SlippiConstants) (s s1 : CEXISlippi) (env : Env)
    (c : SlippiNetplayClient) (payload : List Nat)
    (h : PrepareOpponentInputs K s env c payload = some s1) :
    s1.m_frames_to_skip = s.m_frames_to_skip ∧
    s1.m_currently_skipping = s.m_currently_skipping := by
  cases hp : padsInBounds K env c (readFrame payload) with
  | false =>
    unfold PrepareOpponentInputs at h
    rw [if_pos hp] at h
    exact absurd h (by simp)
  | true =>
    obtain ⟨s2, h2, _, _, _, hf, hc, _⟩ := PrepareOpponentInputs_of_inBounds K s env c payload hp
    rw [h2] at h
    injection h with h
    subst h
    exact ⟨hf, hc⟩

theorem skipFields_HandleCaptureSavestate (s s1 : CEXISlippi) (env : Env) (payload : List Nat)
    (h : HandleCaptureSavestate s env payload = some s1) :
    s1.m_frames_to_skip = s.m_frames_to_skip ∧
    s1.m_currently_skipping = s.m_currently_skipping := by
  unfold HandleCaptureSavestate at h
  split_ifs at h
  · injection h with h; subst h; exact ⟨rfl, rfl⟩
  · cases hg : grabSavestate s.m_active_savestates s.m_available_savestates with
    | none => rw [hg] at h; exact absurd h (by simp)
    | some r =>
      obtain ⟨ss, a1, v1⟩ := r
      rw [hg] at h
      injection h with h; subst h; exact ⟨rfl, rfl⟩

theorem skipFields_HandleLoadSavestate (s : CEXISlippi) (payload : List Nat) :
    (HandleLoadSavestate s payload).m_frames_to_skip = s.m_frames_to_skip ∧
    (HandleLoadSavestate s payload).m_currently_skipping = s.m_currently_skipping := by
  cases hf : mapFind? s.m_active_savestates (readFrame payload) with
  | none => rw [HandleLoadSavestate_of_none s payload hf]; exact ⟨rfl, rfl⟩
  | some ss => rw [HandleLoadSavestate_of_some s payload ss hf]; exact ⟨rfl, rfl⟩

theorem skipInv_of_fields (s t : CEXISlippi) (h : SkipInv s)
    (hf : t.m_frames_to_skip = s.m_frames_to_skip)
    (hc : t.m_currently_skipping = s.m_currently_skipping) : SkipInv t := by
  unfold SkipInv
  rw [hf, hc]
  exact h

theorem framesToSkip_le (frame offset_us : Int) : framesToSkip frame offset_us ≤ 5 := by
  unfold framesToSkip
  dsimp only
  split_ifs <;> omega

/-- The number of frames scheduled for an offset above 10000 us:
`min(cap, (o - 10000) div 16683 + 1)`, at least 1. -/
theorem framesToSkip_of_large (frame o : Int) (ho : inS32 o) (hlarge : o > 10000) :
    framesToSkip frame o = min (if frame ≤ 120 then 5 else 1) ((o - 10000) / 16683 + 1) ∧
    1 ≤ framesToSkip frame o := by
  obtain ⟨h1, h2⟩ := ho
  unfold INT_MIN at h1
  unfold INT_MAX at h2
  have hsub : toS32 (o - 10000) = o - 10000 :=
    toS32_of_inS32 _ ⟨by unfold INT_MIN; omega, by unfold INT_MAX; omega⟩
  have hdiv : Int.tdiv (o - 10000) 16683 = (o - 10000) / 16683 :=
    Int.tdiv_eq_ediv (by omega) (by decide)
  have hq0 : 0 ≤ (o - 10000) / 16683 := Int.ediv_nonneg (by omega) (by decide)
  have hq1 : (o - 10000) / 16683 ≤ 2147483647 := by omega
  have hadd : toS32 ((o - 10000) / 16683 + 1) = (o - 10000) / 16683 + 1 :=
    toS32_of_inS32 _ ⟨by unfold INT_MIN; omega, by unfold INT_MAX; omega⟩
  unfold framesToSkip
  dsimp only
  rw [hsub, hdiv, hadd]
  constructor
  · split_ifs <;> omega
  · split_ifs <;> omega

theorem scheduleSkips_of_skipping (s : CEXISlippi) (c : SlippiNetplayClient) (frame : Int)
    (h : s.m_currently_skipping = true) : scheduleSkips s c frame = s := by
  unfold scheduleSkips
  rw [if_neg (fun hc => by rw [h] at hc; exact Bool.noConfusion hc.2)]

theorem scheduleSkips_of_small (s : CEXISlippi) (c : SlippiNetplayClient) (frame : Int)
    (h : ¬ c.CalcTimeOffsetUs > 10000) : scheduleSkips s c frame = s := by
  unfold scheduleSkips
  split_ifs <;> rfl

theorem scheduleSkips_of_sample (s : CEXISlippi) (c : SlippiNetplayClient) (frame : Int)
    (hsync : Int.tmod frame SLIPPI_ONLINE_LOCKSTEP_INTERVAL = 0)
    (hidle : s.m_currently_skipping = false) (h : c.CalcTimeOffsetUs > 10000) :
    (scheduleSkips s c frame).m_currently_skipping = true ∧
    (scheduleSkips s c frame).m_frames_to_skip = framesToSkip frame c.CalcTimeOffsetUs := by
  unfold scheduleSkips
  rw [if_pos ⟨hsync, hidle⟩, if_pos h]
  exact ⟨rfl, rfl⟩

theorem scheduleSkips_skipInv (s : CEXISlippi) (c : SlippiNetplayClient) (frame : Int)
    (h : SkipInv s) : SkipInv (scheduleSkips s c frame) := by
  unfold scheduleSkips
  split_ifs
  · intro hc
    exact Bool.noConfusion hc
  · exact h
  · exact h

theorem consumeSkip_of_pos (s : CEXISlippi) (h : s.m_frames_to_skip > 0) :
    (consumeSkip s).1 = true ∧
    (consumeSkip s).2.m_frames_to_skip = toS32 (s.m_frames_to_skip - 1) ∧
    (consumeSkip s).2.m_currently_skipping = s.m_currently_skipping := by
  unfold consumeSkip
  rw [if_pos h]
  exact ⟨rfl, rfl, rfl⟩

theorem consumeSkip_of_nonpos (s : CEXISlippi) (h : ¬ s.m_frames_to_skip > 0) :
    (consumeSkip s).1 = false ∧
    (consumeSkip s).2.m_frames_to_skip = s.m_frames_to_skip ∧
    (consumeSkip s).2.m_currently_skipping = false := by
  unfold consumeSkip
  rw [if_neg h]
  exact ⟨rfl, rfl, rfl⟩

theorem consumeSkip_skipInv (s : CEXISlippi) (h : SkipInv s) : SkipInv (consumeSkip s).2 := by
  by_cases hp : s.m_frames_to_skip > 0
  · obtain ⟨_, hf, hc⟩ := consumeSkip_of_pos s hp
    unfold SkipInv
    rw [hf, hc]
    intro hidle
    have := h hidle
    omega
  · obtain ⟨_, hf, hc⟩ := consumeSkip_of_nonpos s hp
    unfold SkipInv
    rw [hf]
    intro _
    omega

theorem ShouldSkipOnlineFrame_skipInv (s : CEXISlippi) (c : SlippiNetplayClient) (frame : Int)
    (h : SkipInv s) : SkipInv (ShouldSkipOnlineFrame s c frame).2 := by
  unfold ShouldSkipOnlineFrame
  split_ifs
  · exact h
  · exact h
  · exact skipInv_of_fields s _ h (skipFields_stallTick s).1 (skipFields_stallTick s).2
  · exact consumeSkip_skipInv _ (scheduleSkips_skipInv _ c frame
      (skipInv_of_fields s _ h (skipFields_resetCount s).1 (skipFields_resetCount s).2))

theorem HandleOnlineInputs_skipInv (K : SlippiConstants) (s s1 : CEXISlippi) (env : Env)
    (payload : List Nat) (h : SkipInv s) (hstep : HandleOnlineInputs K s env payload = some s1) :
    SkipInv s1 := by
  have he : SkipInv (enterFrame s payload) :=
    skipInv_of_fields s _ h (skipFields_enterFrame s payload).1 (skipFields_enterFrame s payload).2
  cases hn : env.m_slippi_netplay with
  | none =>
    rw [HandleOnlineInputs_of_no_client K s env payload hn] at hstep
    by_cases h1 : readFrame payload = 1
    · rw [if_pos h1] at hstep
      exact absurd hstep (by simp)
    · rw [if_neg h1] at hstep
      injection hstep with hstep
      rw [← hstep]
      exact skipInv_of_fields _ _ he (skipFields_pushRead _ 3).1 (skipFields_pushRead _ 3).2
  | some c =>
    rw [HandleOnlineInputs_of_client K s env c payload hn] at hstep
    have hskip := ShouldSkipOnlineFrame_skipInv (enterFrame s payload) c (readFrame payload) he
    by_cases h2 : IsDisconnected env = true
    · rw [if_pos h2] at hstep
      injection hstep with hstep
      rw [← hstep]
      exact skipInv_of_fields _ _ he (skipFields_pushRead _ 3).1 (skipFields_pushRead _ 3).2
    · rw [if_neg h2] at hstep
      by_cases h3 : (ShouldSkipOnlineFrame (enterFrame s payload) c (readFrame payload)).1 = true
      · rw [if_pos h3] at hstep
        injection hstep with hstep
        rw [← hstep]
        exact skipInv_of_fields _ _
          (skipInv_of_fields _ _ hskip (skipFields_emit _ _).1 (skipFields_emit _ _).2)
          (skipFields_pushRead _ 2).1 (skipFields_pushRead _ 2).2
      · rw [if_neg h3] at hstep
        obtain ⟨hf, hc⟩ := skipFields_PrepareOpponentInputs K _ s1 env c payload hstep
        exact skipInv_of_fields _ _
          (skipInv_of_fields _ _ hskip (skipFields_HandleSendInputs _ payload).1
            (skipFields_HandleSendInputs _ payload).2) hf hc

theorem run_skipInv (K : SlippiConstants) (cmds : List Command) :
    ∀ s s1 : CEXISlippi, SkipInv s → run K s cmds = some s1 → SkipInv s1 := by
  induction cmds with
  | nil =>
    intro s s1 h hr
    have h2 : some s = some s1 := hr
    injection h2 with h2
    subst h2
    exact h
  | cons cmd rest ih =>
    intro s s1 h hr
    unfold run at hr
    cases hs : step K s cmd with
    | none => rw [hs] at hr; exact absurd hr (by simp)
    | some sa =>
      rw [hs] at hr
      refine ih sa s1 ?_ hr
      cases cmd with
      | OnlineInputs env payload => exact HandleOnlineInputs_skipInv K s sa env payload h hs
      | CaptureSavestate env payload =>
        obtain ⟨hf, hc⟩ := skipFields_HandleCaptureSavestate s sa env payload hs
        exact skipInv_of_fields s sa h hf hc
      | LoadSavestate payload =>
        have hs2 : some (HandleLoadSavestate s payload) = some sa := hs
        injection hs2 with hs2
        subst hs2
        exact skipInv_of_fields s _ h (skipFields_HandleLoadSavestate s payload).1
          (skipFields_HandleLoadSavestate s payload).2

theorem Reachable_skipInv (K : SlippiConstants) (s : CEXISlippi) (h : Reachable K s) :
    SkipInv s := by
  obtain ⟨cmds, hr⟩ := h
  exact run_skipInv K cmds CEXISlippi.init s (fun _ => le_refl _) hr

theorem resetCount_fields (e : CEXISlippi) :
    ({ e with m_stall_frame_count := 0 } : CEXISlippi).m_read_queue = e.m_read_queue ∧
    ({ e with m_stall_frame_count := 0 } : CEXISlippi).m_connection_stalled =
      e.m_connection_stalled := ⟨rfl, rfl⟩

theorem latch_pushRead_emit (t : CEXISlippi) (e : Effect) (b : Nat) :
    (pushRead (emit t e) b).m_connection_stalled = t.m_connection_stalled ∧
    (pushRead (emit t e) b).m_frames_to_skip = t.m_frames_to_skip ∧
    (pushRead (emit t e) b).m_currently_skipping = t.m_currently_skipping ∧
    (emit t e).m_read_queue = t.m_read_queue := ⟨rfl, rfl, rfl, rfl⟩

/-- One per-frame call made over a Connected connection inside the rollback
window while the latch is not set, given the outcome of the skip decision. -/
theorem in_window_step (K : SlippiConstants) (s : CEXISlippi) (env : Env)
    (c : SlippiNetplayClient) (payload : List Nat) (skip cs : Bool) (n : Int)
    (hclient : env.m_slippi_netplay = some c)
    (hconn : c.GetSlippiConnectStatus = SlippiConnectStatus.NET_CONNECT_STATUS_CONNECTED)
    (hlatch : s.m_connection_stalled = false)
    (hnear : ¬ (7 : Int) ≤ toS32 (readFrame payload - c.GetSlippiLatestRemoteFrame))
    (hpads : padsInBounds K env c (readFrame payload) = true)
    (hsk : ∀ e : CEXISlippi, e.m_frames_to_skip = s.m_frames_to_skip →
      e.m_currently_skipping = s.m_currently_skipping →
      (consumeSkip (scheduleSkips e c (readFrame payload))).1 = skip ∧
      (consumeSkip (scheduleSkips e c (readFrame payload))).2.m_frames_to_skip = n ∧
      (consumeSkip (scheduleSkips e c (readFrame payload))).2.m_currently_skipping = cs) :
    ∃ s1, HandleOnlineInputs K s env payload = some s1 ∧
      resultCode s1 = some (if skip = true then 2 else 1) ∧
      s1.m_frames_to_skip = n ∧ s1.m_currently_skipping = cs ∧
      s1.m_connection_stalled = false := by
  rw [HandleOnlineInputs_of_connected K s env c payload hclient hconn]
  have hl := enterFrame_latch_unset s payload hlatch
  have hq := enterFrame_read_queue s payload
  obtain ⟨hf, hc⟩ := skipFields_enterFrame s payload
  generalize enterFrame s payload = e at hl hq hf hc ⊢
  rw [ShouldSkipOnlineFrame_no_stall e c _ hconn hl hnear]
  obtain ⟨k1, k2, k3⟩ := hsk { e with m_stall_frame_count := 0 }
    ((skipFields_resetCount e).1.trans hf) ((skipFields_resetCount e).2.trans hc)
  have hrq : (consumeSkip (scheduleSkips { e with m_stall_frame_count := 0 } c
      (readFrame payload))).2.m_read_queue = [] :=
    ((consumeSkip_samePool _).2.2.trans
      ((scheduleSkips_samePool _ c (readFrame payload)).2.2.trans (resetCount_fields e).1)).trans
      hq
  have hlt : (consumeSkip (scheduleSkips { e with m_stall_frame_count := 0 } c
      (readFrame payload))).2.m_connection_stalled = false :=
    ((consumeSkip_stall_fields _).2.trans
      ((scheduleSkips_stall_fields _ c (readFrame payload)).2.trans (resetCount_fields e).2)).trans
      hl
  generalize consumeSkip (scheduleSkips { e with m_stall_frame_count := 0 } c
    (readFrame payload)) = sk at k1 k2 k3 hrq hlt ⊢
  cases skip with
  | true =>
    rw [if_pos k1, if_pos rfl]
    obtain ⟨a1, a2, a3, a4⟩ := latch_pushRead_emit sk.2 (Effect.SendSlippiPad none) 2
    exact ⟨_, rfl, resultCode_pushRead _ 2 (a4.trans hrq), a2.trans k2, a3.trans k3,
      a1.trans hlt⟩
  | false =>
    have hne : ¬ sk.1 = true := by rw [k1]; exact Bool.false_ne_true
    rw [if_neg hne, if_neg Bool.false_ne_true]
    obtain ⟨q1, q2⟩ := HandleSendInputs_stall_fields sk.2 payload
    obtain ⟨r1, r2⟩ := skipFields_HandleSendInputs sk.2 payload
    obtain ⟨s1, h1, hcode, o1, _, o3, o4, _⟩ :=
      PrepareOpponentInputs_of_inBounds K (HandleSendInputs sk.2 payload) env c payload hpads
    refine ⟨s1, h1, ?_, (o3.trans r1).trans k2, (o4.trans r2).trans k3, (o1.trans q2).trans hlt⟩
    rw [hcode, if_neg]
    intro h
    rcases h with h | h
    · exact h hconn
    · rw [q2, hlt] at h
      exact Bool.noConfusion h

/-- A skip run in progress with `n` skips pending: the next `n` in-window
calls return Skip and the one after returns Continue, whatever their frames
and offsets. -/
theorem skip_run (K : SlippiConstants) :
    ∀ (n : Nat) (s : CEXISlippi) (later : List (Env × List Nat)),
      s.m_currently_skipping = true → s.m_frames_to_skip = (n : Int) → n ≤ 5 →
      s.m_connection_stalled = false → (∀ call ∈ later, InWindowCall K call) →
      later.length = n + 1 →
      ∃ s1, runOnline K s later =
          some (s1, List.replicate n (some 2) ++ [some 1]) ∧
        s1.m_currently_skipping = false ∧ s1.m_frames_to_skip = 0 ∧
        s1.m_connection_stalled = false := by
  intro n
  induction n with
  | zero =>
    intro s later hcs hf _ hlatch hlater hlen
    match later, hlen with
    | [call], _ =>
      obtain ⟨c, hclient, hconn, hnear, hpads⟩ := hlater call (List.mem_singleton.mpr rfl)
      obtain ⟨s1, h1, hcode, f1, f2, f3⟩ := in_window_step K s call.1 c call.2 false false 0
        hclient hconn hlatch hnear hpads (fun e he1 he2 => by
          rw [scheduleSkips_of_skipping e c _ (he2.trans hcs)]
          obtain ⟨a1, a2, a3⟩ := consumeSkip_of_nonpos e (by rw [he1, hf]; decide)
          exact ⟨a1, a2.trans (he1.trans hf), a3⟩)
      refine ⟨s1, ?_, f2, f1, f3⟩
      rw [runOnline_cons_of_some K s s1 s1 call [] [] h1 rfl, hcode]
      rfl
  | succ m ih =>
    intro s later hcs hf hm hlatch hlater hlen
    match later, hlen with
    | call :: rest, hlen =>
      obtain ⟨c, hclient, hconn, hnear, hpads⟩ := hlater call (List.mem_cons_self _ _)
      have hstep : toS32 (((m + 1 : Nat) : Int) - 1) = (m : Int) := by
        push_cast
        rw [add_sub_cancel_right]
        exact toS32_of_inS32 _ ⟨by unfold INT_MIN; omega, by unfold INT_MAX; omega⟩
      obtain ⟨sa, h1, hcode, f1, f2, f3⟩ := in_window_step K s call.1 c call.2 true true m
        hclient hconn hlatch hnear hpads (fun e he1 he2 => by
          rw [scheduleSkips_of_skipping e c _ (he2.trans hcs)]
          obtain ⟨a1, a2, a3⟩ := consumeSkip_of_pos e (by rw [he1, hf]; push_cast; omega)
          refine ⟨a1, ?_, a3.trans (he2.trans hcs)⟩
          rw [a2, he1, hf]
          exact hstep)
      obtain ⟨s1, h2, g1, g2, g3⟩ := ih sa rest f2 f1 (by omega) f3
        (fun call1 hmem => hlater call1 (List.mem_cons_of_mem _ hmem))
        (by simpa using hlen)
      refine ⟨s1, ?_, g1, g2, g3⟩
      rw [runOnline_cons_of_some K s sa s1 call rest _ h1 h2, hcode]
      rfl

theorem inWindow_callsAfterSample :
    ∀ call ∈ callsAfterSample, InWindowCall slippiConstants call := by
  intro call hcall
  rcases List.mem_cons.mp hcall with h | h
  · rw [h]
    exact ⟨connectedClient 30 30000, rfl, rfl, by with_unfolding_all decide,
      by with_unfolding_all decide⟩
  · rw [List.mem_singleton.mp h]
    exact ⟨connectedClient 31 30000, rfl, rfl, by with_unfolding_all decide,
      by with_unfolding_all decide⟩

/-- Counterexample to C25 as stated: in a fresh session 421 consecutive calls
are held at the rollback limit, which sets the stall latch; no skip run is in
progress.  The next call is made on frame 120, a multiple of 30, with latest
remote frame 119 (rollback window not exceeded) and a measured offset of
30000 us, for which `min(5, (30000 - 10000) div 16683 + 1) = 2` frames would
be scheduled.  The call returns Disconnected (code 3), not Skip, and no skip
is scheduled. -/
theorem clock_skew_skip_run_counterexample :
    Int.tmod 120 SLIPPI_ONLINE_LOCKSTEP_INTERVAL = 0 ∧
    framesToSkip 120 30000 = 2 ∧
    ¬ (7 : Int) ≤ toS32 (120 - 119) ∧
    (runOnline slippiConstants CEXISlippi.init (List.replicate 421 stalledCall)).map
      (fun r => (r.1.m_currently_skipping, r.1.m_frames_to_skip, r.1.m_connection_stalled)) =
      some (false, 0, true) ∧
    (runOnline slippiConstants CEXISlippi.init
        (List.replicate 421 stalledCall ++ [(connectedEnv 119 30000, frameBytes 120 ++ [2])])).map
      (fun r => (r.2, r.1.m_currently_skipping, r.1.m_frames_to_skip)) =
      some (List.replicate 421 (some 2) ++ [some 3], false, 0) := by
  refine ⟨?_, ?_, ?_, ?_, ?_⟩ <;> with_unfolding_all decide

/-- C25, amended: in every reachable state of the device, for every per-frame
call on a frame `f` that is a multiple of 30, made over a Connected
connection while the stall latch is not set, no skip run is in progress and
the rollback window is not exceeded, with measured offset `o` microseconds (a
32-bit value): if `o > 10000` the synchronizer schedules
`k = min(cap, (o - 10000) div 16683 + 1)` skips, `cap` being 5 when
`f <= 120` and 1 otherwise, `k >= 1`; this call returns Skip, and when the
`k` calls that follow are made over a Connected connection inside the
rollback window, whatever their frames and measured offsets, exactly `k`
consecutive calls starting with this one return Skip and the next returns
Continue, the offset not being sampled again, after which no skip run is in
progress.  If `o <= 10000` no skip is scheduled and the call returns
Continue. -/
theorem clock_skew_skip_run (K : SlippiConstants) (s : CEXISlippi) (env : Env)
    (c : SlippiNetplayClient) (payload : List Nat) (later : List (Env × List Nat))
    (hreach : Reachable K s)
    (hclient : env.m_slippi_netplay = some c)
    (hconn : c.GetSlippiConnectStatus = SlippiConnectStatus.NET_CONNECT_STATUS_CONNECTED)
    (hlatch : s.m_connection_stalled = false)
    (hsync : Int.tmod (readFrame payload) SLIPPI_ONLINE_LOCKSTEP_INTERVAL = 0)
    (hidle : s.m_currently_skipping = false)
    (hnear : ¬ (7 : Int) ≤ toS32 (readFrame payload - c.GetSlippiLatestRemoteFrame))
    (ho : inS32 c.CalcTimeOffsetUs)
    (hpads : padsInBounds K env c (readFrame payload) = true)
    (hlater : ∀ call ∈ later, InWindowCall K call) :
    (c.CalcTimeOffsetUs > 10000 →
      framesToSkip (readFrame payload) c.CalcTimeOffsetUs =
        min (if readFrame payload ≤ 120 then 5 else 1)
          ((c.CalcTimeOffsetUs - 10000) / 16683 + 1) ∧
      1 ≤ framesToSkip (readFrame payload) c.CalcTimeOffsetUs ∧
      (∃ s1, HandleOnlineInputs K s env payload = some s1 ∧ resultCode s1 = some 2 ∧
        s1.m_currently_skipping = true ∧
        s1.m_frames_to_skip = framesToSkip (readFrame payload) c.CalcTimeOffsetUs - 1) ∧
      ((later.length : Int) = framesToSkip (readFrame payload) c.CalcTimeOffsetUs →
        ∃ s2, runOnline K s ((env, payload) :: later) =
            some (s2, List.replicate later.length (some 2) ++ [some 1]) ∧
          s2.m_currently_skipping = false ∧ s2.m_frames_to_skip = 0)) ∧
    (c.CalcTimeOffsetUs ≤ 10000 →
      ∃ s1, HandleOnlineInputs K s env payload = some s1 ∧ resultCode s1 = some 1 ∧
        s1.m_currently_skipping = false ∧ s1.m_frames_to_skip = s.m_frames_to_skip) := by
  constructor
  · intro hlarge
    obtain ⟨hk, hk1⟩ := framesToSkip_of_large (readFrame payload) c.CalcTimeOffsetUs ho hlarge
    have hk5 := framesToSkip_le (readFrame payload) c.CalcTimeOffsetUs
    have hdec : toS32 (framesToSkip (readFrame payload) c.CalcTimeOffsetUs - 1) =
        framesToSkip (readFrame payload) c.CalcTimeOffsetUs - 1 :=
      toS32_of_inS32 _ ⟨by unfold INT_MIN; omega, by unfold INT_MAX; omega⟩
    obtain ⟨sa, h1, hcode, f1, f2, f3⟩ := in_window_step K s env c payload true true
      (framesToSkip (readFrame payload) c.CalcTimeOffsetUs - 1)
      hclient hconn hlatch hnear hpads (fun e he1 he2 => by
        obtain ⟨b1, b2⟩ := scheduleSkips_of_sample e c (readFrame payload) hsync
          (he2.trans hidle) hlarge
        obtain ⟨a1, a2, a3⟩ := consumeSkip_of_pos (scheduleSkips e c (readFrame payload))
          (by rw [b2]; omega)
        refine ⟨a1, ?_, a3.trans b1⟩
        rw [a2, b2]
        exact hdec)
    refine ⟨hk, hk1, ⟨sa, h1, hcode, f2, f1⟩, fun hlen => ?_⟩
    obtain ⟨n, hn⟩ : ∃ n : Nat, later.length = n + 1 :=
      ⟨later.length - 1, by omega⟩
    obtain ⟨s2, h2, g1, g2, _⟩ := skip_run K n sa later f2 (by rw [f1]; omega) (by omega) f3
      hlater hn
    refine ⟨s2, ?_, g1, g2⟩
    have hrun := runOnline_cons_of_some K s sa s2 (env, payload) later _ h1 h2
    rw [hrun, hcode, hn, List.replicate_succ]
    rfl
  · intro hsmall
    have hinv := Reachable_skipInv K s hreach hidle
    obtain ⟨s1, h1, hcode, f1, f2, _⟩ := in_window_step K s env c payload false false
      s.m_frames_to_skip hclient hconn hlatch hnear hpads (fun e he1 he2 => by
        rw [scheduleSkips_of_small e c (readFrame payload) (by omega)]
        obtain ⟨a1, a2, a3⟩ := consumeSkip_of_nonpos e (by rw [he1]; omega)
        exact ⟨a1, a2.trans he1, a3⟩)
    exact ⟨s1, h1, hcode, f2, f1⟩

/-- Witness of C25: a fresh device, the call of frame 30 with latest remote
frame 29 and a measured offset of 30000 us, followed by the calls of frames
31 and 32: two frames are scheduled, the calls return Skip, Skip, Continue. -/
theorem clock_skew_skip_run_witness :
    Reachable slippiConstants CEXISlippi.init ∧
    Int.tmod (readFrame skewedCall.2) SLIPPI_ONLINE_LOCKSTEP_INTERVAL = 0 ∧
    (connectedClient 29 30000).CalcTimeOffsetUs > 10000 ∧
    framesToSkip (readFrame skewedCall.2) (connectedClient 29 30000).CalcTimeOffsetUs = 2 ∧
    (callsAfterSample.length : Int) = 2 ∧
    ∃ s2, runOnline slippiConstants CEXISlippi.init (skewedCall :: callsAfterSample) =
        some (s2, List.replicate callsAfterSample.length (some 2) ++ [some 1]) ∧
      s2.m_currently_skipping = false ∧ s2.m_frames_to_skip = 0 :=
  ⟨⟨[], rfl⟩, by with_unfolding_all decide, by decide, by with_unfolding_all decide,
    by decide,
    ((clock_skew_skip_run slippiConstants CEXISlippi.init skewedCall.1
      (connectedClient 29 30000) skewedCall.2 callsAfterSample ⟨[], rfl⟩ rfl rfl rfl
      (by with_unfolding_all decide) rfl (by with_unfolding_all decide)
      (by with_unfolding_all decide) (by with_unfolding_all decide)
      inWindow_callsAfterSample).1 (by decide)).2.2.2 (by with_unfolding_all decide)⟩

/-! ## Claim on the initial snapshot -/

theorem seekLeave_session_fields (J : SlippiGameConstants) (prev : CoreState)
    (w : PlaybackWorld) :
    (seekLeave J prev w).status.m_in_slippi_playback = w.status.m_in_slippi_playback ∧
    (seekLeave J prev w).status.m_initial_state = w.status.m_initial_state := by
  unfold seekLeave
  dsimp only
  split_ifs <;> exact ⟨rfl, rfl⟩

theorem SeekToFrame_session_fields (J : SlippiGameConstants) (free : Bool)
    (w w1 : PlaybackWorld)
    (h : ((SeekToFrame J free w).toOption).map Prod.fst = some w1) :
    w1.status.m_in_slippi_playback = w.status.m_in_slippi_playback ∧
    w1.status.m_initial_state = w.status.m_initial_state := by
  unfold SeekToFrame at h
  by_cases hfree : free = false
  · rw [if_pos hfree] at h
    have h2 : some w = some w1 := h
    injection h2 with h2
    subst h2
    exact ⟨rfl, rfl⟩
  · rw [if_neg hfree] at h
    cases hl : seekLoad J (seekEnter J w).status
        (closestStateFrame J (seekEnter J w).status.m_target_frame_num) with
    | error e => rw [hl] at h; exact absurd h (by simp [Except.toOption])
    | ok load =>
      rw [hl] at h
      have h2 : some (seekLeave J w.coreState (seekEnter J w)) = some w1 := h
      injection h2 with h2
      subst h2
      obtain ⟨h3, h4⟩ := seekLeave_session_fields J w.coreState (seekEnter J w)
      rw [h3, h4, seekEnter_status]
      exact ⟨rfl, rfl⟩

/-- A worker pass made once the session has its snapshot: the snapshot and
the flag stay, and the delta map is left as it is or gets one entry, encoded
against the snapshot. -/
theorem SavestateThread_of_captured (J : SlippiGameConstants)
    (processDiff : List Nat → List Nat → List Nat) (saved1 saved2 : List Nat) (w : PlaybackWorld)
    (hflag : w.status.m_in_slippi_playback = true) :
    (SavestateThread J processDiff saved1 saved2 w).status.m_in_slippi_playback = true ∧
    (SavestateThread J processDiff saved1 saved2 w).status.m_initial_state =
      w.status.m_initial_state ∧
    ((SavestateThread J processDiff saved1 saved2 w).status.m_future_diffs =
        w.status.m_future_diffs ∨
      (SavestateThread J processDiff saved1 saved2 w).status.m_future_diffs =
        mapInsert w.status.m_future_diffs w.status.m_curr_playback_frame
          (processDiff w.status.m_initial_state saved1)) := by
  unfold SavestateThread
  split_ifs with h1 h2 h3 h4 h5
  · exact ⟨hflag, rfl, Or.inl rfl⟩
  · exact ⟨hflag, rfl, Or.inl rfl⟩
  · exact ⟨hflag, rfl, Or.inl rfl⟩
  · rw [hflag] at h4
    exact Bool.noConfusion h4.1
  · exact ⟨hflag, rfl, Or.inr rfl⟩
  · exact ⟨hflag, rfl, Or.inl rfl⟩

/-- The capturing pass: the worker runs, the session has no snapshot yet and
playback is on the first-save frame. -/
theorem SavestateThread_capture (J : SlippiGameConstants)
    (processDiff : List Nat → List Nat → List Nat) (saved1 saved2 : List Nat) (w : PlaybackWorld)
    (hrun : w.status.m_should_run_threads = true)
    (hflag : w.status.m_in_slippi_playback = false)
    (hcurr : w.status.m_curr_playback_frame = J.PLAYBACK_FIRST_SAVE)
    (hF : J.PLAYBACK_FIRST_SAVE ≠ INT_MAX) :
    (SavestateThread J processDiff saved1 saved2 w).status.m_in_slippi_playback = true ∧
    (SavestateThread J processDiff saved1 saved2 w).status.m_initial_state = saved1 ∧
    (SavestateThread J processDiff saved1 saved2 w).status.m_future_diffs =
      w.status.m_future_diffs := by
  have h0 : Int.tmod (toS32 (w.status.m_curr_playback_frame - J.PLAYBACK_FIRST_SAVE))
      FRAME_INTERVAL = 0 := by
    rw [hcurr, sub_self]
    with_unfolding_all decide
  unfold SavestateThread
  rw [if_neg (by rw [hrun]; exact Bool.noConfusion), if_neg (fun h => h h0),
    if_neg (by rw [hcurr]; exact hF), if_pos ⟨hflag, hcurr⟩]
  exact ⟨rfl, rfl, rfl⟩

/-- A worker pass that changes the snapshot is the capturing pass. -/
theorem SavestateThread_of_changed (J : SlippiGameConstants)
    (processDiff : List Nat → List Nat → List Nat) (saved1 saved2 : List Nat) (w : PlaybackWorld)
    (h : (SavestateThread J processDiff saved1 saved2 w).status.m_initial_state ≠
      w.status.m_initial_state) :
    w.status.m_should_run_threads = true ∧ w.status.m_in_slippi_playback = false ∧
    w.status.m_curr_playback_frame = J.PLAYBACK_FIRST_SAVE ∧
    (SavestateThread J processDiff saved1 saved2 w).status.m_in_slippi_playback = true ∧
    (SavestateThread J processDiff saved1 saved2 w).status.m_initial_state = saved1 := by
  unfold SavestateThread at h ⊢
  split_ifs at h ⊢ with h1 h2 h3 h4 h5
  · exact absurd rfl h
  · exact absurd rfl h
  · exact absurd rfl h
  · refine ⟨?_, h4.1, h4.2, rfl, rfl⟩
    cases hb : w.status.m_should_run_threads with
    | false => exact absurd hb h1
    | true => rfl
  · exact absurd rfl h
  · exact absurd rfl h

theorem playbackStep_session (J : SlippiGameConstants)
    (processDiff : List Nat → List Nat → List Nat) (base : List (Int × List Nat))
    (init0 : List Nat) (w w1 : PlaybackWorld) (a : PlaybackAction)
    (hflag : w.status.m_in_slippi_playback = true)
    (hinit : w.status.m_initial_state = init0)
    (hdiffs : ∀ e ∈ w.status.m_future_diffs,
      e ∈ base ∨ ∃ saved, e.2 = processDiff init0 saved)
    (ha : a.isResetPlayback = false)
    (hstep : playbackStep J processDiff w a = some w1) :
    w1.status.m_in_slippi_playback = true ∧ w1.status.m_initial_state = init0 ∧
    ∀ e ∈ w1.status.m_future_diffs, e ∈ base ∨ ∃ saved, e.2 = processDiff init0 saved := by
  cases a with
  | StartThreads =>
    have h2 : some ({ w with status := StartThreads w.status } : PlaybackWorld) = some w1 := hstep
    injection h2 with h2
    subst h2
    exact ⟨hflag, hinit, hdiffs⟩
  | SavestateThread saved1 saved2 =>
    have h2 : some (SavestateThread J processDiff saved1 saved2 w) = some w1 := hstep
    injection h2 with h2
    subst h2
    obtain ⟨h3, h4, h5⟩ := SavestateThread_of_captured J processDiff saved1 saved2 w hflag
    refine ⟨h3, h4.trans hinit, fun e he => ?_⟩
    rcases h5 with h5 | h5
    · rw [h5] at he
      exact hdiffs e he
    · rw [h5] at he
      rcases mem_mapInsert _ _ _ e he with h6 | h6
      · rw [h6, hinit]
        exact Or.inr ⟨saved1, rfl⟩
      · exact hdiffs e h6
  | SeekToFrame free =>
    obtain ⟨h3, h4⟩ := SeekToFrame_session_fields J free w w1 hstep
    obtain ⟨_, h5⟩ := SeekToFrame_thread_fields J free w w1 hstep
    refine ⟨h3.trans hflag, h4.trans hinit, fun e he => ?_⟩
    rw [h5] at he
    exact hdiffs e he
  | ResetPlayback => exact Bool.noConfusion ha
  | SetHardFFW enable =>
    have h2 : some (SetHardFFW enable w) = some w1 := hstep
    injection h2 with h2
    subst h2
    exact ⟨hflag, hinit, hdiffs⟩
  | WriteFrames curr target last =>
    have h2 : some ({ w with status := writeFrames curr target last w.status } : PlaybackWorld) =
        some w1 := hstep
    injection h2 with h2
    subst h2
    exact ⟨hflag, hinit, hdiffs⟩

theorem playbackRun_session (J : SlippiGameConstants)
    (processDiff : List Nat → List Nat → List Nat) (base : List (Int × List Nat))
    (init0 : List Nat) (actions : List PlaybackAction) :
    ∀ w w1 : PlaybackWorld, w.status.m_in_slippi_playback = true →
      w.status.m_initial_state = init0 →
      (∀ e ∈ w.status.m_future_diffs, e ∈ base ∨ ∃ saved, e.2 = processDiff init0 saved) →
      (∀ a ∈ actions, a.isResetPlayback = false) →
      playbackRun J processDiff w actions = some w1 →
      w1.status.m_in_slippi_playback = true ∧ w1.status.m_initial_state = init0 ∧
      ∀ e ∈ w1.status.m_future_diffs, e ∈ base ∨ ∃ saved, e.2 = processDiff init0 saved := by
  induction actions with
  | nil =>
    intro w w1 h1 h2 h3 _ hr
    have h4 : some w = some w1 := hr
    injection h4 with h4
    subst h4
    exact ⟨h1, h2, h3⟩
  | cons a rest ih =>
    intro w w1 h1 h2 h3 hacts hr
    unfold playbackRun at hr
    cases hs : playbackStep J processDiff w a with
    | none => rw [hs] at hr; exact absurd hr (by simp)
    | some wa =>
      rw [hs, Option.some_bind] at hr
      obtain ⟨g1, g2, g3⟩ := playbackStep_session J processDiff base init0 w wa a h1 h2 h3
        (hacts a (List.mem_cons_self _ _)) hs
      exact ih wa w1 g1 g2 g3 (fun b hb => hacts b (List.mem_cons_of_mem _ hb)) hr

/-- Every step that changes the snapshot is the capturing pass of the worker. -/
theorem playbackStep_of_changed (J : SlippiGameConstants)
    (processDiff : List Nat → List Nat → List Nat) (w w1 : PlaybackWorld) (a : PlaybackAction)
    (hstep : playbackStep J processDiff w a = some w1)
    (hne : w1.status.m_initial_state ≠ w.status.m_initial_state) :
    ∃ saved1 saved2, a = PlaybackAction.SavestateThread saved1 saved2 ∧
      w.status.m_should_run_threads = true ∧ w.status.m_in_slippi_playback = false ∧
      w.status.m_curr_playback_frame = J.PLAYBACK_FIRST_SAVE ∧
      w1.status.m_in_slippi_playback = true ∧ w1.status.m_initial_state = saved1 := by
  cases a with
  | StartThreads =>
    have h2 : some ({ w with status := StartThreads w.status } : PlaybackWorld) = some w1 := hstep
    injection h2 with h2
    subst h2
    exact absurd rfl hne
  | SavestateThread saved1 saved2 =>
    have h2 : some (SavestateThread J processDiff saved1 saved2 w) = some w1 := hstep
    injection h2 with h2
    subst h2
    exact ⟨saved1, saved2, rfl, SavestateThread_of_changed J processDiff saved1 saved2 w hne⟩
  | SeekToFrame free =>
    exact absurd (SeekToFrame_session_fields J free w w1 hstep).2 hne
  | ResetPlayback =>
    have h2 : some ({ w with status := ResetPlayback w.status } : PlaybackWorld) = some w1 := hstep
    injection h2 with h2
    subst h2
    refine absurd ?_ hne
    show (ResetPlayback w.status).m_initial_state = w.status.m_initial_state
    unfold ResetPlayback stopThreads
    split_ifs <;> rfl
  | SetHardFFW enable =>
    have h2 : some (SetHardFFW enable w) = some w1 := hstep
    injection h2 with h2
    subst h2
    exact absurd rfl hne
  | WriteFrames curr target last =>
    have h2 : some ({ w with status := writeFrames curr target last w.status } : PlaybackWorld) =
        some w1 := hstep
    injection h2 with h2
    subst h2
    exact absurd rfl hne

/-- Counterexample to C21 as stated.  In a session whose worker is never
started, playback visits the first-save frame -122 and the checkpoint 778 and
the worker loop makes its passes: no snapshot is captured at all.  And in a
session whose worker makes no pass while playback is on frame -122, the pass
on the checkpoint 778 stores a delta encoded against the still empty buffer
(`[0, 3, 4]`, where the encoding against the snapshot would be `[2, 3, 4]`);
the snapshot `[1, 2]` is captured later, on the second visit of frame -122,
after a seek back to it. -/
theorem initial_snapshot_counterexample :
    (∀ a ∈ unstartedSession, a.isResetPlayback = false) ∧
    (playbackRun slippiGameConstants exampleDiff freshPlaybackWorld unstartedSession).map
      (fun w => (w.status.m_in_slippi_playback, w.status.m_initial_state,
        w.status.m_future_diffs)) = some (false, [], []) ∧
    (∀ a ∈ lateCaptureSession, a.isResetPlayback = false) ∧
    (playbackRun slippiGameConstants exampleDiff freshPlaybackWorld lateCaptureSession).map
      (fun w => (w.status.m_in_slippi_playback, w.status.m_initial_state,
        w.status.m_future_diffs)) = some (true, [1, 2], [(778, [0, 3, 4])]) ∧
    exampleDiff [1, 2] [3, 4] = [2, 3, 4] := by
  refine ⟨?_, ?_, ?_, ?_, ?_⟩ <;> with_unfolding_all decide

/-- C21, amended: within one playback session (a sequence of actions without
`ResetPlayback`) the initial snapshot is captured at most once, by a pass of
the worker made while the worker runs, the session has no snapshot yet and
playback is on the first-save frame: every step that changes the snapshot is
such a pass, and such a pass captures.  Once the session has its snapshot, no
later step (a worker pass on any frame, the first-save frame revisited after
a backward seek included, a seek, a write of the frame members) overwrites
it, and every delta stored from then on is encoded against that same
snapshot. -/
theorem initial_snapshot_captured_once (J : SlippiGameConstants)
    (processDiff : List Nat → List Nat → List Nat) (w w1 : PlaybackWorld)
    (actions : List PlaybackAction)
    (hcaptured : w.status.m_in_slippi_playback = true)
    (hsession : ∀ a ∈ actions, a.isResetPlayback = false)
    (hrun : playbackRun J processDiff w actions = some w1) :
    w1.status.m_in_slippi_playback = true ∧
    w1.status.m_initial_state = w.status.m_initial_state ∧
    (∀ e ∈ w1.status.m_future_diffs,
      e ∈ w.status.m_future_diffs ∨
      ∃ saved, e.2 = processDiff w.status.m_initial_state saved) ∧
    (∀ (w0 w2 : PlaybackWorld) (a : PlaybackAction),
      playbackStep J processDiff w0 a = some w2 →
      w2.status.m_initial_state ≠ w0.status.m_initial_state →
      ∃ saved1 saved2, a = PlaybackAction.SavestateThread saved1 saved2 ∧
        w0.status.m_should_run_threads = true ∧ w0.status.m_in_slippi_playback = false ∧
        w0.status.m_curr_playback_frame = J.PLAYBACK_FIRST_SAVE ∧
        w2.status.m_in_slippi_playback = true ∧ w2.status.m_initial_state = saved1) ∧
    (∀ (w0 : PlaybackWorld) (saved1 saved2 : List Nat),
      w0.status.m_should_run_threads = true → w0.status.m_in_slippi_playback = false →
      w0.status.m_curr_playback_frame = J.PLAYBACK_FIRST_SAVE →
      J.PLAYBACK_FIRST_SAVE ≠ INT_MAX →
      (SavestateThread J processDiff saved1 saved2 w0).status.m_in_slippi_playback = true ∧
      (SavestateThread J processDiff saved1 saved2 w0).status.m_initial_state = saved1 ∧
      (SavestateThread J processDiff saved1 saved2 w0).status.m_future_diffs =
        w0.status.m_future_diffs) := by
  obtain ⟨h1, h2, h3⟩ := playbackRun_session J processDiff w.status.m_future_diffs
    w.status.m_initial_state actions w w1 hcaptured rfl (fun e he => Or.inl he) hsession hrun
  exact ⟨h1, h2, h3,
    fun w0 w2 a hstep hne => playbackStep_of_changed J processDiff w0 w2 a hstep hne,
    fun w0 saved1 saved2 g1 g2 g3 g4 =>
      SavestateThread_capture J processDiff saved1 saved2 w0 g1 g2 g3 g4⟩

/-- Witness of C21: the session `sessionActions` from the pass of the worker
on the first-save frame on: the passes on the checkpoints 778 and 1678 and a
backward seek leave the snapshot `[1, 2]` in place, and both deltas are
encoded against it. -/
theorem initial_snapshot_captured_once_witness :
    capturedWorld.status.m_in_slippi_playback = true ∧
    capturedWorld.status.m_initial_state = [1, 2] ∧
    capturedWorld.status.m_future_diffs = [] ∧
    (∀ a ∈ sessionActions.drop 3, a.isResetPlayback = false) ∧
    playbackRun slippiGameConstants exampleDiff capturedWorld (sessionActions.drop 3) =
      some ((playbackRun slippiGameConstants exampleDiff capturedWorld
        (sessionActions.drop 3)).getD capturedWorld) ∧
    ((playbackRun slippiGameConstants exampleDiff capturedWorld
        (sessionActions.drop 3)).getD capturedWorld).status.m_future_diffs =
      [(778, exampleDiff [1, 2] [3, 4]), (1678, exampleDiff [1, 2] [5, 6])] ∧
    ((playbackRun slippiGameConstants exampleDiff capturedWorld
        (sessionActions.drop 3)).getD capturedWorld).status.m_in_slippi_playback = true ∧
    ((playbackRun slippiGameConstants exampleDiff capturedWorld
        (sessionActions.drop 3)).getD capturedWorld).status.m_initial_state =
      capturedWorld.status.m_initial_state ∧
    (∀ e ∈ ((playbackRun slippiGameConstants exampleDiff capturedWorld
        (sessionActions.drop 3)).getD capturedWorld).status.m_future_diffs,
      e ∈ capturedWorld.status.m_future_diffs ∨
      ∃ saved, e.2 = exampleDiff capturedWorld.status.m_initial_state saved) :=
  ⟨by with_unfolding_all decide, by with_unfolding_all decide, by with_unfolding_all decide,
    by with_unfolding_all decide,
    some_getD_of_isSome _ _ (by with_unfolding_all decide),
    by with_unfolding_all decide,
    (initial_snapshot_captured_once slippiGameConstants exampleDiff capturedWorld _
      (sessionActions.drop 3) (by with_unfolding_all decide) (by with_unfolding_all decide)
      (some_getD_of_isSome _ _ (by with_unfolding_all decide))).1,
    (initial_snapshot_captured_once slippiGameConstants exampleDiff capturedWorld _
      (sessionActions.drop 3) (by with_unfolding_all decide) (by with_unfolding_all decide)
      (some_getD_of_isSome _ _ (by with_unfolding_all decide))).2.1,
    (initial_snapshot_captured_once slippiGameConstants exampleDiff capturedWorld _
      (sessionActions.drop 3) (by with_unfolding_all decide) (by with_unfolding_all decide)
      (some_getD_of_isSome _ _ (by with_unfolding_all decide))).2.2.1⟩

end Slippi
